import Mathlib

/-! XamlBuilder: rendering orchestration core

A shallow embedding of `source/uwp/Renderer/lib/XamlBuilder.cpp`
(namespace `AdaptiveNamespace`, class `XamlBuilder`).

Modelling conventions.

* An `HRESULT` is an integer; `FAILED hr` is `hr < 0`, and
  `RETURN_IF_FAILED(e)` returns `e` from the enclosing function when it failed.
* XAML objects live in a store (`XamlState`): a `UIElement*` is an index into
  `XamlState.elements`.  An object that has not been attached to a panel yet
  is a plain `UIElement` value; `AppendXamlElementToPanel` gives it its address.
* A method that mutates an object through a pointer takes the store (or the
  context, or the render arguments) and returns the new one.
* Property getters and setters of the toolkit and of the card object model
  never fail, except the two the spec names as plumbing: the requirement
  check and the renderer lookup, which return an `HRESULT` with their value.
-/

namespace AdaptiveNamespace

/-! ## Result codes -/

/-- A COM result code (a signed 32-bit integer). -/
abbrev HRESULT := Int

/-- The code `S_OK`. -/
def S_OK : HRESULT := 0

/-- The code `E_INVALIDARG` (0x80070057). -/
def E_INVALIDARG : HRESULT := -2147024809

/-- The code `E_POINTER` (0x80004003). -/
def E_POINTER : HRESULT := -2147467261

/-- Modelled from the spec: the macro `E_PERFORM_FALLBACK` is used by
`XamlBuilder.cpp` but defined in a header that is not among the sources.  The
spec calls it a distinguished return, distinct from ordinary failure, that
signals "please fall back"; the code tests it with `==` and lets
`RETURN_IF_FAILED` propagate it, so it is a failure code of its own. -/
def E_PERFORM_FALLBACK : HRESULT := -2130706431

/-- The test `FAILED(hr)`. -/
def FAILED (hr : HRESULT) : Bool := decide (hr < 0)

/-- The test `SUCCEEDED(hr)`. -/
def SUCCEEDED (hr : HRESULT) : Bool := decide (0 ≤ hr)

/-! ## Card object model -/

/-- The enum `ABI::AdaptiveNamespace::Spacing`. -/
inductive Spacing where
  | Default
  | None
  | Small
  | Medium
  | Large
  | ExtraLarge
  | Padding
deriving DecidableEq, Repr

/-- The enum `ABI::AdaptiveNamespace::FallbackType`. -/
inductive FallbackType where
  | None
  | Drop
  | Content
deriving DecidableEq, Repr

/-- The enum `ABI::AdaptiveNamespace::HeightType`. -/
inductive HeightType where
  | Auto
  | Stretch
deriving DecidableEq, Repr

/-- The enum `ABI::AdaptiveNamespace::ContainerStyle`. -/
inductive ContainerStyle where
  | None
  | Default
  | Emphasis
  | Good
  | Attention
  | Warning
  | Accent
deriving DecidableEq, Repr

/-- The enum `ABI::AdaptiveNamespace::IsVisible` of a toggle target. -/
inductive IsVisible where
  | IsVisibleToggle
  | IsVisibleTrue
  | IsVisibleFalse
deriving DecidableEq, Repr

/-- The enum `Windows::UI::Xaml::Visibility`. -/
inductive Visibility where
  | Visible
  | Collapsed
deriving DecidableEq, Repr

/-- The enum `Windows::UI::Xaml::GridUnitType`. -/
inductive GridUnitType where
  | Auto
  | Pixel
  | Star
deriving DecidableEq, Repr

/-- The struct `Windows::UI::Xaml::GridLength`, with a natural number for the
value. -/
structure GridLength where
  value : Nat
  gridUnitType : GridUnitType
deriving DecidableEq, Repr

/-- The properties of an `IAdaptiveCardElement` that the builder reads, apart
from its fallback.  `columnWidth` is `some w` exactly for an element that is
an `IAdaptiveColumn` (the `As(&cardElementAsColumn)` cast succeeds), `w` being
the width its column definition has when shown. -/
structure ElementProperties where
  elementTypeString : String
  id : String
  spacing : Spacing
  separator : Bool
  height : HeightType
  isVisible : Bool
  columnWidth : Option GridLength
deriving DecidableEq, Repr

mutual
/-- An `IAdaptiveCardElement`: its properties and its fallback descriptor. -/
inductive CardElement where
  | mk (properties : ElementProperties) (fallback : Fallback)
/-- The fallback descriptor of an element: `get_FallbackType` together with
`get_FallbackContent`, which is present exactly for `FallbackType::Content`. -/
inductive Fallback where
  | None
  | Drop
  | Content (fallbackContent : CardElement)
end

namespace CardElement

/-- The properties record of an element. -/
def properties : CardElement → ElementProperties
  | .mk p _ => p

/-- The fallback descriptor of an element. -/
def fallback : CardElement → Fallback
  | .mk _ f => f

/-- The getter `get_ElementTypeString`. -/
def get_ElementTypeString (e : CardElement) : String := e.properties.elementTypeString

/-- The getter `get_Id`. -/
def get_Id (e : CardElement) : String := e.properties.id

/-- The getter `get_Spacing`. -/
def get_Spacing (e : CardElement) : Spacing := e.properties.spacing

/-- The getter `get_Separator`. -/
def get_Separator (e : CardElement) : Bool := e.properties.separator

/-- The getter `get_Height`. -/
def get_Height (e : CardElement) : HeightType := e.properties.height

/-- The getter `get_IsVisible`. -/
def get_IsVisible (e : CardElement) : Bool := e.properties.isVisible

/-- The getter `get_FallbackType`. -/
def get_FallbackType (e : CardElement) : FallbackType :=
  match e.fallback with
  | .None => FallbackType.None
  | .Drop => FallbackType.Drop
  | .Content _ => FallbackType.Content

end CardElement

/-! ## XAML objects

A pointer to a XAML object is its index in the store, a natural number. -/

/-- The class `ElementTagContent`: the metadata `AddRenderedControl` attaches
to every rendered node. -/
structure ElementTagContent where
  cardElement : CardElement
  parentPanel : Nat
  separator : Option Nat
  columnDefinition : Option Nat
  expectedVisibility : Bool

/-- A XAML `UIElement` / `FrameworkElement` / `Panel`: the properties the
builder reads and writes.  `name` is the `Name` property (empty when unset),
`tag` the `Tag` property (`none` for a null tag), `children` the `Children`
vector of a panel. -/
structure UIElement where
  visibility : Visibility
  name : String
  tag : Option ElementTagContent
  children : List Nat

/-- A XAML `ColumnDefinition`: its `Width`. -/
structure ColumnDefinition where
  width : GridLength
deriving DecidableEq, Repr

/-- The XAML objects of a card: the store that pointers index. -/
structure XamlState where
  elements : List UIElement
  columnDefinitions : List ColumnDefinition

namespace XamlState

/-- The getter `get_Tag` through a pointer: `none` for a null tag. -/
def get_Tag (xaml : XamlState) (p : Nat) : Option ElementTagContent :=
  (xaml.elements[p]?).bind (fun e => e.tag)

/-- The getter `get_Visibility` through a pointer. -/
def get_Visibility (xaml : XamlState) (p : Nat) : Option Visibility :=
  (xaml.elements[p]?).map (fun e => e.visibility)

/-- The getter `get_Children` of a panel. -/
def get_Children (xaml : XamlState) (panel : Nat) : List Nat :=
  match xaml.elements[panel]? with
  | some e => e.children
  | none => []

/-- The setter `put_Visibility` through a pointer. -/
def put_Visibility (xaml : XamlState) (p : Nat) (v : Visibility) : XamlState :=
  match xaml.elements[p]? with
  | some e => { xaml with elements := xaml.elements.set p { e with visibility := v } }
  | none => xaml

/-- The setter `ElementTagContent::set_ExpectedVisibility` on the tag of the
node at `p`. -/
def set_ExpectedVisibility (xaml : XamlState) (p : Nat) (b : Bool) : XamlState :=
  match xaml.elements[p]? with
  | some e =>
    match e.tag with
    | some t =>
      { xaml with
        elements := xaml.elements.set p { e with tag := some { t with expectedVisibility := b } } }
    | none => xaml
  | none => xaml

/-- The setter `put_Width` of a column definition. -/
def put_Width (xaml : XamlState) (c : Nat) (w : GridLength) : XamlState :=
  { xaml with columnDefinitions := xaml.columnDefinitions.set c { width := w } }

end XamlState

/-- Modelled from the spec: `XamlHelpers::AppendXamlElementToPanel` is not among
the sources; the spec lists it as the toolkit primitive `attach(node, parent,
heightMode)`.  The node gets the next free address and that address is appended
to the children of `panel`; the height mode only affects layout, which the
store does not record. -/
def AppendXamlElementToPanel (xaml : XamlState) (xamlElement : UIElement) (panel : Nat) :
    XamlState × Nat :=
  let p := xaml.elements.length
  match xaml.elements[panel]? with
  | some e =>
    ({ xaml with
       elements := (xaml.elements ++ [xamlElement]).set panel { e with children := e.children ++ [p] } },
     p)
  | none => ({ xaml with elements := xaml.elements ++ [xamlElement] }, p)

/-- Modelled from the spec: `FrameworkElement::FindName` is a toolkit primitive
(`findByName(root, id)`): it resolves the named node by id within the card, and
yields null when there is none.  An empty id names no node. -/
def FindName (xaml : XamlState) (name : String) : Option Nat :=
  if name = "" then none
  else (List.range xaml.elements.length).find?
    (fun p => decide ((xaml.elements[p]?).map (fun e => e.name) = some name))

/-! ## Render context and arguments -/

/-- The enum `ABI::AdaptiveNamespace::WarningStatusCode`: the two codes the
builder uses, and any other code a renderer may report. -/
inductive WarningStatusCode where
  | NoRendererForType
  | InteractivityNotSupported
  | Other (code : Nat)
deriving DecidableEq, Repr

/-- An entry of the warnings sink of the render context.  `warning` is what
`renderContext->AddWarning(code, message)` appends.  The helpers
`WarnForFallbackContentElement` and `WarnForFallbackDrop` are not among the
sources, so their message text is unknown: an entry records which helper made
it and with which type names. -/
inductive AdaptiveWarning where
  | warning (statusCode : WarningStatusCode) (message : String)
  | fallbackContent (elementType : String) (fallbackElementType : String)
  | fallbackDrop (elementType : String)
deriving DecidableEq, Repr

/-- The class `AdaptiveRenderArgs`. -/
structure AdaptiveRenderArgs where
  containerStyle : ContainerStyle
  ancestorHasFallback : Bool
  isInShowCard : Bool
deriving DecidableEq, Repr

/-- The setter `put_AncestorHasFallback`. -/
def AdaptiveRenderArgs.put_AncestorHasFallback (renderArgs : AdaptiveRenderArgs) (b : Bool) :
    AdaptiveRenderArgs :=
  { renderArgs with ancestorHasFallback := b }

/-- What a call of `IAdaptiveElementRenderer::Render` yields: the result code,
the control written to `*result` (null when `none`) and the warnings the
renderer appended to the sink of the context. -/
structure RenderOutcome where
  hr : HRESULT
  result : Option UIElement
  warnings : List AdaptiveWarning

/-- An `IAdaptiveElementRenderer`: an external collaborator, given by what its
`Render` method yields for an element and the render arguments.  It reads the
render arguments and does not change them. -/
abbrev ElementRenderer := CardElement → AdaptiveRenderArgs → RenderOutcome

/-- The part of `IAdaptiveHostConfig` the builder reads.  `spacingSize` stands
for `GetSpacingSizeFromSpacing`, which is not among the sources. -/
structure AdaptiveHostConfig where
  supportsInteractivity : Bool
  allowCustomStyle : Bool
  spacingSize : Spacing → Nat
  separatorLineThickness : Nat
  separatorLineColor : Nat

/-- The class `AdaptiveRenderContext`: the host configuration, the renderer
registration (`elementRenderers->Get(type, &renderer)`, a null renderer being
`none`), the requirement check of an element against the feature registration
(`element->MeetsRequirements(featureRegistration, &met)`) and the warnings
sink. -/
structure AdaptiveRenderContext where
  hostConfig : AdaptiveHostConfig
  elementRenderers : String → HRESULT × Option ElementRenderer
  meetsRequirements : CardElement → HRESULT × Bool
  warnings : List AdaptiveWarning

namespace AdaptiveRenderContext

/-- The method `AddWarning`: the sink is append-only and ordered. -/
def AddWarning (renderContext : AdaptiveRenderContext) (statusCode : WarningStatusCode)
    (message : String) : AdaptiveRenderContext :=
  { renderContext with warnings := renderContext.warnings ++ [AdaptiveWarning.warning statusCode message] }

/-- The warnings a renderer reported, appended to the sink. -/
def addWarnings (renderContext : AdaptiveRenderContext) (ws : List AdaptiveWarning) :
    AdaptiveRenderContext :=
  { renderContext with warnings := renderContext.warnings ++ ws }

end AdaptiveRenderContext

/-- Modelled from the spec: `WarnForFallbackContentElement` is not among the
sources.  The spec: a diagnostic noting that `originalType` fell back to
`altType` is emitted. -/
def WarnForFallbackContentElement (renderContext : AdaptiveRenderContext) (elementType : String)
    (fallbackElementType : String) : AdaptiveRenderContext :=
  { renderContext with
    warnings := renderContext.warnings ++ [AdaptiveWarning.fallbackContent elementType fallbackElementType] }

/-- Modelled from the spec: `WarnForFallbackDrop` is not among the sources.
The spec: for `Drop`, a diagnostic is emitted and no node is produced. -/
def WarnForFallbackDrop (renderContext : AdaptiveRenderContext) (elementType : String) :
    AdaptiveRenderContext :=
  { renderContext with warnings := renderContext.warnings ++ [AdaptiveWarning.fallbackDrop elementType] }

/-- Modelled from the spec: `XamlHelpers::CreateSeparator` is not among the
sources.  It makes a new separator node from the spacing, thickness and colour
of the separation configuration; a separator is shown when made, has no name
and, by the invariant of the spec, never carries a tag. -/
def CreateSeparator (_spacing : Nat) (_separatorThickness : Nat) (_separatorColor : Nat) : UIElement :=
  { visibility := Visibility.Visible, name := "", tag := none, children := [] }

/-- Modelled from the spec: `HandleColumnWidth` is not among the sources.  The
spec: the column definition's width is set to zero or to its original width
depending on the new visibility.  `columnWidth` is the original width of the
column; a null column definition is an error. -/
def HandleColumnWidth (columnWidth : GridLength) (isVisible : Bool) (columnDefinition : Option Nat)
    (xaml : XamlState) : HRESULT × XamlState :=
  match columnDefinition with
  | none => (E_POINTER, xaml)
  | some c =>
    (S_OK, xaml.put_Width c (if isVisible then columnWidth else { value := 0, gridUnitType := GridUnitType.Pixel }))

/-- Modelled from the spec: `XamlHelpers::IterateOverVectorWithFailure` is not
among the sources.  `BuildPanelChildren` passes it the element vector, the
inherited `ancestorHasFallback` flag and the per-element lambda, and returns
its result.  The spec: elements are rendered in order, and a failure aborts
the remaining elements of the call and is surfaced to the caller ("returning
the first unrecoverable failure"); the spec gives the flag no part in this, so
the model stops at the first failed callback for both values of the flag. -/
def IterateOverVectorWithFailure {α σ : Type} (vector : List α) (_flag : Bool)
    (iterationCallback : σ → α → HRESULT × σ) (s : σ) : HRESULT × σ :=
  match vector with
  | [] => (S_OK, s)
  | x :: xs =>
    let r := iterationCallback s x
    if FAILED r.1 then r else IterateOverVectorWithFailure xs _flag iterationCallback r.2

/-- Modelled from the spec: `XamlHelpers::IterateOverVector` is not among the
sources.  The spec says the scan visits the panel's direct children in order;
the callback's return value is not looked at by `SetSeparatorVisibility`. -/
def IterateOverVector {α σ : Type} (vector : List α) (iterationCallback : σ → α → σ) (s : σ) : σ :=
  vector.foldl iterationCallback s

end AdaptiveNamespace

namespace XamlBuilder

open AdaptiveNamespace

/-- The lambda of `SetSeparatorVisibility` (XamlBuilder.cpp:551-594), run on
one child.  The state is the store and the captured flag
`foundPreviousVisibleElement`. -/
def SetSeparatorVisibility.visit (s : XamlState × Bool) (child : Nat) : XamlState × Bool :=
  match s.1.elements[child]? with
  | none => s
  | some childElement =>
    match childElement.tag with
    | none => s
    | some elementTagContent =>
      let separator := elementTagContent.separator
      let visibility := childElement.visibility
      let expectedVisibility := elementTagContent.expectedVisibility
      let xaml :=
        match separator with
        | some sep =>
          if !expectedVisibility || !s.2 then s.1.put_Visibility sep Visibility.Collapsed
          else s.1.put_Visibility sep Visibility.Visible
        | none => s.1
      (xaml, s.2 || decide (visibility = Visibility.Visible))

/-- The method `XamlBuilder::SetSeparatorVisibility` (XamlBuilder.cpp:544-597). -/
def SetSeparatorVisibility (xaml : XamlState) (parentPanel : Nat) : HRESULT × XamlState :=
  let children := xaml.get_Children parentPanel
  let foundPreviousVisibleElement := false
  (S_OK, (IterateOverVector children SetSeparatorVisibility.visit (xaml, foundPreviousVisibleElement)).1)

/-- What `GetSeparationConfigForElement` writes to its four out-parameters. -/
structure SeparationConfig where
  spacing : Nat
  separatorThickness : Nat
  separatorColor : Nat
  needsSeparator : Bool
deriving DecidableEq, Repr

/-- The method `XamlBuilder::GetSeparationConfigForElement`
(XamlBuilder.cpp:864-896). -/
def GetSeparationConfigForElement (cardElement : CardElement) (hostConfig : AdaptiveHostConfig) :
    SeparationConfig :=
  let elementSpacing := cardElement.get_Spacing
  let localSpacing := hostConfig.spacingSize elementSpacing
  let hasSeparator := cardElement.get_Separator
  let localColor := if hasSeparator then hostConfig.separatorLineColor else 0
  let localThickness := if hasSeparator then hostConfig.separatorLineThickness else 0
  { spacing := localSpacing
    separatorThickness := localThickness
    separatorColor := localColor
    needsSeparator := hasSeparator || decide (elementSpacing ≠ Spacing.None) }

/-- The method `XamlBuilder::AddSeparatorIfNeeded` (XamlBuilder.cpp:520-542).
The result is the new value of the counter `currentElement` (passed by
reference), the new store and `*addedSeparator`.  The counter is a C++ `int`
that `BuildPanelChildren` starts at 0 and that goes up by one per attached
control, so its value is the number of controls attached so far.  At
`INT_MAX` = 2147483647 the `currentElement++` overflows, which C++ leaves
undefined (-2147483648 where it wraps); the definition is the code for `int`
counters below `INT_MAX`, that is, as long as fewer than 2147483647 controls
were attached, and what is stated of the new counter is stated for those. -/
def AddSeparatorIfNeeded (currentElement : Int) (element : CardElement)
    (hostConfig : AdaptiveHostConfig) (xaml : XamlState) (parentPanel : Nat) :
    Int × XamlState × Option Nat :=
  if currentElement > 0 then
    let config := GetSeparationConfigForElement element hostConfig
    if config.needsSeparator then
      let separator := CreateSeparator config.spacing config.separatorThickness config.separatorColor
      let r := AppendXamlElementToPanel xaml separator parentPanel
      (currentElement + 1, r.1, some r.2)
    else (currentElement + 1, xaml, none)
  else (currentElement + 1, xaml, none)

/-- The method `XamlBuilder::AddRenderedControl` (XamlBuilder.cpp:478-518), for
a control that is not attached yet.  The `childCreatedCallback` of
`BuildXamlTreeFromAdaptiveCard` does nothing and is left out. -/
def AddRenderedControl (newControl : Option UIElement) (element : CardElement) (parentPanel : Nat)
    (separator : Option Nat) (columnDefinition : Option Nat) (xaml : XamlState) :
    HRESULT × XamlState :=
  match newControl with
  | some control =>
    let isVisible := element.get_IsVisible
    let control := if !isVisible then { control with visibility := Visibility.Collapsed } else control
    let id := element.get_Id
    let control := if id ≠ "" then { control with name := id } else control
    let tagContent : ElementTagContent :=
      { cardElement := element
        parentPanel := parentPanel
        separator := separator
        columnDefinition := columnDefinition
        expectedVisibility := isVisible }
    let control := { control with tag := some tagContent }
    (S_OK, (AppendXamlElementToPanel xaml control parentPanel).1)
  | none => (S_OK, xaml)

/-- What `RenderFallback` yields: the result code, the control written to
`*result` (null when nothing was written), the render context with the
warnings appended, and, as a ghost value that the code does not compute, the
number of nested `RenderFallback` calls made. -/
structure FallbackOutcome where
  hr : HRESULT
  result : Option UIElement
  renderContext : AdaptiveRenderContext
  nestedCalls : Nat

/-- The text that a reader of a NUL-terminated wide string gets from a buffer:
the characters before the first NUL.  This is how `std::wstring::operator+=`
reads `elementType.GetRawBuffer(nullptr)` and how `HStringReference` reads
`errorString.c_str()` in `RenderFallback` (XamlBuilder.cpp:684-686); an
HSTRING can hold NUL characters, and what follows the first one is not read. -/
def c_str (buffer : String) : String :=
  String.mk (buffer.data.takeWhile (fun c => c != Char.ofNat 0))

/-- The method `XamlBuilder::RenderFallback` (XamlBuilder.cpp:599-694). -/
def RenderFallback (currentElement : CardElement) (renderContext : AdaptiveRenderContext)
    (renderArgs : AdaptiveRenderArgs) : FallbackOutcome :=
  match currentElement with
  | .mk properties (.Content fallbackElement) =>
    let elementType := properties.elementTypeString
    let fallbackElementType := fallbackElement.get_ElementTypeString
    let renderContext := WarnForFallbackContentElement renderContext elementType fallbackElementType
    -- Try to render the fallback element
    let lookup := renderContext.elementRenderers fallbackElementType
    if FAILED lookup.1 then
      { hr := lookup.1, result := none, renderContext := renderContext, nestedCalls := 0 }
    else
      let rendered : RenderOutcome :=
        match lookup.2 with
        | some fallbackElementRenderer => fallbackElementRenderer fallbackElement renderArgs
        | none => { hr := E_PERFORM_FALLBACK, result := none, warnings := [] }
      let renderContext := renderContext.addWarnings rendered.warnings
      if rendered.hr = E_PERFORM_FALLBACK then
        -- The fallback content told us to fallback, make a recursive call to this method
        let inner := RenderFallback fallbackElement renderContext renderArgs
        if FAILED inner.hr then
          { hr := inner.hr, result := none, renderContext := inner.renderContext,
            nestedCalls := inner.nestedCalls + 1 }
        else
          { hr := S_OK, result := inner.result, renderContext := inner.renderContext,
            nestedCalls := inner.nestedCalls + 1 }
      else if FAILED rendered.hr then
        { hr := rendered.hr, result := none, renderContext := renderContext, nestedCalls := 0 }
      else
        { hr := S_OK, result := rendered.result, renderContext := renderContext, nestedCalls := 0 }
  | .mk properties .Drop =>
    let elementType := properties.elementTypeString
    -- If the fallback is drop, nothing to do but warn
    { hr := S_OK, result := none, renderContext := WarnForFallbackDrop renderContext elementType,
      nestedCalls := 0 }
  | .mk properties .None =>
    let elementType := properties.elementTypeString
    -- We didn't do it, can our ancestor?
    if !renderArgs.ancestorHasFallback then
      -- standard unknown element handling
      let errorString := "No Renderer found for type: "
      let errorString := errorString ++ c_str elementType
      { hr := S_OK, result := none,
        renderContext :=
          renderContext.AddWarning WarningStatusCode.NoRendererForType (c_str errorString),
        nestedCalls := 0 }
    else
      { hr := E_PERFORM_FALLBACK, result := none, renderContext := renderContext, nestedCalls := 0 }

/-- The variables the lambda of `BuildPanelChildren` reaches by reference: the
XAML objects, the render context, the render arguments and the counter
`iElement`. -/
structure PanelBuild where
  xaml : XamlState
  renderContext : AdaptiveRenderContext
  renderArgs : AdaptiveRenderArgs
  iElement : Int

/-- The render step of the lambda of `BuildPanelChildren`
(XamlBuilder.cpp:738-743): the renderer is called when there is one and `hr`
succeeded; otherwise `hr` stays and `newControl` stays null. -/
def BuildPanelChildren.render (elementRenderer : Option ElementRenderer) (hr : HRESULT)
    (element : CardElement) (renderArgs : AdaptiveRenderArgs) : RenderOutcome :=
  match elementRenderer with
  | some renderer =>
    if SUCCEEDED hr then renderer element renderArgs
    else { hr := hr, result := none, warnings := [] }
  | none => { hr := hr, result := none, warnings := [] }

/-- The fallback step of the lambda of `BuildPanelChildren`
(XamlBuilder.cpp:745-749): `RenderFallback` is called when there is no
renderer or `hr` is `E_PERFORM_FALLBACK`, and `&newControl` hands it a nulled
pointer; otherwise the control of the renderer stays.  The `hr` of the outcome
is what `RETURN_IF_FAILED` tests. -/
def BuildPanelChildren.fallback (elementRenderer : Option ElementRenderer) (rendered : RenderOutcome)
    (element : CardElement) (renderContext : AdaptiveRenderContext)
    (renderArgs : AdaptiveRenderArgs) : FallbackOutcome :=
  if elementRenderer.isNone || decide (rendered.hr = E_PERFORM_FALLBACK) then
    RenderFallback element renderContext renderArgs
  else
    { hr := S_OK, result := rendered.result, renderContext := renderContext, nestedCalls := 0 }

/-- The last step of the lambda of `BuildPanelChildren` (XamlBuilder.cpp:751-762):
a control is given its separator and attached, the `ancestorHasFallback` value
is reverted and `hr` is returned. -/
def BuildPanelChildren.attach (parentPanel : Nat) (ancestorHasFallback : Bool) (s : PanelBuild)
    (element : CardElement) (hr : HRESULT) (newControl : Option UIElement) : HRESULT × PanelBuild :=
  match newControl with
  | some control =>
    -- If we got a control, add a separator if needed and the control to the parent panel
    let added := AddSeparatorIfNeeded s.iElement element s.renderContext.hostConfig s.xaml parentPanel
    let attached := AddRenderedControl (some control) element parentPanel added.2.2 none added.2.1
    if FAILED attached.1 then
      (attached.1, { s with xaml := attached.2, iElement := added.1 })
    else
      -- Revert the ancestorHasFallback value
      (hr,
       { xaml := attached.2, renderContext := s.renderContext,
         renderArgs := s.renderArgs.put_AncestorHasFallback ancestorHasFallback, iElement := added.1 })
  | none =>
    -- Revert the ancestorHasFallback value
    (hr, { s with renderArgs := s.renderArgs.put_AncestorHasFallback ancestorHasFallback })

/-- The lambda of `BuildPanelChildren` (XamlBuilder.cpp:713-763), run on one
element.  `ancestorHasFallback` is the value read from the render arguments on
entry to `BuildPanelChildren`. -/
def BuildPanelChildren.renderElement (parentPanel : Nat) (ancestorHasFallback : Bool)
    (s : PanelBuild) (element : CardElement) : HRESULT × PanelBuild :=
  -- Get fallback state
  let elementHasFallback := decide (element.get_FallbackType ≠ FallbackType.None)
  let s := { s with
    renderArgs := s.renderArgs.put_AncestorHasFallback (elementHasFallback || ancestorHasFallback) }
  -- Check to see if element's requirements are being met
  let requirements := s.renderContext.meetsRequirements element
  if FAILED requirements.1 then (requirements.1, s)
  else
    let hr := if requirements.2 then S_OK else E_PERFORM_FALLBACK
    -- Get element renderer
    let lookup := s.renderContext.elementRenderers element.get_ElementTypeString
    if FAILED lookup.1 then (lookup.1, s)
    else
      -- If we have a renderer, render the element
      let rendered := BuildPanelChildren.render lookup.2 hr element s.renderArgs
      -- If we don't have a renderer, or if the renderer told us to perform fallback, try falling back
      let fallback := BuildPanelChildren.fallback lookup.2 rendered element
        (s.renderContext.addWarnings rendered.warnings) s.renderArgs
      if FAILED fallback.hr then (fallback.hr, { s with renderContext := fallback.renderContext })
      else
        BuildPanelChildren.attach parentPanel ancestorHasFallback
          { s with renderContext := fallback.renderContext } element rendered.hr fallback.result

/-- What `BuildPanelChildren` yields: the result code and the objects it
changed through its pointer arguments. -/
structure PanelResult where
  hr : HRESULT
  xaml : XamlState
  renderContext : AdaptiveRenderContext
  renderArgs : AdaptiveRenderArgs

/-- The method `XamlBuilder::BuildPanelChildren` (XamlBuilder.cpp:696-767). -/
def BuildPanelChildren (children : List CardElement) (parentPanel : Nat) (xaml : XamlState)
    (renderContext : AdaptiveRenderContext) (renderArgs : AdaptiveRenderArgs) : PanelResult :=
  let iElement : Int := 0
  let ancestorHasFallback := renderArgs.ancestorHasFallback
  let r := IterateOverVectorWithFailure children ancestorHasFallback
    (BuildPanelChildren.renderElement parentPanel ancestorHasFallback)
    { xaml := xaml, renderContext := renderContext, renderArgs := renderArgs, iElement := iElement }
  let hr := r.1
  let visibility := SetSeparatorVisibility r.2.xaml parentPanel
  if FAILED visibility.1 then
    { hr := visibility.1, xaml := visibility.2, renderContext := r.2.renderContext,
      renderArgs := r.2.renderArgs }
  else
    { hr := hr, xaml := visibility.2, renderContext := r.2.renderContext, renderArgs := r.2.renderArgs }

/-- The class `AdaptiveToggleVisibilityTarget`. -/
structure AdaptiveToggleVisibilityTarget where
  elementId : String
  isVisible : IsVisible
deriving DecidableEq, Repr

/-- The variables of the target loop of `HandleToggleVisibilityClick`: the XAML
objects and the set `parentPanels`.  The set is a list without repetition, in
insertion order; the C++ `unordered_set` fixes no iteration order. -/
structure ToggleState where
  xaml : XamlState
  parentPanels : List Nat

/-- The body of the target loop of `HandleToggleVisibilityClick`
(XamlBuilder.cpp:789-853), run on one target.  A resolved node with a null tag
makes `tag.As(&elementTagContent)` fail. -/
def HandleToggleVisibilityClick.toggleTarget (s : ToggleState)
    (currentTarget : AdaptiveToggleVisibilityTarget) : HRESULT × ToggleState :=
  let toggleId := currentTarget.elementId
  let toggle := currentTarget.isVisible
  match FindName s.xaml toggleId with
  | none => (S_OK, s)
  | some toggleElement =>
    match s.xaml.get_Tag toggleElement with
    | none => (E_POINTER, s)
    | some elementTagContent =>
      let visibilityToSet :=
        match toggle with
        | IsVisible.IsVisibleTrue => Visibility.Visible
        | IsVisible.IsVisibleFalse => Visibility.Collapsed
        | IsVisible.IsVisibleToggle =>
          if elementTagContent.expectedVisibility then Visibility.Collapsed else Visibility.Visible
      let xaml := s.xaml.put_Visibility toggleElement visibilityToSet
      let xaml := xaml.set_ExpectedVisibility toggleElement (decide (visibilityToSet = Visibility.Visible))
      let parentPanel := elementTagContent.parentPanel
      let parentPanels :=
        if parentPanel ∈ s.parentPanels then s.parentPanels else s.parentPanels ++ [parentPanel]
      let cardElement := elementTagContent.cardElement
      -- If the element we're toggling is a column, we'll need to change the width on the column definition
      match cardElement.properties.columnWidth with
      | some columnWidth =>
        let resized := HandleColumnWidth columnWidth (decide (visibilityToSet = Visibility.Visible))
          elementTagContent.columnDefinition xaml
        if FAILED resized.1 then (resized.1, { xaml := resized.2, parentPanels := parentPanels })
        else (S_OK, { xaml := resized.2, parentPanels := parentPanels })
      | none => (S_OK, { xaml := xaml, parentPanels := parentPanels })

/-- The target loop of `HandleToggleVisibilityClick`: the targets in list
order, left at the first `RETURN_IF_FAILED` that fires. -/
def HandleToggleVisibilityClick.targetLoop :
    List AdaptiveToggleVisibilityTarget → ToggleState → HRESULT × ToggleState
  | [], s => (S_OK, s)
  | currentTarget :: rest, s =>
    let r := HandleToggleVisibilityClick.toggleTarget s currentTarget
    if FAILED r.1 then r else HandleToggleVisibilityClick.targetLoop rest r.2

/-- The method `XamlBuilder::HandleToggleVisibilityClick`
(XamlBuilder.cpp:769-862), given the target elements of the toggle action. -/
def HandleToggleVisibilityClick (xaml : XamlState) (targets : List AdaptiveToggleVisibilityTarget) :
    HRESULT × XamlState :=
  let r := HandleToggleVisibilityClick.targetLoop targets { xaml := xaml, parentPanels := [] }
  if FAILED r.1 then (r.1, r.2.xaml)
  else
    (S_OK, r.2.parentPanels.foldl (fun x parentPanel => (SetSeparatorVisibility x parentPanel).2) r.2.xaml)

/-! ## Vocabulary of the statements -/

/-- The node at `p` carries a tag and its literal visibility is `Visible`. -/
def isVisibleElement (xaml : XamlState) (p : Nat) : Bool :=
  (xaml.get_Tag p).isSome && decide (xaml.get_Visibility p = some Visibility.Visible)

/-- The separator held by the tag of the node at `p`, if the node has a tag and
the tag holds one. -/
def separatorOf (xaml : XamlState) (p : Nat) : Option Nat :=
  (xaml.get_Tag p).bind (fun t => t.separator)

/-- The value of the flag `foundPreviousVisibleElement` when the scan reaches
position `i` of `children`: some tagged child at an earlier position is
literally `Visible`. -/
def foundVisibleBefore (xaml : XamlState) (children : List Nat) (i : Nat) : Bool :=
  (children.take i).any (isVisibleElement xaml)

/-- Every separator held by the tag of one of `children` is an object of the
store that carries no tag (the invariant of the spec: separator nodes never
carry an `ElementTag`). -/
def separatorsUntagged (xaml : XamlState) (children : List Nat) : Bool :=
  children.all (fun c =>
    match separatorOf xaml c with
    | some s => decide (s < xaml.elements.length) && (xaml.get_Tag s).isNone
    | none => true)

/-- No two positions of `children` hold the same separator: each tagged child
has a separator of its own. -/
def separatorsDistinct (xaml : XamlState) (children : List Nat) : Prop :=
  (children.filterMap (separatorOf xaml)).Nodup

instance (xaml : XamlState) (children : List Nat) : Decidable (separatorsDistinct xaml children) := by
  unfold separatorsDistinct
  infer_instance

/-- The tags of a store are well formed: a separator held by a tag is an
object of the store that carries no tag; no two tags hold the same separator;
a node whose tag has expected visibility false is literally `Collapsed`. -/
def WellFormed (xaml : XamlState) : Prop :=
  (∀ p s, separatorOf xaml p = some s → s < xaml.elements.length ∧ xaml.get_Tag s = none) ∧
  (∀ p q s, separatorOf xaml p = some s → separatorOf xaml q = some s → p = q) ∧
  (∀ p t, xaml.get_Tag p = some t → t.expectedVisibility = false →
    xaml.get_Visibility p = some Visibility.Collapsed)

/-- The children of `panel` are objects of the store, each listed once. -/
def PanelOk (xaml : XamlState) (panel : Nat) : Prop :=
  panel < xaml.elements.length ∧ (xaml.get_Children panel).Nodup ∧
    ∀ c, c ∈ xaml.get_Children panel → c < xaml.elements.length

/-- The separators attached to `panel`: its children without tag. -/
def panelSeparators (xaml : XamlState) (panel : Nat) : List Nat :=
  (xaml.get_Children panel).filter (fun c => (xaml.get_Tag c).isNone)

/-- The card elements of the nodes attached to `panel`, in the order of the
children: the back-references of their tags. -/
def panelElements (xaml : XamlState) (panel : Nat) : List CardElement :=
  (xaml.get_Children panel).filterMap (fun c => (xaml.get_Tag c).map (fun t => t.cardElement))

/-- The store after a sequence of toggle actions, each the target list of one
call of `HandleToggleVisibilityClick`. -/
def afterToggles (xaml : XamlState) (actions : List (List AdaptiveToggleVisibilityTarget)) :
    XamlState :=
  actions.foldl (fun x targets => (HandleToggleVisibilityClick x targets).2) xaml

/-- The store `y` has as many objects as `x` and the same child lists. -/
def sameShape (x y : XamlState) : Prop :=
  y.elements.length = x.elements.length ∧ ∀ p, y.get_Children p = x.get_Children p

/-- The bookkeeping of `BuildPanelChildren` on `panel` when the counter is
`iElement`: the panel is in order; the counter is the number of attached nodes;
the separators number the attached nodes after the first whose element needs a
separator; the first child, if any, is a tagged node without separator. -/
def SeparatorCount (hostConfig : AdaptiveHostConfig) (xaml : XamlState) (panel : Nat)
    (iElement : Int) : Prop :=
  PanelOk xaml panel ∧
  iElement = ((panelElements xaml panel).length : Int) ∧
  (panelSeparators xaml panel).length =
    ((panelElements xaml panel).tail.filter
      (fun e => (GetSeparationConfigForElement e hostConfig).needsSeparator)).length ∧
  (∀ c, (xaml.get_Children panel)[0]? = some c → ∃ t, xaml.get_Tag c = some t ∧ t.separator = none)

/-- The render context `b` differs from `a` in its warnings sink at most: host
configuration, renderer registration and requirement check are the same. -/
def sameRegistration (a b : AdaptiveRenderContext) : Prop :=
  b.hostConfig = a.hostConfig ∧ b.elementRenderers = a.elementRenderers ∧
    b.meetsRequirements = a.meetsRequirements

/-! ## Sample data -/

/-- A text block without id, separator or fallback. -/
def sampleText : CardElement :=
  .mk { elementTypeString := "TextBlock", id := "", spacing := Spacing.None, separator := false,
        height := HeightType.Auto, isVisible := true, columnWidth := none } Fallback.None

/-- An image that asks for a separator line. -/
def sampleImage : CardElement :=
  .mk { elementTypeString := "Image", id := "", spacing := Spacing.Default, separator := true,
        height := HeightType.Auto, isVisible := true, columnWidth := none } Fallback.None

/-- A panel (at 0) with a hidden text block (at 1), a separator (at 2) and a
shown image (at 3) that holds the separator in its tag. -/
def hiddenFirstPanel : XamlState :=
  { elements :=
      [ { visibility := Visibility.Visible, name := "", tag := none, children := [1, 2, 3] },
        { visibility := Visibility.Collapsed, name := "",
          tag := some { cardElement := sampleText, parentPanel := 0, separator := none,
                        columnDefinition := none, expectedVisibility := false },
          children := [] },
        { visibility := Visibility.Visible, name := "", tag := none, children := [] },
        { visibility := Visibility.Visible, name := "",
          tag := some { cardElement := sampleImage, parentPanel := 0, separator := some 2,
                        columnDefinition := none, expectedVisibility := true },
          children := [] } ],
    columnDefinitions := [] }

/-- A panel (at 0) with a shown text block (at 1), a separator (at 2) and an
image (at 3) that holds the separator in its tag and has been hidden: literal
visibility `Collapsed`, expected visibility false. -/
def hiddenImagePanel : XamlState :=
  { elements :=
      [ { visibility := Visibility.Visible, name := "", tag := none, children := [1, 2, 3] },
        { visibility := Visibility.Visible, name := "",
          tag := some { cardElement := sampleText, parentPanel := 0, separator := none,
                        columnDefinition := none, expectedVisibility := true },
          children := [] },
        { visibility := Visibility.Visible, name := "", tag := none, children := [] },
        { visibility := Visibility.Collapsed, name := "",
          tag := some { cardElement := sampleImage, parentPanel := 0, separator := some 2,
                        columnDefinition := none, expectedVisibility := false },
          children := [] } ],
    columnDefinitions := [] }

/-- The render arguments of a top-level body: no ancestor has a fallback. -/
def topLevelArgs : AdaptiveRenderArgs :=
  { containerStyle := ContainerStyle.Default, ancestorHasFallback := false, isInShowCard := false }

/-- The render arguments below an element that declared a fallback. -/
def nestedArgs : AdaptiveRenderArgs :=
  { containerStyle := ContainerStyle.Default, ancestorHasFallback := true, isInShowCard := false }

/-- A host configuration. -/
def sampleHostConfig : AdaptiveHostConfig :=
  { supportsInteractivity := true, allowCustomStyle := true, spacingSize := fun _ => 8,
    separatorLineThickness := 1, separatorLineColor := 0 }

/-- A renderer that makes a shown, unnamed, untagged control. -/
def plainRenderer : ElementRenderer :=
  fun _ _ =>
    { hr := S_OK,
      result := some { visibility := Visibility.Visible, name := "", tag := none, children := [] },
      warnings := [] }

/-- A renderer that succeeds without making a control. -/
def emptyRenderer : ElementRenderer :=
  fun _ _ => { hr := S_OK, result := none, warnings := [] }

/-- A renderer that fails with `E_INVALIDARG`. -/
def failingRenderer : ElementRenderer :=
  fun _ _ => { hr := E_INVALIDARG, result := none, warnings := [] }

/-- A render context whose registration knows "TextBlock" (rendered to a
control), "Empty" (rendered to nothing) and "Image" (whose renderer fails),
with every requirement met and an empty warnings sink. -/
def sampleContext : AdaptiveRenderContext :=
  { hostConfig := sampleHostConfig,
    elementRenderers := fun t =>
      if t = "TextBlock" then (S_OK, some plainRenderer)
      else if t = "Empty" then (S_OK, some emptyRenderer)
      else if t = "Image" then (S_OK, some failingRenderer)
      else (S_OK, none),
    meetsRequirements := fun _ => (S_OK, true),
    warnings := [] }

/-- An element of a type without renderer, with no fallback. -/
def sampleUnknown : CardElement :=
  .mk { elementTypeString := "Graph", id := "", spacing := Spacing.None, separator := false,
        height := HeightType.Auto, isVisible := true, columnWidth := none } Fallback.None

/-- An element of a type without renderer whose fallback is to be dropped. -/
def sampleDropped : CardElement :=
  .mk { elementTypeString := "Chart", id := "", spacing := Spacing.Default, separator := true,
        height := HeightType.Auto, isVisible := true, columnWidth := none } Fallback.Drop

/-- An element of a type without renderer whose fallback content is
`sampleDropped`. -/
def sampleFallbackToDropped : CardElement :=
  .mk { elementTypeString := "Graph", id := "", spacing := Spacing.Default, separator := true,
        height := HeightType.Auto, isVisible := true, columnWidth := none }
    (Fallback.Content sampleDropped)

/-- An element of a type without renderer whose fallback content is an image,
the renderer of which fails. -/
def sampleFallbackToImage : CardElement :=
  .mk { elementTypeString := "Graph", id := "", spacing := Spacing.None, separator := false,
        height := HeightType.Auto, isVisible := true, columnWidth := none }
    (Fallback.Content sampleImage)

/-- An element that renders to nothing. -/
def sampleEmpty : CardElement :=
  .mk { elementTypeString := "Empty", id := "", spacing := Spacing.None, separator := false,
        height := HeightType.Auto, isVisible := true, columnWidth := none } Fallback.None

/-- A text block that asks for a separator line. -/
def sampleSeparatedText : CardElement :=
  .mk { elementTypeString := "TextBlock", id := "second", spacing := Spacing.Default, separator := true,
        height := HeightType.Auto, isVisible := true, columnWidth := none } Fallback.None

/-- A store with one empty, unnamed, untagged panel at 0. -/
def emptyPanel : XamlState :=
  { elements := [ { visibility := Visibility.Visible, name := "", tag := none, children := [] } ],
    columnDefinitions := [] }

/-- Two toggle actions, each with the element named "second" as its only
target and the verb `Toggle`. -/
def toggleSecondTwice : List (List AdaptiveToggleVisibilityTarget) :=
  [[{ elementId := "second", isVisible := IsVisible.IsVisibleToggle }],
   [{ elementId := "second", isVisible := IsVisible.IsVisibleToggle }]]

/-- An image renderer whose control is hidden while the image is retrieved. -/
def loadingImageRenderer : ElementRenderer :=
  fun _ _ =>
    { hr := S_OK,
      result := some { visibility := Visibility.Collapsed, name := "", tag := none, children := [] },
      warnings := [] }

/-- A render context whose registration knows "TextBlock" and "Image", the
latter rendered to a control that is still hidden. -/
def loadingContext : AdaptiveRenderContext :=
  { hostConfig := sampleHostConfig,
    elementRenderers := fun t =>
      if t = "TextBlock" then (S_OK, some plainRenderer)
      else if t = "Image" then (S_OK, some loadingImageRenderer)
      else (S_OK, none),
    meetsRequirements := fun _ => (S_OK, true),
    warnings := [] }

/-- The panel that `BuildPanelChildren` builds from a text block and an image
while the image is loading: the panel is at 0, the text block at 1, the
separator of the image at 2, the image at 3, literally `Collapsed` with
expected visibility true. -/
def loadingImagePanel : XamlState :=
  (BuildPanelChildren [sampleText, sampleImage] 0 emptyPanel loadingContext topLevelArgs).xaml

/-- The length of the chain of `Content` fallbacks that starts at an element:
the number of times one can pass from an element to its fallback content. -/
def fallbackChainLength : CardElement → Nat
  | .mk _ (.Content fallbackContent) => fallbackChainLength fallbackContent + 1
  | .mk _ .Drop => 0
  | .mk _ .None => 0

/-- An element of a type without renderer whose fallback content is a text
block, which renders. -/
def sampleFallbackToText : CardElement :=
  .mk { elementTypeString := "Graph", id := "", spacing := Spacing.None, separator := false,
        height := HeightType.Auto, isVisible := true, columnWidth := none }
    (Fallback.Content sampleText)

/-! ## Listeners and image tracking -/

/-- A call of a method of an `IXamlBuilderListener`, made on the listener at
the given address. -/
inductive ListenerCall where
  | AllImagesLoaded (listener : Nat)
  | ImagesLoadingHadError (listener : Nat)
deriving DecidableEq, Repr

/-- Modelled from the spec: the class `ImageLoadTracker` is not among the
sources.  The spec: it counts the image loads tracked for the render pass and
those still outstanding. -/
structure ImageLoadTracker where
  totalImagesTracked : Nat
  outstandingImages : Nat
deriving DecidableEq, Repr

/-- Modelled from the spec: `ImageLoadTracker::GetTotalImagesTracked`. -/
def ImageLoadTracker.GetTotalImagesTracked (tracker : ImageLoadTracker) : Nat :=
  tracker.totalImagesTracked

/-- Modelled from the spec: `ImageLoadTracker::AbandonOutstandingImages`:
outstanding loads are no longer tracked. -/
def ImageLoadTracker.AbandonOutstandingImages (tracker : ImageLoadTracker) : ImageLoadTracker :=
  { tracker with outstandingImages := 0 }

/-- The members of a `XamlBuilder` object that the methods below use: the set
`m_listeners` of listener addresses, the tracker `m_imageLoadTracker`, and, as
a ghost value that the code does not hold, the log of the listener calls made
so far, in order. -/
structure XamlBuilderObject where
  listeners : Finset Nat
  imageLoadTracker : ImageLoadTracker
  calls : List ListenerCall

/-- The method `XamlBuilder::AddListener` (XamlBuilder.cpp:214-227). -/
def AddListener (builder : XamlBuilderObject) (listener : Nat) : HRESULT × XamlBuilderObject :=
  if listener ∉ builder.listeners then
    (S_OK, { builder with listeners := insert listener builder.listeners })
  else (E_INVALIDARG, builder)

/-- The method `XamlBuilder::RemoveListener` (XamlBuilder.cpp:229-242). -/
def RemoveListener (builder : XamlBuilderObject) (listener : Nat) : HRESULT × XamlBuilderObject :=
  if listener ∈ builder.listeners then
    (S_OK, { builder with listeners := builder.listeners.erase listener })
  else (E_INVALIDARG, builder)

/-- The method `XamlBuilder::FireAllImagesLoaded` (XamlBuilder.cpp:462-468):
the listeners of the set are called in the order of the set, that of their
addresses. -/
def FireAllImagesLoaded (builder : XamlBuilderObject) : XamlBuilderObject :=
  { builder with
    calls := builder.calls ++ (builder.listeners.sort (· ≤ ·)).map ListenerCall.AllImagesLoaded }

/-- The method `XamlBuilder::FireImagesLoadingHadError` (XamlBuilder.cpp:470-476). -/
def FireImagesLoadingHadError (builder : XamlBuilderObject) : XamlBuilderObject :=
  { builder with
    calls := builder.calls ++ (builder.listeners.sort (· ≤ ·)).map ListenerCall.ImagesLoadingHadError }

/-! ## The tree of a card -/

/-- An `IAdaptiveActionElement`, as far as the builder looks at it. -/
structure AdaptiveActionElement where
  actionTypeString : String
  id : String
deriving DecidableEq, Repr

/-- The part of an `IAdaptiveCard` that `BuildXamlTreeFromAdaptiveCard` reads
and the store records: style, height, select action, body and actions.  The
minimum height, the vertical content alignment and the background image only
set visual properties. -/
structure AdaptiveCard where
  style : ContainerStyle
  height : HeightType
  selectAction : Option AdaptiveActionElement
  body : List CardElement
  actions : List AdaptiveActionElement

/-- What the code outside the sources contributes to one call of
`BuildXamlTreeFromAdaptiveCard`: the value `get_IsInShowCard` reports for the
render arguments made at line 111 (their class is not among the sources), the
result of `XamlHelpers::SetStyleFromResourceDictionary` for a style key, and
the number of image loads that the renderers called during the build hand to
the image load tracker. -/
structure RenderPass where
  isInShowCard : Bool
  setStyleFromResourceDictionary : String → HRESULT
  imagesTracked : Nat

/-- Modelled from the spec: `MakeAndInitialize<AdaptiveRenderArgs>(containerStyle,
parentElement, nullptr)`; the class is not among the sources.  At the root no
enclosing element has declared a fallback. -/
def MakeAdaptiveRenderArgs (containerStyle : ContainerStyle) (isInShowCard : Bool) :
    AdaptiveRenderArgs :=
  { containerStyle := containerStyle, ancestorHasFallback := false, isInShowCard := isInShowCard }

/-- The images that renderers hand to the tracker are counted as tracked and
as outstanding. -/
def ImageLoadTracker.track (tracker : ImageLoadTracker) (images : Nat) : ImageLoadTracker :=
  { totalImagesTracked := tracker.totalImagesTracked + images,
    outstandingImages := tracker.outstandingImages + images }

/-- The method `XamlBuilder::CreateRootCardElement` (XamlBuilder.cpp:302-387) as
far as the store records it: a new root grid, and a new body host appended to
it.  The result is the store, the root and the body host.  Background, margin
and fixed dimensions are visual; the background image, which the "Image"
renderer makes and which is put behind the body host, is left out. -/
def CreateRootCardElement (xaml : XamlState) : XamlState × Nat × Nat :=
  let rootElement : UIElement :=
    { visibility := Visibility.Visible, name := "", tag := none, children := [] }
  let root := xaml.elements.length
  let bodyElementHost : UIElement :=
    { visibility := Visibility.Visible, name := "", tag := none, children := [] }
  let r := AppendXamlElementToPanel { xaml with elements := xaml.elements ++ [rootElement] }
    bodyElementHost root
  (r.1, root, r.2)

/-- Modelled from the spec: `XamlHelpers::WrapInTouchTarget` is not among the
sources.  The spec: the rendered node is wrapped in an invisible touch target
that invokes the action.  The touch target is a new object with the node as
its child. -/
def WrapInTouchTarget (_adaptiveCardElement : Option CardElement) (uiElement : Nat)
    (_action : AdaptiveActionElement) (_fullWidth : Bool) (xaml : XamlState) : XamlState × Nat :=
  ({ xaml with
     elements := xaml.elements ++
       [{ visibility := Visibility.Visible, name := "", tag := none, children := [uiElement] }] },
   xaml.elements.length)

/-- The method `XamlBuilder::SupportsInteractivity` (XamlBuilder.cpp:1052-1057). -/
def SupportsInteractivity (hostConfig : AdaptiveHostConfig) : Bool :=
  hostConfig.supportsInteractivity

/-- The method `XamlBuilder::HandleSelectAction` (XamlBuilder.cpp:1059-1082).
The result is the store, the render context and `*outUiElement`. -/
def HandleSelectAction (adaptiveCardElement : Option CardElement)
    (selectAction : Option AdaptiveActionElement) (renderContext : AdaptiveRenderContext)
    (uiElement : Nat) (supportsInteractivity : Bool) (fullWidthTouchTarget : Bool)
    (xaml : XamlState) : XamlState × AdaptiveRenderContext × Nat :=
  match selectAction with
  | some action =>
    if supportsInteractivity then
      let r := WrapInTouchTarget adaptiveCardElement uiElement action fullWidthTouchTarget xaml
      (r.1, renderContext, r.2)
    else
      (xaml,
       renderContext.AddWarning WarningStatusCode.InteractivityNotSupported
         "SelectAction present, but Interactivity is not supported",
       uiElement)
  | none => (xaml, renderContext, uiElement)

/-- Modelled from the spec: `BuildActions` is not among the sources.  The spec:
an action bar is built below the body.  The action bar is a new untagged
object appended to the body panel. -/
def BuildActions (_actions : List AdaptiveActionElement) (bodyElementContainer : Nat)
    (xaml : XamlState) : XamlState :=
  (AppendXamlElementToPanel xaml
    { visibility := Visibility.Visible, name := "", tag := none, children := [] }
    bodyElementContainer).1

/-- The last block of `BuildXamlTreeFromAdaptiveCard` (XamlBuilder.cpp:195-209),
on the builder object when there is one. -/
def BuildXamlTreeFromAdaptiveCard.notifyListeners (isInShowCard : Bool)
    (xamlBuilder : Option XamlBuilderObject) : Option XamlBuilderObject :=
  match xamlBuilder with
  | some builder =>
    if !isInShowCard then
      if builder.listeners.card = 0 then
        -- If we're done and no one's listening for the images to load, make sure
        -- any outstanding image loads are no longer tracked.
        some { builder with imageLoadTracker := builder.imageLoadTracker.AbandonOutstandingImages }
      else if builder.imageLoadTracker.GetTotalImagesTracked = 0 then
        -- If there are no images to track, fire the all images loaded
        -- event to signal the xaml is ready
        some (FireAllImagesLoaded builder)
      else some builder
    else some builder
  | none => none

/-- What `BuildXamlTreeFromAdaptiveCard` yields: the result code, `*xamlTreeRoot`
(null when `none`), and the objects it changed. -/
structure TreeOutcome where
  hr : HRESULT
  xamlTreeRoot : Option Nat
  xaml : XamlState
  renderContext : AdaptiveRenderContext
  xamlBuilder : Option XamlBuilderObject

/-- The method `XamlBuilder::BuildXamlTreeFromAdaptiveCard`
(XamlBuilder.cpp:82-212).  A null card and a null builder are `none`. -/
def BuildXamlTreeFromAdaptiveCard (adaptiveCard : Option AdaptiveCard) (xaml : XamlState)
    (renderContext : AdaptiveRenderContext) (xamlBuilder : Option XamlBuilderObject)
    (defaultContainerStyle : ContainerStyle) (pass : RenderPass) : TreeOutcome :=
  match adaptiveCard with
  | none =>
    { hr := S_OK, xamlTreeRoot := none, xaml := xaml, renderContext := renderContext,
      xamlBuilder := xamlBuilder }
  | some adaptiveCard =>
    let hostConfig := renderContext.hostConfig
    let allowCustomStyle := hostConfig.allowCustomStyle
    let containerStyle :=
      if allowCustomStyle then
        let cardStyle := adaptiveCard.style
        if cardStyle ≠ ContainerStyle.None then cardStyle else defaultContainerStyle
      else defaultContainerStyle
    let renderArgs := MakeAdaptiveRenderArgs containerStyle pass.isInShowCard
    let root := CreateRootCardElement xaml
    let bodyElementContainer := root.2.2
    -- Create a new IUIElement pointer to house the root element decorated with select action
    let selected := HandleSelectAction none adaptiveCard.selectAction renderContext root.2.1
      (SupportsInteractivity hostConfig) true root.1
    let rootSelectActionElement := selected.2.2
    -- Enumerate the child items of the card and build xaml for them
    let bodyRenderArgs := MakeAdaptiveRenderArgs containerStyle pass.isInShowCard
    let built := BuildPanelChildren adaptiveCard.body bodyElementContainer selected.1 selected.2.1
      bodyRenderArgs
    let xamlBuilder := xamlBuilder.map (fun builder =>
      { builder with imageLoadTracker := builder.imageLoadTracker.track pass.imagesTracked })
    if FAILED built.hr then
      { hr := built.hr, xamlTreeRoot := none, xaml := built.xaml,
        renderContext := built.renderContext, xamlBuilder := xamlBuilder }
    else
      let acted : XamlState × AdaptiveRenderContext :=
        if adaptiveCard.actions.length > 0 then
          if SupportsInteractivity hostConfig then
            (BuildActions adaptiveCard.actions bodyElementContainer built.xaml, built.renderContext)
          else
            (built.xaml,
             built.renderContext.AddWarning WarningStatusCode.InteractivityNotSupported
               "Actions collection was present in card, but interactivity is not supported")
        else (built.xaml, built.renderContext)
      let isInShowCard := renderArgs.isInShowCard
      let styled :=
        if !isInShowCard then pass.setStyleFromResourceDictionary "Adaptive.Card"
        else pass.setStyleFromResourceDictionary "Adaptive.ShowCard.Card"
      if FAILED styled then
        { hr := styled, xamlTreeRoot := none, xaml := acted.1, renderContext := acted.2,
          xamlBuilder := xamlBuilder }
      else
        { hr := S_OK, xamlTreeRoot := some rootSelectActionElement, xaml := acted.1,
          renderContext := acted.2,
          xamlBuilder := BuildXamlTreeFromAdaptiveCard.notifyListeners isInShowCard xamlBuilder }

/-- A builder object with the listeners at 3 and 7 and no image tracked. -/
def sampleBuilder : XamlBuilderObject :=
  { listeners := {7, 3}, imageLoadTracker := { totalImagesTracked := 0, outstandingImages := 0 },
    calls := [] }

/-- A card with two text blocks in its body. -/
def sampleCard : AdaptiveCard :=
  { style := ContainerStyle.Emphasis, height := HeightType.Auto, selectAction := none,
    body := [sampleText, sampleSeparatedText], actions := [] }

/-- A top-level render pass in which every style is found and no image is
tracked. -/
def samplePass : RenderPass :=
  { isInShowCard := false, setStyleFromResourceDictionary := fun _ => S_OK, imagesTracked := 0 }

/-- The store `y` is the store `x` grown: no object is lost, the children of
`panel` are those it had followed by added ones, and the objects of `x` have
the tags they had. -/
def panelGrows (panel : Nat) (x y : XamlState) : Prop :=
  x.elements.length ≤ y.elements.length ∧
  (∃ added, y.get_Children panel = x.get_Children panel ++ added) ∧
  ∀ p, p < x.elements.length → y.get_Tag p = x.get_Tag p

/-- A renderer that declines: it asks for fallback and makes no control. -/
def decliningRenderer : ElementRenderer :=
  fun _ _ => { hr := E_PERFORM_FALLBACK, result := none, warnings := [] }

/-- A render context whose registration knows "TextBlock" (rendered to a
control) and "Input.Rating" (whose renderer declines). -/
def decliningContext : AdaptiveRenderContext :=
  { hostConfig := sampleHostConfig,
    elementRenderers := fun t =>
      if t = "TextBlock" then (S_OK, some plainRenderer)
      else if t = "Input.Rating" then (S_OK, some decliningRenderer)
      else (S_OK, none),
    meetsRequirements := fun _ => (S_OK, true),
    warnings := [] }

/-- An element whose renderer declines and whose fallback is to be dropped. -/
def sampleDeclinedDrop : CardElement :=
  .mk { elementTypeString := "Input.Rating", id := "", spacing := Spacing.None, separator := false,
        height := HeightType.Auto, isVisible := true, columnWidth := none } Fallback.Drop

/-- An element of a type without renderer whose fallback content is
`sampleUnknown`, of a type without renderer and with no fallback. -/
def sampleFallbackToUnknown : CardElement :=
  .mk { elementTypeString := "Chart", id := "", spacing := Spacing.None, separator := false,
        height := HeightType.Auto, isVisible := true, columnWidth := none }
    (Fallback.Content sampleUnknown)

/-- The `Name` of the object at `p`, as `FindName` reads it. -/
def nameOf (xaml : XamlState) (p : Nat) : Option String :=
  (xaml.elements[p]?).map (fun e => e.name)

/-- The value of `visibilityToSet` in the target loop of
`HandleToggleVisibilityClick` (XamlBuilder.cpp:815-829), for the verb of the
target and the expected visibility read from the tag. -/
def visibilityToSet (toggle : IsVisible) (currentVisibility : Bool) : Visibility :=
  match toggle with
  | IsVisible.IsVisibleTrue => Visibility.Visible
  | IsVisible.IsVisibleFalse => Visibility.Collapsed
  | IsVisible.IsVisibleToggle =>
    if currentVisibility then Visibility.Collapsed else Visibility.Visible

/-- The store `y` has the objects of `x` under the names they have in `x`, and
its tags name the parent panels that those of `x` name. -/
def sameTargets (x y : XamlState) : Prop :=
  y.elements.length = x.elements.length ∧ (∀ p, nameOf y p = nameOf x p) ∧
    ∀ p, (y.get_Tag p).map (fun t => t.parentPanel) = (x.get_Tag p).map (fun t => t.parentPanel)

/-- The parent panel named by the tag of the node that `id` resolves to, if
the id resolves to a node and the node has a tag. -/
def targetPanel (xaml : XamlState) (id : String) : Option Nat :=
  (FindName xaml id).bind (fun p => (xaml.get_Tag p).map (fun t => t.parentPanel))

/-- An image with the id "photo" that asks for a separator line. -/
def samplePhoto : CardElement :=
  .mk { elementTypeString := "Image", id := "photo", spacing := Spacing.Default, separator := true,
        height := HeightType.Auto, isVisible := true, columnWidth := none } Fallback.None

/-- The panel that `BuildPanelChildren` builds from a text block and the image
"photo" while the image is loading: the panel is at 0, the text block at 1,
the separator of the image at 2, the image at 3, literally `Collapsed` with
expected visibility true. -/
def loadingPhotoPanel : XamlState :=
  (BuildPanelChildren [sampleText, samplePhoto] 0 emptyPanel loadingContext topLevelArgs).xaml

/-- The target that names "photo" with the verb `Toggle`. -/
def togglePhoto : AdaptiveToggleVisibilityTarget :=
  { elementId := "photo", isVisible := IsVisible.IsVisibleToggle }

/-- The target that names "second" with the verb `Toggle`. -/
def toggleSecond : AdaptiveToggleVisibilityTarget :=
  { elementId := "second", isVisible := IsVisible.IsVisibleToggle }

/-- Every node with a tag whose expected visibility is false is literally
`Collapsed`. -/
def expectedHidden (xaml : XamlState) : Prop :=
  ∀ p t, xaml.get_Tag p = some t → t.expectedVisibility = false →
    xaml.get_Visibility p = some Visibility.Collapsed

/-- The node at `p` has a tag and is literally `Visible` exactly when the
expected visibility held by its tag is true. -/
def visibleAsExpected (xaml : XamlState) (p : Nat) : Prop :=
  ∃ t, xaml.get_Tag p = some t ∧
    (xaml.get_Visibility p = some Visibility.Visible ↔ t.expectedVisibility = true)

/-- The nodes attached to `panel`: its children that carry a tag, in order. -/
def panelNodes (xaml : XamlState) (panel : Nat) : List Nat :=
  (xaml.get_Children panel).filter (fun c => (xaml.get_Tag c).isSome)

/-- The layout that `BuildPanelChildren` gives the children of `panel`, with
`pending` a separator attached for a node that is not attached yet.  The
children are, node by node, the separator held by the tag of the node, if it
holds one, and then the node, followed by the pending separator; the node at
position `i` among the nodes holds a separator exactly when `i` is not 0 and
its element has `needsSeparator` true; the separators held and the pending one
are objects of the store without tag. -/
def SeparatorLayout (hostConfig : AdaptiveHostConfig) (xaml : XamlState) (panel : Nat)
    (pending : Option Nat) : Prop :=
  xaml.get_Children panel =
    (panelNodes xaml panel).flatMap (fun n => (separatorOf xaml n).toList ++ [n]) ++
      pending.toList ∧
  (∀ i n t, (panelNodes xaml panel)[i]? = some n → xaml.get_Tag n = some t →
    t.separator.isSome =
      (decide (0 < i) && (GetSeparationConfigForElement t.cardElement hostConfig).needsSeparator)) ∧
  (∀ n s, n ∈ panelNodes xaml panel → separatorOf xaml n = some s →
    s < xaml.elements.length ∧ xaml.get_Tag s = none) ∧
  (∀ s, pending = some s → s < xaml.elements.length ∧ xaml.get_Tag s = none)

/-- The renderers `a` and `b`, null or not alike, yield the same for every
element and all render arguments in `P`. -/
def rendererAgreeOn (P : AdaptiveRenderArgs → Prop) (a b : Option ElementRenderer) : Prop :=
  match a, b with
  | none, none => True
  | some r1, some r2 => ∀ e args, P args → r1 e args = r2 e args
  | _, _ => False

/-- The render contexts `a` and `b` are told apart by no call that hands the
renderers render arguments in `P`: they have the same host configuration,
requirement check and warnings, every lookup has the same result code, and the
renderers registered for a type agree on `P`. -/
def agreeOn (P : AdaptiveRenderArgs → Prop) (a b : AdaptiveRenderContext) : Prop :=
  b.hostConfig = a.hostConfig ∧ b.meetsRequirements = a.meetsRequirements ∧
  b.warnings = a.warnings ∧
  ∀ t, (b.elementRenderers t).1 = (a.elementRenderers t).1 ∧
    rendererAgreeOn P (a.elementRenderers t).2 (b.elementRenderers t).2

/-- A text-block renderer that makes a control when the render arguments tell
of an ancestor with a fallback, and fails with `E_INVALIDARG` otherwise. -/
def flagSensitiveRenderer : ElementRenderer :=
  fun e args => if args.ancestorHasFallback then plainRenderer e args else failingRenderer e args

/-- The sample context with `flagSensitiveRenderer` registered for
"TextBlock". -/
def flagSensitiveContext : AdaptiveRenderContext :=
  { sampleContext with
    elementRenderers := fun t =>
      if t = "TextBlock" then (S_OK, some flagSensitiveRenderer)
      else sampleContext.elementRenderers t }

/-- A text-block renderer that makes a control when the render arguments hold
the container style `Emphasis`, and fails with `E_INVALIDARG` otherwise. -/
def styleSensitiveRenderer : ElementRenderer :=
  fun e args =>
    if args.containerStyle = ContainerStyle.Emphasis then plainRenderer e args
    else failingRenderer e args

/-- The sample context with `styleSensitiveRenderer` registered for
"TextBlock". -/
def styleSensitiveContext : AdaptiveRenderContext :=
  { sampleContext with
    elementRenderers := fun t =>
      if t = "TextBlock" then (S_OK, some styleSensitiveRenderer)
      else sampleContext.elementRenderers t }

/-- The sample context with a feature registration that does not meet the
requirements of images. -/
def unmetContext : AdaptiveRenderContext :=
  { sampleContext with
    meetsRequirements := fun e => (S_OK, decide (e.get_ElementTypeString ≠ "Image")) }

/-- An image whose fallback content is a text block. -/
def sampleImageToText : CardElement :=
  .mk { elementTypeString := "Image", id := "", spacing := Spacing.None, separator := false,
        height := HeightType.Auto, isVisible := true, columnWidth := none }
    (Fallback.Content sampleText)

/-- An element of a type without renderer, with no fallback, whose type name
holds a NUL character: "Gra", NUL, "ph". -/
def sampleNulNamed : CardElement :=
  .mk { elementTypeString := "Gra" ++ String.singleton (Char.ofNat 0) ++ "ph", id := "",
        spacing := Spacing.None, separator := false, height := HeightType.Auto, isVisible := true,
        columnWidth := none } Fallback.None

/-- What the lambda of `BuildPanelChildren` (XamlBuilder.cpp:713-763) comes to
for one element, the store left aside: the code it returns and the control it
has in `newControl` at `if (newControl != nullptr)` (XamlBuilder.cpp:751), null
when it returns before that line.  The steps are those of
`BuildPanelChildren.renderElement`; with a control the lambda goes on to
`AddSeparatorIfNeeded` and `AddRenderedControl`, which attach a node. -/
def BuildPanelChildren.elementOutcome (ancestorHasFallback : Bool)
    (renderContext : AdaptiveRenderContext) (renderArgs : AdaptiveRenderArgs)
    (element : CardElement) : HRESULT × Option UIElement :=
  let elementHasFallback := decide (element.get_FallbackType ≠ FallbackType.None)
  let renderArgs := renderArgs.put_AncestorHasFallback (elementHasFallback || ancestorHasFallback)
  let requirements := renderContext.meetsRequirements element
  if FAILED requirements.1 then (requirements.1, none)
  else
    let hr := if requirements.2 then S_OK else E_PERFORM_FALLBACK
    let lookup := renderContext.elementRenderers element.get_ElementTypeString
    if FAILED lookup.1 then (lookup.1, none)
    else
      let rendered := BuildPanelChildren.render lookup.2 hr element renderArgs
      let fallback := BuildPanelChildren.fallback lookup.2 rendered element
        (renderContext.addWarnings rendered.warnings) renderArgs
      if FAILED fallback.hr then (fallback.hr, none)
      else (rendered.hr, fallback.result)

/-- Modelled from the spec, as `IterateOverVectorWithFailure` is: the elements
of a sequence that the lambda of `BuildPanelChildren` is run on, which are
those up to and including the first for which it returns a failure. -/
def BuildPanelChildren.visited (ancestorHasFallback : Bool) (renderContext : AdaptiveRenderContext)
    (renderArgs : AdaptiveRenderArgs) : List CardElement → List CardElement
  | [] => []
  | element :: rest =>
    if FAILED (BuildPanelChildren.elementOutcome ancestorHasFallback renderContext renderArgs
        element).1 then [element]
    else element :: BuildPanelChildren.visited ancestorHasFallback renderContext renderArgs rest

/-- The elements of a sequence that produce a node: those the lambda of
`BuildPanelChildren` is run on and has a control for. -/
def BuildPanelChildren.nodeElements (ancestorHasFallback : Bool)
    (renderContext : AdaptiveRenderContext) (renderArgs : AdaptiveRenderArgs)
    (children : List CardElement) : List CardElement :=
  (BuildPanelChildren.visited ancestorHasFallback renderContext renderArgs children).filter
    (fun element =>
      (BuildPanelChildren.elementOutcome ancestorHasFallback renderContext renderArgs
        element).2.isSome)

end XamlBuilder

/-! # Theorems -/

namespace AdaptiveNamespace.XamlState

theorem get_Tag_put_Visibility (xaml : XamlState) (s p : Nat) (v : Visibility) :
    (xaml.put_Visibility s v).get_Tag p = xaml.get_Tag p := by
  unfold put_Visibility
  cases h : xaml.elements[s]? with
  | none => rfl
  | some e =>
    simp only [get_Tag, List.getElem?_set]
    by_cases hp : s = p
    · subst hp
      have hlt : s < xaml.elements.length := by
        rcases List.getElem?_eq_some_iff.mp h with ⟨hl, _⟩
        exact hl
      simp [hlt, h]
    · simp [hp]

theorem get_Visibility_put_Visibility_ne (xaml : XamlState) (s p : Nat) (v : Visibility)
    (hp : p ≠ s) : (xaml.put_Visibility s v).get_Visibility p = xaml.get_Visibility p := by
  unfold put_Visibility
  cases h : xaml.elements[s]? with
  | none => rfl
  | some e =>
    simp only [get_Visibility, List.getElem?_set]
    simp [Ne.symm hp]

theorem get_Visibility_put_Visibility_self (xaml : XamlState) (s : Nat) (v : Visibility)
    (hs : s < xaml.elements.length) : (xaml.put_Visibility s v).get_Visibility s = some v := by
  unfold put_Visibility
  cases h : xaml.elements[s]? with
  | none =>
    have := List.getElem?_eq_none_iff.mp h
    omega
  | some e =>
    simp [get_Visibility, List.getElem?_set, hs]

theorem get_Children_put_Visibility (xaml : XamlState) (s p : Nat) (v : Visibility) :
    (xaml.put_Visibility s v).get_Children p = xaml.get_Children p := by
  unfold put_Visibility
  cases h : xaml.elements[s]? with
  | none => rfl
  | some e =>
    simp only [get_Children, List.getElem?_set]
    by_cases hp : s = p
    · subst hp
      have hlt : s < xaml.elements.length := by
        rcases List.getElem?_eq_some_iff.mp h with ⟨hl, _⟩
        exact hl
      simp [hlt, h]
    · simp [hp]

theorem length_put_Visibility (xaml : XamlState) (s : Nat) (v : Visibility) :
    (xaml.put_Visibility s v).elements.length = xaml.elements.length := by
  unfold put_Visibility
  cases h : xaml.elements[s]? with
  | none => rfl
  | some e => simp

end AdaptiveNamespace.XamlState

namespace XamlBuilder
open AdaptiveNamespace

theorem visit_snd (x : XamlState) (f : Bool) (c : Nat) :
    (SetSeparatorVisibility.visit (x, f) c).2 = (f || isVisibleElement x c) := by
  unfold SetSeparatorVisibility.visit isVisibleElement XamlState.get_Tag XamlState.get_Visibility
  cases h : x.elements[c]? with
  | none => simp
  | some e =>
    cases ht : e.tag with
    | none => simp [ht]
    | some t => simp [ht]

theorem visit_fst_of_separator_none (x : XamlState) (f : Bool) (c : Nat)
    (h : separatorOf x c = none) : (SetSeparatorVisibility.visit (x, f) c).1 = x := by
  unfold separatorOf XamlState.get_Tag at h
  unfold SetSeparatorVisibility.visit
  cases he : x.elements[c]? with
  | none => simp
  | some e =>
    cases ht : e.tag with
    | none => simp [ht]
    | some t =>
      simp [he, ht] at h
      simp [ht, h]

theorem visit_fst_of_separator_some (x : XamlState) (f : Bool) (c s : Nat) (t : ElementTagContent)
    (htag : x.get_Tag c = some t) (hsep : t.separator = some s) :
    (SetSeparatorVisibility.visit (x, f) c).1 =
      x.put_Visibility s
        (if !t.expectedVisibility || !f then Visibility.Collapsed else Visibility.Visible) := by
  unfold XamlState.get_Tag at htag
  unfold SetSeparatorVisibility.visit
  cases he : x.elements[c]? with
  | none => simp [he] at htag
  | some e =>
    simp [he] at htag
    simp only [htag, hsep]
    split <;> rfl

theorem visit_fst_cases (x : XamlState) (f : Bool) (c : Nat) :
    (SetSeparatorVisibility.visit (x, f) c).1 = x ∨
      ∃ s v, separatorOf x c = some s ∧ (SetSeparatorVisibility.visit (x, f) c).1 = x.put_Visibility s v := by
  cases hs : separatorOf x c with
  | none => exact Or.inl (visit_fst_of_separator_none x f c hs)
  | some s =>
    right
    unfold separatorOf at hs
    cases ht : x.get_Tag c with
    | none => simp [ht] at hs
    | some t =>
      simp [ht] at hs
      exact ⟨s, _, rfl, visit_fst_of_separator_some x f c s t ht hs⟩

end XamlBuilder

namespace XamlBuilder
open AdaptiveNamespace

theorem visit_get_Tag (x : XamlState) (f : Bool) (c p : Nat) :
    (SetSeparatorVisibility.visit (x, f) c).1.get_Tag p = x.get_Tag p := by
  rcases visit_fst_cases x f c with h | ⟨s, v, _, h⟩
  · rw [h]
  · rw [h, XamlState.get_Tag_put_Visibility]

theorem visit_length (x : XamlState) (f : Bool) (c : Nat) :
    (SetSeparatorVisibility.visit (x, f) c).1.elements.length = x.elements.length := by
  rcases visit_fst_cases x f c with h | ⟨s, v, _, h⟩
  · rw [h]
  · rw [h, XamlState.length_put_Visibility]

theorem visit_get_Children (x : XamlState) (f : Bool) (c p : Nat) :
    (SetSeparatorVisibility.visit (x, f) c).1.get_Children p = x.get_Children p := by
  rcases visit_fst_cases x f c with h | ⟨s, v, _, h⟩
  · rw [h]
  · rw [h, XamlState.get_Children_put_Visibility]

theorem visit_columnDefinitions (x : XamlState) (f : Bool) (c : Nat) :
    (SetSeparatorVisibility.visit (x, f) c).1.columnDefinitions = x.columnDefinitions := by
  rcases visit_fst_cases x f c with h | ⟨s, v, _, h⟩
  · rw [h]
  · rw [h]
    unfold XamlState.put_Visibility
    cases x.elements[s]? <;> rfl

theorem visit_separatorOf (x : XamlState) (f : Bool) (c p : Nat) :
    separatorOf (SetSeparatorVisibility.visit (x, f) c).1 p = separatorOf x p := by
  unfold separatorOf
  rw [visit_get_Tag]

theorem visit_get_Visibility_of_ne (x : XamlState) (f : Bool) (c p : Nat)
    (h : separatorOf x c ≠ some p) :
    (SetSeparatorVisibility.visit (x, f) c).1.get_Visibility p = x.get_Visibility p := by
  rcases visit_fst_cases x f c with h1 | ⟨s, v, hs, h1⟩
  · rw [h1]
  · rw [h1]
    apply XamlState.get_Visibility_put_Visibility_ne
    intro hp
    apply h
    rw [hs, hp]

theorem visit_isVisibleElement (x : XamlState) (f : Bool) (c p : Nat)
    (h : ∀ s, separatorOf x c = some s → x.get_Tag s = none) :
    isVisibleElement (SetSeparatorVisibility.visit (x, f) c).1 p = isVisibleElement x p := by
  unfold isVisibleElement
  rw [visit_get_Tag]
  by_cases hp : separatorOf x c = some p
  · rw [h p hp]
    rfl
  · rw [visit_get_Visibility_of_ne x f c p hp]

theorem separatorsUntagged_cons (x : XamlState) (c : Nat) (cs : List Nat) :
    separatorsUntagged x (c :: cs) = true ↔
      (∀ s, separatorOf x c = some s → s < x.elements.length ∧ x.get_Tag s = none) ∧
        separatorsUntagged x cs = true := by
  unfold separatorsUntagged
  simp only [List.all_cons, Bool.and_eq_true]
  constructor
  · rintro ⟨h1, h2⟩
    refine ⟨?_, h2⟩
    intro s hs
    rw [hs] at h1
    simpa using h1
  · rintro ⟨h1, h2⟩
    refine ⟨?_, h2⟩
    cases hs : separatorOf x c with
    | none => rfl
    | some s =>
      have := h1 s hs
      simpa using this

theorem separatorsUntagged_congr (x y : XamlState) (cs : List Nat)
    (hlen : y.elements.length = x.elements.length) (htag : ∀ p, y.get_Tag p = x.get_Tag p) :
    separatorsUntagged y cs = separatorsUntagged x cs := by
  unfold separatorsUntagged separatorOf
  simp only [htag, hlen]

theorem separatorOf_congr (x y : XamlState) (htag : ∀ p, y.get_Tag p = x.get_Tag p) :
    separatorOf y = separatorOf x := by
  funext p
  unfold separatorOf
  rw [htag]

/-- The scan over `cs` from the state `(x, f)`. -/
theorem scan_cons (x : XamlState) (f : Bool) (c : Nat) (cs : List Nat) :
    IterateOverVector (c :: cs) SetSeparatorVisibility.visit (x, f) =
      IterateOverVector cs SetSeparatorVisibility.visit (SetSeparatorVisibility.visit (x, f) c) := rfl

theorem scan_get_Tag (cs : List Nat) : ∀ (x : XamlState) (f : Bool) (p : Nat),
    (IterateOverVector cs SetSeparatorVisibility.visit (x, f)).1.get_Tag p = x.get_Tag p := by
  induction cs with
  | nil => intro x f p; rfl
  | cons c cs ih =>
    intro x f p
    rw [scan_cons]
    have := ih (SetSeparatorVisibility.visit (x, f) c).1 (SetSeparatorVisibility.visit (x, f) c).2 p
    rw [this, visit_get_Tag]

theorem scan_length (cs : List Nat) : ∀ (x : XamlState) (f : Bool),
    (IterateOverVector cs SetSeparatorVisibility.visit (x, f)).1.elements.length = x.elements.length := by
  induction cs with
  | nil => intro x f; rfl
  | cons c cs ih =>
    intro x f
    rw [scan_cons]
    have := ih (SetSeparatorVisibility.visit (x, f) c).1 (SetSeparatorVisibility.visit (x, f) c).2
    rw [this, visit_length]

theorem scan_get_Children (cs : List Nat) : ∀ (x : XamlState) (f : Bool) (p : Nat),
    (IterateOverVector cs SetSeparatorVisibility.visit (x, f)).1.get_Children p = x.get_Children p := by
  induction cs with
  | nil => intro x f p; rfl
  | cons c cs ih =>
    intro x f p
    rw [scan_cons]
    have := ih (SetSeparatorVisibility.visit (x, f) c).1 (SetSeparatorVisibility.visit (x, f) c).2 p
    rw [this, visit_get_Children]

theorem scan_columnDefinitions (cs : List Nat) : ∀ (x : XamlState) (f : Bool),
    (IterateOverVector cs SetSeparatorVisibility.visit (x, f)).1.columnDefinitions = x.columnDefinitions := by
  induction cs with
  | nil => intro x f; rfl
  | cons c cs ih =>
    intro x f
    rw [scan_cons]
    have := ih (SetSeparatorVisibility.visit (x, f) c).1 (SetSeparatorVisibility.visit (x, f) c).2
    rw [this, visit_columnDefinitions]

/-- A node that is the separator of none of the scanned children keeps its
visibility. -/
theorem scan_get_Visibility_of_not_mem (cs : List Nat) : ∀ (x : XamlState) (f : Bool) (p : Nat),
    p ∉ cs.filterMap (separatorOf x) →
    (IterateOverVector cs SetSeparatorVisibility.visit (x, f)).1.get_Visibility p = x.get_Visibility p := by
  induction cs with
  | nil => intro x f p _; rfl
  | cons c cs ih =>
    intro x f p hp
    rw [scan_cons]
    have hc : separatorOf x c ≠ some p := by
      intro h
      apply hp
      simp [List.filterMap_cons, h]
    have hrest : p ∉ cs.filterMap (separatorOf x) := by
      intro h
      apply hp
      rw [List.filterMap_cons]
      cases separatorOf x c with
      | none => exact h
      | some s => exact List.mem_cons_of_mem _ h
    have hEq : separatorOf (SetSeparatorVisibility.visit (x, f) c).1 = separatorOf x :=
      separatorOf_congr _ _ (visit_get_Tag x f c)
    have := ih (SetSeparatorVisibility.visit (x, f) c).1 (SetSeparatorVisibility.visit (x, f) c).2 p
      (by rw [hEq]; exact hrest)
    rw [this, visit_get_Visibility_of_ne x f c p hc]

end XamlBuilder

namespace XamlBuilder
open AdaptiveNamespace

theorem visit_preserves_hyps (x : XamlState) (f : Bool) (c : Nat) (cs : List Nat)
    (h : separatorsUntagged x (c :: cs) = true) :
    separatorsUntagged (SetSeparatorVisibility.visit (x, f) c).1 cs = true ∧
      separatorOf (SetSeparatorVisibility.visit (x, f) c).1 = separatorOf x ∧
      isVisibleElement (SetSeparatorVisibility.visit (x, f) c).1 = isVisibleElement x := by
  rcases (separatorsUntagged_cons x c cs).mp h with ⟨hc, hcs⟩
  refine ⟨?_, separatorOf_congr _ _ (visit_get_Tag x f c), ?_⟩
  · rw [separatorsUntagged_congr x _ cs (visit_length x f c) (visit_get_Tag x f c)]
    exact hcs
  · funext p
    exact visit_isVisibleElement x f c p (fun s hs => (hc s hs).2)

/-- The flag after the scan of `cs` from `(x, f)`. -/
theorem scan_flag (cs : List Nat) : ∀ (x : XamlState) (f : Bool),
    separatorsUntagged x cs = true →
    (IterateOverVector cs SetSeparatorVisibility.visit (x, f)).2 = (f || cs.any (isVisibleElement x)) := by
  induction cs with
  | nil => intro x f _; simp [IterateOverVector]
  | cons c cs ih =>
    intro x f h
    rcases visit_preserves_hyps x f c cs h with ⟨h1, _, h3⟩
    rw [scan_cons]
    have := ih (SetSeparatorVisibility.visit (x, f) c).1 (SetSeparatorVisibility.visit (x, f) c).2 h1
    rw [this, h3, visit_snd, List.any_cons, Bool.or_assoc]

/-- The visibility a separator has after the scan of `cs` from `(x, f)`. -/
theorem scan_separator (cs : List Nat) : ∀ (x : XamlState) (f : Bool) (i c s : Nat)
    (t : ElementTagContent),
    separatorsUntagged x cs = true → separatorsDistinct x cs →
    cs[i]? = some c → x.get_Tag c = some t → t.separator = some s →
    (IterateOverVector cs SetSeparatorVisibility.visit (x, f)).1.get_Visibility s =
      some (if !t.expectedVisibility || !(f || (cs.take i).any (isVisibleElement x))
        then Visibility.Collapsed else Visibility.Visible) := by
  induction cs with
  | nil => intro x f i c s t _ _ hi; simp at hi
  | cons c0 cs ih =>
    intro x f i c s t hU hD hi htag hsep
    rcases visit_preserves_hyps x f c0 cs hU with ⟨h1, h2, h3⟩
    rcases (separatorsUntagged_cons x c0 cs).mp hU with ⟨hc0, _⟩
    have hsepOf : separatorOf x c = some s := by
      unfold separatorOf
      rw [htag]
      exact hsep
    rw [scan_cons]
    cases i with
    | zero =>
      simp at hi
      subst hi
      have hnot : s ∉ cs.filterMap (separatorOf x) := by
        unfold separatorsDistinct at hD
        rw [List.filterMap_cons, hsepOf] at hD
        exact (List.nodup_cons.mp hD).1
      rw [scan_get_Visibility_of_not_mem cs _ _ s (by rw [h2]; exact hnot)]
      rw [visit_fst_of_separator_some x f c0 s t htag hsep]
      rw [XamlState.get_Visibility_put_Visibility_self _ _ _ (hc0 s hsepOf).1]
      simp
    | succ k =>
      simp at hi
      have hD2 : separatorsDistinct (SetSeparatorVisibility.visit (x, f) c0).1 cs := by
        unfold separatorsDistinct at hD ⊢
        rw [h2]
        rw [List.filterMap_cons] at hD
        cases hs0 : separatorOf x c0 with
        | none => rw [hs0] at hD; exact hD
        | some s0 => rw [hs0] at hD; exact (List.nodup_cons.mp hD).2
      have htag2 : (SetSeparatorVisibility.visit (x, f) c0).1.get_Tag c = some t := by
        rw [visit_get_Tag]; exact htag
      have := ih (SetSeparatorVisibility.visit (x, f) c0).1 (SetSeparatorVisibility.visit (x, f) c0).2
        k c s t h1 hD2 hi htag2 hsep
      rw [this, h3, visit_snd, List.take_succ_cons, List.any_cons, Bool.or_assoc]

end XamlBuilder

namespace XamlBuilder
open AdaptiveNamespace

theorem separatorsUntagged_take (x : XamlState) (cs : List Nat) (i : Nat)
    (h : separatorsUntagged x cs = true) : separatorsUntagged x (cs.take i) = true := by
  unfold separatorsUntagged at h ⊢
  rw [List.all_eq_true] at h ⊢
  intro c hc
  exact h c (List.mem_of_mem_take hc)

theorem foundVisibleBefore_succ (x : XamlState) (cs : List Nat) (i c : Nat) (h : cs[i]? = some c) :
    foundVisibleBefore x cs (i + 1) = (foundVisibleBefore x cs i || isVisibleElement x c) := by
  unfold foundVisibleBefore
  rw [List.take_succ, h]
  simp

theorem foundVisibleBefore_eq_false (x : XamlState) (cs : List Nat) (i : Nat)
    (h : ∀ j c, j < i → cs[j]? = some c → isVisibleElement x c = false) :
    foundVisibleBefore x cs i = false := by
  unfold foundVisibleBefore
  rw [List.any_eq_false]
  intro c hc
  rcases List.getElem_of_mem hc with ⟨j, hj, hjc⟩
  have hj2 : j < i := by
    have := hj
    simp at this
    exact this.1
  have hget : cs[j]? = some c := by
    rw [List.getElem_take] at hjc
    rw [← hjc]
    rw [List.getElem?_eq_getElem]
  simp [h j c hj2 hget]

theorem foundVisibleBefore_eq_true (x : XamlState) (cs : List Nat) (i j c : Nat) (hj : j < i)
    (hc : cs[j]? = some c) (hv : isVisibleElement x c = true) :
    foundVisibleBefore x cs i = true := by
  unfold foundVisibleBefore
  rw [List.any_eq_true]
  refine ⟨c, ?_, hv⟩
  rw [List.mem_iff_getElem?]
  refine ⟨j, ?_⟩
  rw [List.getElem?_take]
  simp [hj, hc]

/-- C1. `SetSeparatorVisibility` on a panel whose separators carry no tag and
are held by one child each: it succeeds; when the scan reaches position `i` the
flag is `foundVisibleBefore`, which starts false and after each child is true
iff it was true already or the child is tagged and literally `Visible` (the
expected visibility plays no part, an untagged child leaves it as it is); the
separator held by the tag of the child at position `i` ends `Collapsed` if the
expected visibility of that child is false or the flag is still false there,
and `Visible` otherwise; tags, child lists and the visibility of every node
that is not such a separator are left as they were. -/
theorem SetSeparatorVisibility_scan (xaml : XamlState) (parentPanel : Nat)
    (hU : separatorsUntagged xaml (xaml.get_Children parentPanel) = true)
    (hD : separatorsDistinct xaml (xaml.get_Children parentPanel)) :
    (SetSeparatorVisibility xaml parentPanel).1 = S_OK ∧
    foundVisibleBefore xaml (xaml.get_Children parentPanel) 0 = false ∧
    (∀ i child, (xaml.get_Children parentPanel)[i]? = some child →
      foundVisibleBefore xaml (xaml.get_Children parentPanel) (i + 1) =
        (foundVisibleBefore xaml (xaml.get_Children parentPanel) i ||
          ((xaml.get_Tag child).isSome && decide (xaml.get_Visibility child = some Visibility.Visible)))) ∧
    (∀ i, (IterateOverVector ((xaml.get_Children parentPanel).take i) SetSeparatorVisibility.visit
        (xaml, false)).2 = foundVisibleBefore xaml (xaml.get_Children parentPanel) i) ∧
    (∀ i child t sep, (xaml.get_Children parentPanel)[i]? = some child →
      xaml.get_Tag child = some t → t.separator = some sep →
      (SetSeparatorVisibility xaml parentPanel).2.get_Visibility sep =
        some (if !t.expectedVisibility || !foundVisibleBefore xaml (xaml.get_Children parentPanel) i
          then Visibility.Collapsed else Visibility.Visible)) ∧
    (∀ p, (SetSeparatorVisibility xaml parentPanel).2.get_Tag p = xaml.get_Tag p) ∧
    (∀ p, (SetSeparatorVisibility xaml parentPanel).2.get_Children p = xaml.get_Children p) ∧
    (∀ p, p ∉ (xaml.get_Children parentPanel).filterMap (separatorOf xaml) →
      (SetSeparatorVisibility xaml parentPanel).2.get_Visibility p = xaml.get_Visibility p) := by
  refine ⟨rfl, rfl, ?_, ?_, ?_, ?_, ?_, ?_⟩
  · intro i child h
    exact foundVisibleBefore_succ xaml _ i child h
  · intro i
    rw [scan_flag _ xaml false (separatorsUntagged_take xaml _ i hU)]
    simp [foundVisibleBefore]
  · intro i child t sep hi ht hs
    have := scan_separator _ xaml false i child sep t hU hD hi ht hs
    simpa [SetSeparatorVisibility, foundVisibleBefore] using this
  · intro p
    exact scan_get_Tag _ xaml false p
  · intro p
    exact scan_get_Children _ xaml false p
  · intro p hp
    exact scan_get_Visibility_of_not_mem _ xaml false p hp

end XamlBuilder

namespace XamlBuilder
open AdaptiveNamespace

/-- Witness of C1 on the panel with the loading image: the separator of the
image, at position 2 of the children, ends `Visible`. -/
theorem SetSeparatorVisibility_scan_witness :
    separatorsUntagged loadingImagePanel (loadingImagePanel.get_Children 0) = true ∧
    separatorsDistinct loadingImagePanel (loadingImagePanel.get_Children 0) ∧
    (SetSeparatorVisibility loadingImagePanel 0).2.get_Visibility 2 = some Visibility.Visible :=
  ⟨by decide, by decide,
    (SetSeparatorVisibility_scan loadingImagePanel 0 (by decide) (by decide)).2.2.2.2.1 2 3
      { cardElement := sampleImage, parentPanel := 0, separator := some 2,
        columnDefinition := none, expectedVisibility := true } 2 rfl rfl rfl⟩

/-- C2, counterexample.  `BuildPanelChildren` builds a text block and an image
that is still loading into an empty panel and succeeds.  In the panel it
leaves, the child at 3 is tagged, its literal visibility is `Collapsed`, its
expected visibility is true and its tag holds the separator at 2; that
separator is `Visible`, and it stays so, with the child still `Collapsed`,
after a further `SetSeparatorVisibility`. -/
theorem SetSeparatorVisibility_loading_image_separator_visible :
    (BuildPanelChildren [sampleText, sampleImage] 0 emptyPanel loadingContext topLevelArgs).hr = S_OK ∧
    loadingImagePanel.get_Children 0 = [1, 2, 3] ∧
    separatorOf loadingImagePanel 3 = some 2 ∧
    (loadingImagePanel.get_Tag 3).map (fun t => t.expectedVisibility) = some true ∧
    loadingImagePanel.get_Visibility 3 = some Visibility.Collapsed ∧
    loadingImagePanel.get_Visibility 2 = some Visibility.Visible ∧
    (SetSeparatorVisibility loadingImagePanel 0).2.get_Visibility 3 = some Visibility.Collapsed ∧
    (SetSeparatorVisibility loadingImagePanel 0).2.get_Visibility 2 = some Visibility.Visible := by
  decide

/-- C2, amended.  After `SetSeparatorVisibility` on a panel whose separators
carry no tag and are held by one child each: the separator held by the tag of
a child whose expected visibility is false is `Collapsed`; the separator held
by the tag of a child that is literally `Collapsed` while its expected
visibility is true is `Visible` if an earlier tagged child is literally
`Visible`, and `Collapsed` if none is. -/
theorem SetSeparatorVisibility_hidden_separator (xaml : XamlState) (parentPanel : Nat)
    (hU : separatorsUntagged xaml (xaml.get_Children parentPanel) = true)
    (hD : separatorsDistinct xaml (xaml.get_Children parentPanel)) :
    (∀ (i : Nat) child t sep, (xaml.get_Children parentPanel)[i]? = some child →
      xaml.get_Tag child = some t → t.separator = some sep → t.expectedVisibility = false →
      (SetSeparatorVisibility xaml parentPanel).2.get_Visibility sep = some Visibility.Collapsed) ∧
    (∀ i child t sep, (xaml.get_Children parentPanel)[i]? = some child →
      xaml.get_Tag child = some t → t.separator = some sep →
      xaml.get_Visibility child = some Visibility.Collapsed → t.expectedVisibility = true →
      (SetSeparatorVisibility xaml parentPanel).2.get_Visibility sep =
        some (if foundVisibleBefore xaml (xaml.get_Children parentPanel) i
          then Visibility.Visible else Visibility.Collapsed)) := by
  constructor
  · intro i child t sep hi ht hs he
    have := scan_separator _ xaml false i child sep t hU hD hi ht hs
    simpa [SetSeparatorVisibility, he] using this
  · intro i child t sep hi ht hs _ he
    have := scan_separator _ xaml false i child sep t hU hD hi ht hs
    rw [he] at this
    simp only [SetSeparatorVisibility, this, foundVisibleBefore]
    rcases Bool.eq_false_or_eq_true
      ((List.take i (xaml.get_Children parentPanel)).any (isVisibleElement xaml)) with hb | hb <;>
      simp [hb]

/-- Witness of C2 (amended) on the panel whose image has been hidden: the
separator of the image ends `Collapsed`. -/
theorem SetSeparatorVisibility_hidden_separator_witness :
    separatorsUntagged hiddenImagePanel (hiddenImagePanel.get_Children 0) = true ∧
    separatorsDistinct hiddenImagePanel (hiddenImagePanel.get_Children 0) ∧
    (SetSeparatorVisibility hiddenImagePanel 0).2.get_Visibility 2 = some Visibility.Collapsed :=
  ⟨by decide, by decide,
    (SetSeparatorVisibility_hidden_separator hiddenImagePanel 0 (by decide) (by decide)).1 2 3
      { cardElement := sampleImage, parentPanel := 0, separator := some 2,
        columnDefinition := none, expectedVisibility := false } 2 rfl rfl rfl rfl⟩

/-- C3. After `SetSeparatorVisibility` on a panel whose separators carry no
tag and are held by one child each, the separator held by the tag of a child
at position `i` is `Collapsed` whenever no tagged child at an earlier position
is literally `Visible`: that is every tagged child up to and including the
first literally `Visible` one, and every tagged child when none is `Visible`. -/
theorem SetSeparatorVisibility_leading_run (xaml : XamlState) (parentPanel : Nat)
    (hU : separatorsUntagged xaml (xaml.get_Children parentPanel) = true)
    (hD : separatorsDistinct xaml (xaml.get_Children parentPanel))
    (i child sep : Nat) (t : ElementTagContent)
    (hi : (xaml.get_Children parentPanel)[i]? = some child)
    (ht : xaml.get_Tag child = some t) (hs : t.separator = some sep)
    (hrun : ∀ j c, j < i → (xaml.get_Children parentPanel)[j]? = some c →
      isVisibleElement xaml c = false) :
    (SetSeparatorVisibility xaml parentPanel).2.get_Visibility sep = some Visibility.Collapsed := by
  have h0 := foundVisibleBefore_eq_false xaml _ i hrun
  have := scan_separator _ xaml false i child sep t hU hD hi ht hs
  unfold foundVisibleBefore at h0
  simpa [SetSeparatorVisibility, h0] using this

/-- Witness of C3 on the panel whose first element is hidden: the image at
position 2 is the first literally `Visible` tagged child, and its separator
ends `Collapsed`. -/
theorem SetSeparatorVisibility_leading_run_witness :
    isVisibleElement hiddenFirstPanel 1 = false ∧ isVisibleElement hiddenFirstPanel 2 = false ∧
    isVisibleElement hiddenFirstPanel 3 = true ∧
    (SetSeparatorVisibility hiddenFirstPanel 0).2.get_Visibility 2 = some Visibility.Collapsed :=
  ⟨by decide, by decide, by decide,
    SetSeparatorVisibility_leading_run hiddenFirstPanel 0 (by decide) (by decide) 2 3 2
      { cardElement := sampleImage, parentPanel := 0, separator := some 2,
        columnDefinition := none, expectedVisibility := true } rfl rfl rfl
      (by
        intro j c hj hc
        have hcases : j = 0 ∨ j = 1 := by omega
        rcases hcases with h | h
        · subst h
          have : c = 1 := by simpa [hiddenFirstPanel, XamlState.get_Children] using hc.symm
          subst this
          decide
        · subst h
          have : c = 2 := by simpa [hiddenFirstPanel, XamlState.get_Children] using hc.symm
          subst this
          decide)⟩

end XamlBuilder

namespace AdaptiveNamespace

theorem AppendXamlElementToPanel_snd (xaml : XamlState) (e : UIElement) (panel : Nat) :
    (AppendXamlElementToPanel xaml e panel).2 = xaml.elements.length := by
  unfold AppendXamlElementToPanel
  cases xaml.elements[panel]? <;> rfl

theorem AppendXamlElementToPanel_length (xaml : XamlState) (e : UIElement) (panel : Nat) :
    (AppendXamlElementToPanel xaml e panel).1.elements.length = xaml.elements.length + 1 := by
  unfold AppendXamlElementToPanel
  cases xaml.elements[panel]? <;> simp

theorem AppendXamlElementToPanel_columnDefinitions (xaml : XamlState) (e : UIElement) (panel : Nat) :
    (AppendXamlElementToPanel xaml e panel).1.columnDefinitions = xaml.columnDefinitions := by
  unfold AppendXamlElementToPanel
  cases xaml.elements[panel]? <;> rfl

/-- The objects of the store after an append: the panel has one more child,
the new object is at the end, every other object is as it was. -/
theorem AppendXamlElementToPanel_getElem? (xaml : XamlState) (e : UIElement) (panel p : Nat) :
    (AppendXamlElementToPanel xaml e panel).1.elements[p]? =
      if p = xaml.elements.length then some e
      else if p = panel then
        (xaml.elements[p]?).map (fun o => { o with children := o.children ++ [xaml.elements.length] })
      else xaml.elements[p]? := by
  unfold AppendXamlElementToPanel
  cases h : xaml.elements[panel]? with
  | none =>
    have hlen : xaml.elements.length ≤ panel := List.getElem?_eq_none_iff.mp h
    by_cases hp : p = xaml.elements.length
    · subst hp
      simp
    · simp only [hp, if_false]
      by_cases hpp : p = panel
      · subst hpp
        have : (xaml.elements ++ [e])[p]? = none := by
          rw [List.getElem?_eq_none_iff]
          simp
          omega
        simp [this, h]
      · simp only [hpp, if_false]
        by_cases hlt : p < xaml.elements.length
        · rw [List.getElem?_append_left hlt]
        · have h1 : (xaml.elements ++ [e])[p]? = none := by
            rw [List.getElem?_eq_none_iff]
            simp
            omega
          have h2 : xaml.elements[p]? = none := by
            rw [List.getElem?_eq_none_iff]
            omega
          rw [h1, h2]
  | some o =>
    have hlen : panel < xaml.elements.length := (List.getElem?_eq_some_iff.mp h).1
    simp only [List.getElem?_set]
    by_cases hp : p = xaml.elements.length
    · subst hp
      have : panel ≠ xaml.elements.length := by omega
      simp [this]
    · simp only [hp, if_false]
      by_cases hpp : p = panel
      · subst hpp
        simp [h]
        omega
      · have hpp2 : ¬ panel = p := fun hh => hpp hh.symm
        simp only [hpp, hpp2, if_false]
        by_cases hlt : p < xaml.elements.length
        · rw [List.getElem?_append_left hlt]
        · have h1 : (xaml.elements ++ [e])[p]? = none := by
            rw [List.getElem?_eq_none_iff]
            simp
            omega
          have h2 : xaml.elements[p]? = none := by
            rw [List.getElem?_eq_none_iff]
            omega
          rw [h1, h2]

theorem AppendXamlElementToPanel_get_Tag_old (xaml : XamlState) (e : UIElement) (panel p : Nat)
    (hp : p ≠ xaml.elements.length) :
    (AppendXamlElementToPanel xaml e panel).1.get_Tag p = xaml.get_Tag p := by
  unfold XamlState.get_Tag
  rw [AppendXamlElementToPanel_getElem?]
  simp only [hp, if_false]
  by_cases hpp : p = panel
  · simp only [hpp, if_true]
    cases xaml.elements[panel]? <;> rfl
  · simp only [hpp, if_false]

theorem AppendXamlElementToPanel_get_Tag_new (xaml : XamlState) (e : UIElement) (panel : Nat) :
    (AppendXamlElementToPanel xaml e panel).1.get_Tag xaml.elements.length = e.tag := by
  unfold XamlState.get_Tag
  rw [AppendXamlElementToPanel_getElem?]
  simp

theorem AppendXamlElementToPanel_get_Visibility_old (xaml : XamlState) (e : UIElement)
    (panel p : Nat) (hp : p ≠ xaml.elements.length) :
    (AppendXamlElementToPanel xaml e panel).1.get_Visibility p = xaml.get_Visibility p := by
  unfold XamlState.get_Visibility
  rw [AppendXamlElementToPanel_getElem?]
  simp only [hp, if_false]
  by_cases hpp : p = panel
  · simp only [hpp, if_true]
    cases xaml.elements[panel]? <;> rfl
  · simp only [hpp, if_false]

theorem AppendXamlElementToPanel_get_Visibility_new (xaml : XamlState) (e : UIElement)
    (panel : Nat) :
    (AppendXamlElementToPanel xaml e panel).1.get_Visibility xaml.elements.length =
      some e.visibility := by
  unfold XamlState.get_Visibility
  rw [AppendXamlElementToPanel_getElem?]
  simp

theorem AppendXamlElementToPanel_get_Children (xaml : XamlState) (e : UIElement) (panel p : Nat) :
    (AppendXamlElementToPanel xaml e panel).1.get_Children p =
      if p = xaml.elements.length then e.children
      else if p = panel ∧ panel < xaml.elements.length then
        xaml.get_Children p ++ [xaml.elements.length]
      else xaml.get_Children p := by
  unfold XamlState.get_Children
  rw [AppendXamlElementToPanel_getElem?]
  by_cases hp : p = xaml.elements.length
  · simp [hp]
  · simp only [hp, if_false]
    by_cases hpp : p = panel
    · subst hpp
      cases h : xaml.elements[p]? with
      | none =>
        have : ¬ p < xaml.elements.length := by
          have := List.getElem?_eq_none_iff.mp h
          omega
        simp [this]
      | some o =>
        have : p < xaml.elements.length := (List.getElem?_eq_some_iff.mp h).1
        simp [this]
    · simp [hpp]

end AdaptiveNamespace

namespace XamlBuilder
open AdaptiveNamespace

/-- C6. `AddSeparatorIfNeeded` adds one to the counter on every call whose
counter is an `int` below `INT_MAX` (every call that `currentElement++` does
not overflow).  With a counter of 0 (or less) on entry it creates no separator
and leaves the store as it is.  With a counter above 0 it decides by
`needsSeparator`, which `GetSeparationConfigForElement` computes as the
separator flag of the element OR its spacing not being `Spacing::None`: if
that holds, one new untagged object is created, returned as the added
separator and appended to the children of the parent panel; if not, nothing
is created. -/
theorem AddSeparatorIfNeeded_spec (currentElement : Int) (element : CardElement)
    (hostConfig : AdaptiveHostConfig) (xaml : XamlState) (parentPanel : Nat) :
    (-2147483648 ≤ currentElement → currentElement < 2147483647 →
      (AddSeparatorIfNeeded currentElement element hostConfig xaml parentPanel).1 =
        currentElement + 1) ∧
    (GetSeparationConfigForElement element hostConfig).needsSeparator =
      (element.get_Separator || decide (element.get_Spacing ≠ Spacing.None)) ∧
    (currentElement ≤ 0 →
      (AddSeparatorIfNeeded currentElement element hostConfig xaml parentPanel).2.1 = xaml ∧
      (AddSeparatorIfNeeded currentElement element hostConfig xaml parentPanel).2.2 = none) ∧
    (currentElement > 0 → (element.get_Separator = true ∨ element.get_Spacing ≠ Spacing.None) →
      (AddSeparatorIfNeeded currentElement element hostConfig xaml parentPanel).2.2 =
        some xaml.elements.length ∧
      (AddSeparatorIfNeeded currentElement element hostConfig xaml parentPanel).2.1.elements.length =
        xaml.elements.length + 1 ∧
      (AddSeparatorIfNeeded currentElement element hostConfig xaml parentPanel).2.1.get_Tag
        xaml.elements.length = none ∧
      (∀ p, p < xaml.elements.length →
        (AddSeparatorIfNeeded currentElement element hostConfig xaml parentPanel).2.1.get_Tag p =
            xaml.get_Tag p ∧
        (AddSeparatorIfNeeded currentElement element hostConfig xaml parentPanel).2.1.get_Visibility p =
            xaml.get_Visibility p) ∧
      (parentPanel < xaml.elements.length →
        (AddSeparatorIfNeeded currentElement element hostConfig xaml parentPanel).2.1.get_Children
          parentPanel = xaml.get_Children parentPanel ++ [xaml.elements.length])) ∧
    (currentElement > 0 → ¬ (element.get_Separator = true ∨ element.get_Spacing ≠ Spacing.None) →
      (AddSeparatorIfNeeded currentElement element hostConfig xaml parentPanel).2.1 = xaml ∧
      (AddSeparatorIfNeeded currentElement element hostConfig xaml parentPanel).2.2 = none) := by
  have hneeds : (GetSeparationConfigForElement element hostConfig).needsSeparator =
      (element.get_Separator || decide (element.get_Spacing ≠ Spacing.None)) := rfl
  refine ⟨?_, hneeds, ?_, ?_, ?_⟩
  · intro _ _
    unfold AddSeparatorIfNeeded
    by_cases h0 : currentElement > 0
    · cases hn : (GetSeparationConfigForElement element hostConfig).needsSeparator <;>
        simp [h0, hn]
    · simp [h0]
  · intro h0
    have : ¬ currentElement > 0 := by omega
    unfold AddSeparatorIfNeeded
    simp [this]
  · intro h0 hn
    have hn2 : (GetSeparationConfigForElement element hostConfig).needsSeparator = true := by
      rw [hneeds]
      rcases hn with h | h
      · simp [h]
      · simp [h]
    unfold AddSeparatorIfNeeded
    simp only [h0, if_true, hn2]
    refine ⟨?_, ?_, ?_, ?_, ?_⟩
    · rw [AppendXamlElementToPanel_snd]
    · rw [AppendXamlElementToPanel_length]
    · rw [AppendXamlElementToPanel_get_Tag_new]
      rfl
    · intro p hp
      have hp2 : p ≠ xaml.elements.length := by omega
      exact ⟨AppendXamlElementToPanel_get_Tag_old _ _ _ _ hp2,
        AppendXamlElementToPanel_get_Visibility_old _ _ _ _ hp2⟩
    · intro hp
      rw [AppendXamlElementToPanel_get_Children]
      have hp2 : parentPanel ≠ xaml.elements.length := by omega
      simp [hp2, hp]
  · intro h0 hn
    have hn2 : (GetSeparationConfigForElement element hostConfig).needsSeparator = false := by
      rw [hneeds]
      simp only [not_or] at hn
      simp [hn.1, hn.2]
    unfold AddSeparatorIfNeeded
    simp [h0, hn2]

/-- Witness of C6: with the counter at 1 the element "second", which declares
a separator, gets one: the counter becomes 2 and the new object, number 1 of
the store, is appended to the panel; with the counter at 0 it gets none and
the counter becomes 1. -/
theorem AddSeparatorIfNeeded_spec_witness :
    (AddSeparatorIfNeeded 1 sampleSeparatedText sampleHostConfig emptyPanel 0).1 = 2 ∧
    (AddSeparatorIfNeeded 1 sampleSeparatedText sampleHostConfig emptyPanel 0).2.2 = some 1 ∧
    (AddSeparatorIfNeeded 1 sampleSeparatedText sampleHostConfig emptyPanel 0).2.1.get_Children 0 =
      [1] ∧
    (AddSeparatorIfNeeded 0 sampleSeparatedText sampleHostConfig emptyPanel 0).1 = 1 ∧
    (AddSeparatorIfNeeded 0 sampleSeparatedText sampleHostConfig emptyPanel 0).2.2 = none :=
  ⟨(AddSeparatorIfNeeded_spec 1 sampleSeparatedText sampleHostConfig emptyPanel 0).1
      (by decide) (by decide),
    ((AddSeparatorIfNeeded_spec 1 sampleSeparatedText sampleHostConfig emptyPanel 0).2.2.2.1
      (by decide) (Or.inl rfl)).1,
    ((AddSeparatorIfNeeded_spec 1 sampleSeparatedText sampleHostConfig emptyPanel 0).2.2.2.1
      (by decide) (Or.inl rfl)).2.2.2.2 (by decide),
    (AddSeparatorIfNeeded_spec 0 sampleSeparatedText sampleHostConfig emptyPanel 0).1
      (by decide) (by decide),
    ((AddSeparatorIfNeeded_spec 0 sampleSeparatedText sampleHostConfig emptyPanel 0).2.2.1
      (by decide)).2⟩

/-- Reading a buffer without NUL character as a NUL-terminated string gives
the whole buffer. -/
theorem c_str_of_no_NUL (buffer : String) (h : ∀ c ∈ buffer.data, c ≠ Char.ofNat 0) :
    c_str buffer = buffer := by
  unfold c_str
  have e : buffer.data.takeWhile (fun c => c != Char.ofNat 0) = buffer.data := by
    rw [List.takeWhile_eq_self_iff]
    intro c hc
    simpa using h c hc
  rw [e]

/-- What is read as a NUL-terminated string holds no NUL character. -/
theorem c_str_no_NUL (buffer : String) : ∀ c ∈ (c_str buffer).data, c ≠ Char.ofNat 0 := by
  intro c hc
  unfold c_str at hc
  have h := List.mem_takeWhile_imp hc
  simpa using h

/-- What is read as a NUL-terminated string is the start of the buffer. -/
theorem c_str_start (buffer : String) : ∃ rest, buffer = c_str buffer ++ rest := by
  refine ⟨String.mk (buffer.data.dropWhile (fun c => c != Char.ofNat 0)), ?_⟩
  unfold c_str
  apply String.ext
  simp [List.takeWhile_append_dropWhile]

/-- The message of the warning for an unknown element: the second read as a
NUL-terminated string changes nothing, as neither the literal nor what was
read from the type name holds a NUL character. -/
theorem c_str_errorString (elementType : String) :
    c_str ("No Renderer found for type: " ++ c_str elementType) =
      "No Renderer found for type: " ++ c_str elementType := by
  apply c_str_of_no_NUL
  intro c hc
  rw [String.data_append, List.mem_append] at hc
  rcases hc with hc | hc
  · intro h
    rw [h] at hc
    revert hc
    decide
  · exact c_str_no_NUL _ c hc

/-- C9, counterexample.  The element `sampleNulNamed` has no
fallback and is handled at top level, and its type name is "Gra", a NUL
character, "ph".  The one warning appended has the message
"No Renderer found for type: Gra": the type name is cut at its NUL character,
and the message is not the literal followed by the type name. -/
theorem RenderFallback_type_name_cut_at_NUL :
    sampleNulNamed.get_FallbackType = FallbackType.None ∧
    topLevelArgs.ancestorHasFallback = false ∧
    sampleNulNamed.get_ElementTypeString.length = 6 ∧
    (RenderFallback sampleNulNamed sampleContext topLevelArgs).hr = S_OK ∧
    (RenderFallback sampleNulNamed sampleContext topLevelArgs).renderContext.warnings =
      [AdaptiveWarning.warning WarningStatusCode.NoRendererForType
        "No Renderer found for type: Gra"] ∧
    (RenderFallback sampleNulNamed sampleContext topLevelArgs).renderContext.warnings ≠
      [AdaptiveWarning.warning WarningStatusCode.NoRendererForType
        ("No Renderer found for type: " ++ sampleNulNamed.get_ElementTypeString)] := by
  decide

/-- C9, amended.  `RenderFallback` on an element whose fallback type is
`None`, called while `ancestorHasFallback` is false: it returns `S_OK`, writes
no control, and appends one warning to the sink, with code `NoRendererForType`
and the message "No Renderer found for type: " followed by the type name of
the element as far as its first NUL character.  That is the whole type name
when it holds no NUL character; in any case it is the start of the type name
and holds no NUL character. -/
theorem RenderFallback_none_without_ancestor (currentElement : CardElement)
    (renderContext : AdaptiveRenderContext) (renderArgs : AdaptiveRenderArgs)
    (hfallback : currentElement.get_FallbackType = FallbackType.None)
    (hancestor : renderArgs.ancestorHasFallback = false) :
    (RenderFallback currentElement renderContext renderArgs).hr = S_OK ∧
    (RenderFallback currentElement renderContext renderArgs).result = none ∧
    (RenderFallback currentElement renderContext renderArgs).renderContext.warnings =
      renderContext.warnings ++
        [AdaptiveWarning.warning WarningStatusCode.NoRendererForType
          ("No Renderer found for type: " ++ c_str currentElement.get_ElementTypeString)] ∧
    ((∀ c ∈ currentElement.get_ElementTypeString.data, c ≠ Char.ofNat 0) →
      (RenderFallback currentElement renderContext renderArgs).renderContext.warnings =
        renderContext.warnings ++
          [AdaptiveWarning.warning WarningStatusCode.NoRendererForType
            ("No Renderer found for type: " ++ currentElement.get_ElementTypeString)]) ∧
    (∃ rest, currentElement.get_ElementTypeString =
      c_str currentElement.get_ElementTypeString ++ rest) ∧
    (∀ c ∈ (c_str currentElement.get_ElementTypeString).data, c ≠ Char.ofNat 0) := by
  cases currentElement with
  | mk properties fallback =>
    cases fallback with
    | None =>
      have e : RenderFallback (CardElement.mk properties Fallback.None) renderContext renderArgs =
          { hr := S_OK, result := none,
            renderContext :=
              renderContext.AddWarning WarningStatusCode.NoRendererForType
                ("No Renderer found for type: " ++ c_str properties.elementTypeString),
            nestedCalls := 0 } := by
        unfold RenderFallback
        simp only [hancestor, Bool.not_false, if_true, c_str_errorString]
      rw [e]
      refine ⟨rfl, rfl, rfl, ?_, c_str_start _, c_str_no_NUL _⟩
      intro h
      have h2 : c_str properties.elementTypeString = properties.elementTypeString :=
        c_str_of_no_NUL _ h
      show (renderContext.AddWarning WarningStatusCode.NoRendererForType
          ("No Renderer found for type: " ++ c_str properties.elementTypeString)).warnings = _
      rw [h2]
      rfl
    | Drop => simp [CardElement.get_FallbackType, CardElement.fallback] at hfallback
    | Content c => simp [CardElement.get_FallbackType, CardElement.fallback] at hfallback

/-- Witness of C9: the text block, which has no fallback, at top level; its
type name holds no NUL character and appears whole. -/
theorem RenderFallback_none_without_ancestor_witness :
    sampleText.get_FallbackType = FallbackType.None ∧
    topLevelArgs.ancestorHasFallback = false ∧
    (RenderFallback sampleText sampleContext topLevelArgs).hr = S_OK ∧
    (RenderFallback sampleText sampleContext topLevelArgs).renderContext.warnings =
      [AdaptiveWarning.warning WarningStatusCode.NoRendererForType
        "No Renderer found for type: TextBlock"] :=
  ⟨rfl, rfl, (RenderFallback_none_without_ancestor sampleText sampleContext topLevelArgs rfl rfl).1,
    (RenderFallback_none_without_ancestor sampleText sampleContext topLevelArgs rfl rfl).2.2.2.1
      (by decide)⟩

/-- C10. `RenderFallback` on an element with fallback content whose renderer
is found and returns a failure other than `E_PERFORM_FALLBACK`: the result is
that very code, no control is written, no nested `RenderFallback` call is
made, and the sink holds the fell-back diagnostic and what the renderer
reported, nothing from the fallback of the substitute. -/
theorem RenderFallback_content_failure (properties : ElementProperties)
    (fallbackElement : CardElement) (renderContext : AdaptiveRenderContext)
    (renderArgs : AdaptiveRenderArgs) (renderer : ElementRenderer)
    (hlookup : (renderContext.elementRenderers fallbackElement.get_ElementTypeString).2 = some renderer)
    (hfound : FAILED (renderContext.elementRenderers fallbackElement.get_ElementTypeString).1 = false)
    (hfailed : FAILED (renderer fallbackElement renderArgs).hr = true)
    (hother : (renderer fallbackElement renderArgs).hr ≠ E_PERFORM_FALLBACK) :
    (RenderFallback (.mk properties (Fallback.Content fallbackElement)) renderContext renderArgs).hr =
      (renderer fallbackElement renderArgs).hr ∧
    (RenderFallback (.mk properties (Fallback.Content fallbackElement)) renderContext renderArgs).result =
      none ∧
    (RenderFallback (.mk properties (Fallback.Content fallbackElement)) renderContext
      renderArgs).nestedCalls = 0 ∧
    (RenderFallback (.mk properties (Fallback.Content fallbackElement)) renderContext
      renderArgs).renderContext.warnings =
      renderContext.warnings ++
        [AdaptiveWarning.fallbackContent properties.elementTypeString
          fallbackElement.get_ElementTypeString] ++
        (renderer fallbackElement renderArgs).warnings := by
  unfold RenderFallback
  simp only [WarnForFallbackContentElement, hfound, hlookup, hother, hfailed, if_true, if_false,
    Bool.false_eq_true, AdaptiveRenderContext.addWarnings]
  exact ⟨trivial, trivial, trivial, trivial⟩

/-- Witness of C10: the fallback content is an image, whose renderer fails
with `E_INVALIDARG`. -/
theorem RenderFallback_content_failure_witness :
    (RenderFallback sampleFallbackToImage sampleContext topLevelArgs).hr = E_INVALIDARG ∧
    (RenderFallback sampleFallbackToImage sampleContext topLevelArgs).nestedCalls = 0 ∧
    (RenderFallback sampleFallbackToImage sampleContext topLevelArgs).renderContext.warnings =
      [AdaptiveWarning.fallbackContent "Graph" "Image"] :=
  ⟨(RenderFallback_content_failure _ sampleImage sampleContext topLevelArgs failingRenderer
      rfl rfl rfl (by decide)).1,
    (RenderFallback_content_failure _ sampleImage sampleContext topLevelArgs failingRenderer
      rfl rfl rfl (by decide)).2.2.1,
    (RenderFallback_content_failure _ sampleImage sampleContext topLevelArgs failingRenderer
      rfl rfl rfl (by decide)).2.2.2⟩

end XamlBuilder

namespace AdaptiveNamespace.XamlState

theorem set_ExpectedVisibility_of_tag (xaml : XamlState) (s : Nat) (b : Bool) (e : UIElement)
    (t : ElementTagContent) (h : xaml.elements[s]? = some e) (ht : e.tag = some t) :
    xaml.set_ExpectedVisibility s b =
      { xaml with
        elements := xaml.elements.set s { e with tag := some { t with expectedVisibility := b } } } := by
  simp only [set_ExpectedVisibility, h, ht]

theorem set_ExpectedVisibility_of_untagged (xaml : XamlState) (s : Nat) (b : Bool)
    (h : xaml.get_Tag s = none) : xaml.set_ExpectedVisibility s b = xaml := by
  unfold get_Tag at h
  cases he : xaml.elements[s]? with
  | none => simp only [set_ExpectedVisibility, he]
  | some e =>
    rw [he] at h
    have ht : e.tag = none := by simpa using h
    simp only [set_ExpectedVisibility, he, ht]

theorem set_ExpectedVisibility_cases (xaml : XamlState) (s : Nat) (b : Bool) :
    (xaml.get_Tag s = none ∧ xaml.set_ExpectedVisibility s b = xaml) ∨
    (∃ e t, xaml.elements[s]? = some e ∧ e.tag = some t ∧ s < xaml.elements.length ∧
      xaml.set_ExpectedVisibility s b =
        { xaml with
          elements := xaml.elements.set s { e with tag := some { t with expectedVisibility := b } } }) := by
  cases hg : xaml.get_Tag s with
  | none => exact Or.inl ⟨rfl, set_ExpectedVisibility_of_untagged xaml s b hg⟩
  | some t =>
    right
    unfold get_Tag at hg
    cases he : xaml.elements[s]? with
    | none => simp [he] at hg
    | some e =>
      rw [he] at hg
      have ht : e.tag = some t := by simpa using hg
      exact ⟨e, t, rfl, ht, (List.getElem?_eq_some_iff.mp he).1,
        set_ExpectedVisibility_of_tag xaml s b e t he ht⟩

theorem get_Tag_set_ExpectedVisibility (xaml : XamlState) (s p : Nat) (b : Bool) :
    (xaml.set_ExpectedVisibility s b).get_Tag p =
      if p = s then (xaml.get_Tag s).map (fun t => { t with expectedVisibility := b })
      else xaml.get_Tag p := by
  rcases set_ExpectedVisibility_cases xaml s b with ⟨hn, h⟩ | ⟨e, t, he, ht, hlt, h⟩
  · rw [h]
    by_cases hp : p = s
    · subst hp; simp [hn]
    · simp [hp]
  · rw [h]
    simp only [get_Tag, List.getElem?_set]
    by_cases hp : p = s
    · subst hp
      simp [hlt, he, ht]
    · have : ¬ s = p := fun hh => hp hh.symm
      simp [hp, this]

theorem get_Visibility_set_ExpectedVisibility (xaml : XamlState) (s p : Nat) (b : Bool) :
    (xaml.set_ExpectedVisibility s b).get_Visibility p = xaml.get_Visibility p := by
  rcases set_ExpectedVisibility_cases xaml s b with ⟨_, h⟩ | ⟨e, t, he, ht, hlt, h⟩
  · rw [h]
  · rw [h]
    simp only [get_Visibility, List.getElem?_set]
    by_cases hp : s = p
    · subst hp
      simp [hlt, he]
    · simp [hp]

theorem get_Children_set_ExpectedVisibility (xaml : XamlState) (s p : Nat) (b : Bool) :
    (xaml.set_ExpectedVisibility s b).get_Children p = xaml.get_Children p := by
  rcases set_ExpectedVisibility_cases xaml s b with ⟨_, h⟩ | ⟨e, t, he, ht, hlt, h⟩
  · rw [h]
  · rw [h]
    simp only [get_Children, List.getElem?_set]
    by_cases hp : s = p
    · subst hp
      simp [hlt, he]
    · simp [hp]

theorem length_set_ExpectedVisibility (xaml : XamlState) (s : Nat) (b : Bool) :
    (xaml.set_ExpectedVisibility s b).elements.length = xaml.elements.length := by
  rcases set_ExpectedVisibility_cases xaml s b with ⟨_, h⟩ | ⟨e, t, he, ht, hlt, h⟩
  · rw [h]
  · rw [h]
    simp

end AdaptiveNamespace.XamlState

namespace XamlBuilder
open AdaptiveNamespace

theorem separatorOf_put_Visibility (x : XamlState) (s p : Nat) (v : Visibility) :
    separatorOf (x.put_Visibility s v) p = separatorOf x p := by
  unfold separatorOf
  rw [XamlState.get_Tag_put_Visibility]

theorem separatorOf_set_ExpectedVisibility (x : XamlState) (s p : Nat) (b : Bool) :
    separatorOf (x.set_ExpectedVisibility s b) p = separatorOf x p := by
  unfold separatorOf
  rw [XamlState.get_Tag_set_ExpectedVisibility]
  by_cases hp : p = s
  · subst hp
    simp only [if_true]
    cases x.get_Tag p <;> rfl
  · simp [hp]

theorem get_Tag_set_ExpectedVisibility_eq_none (x : XamlState) (s p : Nat) (b : Bool) :
    (x.set_ExpectedVisibility s b).get_Tag p = none ↔ x.get_Tag p = none := by
  rw [XamlState.get_Tag_set_ExpectedVisibility]
  by_cases hp : p = s
  · subst hp
    simp
  · simp [hp]

/-- Writing the visibility of a node keeps the tags well formed when the node
has no tag, or is hidden, or is expected to be visible. -/
theorem WellFormed_put_Visibility (x : XamlState) (s : Nat) (v : Visibility) (h : WellFormed x)
    (hv : ∀ t, x.get_Tag s = some t → t.expectedVisibility = false → v = Visibility.Collapsed) :
    WellFormed (x.put_Visibility s v) := by
  rcases h with ⟨h1, h2, h3⟩
  refine ⟨?_, ?_, ?_⟩
  · intro p q hq
    rw [separatorOf_put_Visibility] at hq
    rw [XamlState.length_put_Visibility, XamlState.get_Tag_put_Visibility]
    exact h1 p q hq
  · intro p q r hp hq
    rw [separatorOf_put_Visibility] at hp hq
    exact h2 p q r hp hq
  · intro p t ht he
    rw [XamlState.get_Tag_put_Visibility] at ht
    by_cases hp : p = s
    · subst hp
      have hlt : p < x.elements.length := by
        unfold XamlState.get_Tag at ht
        cases hh : x.elements[p]? with
        | none => simp [hh] at ht
        | some e => exact (List.getElem?_eq_some_iff.mp hh).1
      rw [XamlState.get_Visibility_put_Visibility_self _ _ _ hlt, hv t ht he]
    · rw [XamlState.get_Visibility_put_Visibility_ne _ _ _ _ hp]
      exact h3 p t ht he

end XamlBuilder

namespace XamlBuilder
open AdaptiveNamespace

theorem visit_WellFormed (x : XamlState) (f : Bool) (c : Nat) (h : WellFormed x) :
    WellFormed (SetSeparatorVisibility.visit (x, f) c).1 := by
  rcases visit_fst_cases x f c with h1 | ⟨s, v, hs, h1⟩
  · rw [h1]; exact h
  · rw [h1]
    apply WellFormed_put_Visibility x s v h
    intro t ht
    rw [(h.1 c s hs).2] at ht
    simp at ht

theorem scan_WellFormed (cs : List Nat) : ∀ (x : XamlState) (f : Bool), WellFormed x →
    WellFormed (IterateOverVector cs SetSeparatorVisibility.visit (x, f)).1 := by
  induction cs with
  | nil => intro x f h; exact h
  | cons c cs ih =>
    intro x f h
    rw [scan_cons]
    exact ih _ _ (visit_WellFormed x f c h)

theorem SetSeparatorVisibility_WellFormed (x : XamlState) (panel : Nat) (h : WellFormed x) :
    WellFormed (SetSeparatorVisibility x panel).2 :=
  scan_WellFormed _ x false h

theorem SetSeparatorVisibility_get_Children (x : XamlState) (panel p : Nat) :
    (SetSeparatorVisibility x panel).2.get_Children p = x.get_Children p :=
  scan_get_Children _ x false p

theorem SetSeparatorVisibility_length (x : XamlState) (panel : Nat) :
    (SetSeparatorVisibility x panel).2.elements.length = x.elements.length :=
  scan_length _ x false

theorem SetSeparatorVisibility_get_Tag (x : XamlState) (panel p : Nat) :
    (SetSeparatorVisibility x panel).2.get_Tag p = x.get_Tag p :=
  scan_get_Tag _ x false p

theorem sameShape_refl (x : XamlState) : sameShape x x := ⟨rfl, fun _ => rfl⟩

theorem sameShape_trans {x y z : XamlState} (h1 : sameShape x y) (h2 : sameShape y z) :
    sameShape x z :=
  ⟨h2.1.trans h1.1, fun p => (h2.2 p).trans (h1.2 p)⟩

theorem PanelOk_of_sameShape {x y : XamlState} (panel : Nat) (h : sameShape x y)
    (hp : PanelOk x panel) : PanelOk y panel := by
  unfold PanelOk at hp ⊢
  rw [h.1, h.2]
  exact hp

theorem HandleColumnWidth_elements (w : GridLength) (b : Bool) (c : Option Nat) (x : XamlState) :
    (HandleColumnWidth w b c x).2.elements = x.elements := by
  unfold HandleColumnWidth
  cases c <;> rfl

theorem WellFormed_of_elements_eq {x y : XamlState} (h : y.elements = x.elements)
    (hx : WellFormed x) : WellFormed y := by
  unfold WellFormed separatorOf XamlState.get_Tag XamlState.get_Visibility at hx ⊢
  rw [h]
  exact hx

theorem sameShape_of_elements_eq {x y : XamlState} (h : y.elements = x.elements) :
    sameShape x y := by
  unfold sameShape XamlState.get_Children
  rw [h]
  exact ⟨rfl, fun _ => rfl⟩

/-- The store after the visibility writes of one toggle target. -/
theorem toggle_writes_WellFormed (x : XamlState) (p : Nat) (v : Visibility) (h : WellFormed x) :
    WellFormed ((x.put_Visibility p v).set_ExpectedVisibility p (decide (v = Visibility.Visible))) := by
  rcases h with ⟨h1, h2, h3⟩
  refine ⟨?_, ?_, ?_⟩
  · intro q s hq
    rw [separatorOf_set_ExpectedVisibility, separatorOf_put_Visibility] at hq
    rw [XamlState.length_set_ExpectedVisibility, XamlState.length_put_Visibility,
      get_Tag_set_ExpectedVisibility_eq_none, XamlState.get_Tag_put_Visibility]
    exact h1 q s hq
  · intro q r s hq hr
    rw [separatorOf_set_ExpectedVisibility, separatorOf_put_Visibility] at hq hr
    exact h2 q r s hq hr
  · intro q t ht he
    rw [XamlState.get_Tag_set_ExpectedVisibility] at ht
    rw [XamlState.get_Visibility_set_ExpectedVisibility]
    by_cases hq : q = p
    · subst hq
      simp only [if_true, XamlState.get_Tag_put_Visibility] at ht
      cases hg : x.get_Tag q with
      | none => simp [hg] at ht
      | some t0 =>
        have hlt : q < x.elements.length := by
          unfold XamlState.get_Tag at hg
          cases hh : x.elements[q]? with
          | none => simp [hh] at hg
          | some e => exact (List.getElem?_eq_some_iff.mp hh).1
        rw [XamlState.get_Visibility_put_Visibility_self _ _ _ hlt]
        rw [hg] at ht
        simp at ht
        rw [← ht] at he
        simp at he
        cases v with
        | Visible => simp at he
        | Collapsed => rfl
    · simp only [hq, if_false, XamlState.get_Tag_put_Visibility] at ht
      rw [XamlState.get_Visibility_put_Visibility_ne _ _ _ _ hq]
      exact h3 q t ht he

theorem toggle_writes_sameShape (x : XamlState) (p : Nat) (v : Visibility) (b : Bool) :
    sameShape x ((x.put_Visibility p v).set_ExpectedVisibility p b) := by
  refine ⟨?_, ?_⟩
  · rw [XamlState.length_set_ExpectedVisibility, XamlState.length_put_Visibility]
  · intro q
    rw [XamlState.get_Children_set_ExpectedVisibility, XamlState.get_Children_put_Visibility]

theorem toggleTarget_preserves (s : ToggleState) (t : AdaptiveToggleVisibilityTarget)
    (h : WellFormed s.xaml) :
    WellFormed (HandleToggleVisibilityClick.toggleTarget s t).2.xaml ∧
      sameShape s.xaml (HandleToggleVisibilityClick.toggleTarget s t).2.xaml := by
  cases hf : FindName s.xaml t.elementId with
  | none =>
    simp only [HandleToggleVisibilityClick.toggleTarget, hf]
    exact ⟨h, sameShape_refl _⟩
  | some p =>
    cases hg : s.xaml.get_Tag p with
    | none =>
      simp only [HandleToggleVisibilityClick.toggleTarget, hf, hg]
      exact ⟨h, sameShape_refl _⟩
    | some tag =>
      cases hc : tag.cardElement.properties.columnWidth with
      | none =>
        simp only [HandleToggleVisibilityClick.toggleTarget, hf, hg, hc]
        exact ⟨toggle_writes_WellFormed _ _ _ h, toggle_writes_sameShape _ _ _ _⟩
      | some w =>
        have key : ∀ (c : Prop) [Decidable c] (a b : HRESULT) (st : ToggleState),
            (if c then (a, st) else (b, st)).2 = st := by
          intro c _ a b st
          split <;> rfl
        simp only [HandleToggleVisibilityClick.toggleTarget, hf, hg, hc, key]
        exact ⟨WellFormed_of_elements_eq (HandleColumnWidth_elements _ _ _ _)
              (toggle_writes_WellFormed _ _ _ h),
            sameShape_trans (toggle_writes_sameShape _ _ _ _)
              (sameShape_of_elements_eq (HandleColumnWidth_elements _ _ _ _))⟩

theorem targetLoop_preserves (ts : List AdaptiveToggleVisibilityTarget) :
    ∀ (s : ToggleState), WellFormed s.xaml →
      WellFormed (HandleToggleVisibilityClick.targetLoop ts s).2.xaml ∧
        sameShape s.xaml (HandleToggleVisibilityClick.targetLoop ts s).2.xaml := by
  induction ts with
  | nil => intro s h; exact ⟨h, sameShape_refl _⟩
  | cons t ts ih =>
    intro s h
    unfold HandleToggleVisibilityClick.targetLoop
    have h1 := toggleTarget_preserves s t h
    simp only []
    split
    · exact h1
    · have h2 := ih _ h1.1
      exact ⟨h2.1, sameShape_trans h1.2 h2.2⟩

theorem recompute_preserves (panels : List Nat) : ∀ (x : XamlState), WellFormed x →
    WellFormed (panels.foldl (fun x parentPanel => (SetSeparatorVisibility x parentPanel).2) x) ∧
      sameShape x (panels.foldl (fun x parentPanel => (SetSeparatorVisibility x parentPanel).2) x) := by
  induction panels with
  | nil => intro x h; exact ⟨h, sameShape_refl _⟩
  | cons q panels ih =>
    intro x h
    rw [List.foldl_cons]
    have h1 := SetSeparatorVisibility_WellFormed x q h
    have h2 := ih _ h1
    refine ⟨h2.1, sameShape_trans ?_ h2.2⟩
    exact ⟨SetSeparatorVisibility_length x q, SetSeparatorVisibility_get_Children x q⟩

theorem HandleToggleVisibilityClick_preserves (x : XamlState)
    (ts : List AdaptiveToggleVisibilityTarget) (h : WellFormed x) :
    WellFormed (HandleToggleVisibilityClick x ts).2 ∧
      sameShape x (HandleToggleVisibilityClick x ts).2 := by
  unfold HandleToggleVisibilityClick
  have h1 := targetLoop_preserves ts { xaml := x, parentPanels := [] } h
  simp only []
  split
  · exact h1
  · have h2 := recompute_preserves
      (HandleToggleVisibilityClick.targetLoop ts { xaml := x, parentPanels := [] }).2.parentPanels
      _ h1.1
    exact ⟨h2.1, sameShape_trans h1.2 h2.2⟩

theorem afterToggles_preserves (actions : List (List AdaptiveToggleVisibilityTarget)) :
    ∀ (x : XamlState), WellFormed x →
      WellFormed (afterToggles x actions) ∧ sameShape x (afterToggles x actions) := by
  induction actions with
  | nil => intro x h; exact ⟨h, sameShape_refl _⟩
  | cons a actions ih =>
    intro x h
    unfold afterToggles
    rw [List.foldl_cons]
    have h1 := HandleToggleVisibilityClick_preserves x a h
    have h2 := ih _ h1.1
    exact ⟨h2.1, sameShape_trans h1.2 h2.2⟩

end XamlBuilder

namespace XamlBuilder
open AdaptiveNamespace

theorem attach_xaml_cases (pp : Nat) (anc : Bool) (s : PanelBuild) (el : CardElement)
    (hr : HRESULT) (newControl : Option UIElement) :
    ((BuildPanelChildren.attach pp anc s el hr newControl).2.xaml = s.xaml ∧
      (BuildPanelChildren.attach pp anc s el hr newControl).2.iElement = s.iElement) ∨
    (∃ control,
      (BuildPanelChildren.attach pp anc s el hr newControl).2.xaml =
        (AddRenderedControl (some control) el pp
          (AddSeparatorIfNeeded s.iElement el s.renderContext.hostConfig s.xaml pp).2.2 none
          (AddSeparatorIfNeeded s.iElement el s.renderContext.hostConfig s.xaml pp).2.1).2 ∧
      (BuildPanelChildren.attach pp anc s el hr newControl).2.iElement =
        (AddSeparatorIfNeeded s.iElement el s.renderContext.hostConfig s.xaml pp).1) := by
  cases newControl with
  | none => exact Or.inl ⟨rfl, rfl⟩
  | some control =>
    right
    refine ⟨control, ?_⟩
    unfold BuildPanelChildren.attach
    simp only []
    split <;> exact ⟨rfl, rfl⟩

theorem renderElement_xaml_cases (pp : Nat) (anc : Bool) (s : PanelBuild) (el : CardElement) :
    ((BuildPanelChildren.renderElement pp anc s el).2.xaml = s.xaml ∧
      (BuildPanelChildren.renderElement pp anc s el).2.iElement = s.iElement) ∨
    (∃ control,
      (BuildPanelChildren.renderElement pp anc s el).2.xaml =
        (AddRenderedControl (some control) el pp
          (AddSeparatorIfNeeded s.iElement el s.renderContext.hostConfig s.xaml pp).2.2 none
          (AddSeparatorIfNeeded s.iElement el s.renderContext.hostConfig s.xaml pp).2.1).2 ∧
      (BuildPanelChildren.renderElement pp anc s el).2.iElement =
        (AddSeparatorIfNeeded s.iElement el s.renderContext.hostConfig s.xaml pp).1) := by
  unfold BuildPanelChildren.renderElement
  simp only []
  by_cases h1 : FAILED (s.renderContext.meetsRequirements el).1 = true
  · rw [if_pos h1]
    exact Or.inl ⟨rfl, rfl⟩
  · rw [if_neg h1]
    by_cases h2 : FAILED (s.renderContext.elementRenderers el.get_ElementTypeString).1 = true
    · rw [if_pos h2]
      exact Or.inl ⟨rfl, rfl⟩
    · rw [if_neg h2]
      generalize (if (s.renderContext.meetsRequirements el).2 = true then S_OK
        else E_PERFORM_FALLBACK) = hr0
      split
      · exact Or.inl ⟨rfl, rfl⟩
      · exact attach_xaml_cases pp anc _ el _ _

end XamlBuilder

namespace XamlBuilder
open AdaptiveNamespace

theorem separatorOf_append_old (x : XamlState) (e : UIElement) (pp p : Nat)
    (hp : p ≠ x.elements.length) :
    separatorOf (AppendXamlElementToPanel x e pp).1 p = separatorOf x p := by
  unfold separatorOf
  rw [AppendXamlElementToPanel_get_Tag_old _ _ _ _ hp]

theorem separatorOf_append_new (x : XamlState) (e : UIElement) (pp : Nat) :
    separatorOf (AppendXamlElementToPanel x e pp).1 x.elements.length =
      e.tag.bind (fun t => t.separator) := by
  unfold separatorOf
  rw [AppendXamlElementToPanel_get_Tag_new]

theorem separatorOf_lt (x : XamlState) (p s : Nat)
    (hs : separatorOf x p = some s) : p < x.elements.length := by
  unfold separatorOf XamlState.get_Tag at hs
  cases hh : x.elements[p]? with
  | none => simp [hh] at hs
  | some e => exact (List.getElem?_eq_some_iff.mp hh).1

theorem get_Tag_lt (x : XamlState) (p : Nat) (t : ElementTagContent)
    (ht : x.get_Tag p = some t) : p < x.elements.length := by
  unfold XamlState.get_Tag at ht
  cases hh : x.elements[p]? with
  | none => simp [hh] at ht
  | some e => exact (List.getElem?_eq_some_iff.mp hh).1

/-- Appending an untagged object keeps the tags well formed. -/
theorem WellFormed_append_untagged (x : XamlState) (e : UIElement) (pp : Nat) (h : WellFormed x)
    (he : e.tag = none) : WellFormed (AppendXamlElementToPanel x e pp).1 := by
  have hnew : separatorOf (AppendXamlElementToPanel x e pp).1 x.elements.length = none := by
    rw [separatorOf_append_new, he]; rfl
  rcases h with ⟨h1, h2, h3⟩
  refine ⟨?_, ?_, ?_⟩
  · intro p s hs
    by_cases hp : p = x.elements.length
    · subst hp; rw [hnew] at hs; simp at hs
    · rw [separatorOf_append_old _ _ _ _ hp] at hs
      have := h1 p s hs
      rw [AppendXamlElementToPanel_length,
        AppendXamlElementToPanel_get_Tag_old _ _ _ _ (by omega : s ≠ x.elements.length)]
      exact ⟨by omega, this.2⟩
  · intro p q s hp hq
    by_cases hp0 : p = x.elements.length
    · subst hp0; rw [hnew] at hp; simp at hp
    · by_cases hq0 : q = x.elements.length
      · subst hq0; rw [hnew] at hq; simp at hq
      · rw [separatorOf_append_old _ _ _ _ hp0] at hp
        rw [separatorOf_append_old _ _ _ _ hq0] at hq
        exact h2 p q s hp hq
  · intro p t ht hex
    by_cases hp : p = x.elements.length
    · subst hp
      rw [AppendXamlElementToPanel_get_Tag_new, he] at ht
      simp at ht
    · rw [AppendXamlElementToPanel_get_Tag_old _ _ _ _ hp] at ht
      rw [AppendXamlElementToPanel_get_Visibility_old _ _ _ _ hp]
      exact h3 p t ht hex

/-- Appending a tagged object keeps the tags well formed when the separator
its tag holds is an untagged object that no other tag holds, and the object is
`Collapsed` if its expected visibility is false. -/
theorem WellFormed_append_tagged (x : XamlState) (e : UIElement) (pp : Nat)
    (t : ElementTagContent) (h : WellFormed x) (he : e.tag = some t)
    (hsep : ∀ s, t.separator = some s →
      s < x.elements.length ∧ x.get_Tag s = none ∧ ∀ q, separatorOf x q ≠ some s)
    (hvis : t.expectedVisibility = false → e.visibility = Visibility.Collapsed) :
    WellFormed (AppendXamlElementToPanel x e pp).1 := by
  have hnew : separatorOf (AppendXamlElementToPanel x e pp).1 x.elements.length = t.separator := by
    rw [separatorOf_append_new, he]; rfl
  rcases h with ⟨h1, h2, h3⟩
  refine ⟨?_, ?_, ?_⟩
  · intro p s hs
    by_cases hp : p = x.elements.length
    · subst hp
      rw [hnew] at hs
      have := hsep s hs
      rw [AppendXamlElementToPanel_length,
        AppendXamlElementToPanel_get_Tag_old _ _ _ _ (by omega : s ≠ x.elements.length)]
      exact ⟨by omega, this.2.1⟩
    · rw [separatorOf_append_old _ _ _ _ hp] at hs
      have := h1 p s hs
      rw [AppendXamlElementToPanel_length,
        AppendXamlElementToPanel_get_Tag_old _ _ _ _ (by omega : s ≠ x.elements.length)]
      exact ⟨by omega, this.2⟩
  · intro p q s hp hq
    by_cases hp0 : p = x.elements.length
    · by_cases hq0 : q = x.elements.length
      · rw [hp0, hq0]
      · subst hp0
        rw [hnew] at hp
        rw [separatorOf_append_old _ _ _ _ hq0] at hq
        exact absurd hq ((hsep s hp).2.2 q)
    · by_cases hq0 : q = x.elements.length
      · subst hq0
        rw [hnew] at hq
        rw [separatorOf_append_old _ _ _ _ hp0] at hp
        exact absurd hp ((hsep s hq).2.2 p)
      · rw [separatorOf_append_old _ _ _ _ hp0] at hp
        rw [separatorOf_append_old _ _ _ _ hq0] at hq
        exact h2 p q s hp hq
  · intro p t2 ht hex
    by_cases hp : p = x.elements.length
    · subst hp
      rw [AppendXamlElementToPanel_get_Tag_new, he] at ht
      simp at ht
      rw [AppendXamlElementToPanel_get_Visibility_new]
      rw [← ht] at hex
      rw [hvis hex]
    · rw [AppendXamlElementToPanel_get_Tag_old _ _ _ _ hp] at ht
      rw [AppendXamlElementToPanel_get_Visibility_old _ _ _ _ hp]
      exact h3 p t2 ht hex

theorem get_Children_append_panel (x : XamlState) (e : UIElement) (pp : Nat)
    (hpp : pp < x.elements.length) :
    (AppendXamlElementToPanel x e pp).1.get_Children pp = x.get_Children pp ++ [x.elements.length] := by
  rw [AppendXamlElementToPanel_get_Children]
  have : pp ≠ x.elements.length := by omega
  simp [this, hpp]

theorem PanelOk_append (x : XamlState) (e : UIElement) (pp : Nat) (h : PanelOk x pp) :
    PanelOk (AppendXamlElementToPanel x e pp).1 pp := by
  rcases h with ⟨h1, h2, h3⟩
  unfold PanelOk
  rw [get_Children_append_panel x e pp h1, AppendXamlElementToPanel_length]
  refine ⟨by omega, ?_, ?_⟩
  · rw [List.nodup_append]
    refine ⟨h2, List.nodup_singleton _, ?_⟩
    intro a ha hb
    simp at hb
    have := h3 a ha
    omega
  · intro c hc
    rw [List.mem_append] at hc
    rcases hc with hc | hc
    · have := h3 c hc; omega
    · simp at hc; omega

theorem AddSeparatorIfNeeded_cases (c : Int) (el : CardElement) (hc : AdaptiveHostConfig)
    (x : XamlState) (pp : Nat) :
    AddSeparatorIfNeeded c el hc x pp = (c + 1, x, none) ∧
        ¬ (c > 0 ∧ (GetSeparationConfigForElement el hc).needsSeparator = true) ∨
    (c > 0 ∧ (GetSeparationConfigForElement el hc).needsSeparator = true ∧
      AddSeparatorIfNeeded c el hc x pp =
        (c + 1,
         (AppendXamlElementToPanel x
            (CreateSeparator (GetSeparationConfigForElement el hc).spacing
              (GetSeparationConfigForElement el hc).separatorThickness
              (GetSeparationConfigForElement el hc).separatorColor) pp).1,
         some x.elements.length)) := by
  unfold AddSeparatorIfNeeded
  by_cases h0 : c > 0
  · cases hn : (GetSeparationConfigForElement el hc).needsSeparator
    · left
      simp [h0, hn]
    · right
      simp [h0, hn, AppendXamlElementToPanel_snd]
  · left
    simp [h0]

theorem AddRenderedControl_some (control : UIElement) (el : CardElement) (pp : Nat)
    (sep cd : Option Nat) (x : XamlState) :
    ∃ e, (AddRenderedControl (some control) el pp sep cd x).2 = (AppendXamlElementToPanel x e pp).1 ∧
      e.tag = some { cardElement := el, parentPanel := pp, separator := sep, columnDefinition := cd,
                     expectedVisibility := el.get_IsVisible } ∧
      (el.get_IsVisible = false → e.visibility = Visibility.Collapsed) ∧
      (el.get_IsVisible = true → e.visibility = control.visibility) := by
  unfold AddRenderedControl
  refine ⟨_, rfl, rfl, ?_, ?_⟩
  · intro h
    simp [h]
    split <;> rfl
  · intro h
    simp [h]
    split <;> rfl

/-- Attaching a control with its separator, as the lambda of
`BuildPanelChildren` does, keeps the tags well formed and the panel in
order. -/
theorem attach_preserves (control : UIElement) (el : CardElement) (hc : AdaptiveHostConfig)
    (c : Int) (x : XamlState) (pp : Nat) (h : WellFormed x) (hp : PanelOk x pp) :
    WellFormed (AddRenderedControl (some control) el pp (AddSeparatorIfNeeded c el hc x pp).2.2 none
        (AddSeparatorIfNeeded c el hc x pp).2.1).2 ∧
      PanelOk (AddRenderedControl (some control) el pp (AddSeparatorIfNeeded c el hc x pp).2.2 none
        (AddSeparatorIfNeeded c el hc x pp).2.1).2 pp := by
  rcases AddSeparatorIfNeeded_cases c el hc x pp with ⟨heq, _⟩ | ⟨_, _, heq⟩
  · rw [heq]
    rcases AddRenderedControl_some control el pp none none x with ⟨e, he, htag, hv, _⟩
    simp only [he]
    refine ⟨WellFormed_append_tagged x e pp _ h htag ?_ hv, PanelOk_append x e pp hp⟩
    intro s hs
    simp at hs
  · rw [heq]
    simp only []
    have h1 := WellFormed_append_untagged x
      (CreateSeparator (GetSeparationConfigForElement el hc).spacing
        (GetSeparationConfigForElement el hc).separatorThickness
        (GetSeparationConfigForElement el hc).separatorColor) pp h rfl
    have hp1 := PanelOk_append x
      (CreateSeparator (GetSeparationConfigForElement el hc).spacing
        (GetSeparationConfigForElement el hc).separatorThickness
        (GetSeparationConfigForElement el hc).separatorColor) pp hp
    rcases AddRenderedControl_some control el pp (some x.elements.length) none
      (AppendXamlElementToPanel x
        (CreateSeparator (GetSeparationConfigForElement el hc).spacing
          (GetSeparationConfigForElement el hc).separatorThickness
          (GetSeparationConfigForElement el hc).separatorColor) pp).1 with ⟨e, he, htag, hv, _⟩
    simp only [he]
    refine ⟨WellFormed_append_tagged _ e pp _ h1 htag ?_ hv, PanelOk_append _ e pp hp1⟩
    intro s hs
    simp at hs
    subst hs
    refine ⟨?_, ?_, ?_⟩
    · rw [AppendXamlElementToPanel_length]; omega
    · rw [AppendXamlElementToPanel_get_Tag_new]; rfl
    · intro q hq
      by_cases hq0 : q = x.elements.length
      · subst hq0
        rw [separatorOf_append_new] at hq
        simp [CreateSeparator] at hq
      · rw [separatorOf_append_old _ _ _ _ hq0] at hq
        have := (h.1 q _ hq).1
        omega

end XamlBuilder

namespace XamlBuilder
open AdaptiveNamespace

theorem renderElement_preserves (pp : Nat) (anc : Bool) (s : PanelBuild) (el : CardElement)
    (h : WellFormed s.xaml) (hp : PanelOk s.xaml pp) :
    WellFormed (BuildPanelChildren.renderElement pp anc s el).2.xaml ∧
      PanelOk (BuildPanelChildren.renderElement pp anc s el).2.xaml pp := by
  rcases renderElement_xaml_cases pp anc s el with ⟨h1, _⟩ | ⟨control, h1, _⟩
  · rw [h1]; exact ⟨h, hp⟩
  · rw [h1]; exact attach_preserves control el _ _ _ pp h hp

theorem iterate_cons {α σ : Type} (x : α) (xs : List α) (flag : Bool)
    (cb : σ → α → HRESULT × σ) (s : σ) :
    IterateOverVectorWithFailure (x :: xs) flag cb s =
      if FAILED (cb s x).1 then cb s x else IterateOverVectorWithFailure xs flag cb (cb s x).2 := by
  rw [IterateOverVectorWithFailure]

theorem iterate_renderElement_preserves (pp : Nat) (anc flag : Bool) (els : List CardElement) :
    ∀ (s : PanelBuild), WellFormed s.xaml → PanelOk s.xaml pp →
      WellFormed (IterateOverVectorWithFailure els flag
          (BuildPanelChildren.renderElement pp anc) s).2.xaml ∧
        PanelOk (IterateOverVectorWithFailure els flag
          (BuildPanelChildren.renderElement pp anc) s).2.xaml pp := by
  induction els with
  | nil => intro s h hp; exact ⟨h, hp⟩
  | cons el els ih =>
    intro s h hp
    rw [iterate_cons]
    have h1 := renderElement_preserves pp anc s el h hp
    split
    · exact h1
    · exact ih _ h1.1 h1.2

theorem BuildPanelChildren_xaml (els : List CardElement) (pp : Nat) (x : XamlState)
    (ctx : AdaptiveRenderContext) (args : AdaptiveRenderArgs) :
    (BuildPanelChildren els pp x ctx args).xaml =
      (SetSeparatorVisibility (IterateOverVectorWithFailure els args.ancestorHasFallback
        (BuildPanelChildren.renderElement pp args.ancestorHasFallback)
        { xaml := x, renderContext := ctx, renderArgs := args, iElement := 0 }).2.xaml pp).2 := by
  unfold BuildPanelChildren
  simp only []
  split <;> rfl

theorem BuildPanelChildren_preserves (els : List CardElement) (pp : Nat) (x : XamlState)
    (ctx : AdaptiveRenderContext) (args : AdaptiveRenderArgs)
    (h : WellFormed x) (hp : PanelOk x pp) :
    WellFormed (BuildPanelChildren els pp x ctx args).xaml ∧
      PanelOk (BuildPanelChildren els pp x ctx args).xaml pp := by
  rw [BuildPanelChildren_xaml]
  have h1 := iterate_renderElement_preserves pp args.ancestorHasFallback args.ancestorHasFallback els
    { xaml := x, renderContext := ctx, renderArgs := args, iElement := 0 } h hp
  refine ⟨SetSeparatorVisibility_WellFormed _ pp h1.1, ?_⟩
  exact PanelOk_of_sameShape pp
    ⟨SetSeparatorVisibility_length _ pp, SetSeparatorVisibility_get_Children _ pp⟩ h1.2

theorem separatorsUntagged_of_WellFormed (x : XamlState) (cs : List Nat) (h : WellFormed x) :
    separatorsUntagged x cs = true := by
  unfold separatorsUntagged
  rw [List.all_eq_true]
  intro c _
  cases hs : separatorOf x c with
  | none => rfl
  | some s =>
    have := h.1 c s hs
    simp [this.1, this.2]

theorem separatorsDistinct_of_WellFormed (x : XamlState) (cs : List Nat) (h : WellFormed x)
    (hn : cs.Nodup) : separatorsDistinct x cs := by
  unfold separatorsDistinct
  apply List.Nodup.filterMap _ hn
  intro a a2 b ha ha2
  exact h.2.1 a a2 b ha ha2

theorem isVisibleElement_expected (x : XamlState) (h : WellFormed x) (p : Nat)
    (t : ElementTagContent) (ht : x.get_Tag p = some t) (hv : isVisibleElement x p = true) :
    t.expectedVisibility = true := by
  cases he : t.expectedVisibility with
  | true => rfl
  | false =>
    have := h.2.2 p t ht he
    unfold isVisibleElement at hv
    rw [this] at hv
    simp at hv

/-- C4. Take a store with well-formed tags and in it a panel without
children; build the panel with `BuildPanelChildren`, then run any sequence of
`HandleToggleVisibilityClick` calls, then `SetSeparatorVisibility` on the
panel.  For any two children of the panel at positions `i < j` that are both
tagged and literally `Visible` (two consecutive ones in particular), if the tag
of the second holds a separator, that separator is `Visible`. -/
theorem BuildPanelChildren_visible_pair_separator (children : List CardElement) (parentPanel : Nat)
    (xaml : XamlState) (renderContext : AdaptiveRenderContext) (renderArgs : AdaptiveRenderArgs)
    (actions : List (List AdaptiveToggleVisibilityTarget))
    (hwf : WellFormed xaml) (hpanel : parentPanel < xaml.elements.length)
    (hfresh : xaml.get_Children parentPanel = [])
    (i j first second sep : Nat) (t : ElementTagContent) (hij : i < j)
    (hi : ((SetSeparatorVisibility
        (afterToggles (BuildPanelChildren children parentPanel xaml renderContext renderArgs).xaml
          actions) parentPanel).2.get_Children parentPanel)[i]? = some first)
    (hj : ((SetSeparatorVisibility
        (afterToggles (BuildPanelChildren children parentPanel xaml renderContext renderArgs).xaml
          actions) parentPanel).2.get_Children parentPanel)[j]? = some second)
    (hfirst : isVisibleElement (SetSeparatorVisibility
        (afterToggles (BuildPanelChildren children parentPanel xaml renderContext renderArgs).xaml
          actions) parentPanel).2 first = true)
    (hsecond : isVisibleElement (SetSeparatorVisibility
        (afterToggles (BuildPanelChildren children parentPanel xaml renderContext renderArgs).xaml
          actions) parentPanel).2 second = true)
    (htag : (SetSeparatorVisibility
        (afterToggles (BuildPanelChildren children parentPanel xaml renderContext renderArgs).xaml
          actions) parentPanel).2.get_Tag second = some t)
    (hsep : t.separator = some sep) :
    (SetSeparatorVisibility
        (afterToggles (BuildPanelChildren children parentPanel xaml renderContext renderArgs).xaml
          actions) parentPanel).2.get_Visibility sep = some Visibility.Visible := by
  have hp0 : PanelOk xaml parentPanel := by
    refine ⟨hpanel, ?_, ?_⟩
    · rw [hfresh]; exact List.nodup_nil
    · intro c hc; rw [hfresh] at hc; simp at hc
  have hb := BuildPanelChildren_preserves children parentPanel xaml renderContext renderArgs hwf hp0
  have ht := afterToggles_preserves actions _ hb.1
  have hpt := PanelOk_of_sameShape parentPanel ht.2 hb.2
  generalize afterToggles (BuildPanelChildren children parentPanel xaml renderContext renderArgs).xaml
    actions = y at hi hj hfirst hsecond htag ht hpt ⊢
  have hU := separatorsUntagged_of_WellFormed y (y.get_Children parentPanel) ht.1
  have hD := separatorsDistinct_of_WellFormed y (y.get_Children parentPanel) ht.1 hpt.2.1
  rw [SetSeparatorVisibility_get_Children] at hi hj
  rw [SetSeparatorVisibility_get_Tag] at htag
  have hwfFinal := SetSeparatorVisibility_WellFormed y parentPanel ht.1
  have hexp : t.expectedVisibility = true :=
    isVisibleElement_expected _ hwfFinal second t
      (by rw [SetSeparatorVisibility_get_Tag]; exact htag) hsecond
  -- the first node is no separator of the panel, so the scan leaves its visibility alone
  have hfirst0 : isVisibleElement y first = true := by
    have hnot : first ∉ (y.get_Children parentPanel).filterMap (separatorOf y) := by
      intro hm
      rcases List.mem_filterMap.mp hm with ⟨c, _, hc⟩
      have hnone := (ht.1.1 c first hc).2
      unfold isVisibleElement at hfirst
      rw [SetSeparatorVisibility_get_Tag, hnone] at hfirst
      simp at hfirst
    unfold isVisibleElement at hfirst ⊢
    rw [SetSeparatorVisibility_get_Tag] at hfirst
    have hv : (SetSeparatorVisibility y parentPanel).2.get_Visibility first = y.get_Visibility first :=
      scan_get_Visibility_of_not_mem _ y false first hnot
    rw [hv] at hfirst
    exact hfirst
  have hfound := foundVisibleBefore_eq_true y (y.get_Children parentPanel) j i first hij hi hfirst0
  have := scan_separator _ y false j second sep t hU hD hj htag hsep
  unfold foundVisibleBefore at hfound
  simpa [SetSeparatorVisibility, hexp, hfound] using this

end XamlBuilder

namespace XamlBuilder
open AdaptiveNamespace

theorem WellFormed_emptyPanel : WellFormed emptyPanel := by
  have htag : ∀ p : Nat, emptyPanel.get_Tag p = none := by
    intro p
    cases p with
    | zero => rfl
    | succ n => rfl
  have hsep : ∀ p : Nat, separatorOf emptyPanel p = none := by
    intro p
    unfold separatorOf
    rw [htag]
    rfl
  refine ⟨?_, ?_, ?_⟩
  · intro p s hs; rw [hsep] at hs; simp at hs
  · intro p q s hs; rw [hsep] at hs; simp at hs
  · intro p t ht; rw [htag] at ht; simp at ht

/-- Witness of C4: two text blocks are built into the empty panel, the second
is toggled twice, and the separator of the second (at 2) is `Visible` after
`SetSeparatorVisibility`. -/
theorem BuildPanelChildren_visible_pair_separator_witness :
    emptyPanel.get_Children 0 = [] ∧
    (SetSeparatorVisibility
        (afterToggles (BuildPanelChildren [sampleText, sampleSeparatedText] 0 emptyPanel sampleContext
          topLevelArgs).xaml toggleSecondTwice) 0).2.get_Children 0 = [1, 2, 3] ∧
    (SetSeparatorVisibility
        (afterToggles (BuildPanelChildren [sampleText, sampleSeparatedText] 0 emptyPanel sampleContext
          topLevelArgs).xaml toggleSecondTwice) 0).2.get_Visibility 2 = some Visibility.Visible :=
  ⟨rfl, by decide,
    BuildPanelChildren_visible_pair_separator [sampleText, sampleSeparatedText] 0 emptyPanel
      sampleContext topLevelArgs toggleSecondTwice WellFormed_emptyPanel (by decide) rfl
      0 2 1 3 2
      { cardElement := sampleSeparatedText, parentPanel := 0, separator := some 2,
        columnDefinition := none, expectedVisibility := true }
      (by decide) (by decide) (by decide) (by decide) (by decide) (by rfl) rfl⟩

end XamlBuilder

namespace XamlBuilder
open AdaptiveNamespace

theorem panelElements_append (x : XamlState) (e : UIElement) (pp : Nat) (h : PanelOk x pp) :
    panelElements (AppendXamlElementToPanel x e pp).1 pp =
      panelElements x pp ++ (e.tag.map (fun t => t.cardElement)).toList := by
  unfold panelElements
  rw [get_Children_append_panel x e pp h.1, List.filterMap_append]
  congr 1
  · apply List.filterMap_congr
    intro c hc
    have := h.2.2 c hc
    rw [AppendXamlElementToPanel_get_Tag_old _ _ _ _ (by omega)]
  · simp only [List.filterMap_cons, List.filterMap_nil, AppendXamlElementToPanel_get_Tag_new]
    cases e.tag <;> rfl

theorem panelSeparators_append (x : XamlState) (e : UIElement) (pp : Nat) (h : PanelOk x pp) :
    panelSeparators (AppendXamlElementToPanel x e pp).1 pp =
      panelSeparators x pp ++ (if e.tag.isNone then [x.elements.length] else []) := by
  unfold panelSeparators
  rw [get_Children_append_panel x e pp h.1, List.filter_append]
  congr 1
  · apply List.filter_congr
    intro c hc
    have := h.2.2 c hc
    rw [AppendXamlElementToPanel_get_Tag_old _ _ _ _ (by omega)]
  · simp only [List.filter_cons, List.filter_nil, AppendXamlElementToPanel_get_Tag_new]

theorem panelElements_length_le (x : XamlState) (pp : Nat) :
    (panelElements x pp).length ≤ (x.get_Children pp).length := by
  unfold panelElements
  exact List.length_filterMap_le _ _

end XamlBuilder

namespace XamlBuilder
open AdaptiveNamespace

theorem children_length_eq (x : XamlState) (pp : Nat) :
    (x.get_Children pp).length = (panelElements x pp).length + (panelSeparators x pp).length := by
  unfold panelElements panelSeparators
  induction x.get_Children pp with
  | nil => rfl
  | cons c cs ih =>
    cases h : x.get_Tag c with
    | none =>
      simp only [List.filterMap_cons, List.filter_cons, h, Option.map_none', Option.isNone_none,
        if_true, List.length_cons]
      omega
    | some t =>
      simp only [List.filterMap_cons, List.filter_cons, h, Option.map_some', Option.isNone_some,
        List.length_cons]
      simp
      omega

theorem getElem?_zero_append_of_ne_nil (l m : List Nat) (h : l ≠ []) : (l ++ m)[0]? = l[0]? := by
  cases l with
  | nil => exact absurd rfl h
  | cons a l => simp

/-- The bookkeeping after the lambda of `BuildPanelChildren` attached a
control. -/
theorem attach_count (control : UIElement) (el : CardElement) (hc : AdaptiveHostConfig)
    (c : Int) (x : XamlState) (pp : Nat) (hJ : SeparatorCount hc x pp c) :
    SeparatorCount hc
        (AddRenderedControl (some control) el pp (AddSeparatorIfNeeded c el hc x pp).2.2 none
          (AddSeparatorIfNeeded c el hc x pp).2.1).2 pp (AddSeparatorIfNeeded c el hc x pp).1 ∧
      panelElements
        (AddRenderedControl (some control) el pp (AddSeparatorIfNeeded c el hc x pp).2.2 none
          (AddSeparatorIfNeeded c el hc x pp).2.1).2 pp = panelElements x pp ++ [el] := by
  rcases hJ with ⟨hp, hidx, hcount, hfirst⟩
  have hlen := children_length_eq x pp
  rcases AddSeparatorIfNeeded_cases c el hc x pp with ⟨heq, hno⟩ | ⟨hpos, hneeds, heq⟩
  · rw [heq]
    rcases AddRenderedControl_some control el pp none none x with ⟨e, he, htag, _, _⟩
    simp only [he]
    have hpe : panelElements (AppendXamlElementToPanel x e pp).1 pp = panelElements x pp ++ [el] := by
      rw [panelElements_append x e pp hp, htag]; rfl
    have hps : panelSeparators (AppendXamlElementToPanel x e pp).1 pp = panelSeparators x pp := by
      rw [panelSeparators_append x e pp hp, htag]; simp
    refine ⟨⟨PanelOk_append x e pp hp, ?_, ?_, ?_⟩, hpe⟩
    · rw [hpe, List.length_append, hidx]; simp
    · rw [hpe, hps, hcount]
      cases hl : panelElements x pp with
      | nil => rfl
      | cons a l =>
        have hc0 : c > 0 := by rw [hidx, hl]; simp
        have hn : (GetSeparationConfigForElement el hc).needsSeparator = false := by
          cases hh : (GetSeparationConfigForElement el hc).needsSeparator with
          | false => rfl
          | true => exact absurd ⟨hc0, hh⟩ hno
        simp [List.filter_append, hn]
    · intro c0 hc0
      rw [get_Children_append_panel x e pp hp.1] at hc0
      cases hk : x.get_Children pp with
      | nil =>
        rw [hk] at hc0
        simp at hc0
        subst hc0
        rw [AppendXamlElementToPanel_get_Tag_new, htag]
        exact ⟨_, rfl, rfl⟩
      | cons k ks =>
        rw [hk] at hc0
        simp at hc0
        subst hc0
        have hk0 : (x.get_Children pp)[0]? = some k := by rw [hk]; simp
        have hklt : k < x.elements.length := hp.2.2 k (by rw [hk]; exact List.mem_cons_self _ _)
        rw [AppendXamlElementToPanel_get_Tag_old _ _ _ _ (by omega)]
        exact hfirst k hk0
  · rw [heq]
    simp only []
    have hp1 := PanelOk_append x
      (CreateSeparator (GetSeparationConfigForElement el hc).spacing
        (GetSeparationConfigForElement el hc).separatorThickness
        (GetSeparationConfigForElement el hc).separatorColor) pp hp
    have hpe1 := panelElements_append x
      (CreateSeparator (GetSeparationConfigForElement el hc).spacing
        (GetSeparationConfigForElement el hc).separatorThickness
        (GetSeparationConfigForElement el hc).separatorColor) pp hp
    have hps1 := panelSeparators_append x
      (CreateSeparator (GetSeparationConfigForElement el hc).spacing
        (GetSeparationConfigForElement el hc).separatorThickness
        (GetSeparationConfigForElement el hc).separatorColor) pp hp
    have hk1 := get_Children_append_panel x
      (CreateSeparator (GetSeparationConfigForElement el hc).spacing
        (GetSeparationConfigForElement el hc).separatorThickness
        (GetSeparationConfigForElement el hc).separatorColor) pp hp.1
    have hl1 := AppendXamlElementToPanel_length x
      (CreateSeparator (GetSeparationConfigForElement el hc).spacing
        (GetSeparationConfigForElement el hc).separatorThickness
        (GetSeparationConfigForElement el hc).separatorColor) pp
    have ht1 : ∀ p : Nat, p ≠ x.elements.length →
        (AppendXamlElementToPanel x
          (CreateSeparator (GetSeparationConfigForElement el hc).spacing
            (GetSeparationConfigForElement el hc).separatorThickness
            (GetSeparationConfigForElement el hc).separatorColor) pp).1.get_Tag p = x.get_Tag p :=
      fun p hp0 => AppendXamlElementToPanel_get_Tag_old _ _ _ _ hp0
    generalize (AppendXamlElementToPanel x
      (CreateSeparator (GetSeparationConfigForElement el hc).spacing
        (GetSeparationConfigForElement el hc).separatorThickness
        (GetSeparationConfigForElement el hc).separatorColor) pp).1 = x1 at hp1 hpe1 hps1 hk1 hl1 ht1 ⊢
    simp only [CreateSeparator, Option.map_none', Option.toList_none, List.append_nil,
      Option.isNone_none, if_true] at hpe1 hps1
    rcases AddRenderedControl_some control el pp (some x.elements.length) none x1 with
      ⟨e, he, htag, _, _⟩
    simp only [he]
    have hpe : panelElements (AppendXamlElementToPanel x1 e pp).1 pp = panelElements x pp ++ [el] := by
      rw [panelElements_append x1 e pp hp1, htag, hpe1]; rfl
    have hps : panelSeparators (AppendXamlElementToPanel x1 e pp).1 pp =
        panelSeparators x pp ++ [x.elements.length] := by
      rw [panelSeparators_append x1 e pp hp1, htag, hps1]; simp
    have hne : panelElements x pp ≠ [] := by
      intro h0
      rw [h0] at hidx
      simp at hidx
      omega
    refine ⟨⟨PanelOk_append x1 e pp hp1, ?_, ?_, ?_⟩, hpe⟩
    · rw [hpe, List.length_append, hidx]; simp
    · rw [hpe, hps, List.length_append, hcount]
      cases hl : panelElements x pp with
      | nil => exact absurd hl hne
      | cons a l => simp [List.filter_append, hneeds]
    · intro c0 hc0
      rw [get_Children_append_panel x1 e pp hp1.1, hk1] at hc0
      cases hk : x.get_Children pp with
      | nil =>
        exfalso
        rw [hk] at hlen
        simp at hlen
        exact hne (List.length_eq_zero.mp (by omega))
      | cons k ks =>
        rw [hk] at hc0
        simp at hc0
        subst hc0
        have hk0 : (x.get_Children pp)[0]? = some k := by rw [hk]; simp
        have hklt : k < x.elements.length := hp.2.2 k (by rw [hk]; exact List.mem_cons_self _ _)
        rw [AppendXamlElementToPanel_get_Tag_old _ _ _ _ (by omega), ht1 k (by omega)]
        exact hfirst k hk0

end XamlBuilder

namespace XamlBuilder
open AdaptiveNamespace

theorem sameRegistration_refl (a : AdaptiveRenderContext) : sameRegistration a a :=
  ⟨rfl, rfl, rfl⟩

theorem sameRegistration_trans {a b c : AdaptiveRenderContext} (h1 : sameRegistration a b)
    (h2 : sameRegistration b c) : sameRegistration a c :=
  ⟨h2.1.trans h1.1, h2.2.1.trans h1.2.1, h2.2.2.trans h1.2.2⟩

/-- `RenderFallback` changes nothing of the render context but the sink. -/
theorem RenderFallback_sameRegistration (el : CardElement) :
    ∀ (ctx : AdaptiveRenderContext) (args : AdaptiveRenderArgs),
      sameRegistration ctx (RenderFallback el ctx args).renderContext := by
  refine CardElement.rec
    (motive_1 := fun el => ∀ (ctx : AdaptiveRenderContext) (args : AdaptiveRenderArgs),
      sameRegistration ctx (RenderFallback el ctx args).renderContext)
    (motive_2 := fun f => ∀ (props : ElementProperties) (ctx : AdaptiveRenderContext)
      (args : AdaptiveRenderArgs),
      sameRegistration ctx (RenderFallback (.mk props f) ctx args).renderContext)
    ?_ ?_ ?_ ?_ el
  · intro props f ih ctx args
    exact ih props ctx args
  · intro props ctx args
    unfold RenderFallback
    simp only []
    split <;> exact ⟨rfl, rfl, rfl⟩
  · intro props ctx args
    unfold RenderFallback
    exact ⟨rfl, rfl, rfl⟩
  · intro c ih props ctx args
    unfold RenderFallback
    simp only []
    split
    · exact ⟨rfl, rfl, rfl⟩
    · split
      · have := ih ((WarnForFallbackContentElement ctx props.elementTypeString
            c.get_ElementTypeString).addWarnings
            (match (ctx.elementRenderers c.get_ElementTypeString).2 with
              | some fallbackElementRenderer => fallbackElementRenderer c args
              | none => { hr := E_PERFORM_FALLBACK, result := none, warnings := [] }).warnings) args
        split
        · exact sameRegistration_trans ⟨rfl, rfl, rfl⟩ this
        · exact sameRegistration_trans ⟨rfl, rfl, rfl⟩ this
      · split <;> exact ⟨rfl, rfl, rfl⟩

end XamlBuilder

namespace XamlBuilder
open AdaptiveNamespace

theorem SeparatorCount_hostConfig (hc hc2 : AdaptiveHostConfig) (x : XamlState) (pp : Nat)
    (c : Int) (h : SeparatorCount hc x pp c) : SeparatorCount hc2 x pp c := h

theorem renderElement_count (pp : Nat) (anc : Bool) (s : PanelBuild) (el : CardElement)
    (hc : AdaptiveHostConfig) (hJ : SeparatorCount hc s.xaml pp s.iElement) :
    SeparatorCount hc (BuildPanelChildren.renderElement pp anc s el).2.xaml pp
        (BuildPanelChildren.renderElement pp anc s el).2.iElement ∧
      (panelElements (BuildPanelChildren.renderElement pp anc s el).2.xaml pp = panelElements s.xaml pp ∨
        panelElements (BuildPanelChildren.renderElement pp anc s el).2.xaml pp =
          panelElements s.xaml pp ++ [el]) := by
  rcases renderElement_xaml_cases pp anc s el with ⟨h1, h2⟩ | ⟨control, h1, h2⟩
  · rw [h1, h2]; exact ⟨hJ, Or.inl rfl⟩
  · rw [h1, h2]
    have := attach_count control el s.renderContext.hostConfig s.iElement s.xaml pp
      (SeparatorCount_hostConfig hc _ _ _ _ hJ)
    exact ⟨SeparatorCount_hostConfig _ hc _ _ _ this.1, Or.inr this.2⟩

theorem iterate_count (pp : Nat) (anc flag : Bool) (hc : AdaptiveHostConfig)
    (els : List CardElement) :
    ∀ (s : PanelBuild) (done : List CardElement), SeparatorCount hc s.xaml pp s.iElement →
      (panelElements s.xaml pp).Sublist done →
      SeparatorCount hc
          (IterateOverVectorWithFailure els flag (BuildPanelChildren.renderElement pp anc) s).2.xaml pp
          (IterateOverVectorWithFailure els flag (BuildPanelChildren.renderElement pp anc) s).2.iElement ∧
        (panelElements
          (IterateOverVectorWithFailure els flag (BuildPanelChildren.renderElement pp anc) s).2.xaml
          pp).Sublist (done ++ els) := by
  induction els with
  | nil =>
    intro s done hJ hsub
    simp only [IterateOverVectorWithFailure, List.append_nil]
    exact ⟨hJ, hsub⟩
  | cons el els ih =>
    intro s done hJ hsub
    rw [iterate_cons]
    have h1 := renderElement_count pp anc s el hc hJ
    have hsub1 : (panelElements (BuildPanelChildren.renderElement pp anc s el).2.xaml pp).Sublist
        (done ++ [el]) := by
      rcases h1.2 with h | h
      · rw [h]; exact hsub.trans (List.sublist_append_left _ _)
      · rw [h]; exact List.Sublist.append hsub (List.Sublist.refl _)
    split
    · refine ⟨h1.1, ?_⟩
      have : done ++ el :: els = (done ++ [el]) ++ els := by simp
      rw [this]
      exact hsub1.trans (List.sublist_append_left _ _)
    · have := ih _ (done ++ [el]) h1.1 hsub1
      have heq : done ++ el :: els = (done ++ [el]) ++ els := by simp
      rw [heq]
      exact this

theorem panelElements_congr (x y : XamlState) (pp : Nat)
    (hk : y.get_Children pp = x.get_Children pp) (ht : ∀ p, y.get_Tag p = x.get_Tag p) :
    panelElements y pp = panelElements x pp := by
  unfold panelElements
  rw [hk]
  simp only [ht]

theorem panelSeparators_congr (x y : XamlState) (pp : Nat)
    (hk : y.get_Children pp = x.get_Children pp) (ht : ∀ p, y.get_Tag p = x.get_Tag p) :
    panelSeparators y pp = panelSeparators x pp := by
  unfold panelSeparators
  rw [hk]
  simp only [ht]

end XamlBuilder

namespace XamlBuilder
open AdaptiveNamespace

theorem RenderFallback_content_then_drop (properties substitute : ElementProperties)
    (ctx : AdaptiveRenderContext) (args : AdaptiveRenderArgs)
    (hXfound : FAILED (ctx.elementRenderers substitute.elementTypeString).1 = false)
    (hXnone : (ctx.elementRenderers substitute.elementTypeString).2 = none) :
    RenderFallback (.mk properties (Fallback.Content (.mk substitute Fallback.Drop))) ctx args =
      { hr := S_OK, result := none,
        renderContext :=
          { ctx with
            warnings := ctx.warnings ++
              [AdaptiveWarning.fallbackContent properties.elementTypeString substitute.elementTypeString,
               AdaptiveWarning.fallbackDrop substitute.elementTypeString] },
        nestedCalls := 1 } := by
  have hfp : FAILED E_PERFORM_FALLBACK = true := by decide
  have hok : FAILED S_OK = false := by decide
  unfold RenderFallback
  simp only [WarnForFallbackContentElement, CardElement.get_ElementTypeString, CardElement.properties,
    hXfound, hXnone, Bool.false_eq_true, if_false, if_true, AdaptiveRenderContext.addWarnings,
    List.append_nil]
  unfold RenderFallback
  simp [WarnForFallbackDrop, hok]

/-- C7. An element whose fallback is the content `X`, where `X` has no
registered renderer and the fallback `Drop`, and which has no usable renderer
of its own: none is registered for its type, or its requirements are not met,
or the registered renderer declines without reporting a warning.  The lambda
of `BuildPanelChildren` run on it, from any state, appends two diagnostics to
the sink, "fell back to the type of `X`" and then "`X` dropped", and leaves the
store and the separator counter as they were; `BuildPanelChildren` on the
element alone appends the same two diagnostics and gives the panel no new
child and the store no new object. -/
theorem BuildPanelChildren_fallback_content_dropped (properties substitute : ElementProperties)
    (parentPanel : Nat) (xaml : XamlState) (renderContext : AdaptiveRenderContext)
    (renderArgs : AdaptiveRenderArgs) (inherited : Bool) (iElement : Int)
    (hreq : FAILED (renderContext.meetsRequirements
      (.mk properties (Fallback.Content (.mk substitute Fallback.Drop)))).1 = false)
    (hfound : FAILED (renderContext.elementRenderers properties.elementTypeString).1 = false)
    (hunusable : ∀ renderer,
      (renderContext.elementRenderers properties.elementTypeString).2 = some renderer →
      (renderContext.meetsRequirements
        (.mk properties (Fallback.Content (.mk substitute Fallback.Drop)))).2 = true →
      (renderer (.mk properties (Fallback.Content (.mk substitute Fallback.Drop)))
          (renderArgs.put_AncestorHasFallback true)).hr = E_PERFORM_FALLBACK ∧
        (renderer (.mk properties (Fallback.Content (.mk substitute Fallback.Drop)))
          (renderArgs.put_AncestorHasFallback true)).warnings = [])
    (hXfound : FAILED (renderContext.elementRenderers substitute.elementTypeString).1 = false)
    (hXnone : (renderContext.elementRenderers substitute.elementTypeString).2 = none) :
    ((BuildPanelChildren.renderElement parentPanel inherited
        { xaml := xaml, renderContext := renderContext, renderArgs := renderArgs, iElement := iElement }
        (.mk properties (Fallback.Content (.mk substitute Fallback.Drop)))).2.renderContext.warnings =
      renderContext.warnings ++
        [AdaptiveWarning.fallbackContent properties.elementTypeString substitute.elementTypeString,
         AdaptiveWarning.fallbackDrop substitute.elementTypeString] ∧
     (BuildPanelChildren.renderElement parentPanel inherited
        { xaml := xaml, renderContext := renderContext, renderArgs := renderArgs, iElement := iElement }
        (.mk properties (Fallback.Content (.mk substitute Fallback.Drop)))).2.xaml = xaml ∧
     (BuildPanelChildren.renderElement parentPanel inherited
        { xaml := xaml, renderContext := renderContext, renderArgs := renderArgs, iElement := iElement }
        (.mk properties (Fallback.Content (.mk substitute Fallback.Drop)))).2.iElement = iElement) ∧
    ((BuildPanelChildren [.mk properties (Fallback.Content (.mk substitute Fallback.Drop))] parentPanel
        xaml renderContext renderArgs).renderContext.warnings =
      renderContext.warnings ++
        [AdaptiveWarning.fallbackContent properties.elementTypeString substitute.elementTypeString,
         AdaptiveWarning.fallbackDrop substitute.elementTypeString] ∧
     (BuildPanelChildren [.mk properties (Fallback.Content (.mk substitute Fallback.Drop))] parentPanel
        xaml renderContext renderArgs).xaml.elements.length = xaml.elements.length ∧
     ∀ p, (BuildPanelChildren [.mk properties (Fallback.Content (.mk substitute Fallback.Drop))]
        parentPanel xaml renderContext renderArgs).xaml.get_Children p = xaml.get_Children p) := by
  have hfp : FAILED E_PERFORM_FALLBACK = true := by decide
  have hok : FAILED S_OK = false := by decide
  have hsok : SUCCEEDED S_OK = true := by decide
  have hsfp : SUCCEEDED E_PERFORM_FALLBACK = false := by decide
  have hne : S_OK ≠ E_PERFORM_FALLBACK := by decide
  -- what the lambda yields, for any inherited flag and counter
  have key : ∀ (inh : Bool) (c : Int),
      (BuildPanelChildren.renderElement parentPanel inh
        { xaml := xaml, renderContext := renderContext, renderArgs := renderArgs, iElement := c }
        (.mk properties (Fallback.Content (.mk substitute Fallback.Drop)))).2.renderContext.warnings =
        renderContext.warnings ++
          [AdaptiveWarning.fallbackContent properties.elementTypeString substitute.elementTypeString,
           AdaptiveWarning.fallbackDrop substitute.elementTypeString] ∧
      (BuildPanelChildren.renderElement parentPanel inh
        { xaml := xaml, renderContext := renderContext, renderArgs := renderArgs, iElement := c }
        (.mk properties (Fallback.Content (.mk substitute Fallback.Drop)))).2.xaml = xaml ∧
      (BuildPanelChildren.renderElement parentPanel inh
        { xaml := xaml, renderContext := renderContext, renderArgs := renderArgs, iElement := c }
        (.mk properties (Fallback.Content (.mk substitute Fallback.Drop)))).2.iElement = c := by
    intro inh c
    have hargs : renderArgs.put_AncestorHasFallback
        (decide ((CardElement.mk properties (Fallback.Content (.mk substitute Fallback.Drop))).get_FallbackType
          ≠ FallbackType.None) || inh) = renderArgs.put_AncestorHasFallback true := by
      simp [CardElement.get_FallbackType, CardElement.fallback]
    unfold BuildPanelChildren.renderElement
    simp only [hargs, hreq, hfound, Bool.false_eq_true, if_false, CardElement.get_ElementTypeString,
      CardElement.properties]
    cases hl : (renderContext.elementRenderers properties.elementTypeString).2 with
    | none =>
      simp only [BuildPanelChildren.render, BuildPanelChildren.fallback, Option.isNone_none,
        Bool.true_or, if_true, AdaptiveRenderContext.addWarnings, List.append_nil]
      rw [RenderFallback_content_then_drop properties substitute _ _ hXfound hXnone]
      simp only [hok, Bool.false_eq_true, if_false, BuildPanelChildren.attach]
      exact ⟨trivial, trivial, trivial⟩
    | some renderer =>
      cases hm : (renderContext.meetsRequirements
          (.mk properties (Fallback.Content (.mk substitute Fallback.Drop)))).2 with
      | false =>
        simp only [BuildPanelChildren.render, BuildPanelChildren.fallback, Bool.false_eq_true,
          if_false, hsfp, Option.isNone_some, Bool.false_or, decide_True, if_true,
          AdaptiveRenderContext.addWarnings, List.append_nil]
        rw [RenderFallback_content_then_drop properties substitute _ _ hXfound hXnone]
        simp only [hok, Bool.false_eq_true, if_false, BuildPanelChildren.attach]
        exact ⟨trivial, trivial, trivial⟩
      | true =>
        have hu := hunusable renderer hl hm
        simp only [BuildPanelChildren.render, BuildPanelChildren.fallback, if_true, hsok, hu.1, hu.2,
          Option.isNone_some, Bool.false_or, decide_True, AdaptiveRenderContext.addWarnings,
          List.append_nil]
        rw [RenderFallback_content_then_drop properties substitute _ _ hXfound hXnone]
        simp only [hok, Bool.false_eq_true, if_false, BuildPanelChildren.attach]
        exact ⟨trivial, trivial, trivial⟩
  refine ⟨key inherited iElement, ?_⟩
  have hk := key renderArgs.ancestorHasFallback 0
  have hiter : (IterateOverVectorWithFailure
      [CardElement.mk properties (Fallback.Content (.mk substitute Fallback.Drop))]
      renderArgs.ancestorHasFallback
      (BuildPanelChildren.renderElement parentPanel renderArgs.ancestorHasFallback)
      { xaml := xaml, renderContext := renderContext, renderArgs := renderArgs, iElement := 0 }).2 =
      (BuildPanelChildren.renderElement parentPanel renderArgs.ancestorHasFallback
        { xaml := xaml, renderContext := renderContext, renderArgs := renderArgs, iElement := 0 }
        (.mk properties (Fallback.Content (.mk substitute Fallback.Drop)))).2 := by
    rw [iterate_cons]
    split
    · rfl
    · rfl
  refine ⟨?_, ?_, ?_⟩
  · have : (BuildPanelChildren [.mk properties (Fallback.Content (.mk substitute Fallback.Drop))]
        parentPanel xaml renderContext renderArgs).renderContext =
        (IterateOverVectorWithFailure
          [CardElement.mk properties (Fallback.Content (.mk substitute Fallback.Drop))]
          renderArgs.ancestorHasFallback
          (BuildPanelChildren.renderElement parentPanel renderArgs.ancestorHasFallback)
          { xaml := xaml, renderContext := renderContext, renderArgs := renderArgs,
            iElement := 0 }).2.renderContext := by
      unfold BuildPanelChildren
      simp only []
      split <;> rfl
    rw [this, hiter]
    exact hk.1
  · rw [BuildPanelChildren_xaml, SetSeparatorVisibility_length, hiter, hk.2.1]
  · intro p
    rw [BuildPanelChildren_xaml, SetSeparatorVisibility_get_Children, hiter, hk.2.1]

end XamlBuilder

namespace XamlBuilder
open AdaptiveNamespace

/-- Witness of C7: an element of type "Graph" without renderer falls back to
content of type "Chart", which has no renderer either and is dropped. -/
theorem BuildPanelChildren_fallback_content_dropped_witness :
    (BuildPanelChildren [sampleFallbackToDropped] 0 emptyPanel sampleContext
        topLevelArgs).renderContext.warnings =
      [AdaptiveWarning.fallbackContent "Graph" "Chart", AdaptiveWarning.fallbackDrop "Chart"] ∧
    (BuildPanelChildren [sampleFallbackToDropped] 0 emptyPanel sampleContext
        topLevelArgs).xaml.get_Children 0 = [] :=
  ⟨(BuildPanelChildren_fallback_content_dropped sampleFallbackToDropped.properties
      sampleDropped.properties 0 emptyPanel sampleContext topLevelArgs false 0 rfl rfl
      (by
        intro renderer h
        have hnone : (sampleContext.elementRenderers
            sampleFallbackToDropped.properties.elementTypeString).2 = none := rfl
        rw [hnone] at h
        cases h)
      rfl rfl).2.1,
    (BuildPanelChildren_fallback_content_dropped sampleFallbackToDropped.properties
      sampleDropped.properties 0 emptyPanel sampleContext topLevelArgs false 0 rfl rfl
      (by
        intro renderer h
        have hnone : (sampleContext.elementRenderers
            sampleFallbackToDropped.properties.elementTypeString).2 = none := rfl
        rw [hnone] at h
        cases h)
      rfl rfl).2.2.2 0⟩

theorem fallback_sameRegistration (r : Option ElementRenderer) (o : RenderOutcome)
    (el : CardElement) (ctx : AdaptiveRenderContext) (args : AdaptiveRenderArgs) :
    sameRegistration ctx (BuildPanelChildren.fallback r o el ctx args).renderContext := by
  unfold BuildPanelChildren.fallback
  split
  · exact RenderFallback_sameRegistration el ctx args
  · exact sameRegistration_refl ctx

theorem attach_renderContext (pp : Nat) (anc : Bool) (s : PanelBuild) (el : CardElement)
    (hr : HRESULT) (newControl : Option UIElement) :
    (BuildPanelChildren.attach pp anc s el hr newControl).2.renderContext = s.renderContext := by
  cases newControl with
  | none => rfl
  | some control =>
    unfold BuildPanelChildren.attach
    simp only []
    split <;> rfl

theorem renderElement_sameRegistration (pp : Nat) (anc : Bool) (s : PanelBuild) (el : CardElement) :
    sameRegistration s.renderContext (BuildPanelChildren.renderElement pp anc s el).2.renderContext := by
  unfold BuildPanelChildren.renderElement
  simp only []
  by_cases h1 : FAILED (s.renderContext.meetsRequirements el).1 = true
  · rw [if_pos h1]
    exact sameRegistration_refl _
  · rw [if_neg h1]
    by_cases h2 : FAILED (s.renderContext.elementRenderers el.get_ElementTypeString).1 = true
    · rw [if_pos h2]
      exact sameRegistration_refl _
    · rw [if_neg h2]
      generalize (if (s.renderContext.meetsRequirements el).2 = true then S_OK
        else E_PERFORM_FALLBACK) = hr0
      have hfb := fallback_sameRegistration (s.renderContext.elementRenderers el.get_ElementTypeString).2
        (BuildPanelChildren.render (s.renderContext.elementRenderers el.get_ElementTypeString).2 hr0 el
          (s.renderArgs.put_AncestorHasFallback (decide (el.get_FallbackType ≠ FallbackType.None) || anc)))
        el
        (s.renderContext.addWarnings
          (BuildPanelChildren.render (s.renderContext.elementRenderers el.get_ElementTypeString).2 hr0 el
            (s.renderArgs.put_AncestorHasFallback
              (decide (el.get_FallbackType ≠ FallbackType.None) || anc))).warnings)
        (s.renderArgs.put_AncestorHasFallback (decide (el.get_FallbackType ≠ FallbackType.None) || anc))
      have hadd : sameRegistration s.renderContext
          (s.renderContext.addWarnings
            (BuildPanelChildren.render (s.renderContext.elementRenderers el.get_ElementTypeString).2 hr0
              el (s.renderArgs.put_AncestorHasFallback
                (decide (el.get_FallbackType ≠ FallbackType.None) || anc))).warnings) :=
        ⟨rfl, rfl, rfl⟩
      split
      · exact sameRegistration_trans hadd hfb
      · rw [attach_renderContext]
        exact sameRegistration_trans hadd hfb

theorem iterate_sameRegistration (pp : Nat) (anc flag : Bool) (els : List CardElement) :
    ∀ (s : PanelBuild), sameRegistration s.renderContext
      (IterateOverVectorWithFailure els flag (BuildPanelChildren.renderElement pp anc)
        s).2.renderContext := by
  induction els with
  | nil => intro s; exact sameRegistration_refl _
  | cons el els ih =>
    intro s
    rw [iterate_cons]
    split
    · exact renderElement_sameRegistration pp anc s el
    · exact sameRegistration_trans (renderElement_sameRegistration pp anc s el) (ih _)

theorem iterate_append {α σ : Type} (xs ys : List α) (flag : Bool) (cb : σ → α → HRESULT × σ) :
    ∀ (s : σ), IterateOverVectorWithFailure (xs ++ ys) flag cb s =
      if FAILED (IterateOverVectorWithFailure xs flag cb s).1 then
        IterateOverVectorWithFailure xs flag cb s
      else IterateOverVectorWithFailure ys flag cb (IterateOverVectorWithFailure xs flag cb s).2 := by
  induction xs with
  | nil =>
    intro s
    have : FAILED S_OK = false := by decide
    simp [IterateOverVectorWithFailure, this]
  | cons x xs ih =>
    intro s
    rw [List.cons_append, iterate_cons, iterate_cons]
    by_cases h : FAILED (cb s x).1 = true
    · simp [h]
    · simp only [h, if_false]
      exact ih _

theorem BuildPanelChildren_hr (els : List CardElement) (pp : Nat) (x : XamlState)
    (ctx : AdaptiveRenderContext) (args : AdaptiveRenderArgs) :
    (BuildPanelChildren els pp x ctx args).hr =
      (IterateOverVectorWithFailure els args.ancestorHasFallback
        (BuildPanelChildren.renderElement pp args.ancestorHasFallback)
        { xaml := x, renderContext := ctx, renderArgs := args, iElement := 0 }).1 := by
  have hok : FAILED S_OK = false := by decide
  unfold BuildPanelChildren
  simp [SetSeparatorVisibility, hok]

theorem BuildPanelChildren_renderContext (els : List CardElement) (pp : Nat) (x : XamlState)
    (ctx : AdaptiveRenderContext) (args : AdaptiveRenderArgs) :
    (BuildPanelChildren els pp x ctx args).renderContext =
      (IterateOverVectorWithFailure els args.ancestorHasFallback
        (BuildPanelChildren.renderElement pp args.ancestorHasFallback)
        { xaml := x, renderContext := ctx, renderArgs := args, iElement := 0 }).2.renderContext := by
  unfold BuildPanelChildren
  simp only []
  split <;> rfl

/-- The lambda on an element with fallback type `None` and no renderer, under
an inherited `ancestorHasFallback` of true. -/
theorem renderElement_unrenderable (pp : Nat) (s : PanelBuild) (el : CardElement)
    (hfallback : el.get_FallbackType = FallbackType.None)
    (hreq : FAILED (s.renderContext.meetsRequirements el).1 = false)
    (hfound : FAILED (s.renderContext.elementRenderers el.get_ElementTypeString).1 = false)
    (hnone : (s.renderContext.elementRenderers el.get_ElementTypeString).2 = none) :
    (BuildPanelChildren.renderElement pp true s el).1 = E_PERFORM_FALLBACK ∧
      (BuildPanelChildren.renderElement pp true s el).2.renderContext.warnings =
        s.renderContext.warnings := by
  have hfp : FAILED E_PERFORM_FALLBACK = true := by decide
  cases el with
  | mk props fb =>
    cases fb with
    | Drop => simp [CardElement.get_FallbackType, CardElement.fallback] at hfallback
    | Content c => simp [CardElement.get_FallbackType, CardElement.fallback] at hfallback
    | None =>
      unfold BuildPanelChildren.renderElement
      simp only [hreq, hfound, hnone, Bool.false_eq_true, if_false, BuildPanelChildren.render,
        BuildPanelChildren.fallback, Option.isNone_none, Bool.true_or, if_true,
        AdaptiveRenderContext.addWarnings, List.append_nil]
      unfold RenderFallback
      simp [AdaptiveRenderArgs.put_AncestorHasFallback, hfp]

/-- C8. `BuildPanelChildren` entered with `ancestorHasFallback` true, on a
sequence in which the elements before `element` are processed without failure
and `element` has fallback type `None` and no registered renderer: the call
returns `E_PERFORM_FALLBACK`, and the sink is as the elements before left it,
so no `NoRendererForType` warning (nor any other) is appended for `element`. -/
theorem BuildPanelChildren_unrenderable_under_fallback (before after : List CardElement)
    (element : CardElement) (parentPanel : Nat) (xaml : XamlState)
    (renderContext : AdaptiveRenderContext) (renderArgs : AdaptiveRenderArgs)
    (hancestor : renderArgs.ancestorHasFallback = true)
    (hfallback : element.get_FallbackType = FallbackType.None)
    (hreq : FAILED (renderContext.meetsRequirements element).1 = false)
    (hfound : FAILED (renderContext.elementRenderers element.get_ElementTypeString).1 = false)
    (hnone : (renderContext.elementRenderers element.get_ElementTypeString).2 = none)
    (hbefore : FAILED (BuildPanelChildren before parentPanel xaml renderContext renderArgs).hr = false) :
    (BuildPanelChildren (before ++ element :: after) parentPanel xaml renderContext renderArgs).hr =
      E_PERFORM_FALLBACK ∧
    (BuildPanelChildren (before ++ element :: after) parentPanel xaml renderContext
        renderArgs).renderContext.warnings =
      (BuildPanelChildren before parentPanel xaml renderContext renderArgs).renderContext.warnings := by
  have hfp : FAILED E_PERFORM_FALLBACK = true := by decide
  rw [BuildPanelChildren_hr] at hbefore ⊢
  rw [BuildPanelChildren_renderContext, BuildPanelChildren_renderContext]
  rw [iterate_append, hbefore]
  simp only [Bool.false_eq_true, if_false]
  have hreg := iterate_sameRegistration parentPanel renderArgs.ancestorHasFallback
    renderArgs.ancestorHasFallback before
    { xaml := xaml, renderContext := renderContext, renderArgs := renderArgs, iElement := 0 }
  generalize (IterateOverVectorWithFailure before renderArgs.ancestorHasFallback
    (BuildPanelChildren.renderElement parentPanel renderArgs.ancestorHasFallback)
    { xaml := xaml, renderContext := renderContext, renderArgs := renderArgs, iElement := 0 }).2 = s
    at hreg ⊢
  simp only [] at hreg
  rw [iterate_cons, hancestor]
  have hel := renderElement_unrenderable parentPanel s element hfallback
    (by rw [hreg.2.2]; exact hreq) (by rw [hreg.2.1]; exact hfound) (by rw [hreg.2.1]; exact hnone)
  rw [hel.1, hfp]
  simp only [if_true]
  exact ⟨hel.1, hel.2⟩

/-- Witness of C8: after a text block, an element of unknown type without
fallback, below an ancestor that has one. -/
theorem BuildPanelChildren_unrenderable_under_fallback_witness :
    nestedArgs.ancestorHasFallback = true ∧
    (BuildPanelChildren ([sampleText] ++ sampleUnknown :: [sampleSeparatedText]) 0 emptyPanel
      sampleContext nestedArgs).hr = E_PERFORM_FALLBACK ∧
    (BuildPanelChildren ([sampleText] ++ sampleUnknown :: [sampleSeparatedText]) 0 emptyPanel
      sampleContext nestedArgs).renderContext.warnings = [] :=
  ⟨rfl,
    (BuildPanelChildren_unrenderable_under_fallback [sampleText] [sampleSeparatedText] sampleUnknown 0
      emptyPanel sampleContext nestedArgs rfl rfl rfl rfl rfl (by decide)).1,
    (BuildPanelChildren_unrenderable_under_fallback [sampleText] [sampleSeparatedText] sampleUnknown 0
      emptyPanel sampleContext nestedArgs rfl rfl rfl rfl rfl (by decide)).2⟩

end XamlBuilder

namespace XamlBuilder
open AdaptiveNamespace

/-- C11, counterexample.  The fallback content is an image whose renderer fails
with `E_INVALIDARG`: `RenderFallback` returns that failure, and the sink, empty
before, holds the fell-back diagnostic. -/
theorem RenderFallback_failed_substitute_diagnostic :
    sampleContext.warnings = [] ∧
    (RenderFallback sampleFallbackToImage sampleContext topLevelArgs).hr = E_INVALIDARG ∧
    FAILED (RenderFallback sampleFallbackToImage sampleContext topLevelArgs).hr = true ∧
    (RenderFallback sampleFallbackToImage sampleContext topLevelArgs).hr ≠ E_PERFORM_FALLBACK ∧
    (RenderFallback sampleFallbackToImage sampleContext topLevelArgs).renderContext.warnings =
      [AdaptiveWarning.fallbackContent "Graph" "Image"] := by
  decide

/-- C11, amended.  `RenderFallback` on an element with fallback content whose
renderer is found and does not ask for fallback: the fell-back diagnostic is
appended once, before the substitute is rendered, followed by what the
renderer reports, both when the substitute renders successfully (the result is
`S_OK` with the control of the renderer) and when its render fails (the result
is that failure). -/
theorem RenderFallback_content_diagnostic (properties : ElementProperties)
    (fallbackElement : CardElement) (renderContext : AdaptiveRenderContext)
    (renderArgs : AdaptiveRenderArgs) (renderer : ElementRenderer)
    (hlookup : (renderContext.elementRenderers fallbackElement.get_ElementTypeString).2 = some renderer)
    (hfound : FAILED (renderContext.elementRenderers fallbackElement.get_ElementTypeString).1 = false)
    (hother : (renderer fallbackElement renderArgs).hr ≠ E_PERFORM_FALLBACK) :
    (RenderFallback (.mk properties (Fallback.Content fallbackElement)) renderContext
      renderArgs).renderContext.warnings =
      renderContext.warnings ++
        [AdaptiveWarning.fallbackContent properties.elementTypeString
          fallbackElement.get_ElementTypeString] ++
        (renderer fallbackElement renderArgs).warnings ∧
    (FAILED (renderer fallbackElement renderArgs).hr = false →
      (RenderFallback (.mk properties (Fallback.Content fallbackElement)) renderContext
        renderArgs).hr = S_OK ∧
      (RenderFallback (.mk properties (Fallback.Content fallbackElement)) renderContext
        renderArgs).result = (renderer fallbackElement renderArgs).result) ∧
    (FAILED (renderer fallbackElement renderArgs).hr = true →
      (RenderFallback (.mk properties (Fallback.Content fallbackElement)) renderContext
        renderArgs).hr = (renderer fallbackElement renderArgs).hr) := by
  unfold RenderFallback
  simp only [WarnForFallbackContentElement, hfound, hlookup, hother, if_false,
    Bool.false_eq_true, AdaptiveRenderContext.addWarnings]
  refine ⟨?_, ?_, ?_⟩
  · split <;> rfl
  · intro h
    simp [h]
  · intro h
    simp [h]

/-- Witness of C11 (amended): the fallback content is a text block, which
renders; the sink holds the fell-back diagnostic once. -/
theorem RenderFallback_content_diagnostic_witness :
    (RenderFallback sampleFallbackToText sampleContext topLevelArgs).hr = S_OK ∧
    (RenderFallback sampleFallbackToText sampleContext topLevelArgs).renderContext.warnings =
      [AdaptiveWarning.fallbackContent "Graph" "TextBlock"] :=
  ⟨((RenderFallback_content_diagnostic _ sampleText sampleContext topLevelArgs plainRenderer
      rfl rfl (by decide)).2.1 rfl).1,
    (RenderFallback_content_diagnostic _ sampleText sampleContext topLevelArgs plainRenderer
      rfl rfl (by decide)).1⟩

/-- C12. `RenderFallback` is a total function on elements, whose fallback
chains are finite: for every element, context and arguments it yields an
outcome, and the number of nested `RenderFallback` calls made for it is at most
the length of the chain of `Content` fallbacks of the element. -/
theorem RenderFallback_nestedCalls_le (currentElement : CardElement) :
    ∀ (renderContext : AdaptiveRenderContext) (renderArgs : AdaptiveRenderArgs),
      ∃ outcome, RenderFallback currentElement renderContext renderArgs = outcome ∧
        outcome.nestedCalls ≤ fallbackChainLength currentElement := by
  refine CardElement.rec
    (motive_1 := fun el => ∀ (ctx : AdaptiveRenderContext) (args : AdaptiveRenderArgs),
      ∃ outcome, RenderFallback el ctx args = outcome ∧ outcome.nestedCalls ≤ fallbackChainLength el)
    (motive_2 := fun f => ∀ (props : ElementProperties) (ctx : AdaptiveRenderContext)
      (args : AdaptiveRenderArgs),
      ∃ outcome, RenderFallback (.mk props f) ctx args = outcome ∧
        outcome.nestedCalls ≤ fallbackChainLength (.mk props f))
    ?_ ?_ ?_ ?_ currentElement
  · intro props f ih ctx args
    exact ih props ctx args
  · intro props ctx args
    refine ⟨_, rfl, ?_⟩
    unfold RenderFallback
    simp only []
    split <;> simp
  · intro props ctx args
    refine ⟨_, rfl, ?_⟩
    unfold RenderFallback
    simp
  · intro c ih props ctx args
    refine ⟨_, rfl, ?_⟩
    unfold RenderFallback fallbackChainLength
    simp only []
    split
    · simp
    · split
      · rcases ih ((WarnForFallbackContentElement ctx props.elementTypeString
            c.get_ElementTypeString).addWarnings
            (match (ctx.elementRenderers c.get_ElementTypeString).2 with
              | some fallbackElementRenderer => fallbackElementRenderer c args
              | none => { hr := E_PERFORM_FALLBACK, result := none, warnings := [] }).warnings) args
          with ⟨o, ho, hle⟩
        subst ho
        split <;> simpa using hle
      · split <;> simp

end XamlBuilder

namespace XamlBuilder
open AdaptiveNamespace

/-- C16. `AddListener` with a listener that is in the set returns
`E_INVALIDARG` and leaves the builder as it is; with a listener that is not in
the set it returns `S_OK` and the set gains that listener and nothing else.
`RemoveListener` with a listener that is not in the set returns `E_INVALIDARG`
and leaves the builder as it is; with a listener that is in the set it returns
`S_OK` and the set loses that listener and nothing else. -/
theorem AddListener_RemoveListener_spec (builder : XamlBuilderObject) (listener : Nat) :
    (listener ∈ builder.listeners → AddListener builder listener = (E_INVALIDARG, builder)) ∧
    (listener ∉ builder.listeners →
      (AddListener builder listener).1 = S_OK ∧
      (∀ m, m ∈ (AddListener builder listener).2.listeners ↔ m = listener ∨ m ∈ builder.listeners) ∧
      (AddListener builder listener).2.listeners.card = builder.listeners.card + 1 ∧
      (AddListener builder listener).2.imageLoadTracker = builder.imageLoadTracker ∧
      (AddListener builder listener).2.calls = builder.calls) ∧
    (listener ∉ builder.listeners → RemoveListener builder listener = (E_INVALIDARG, builder)) ∧
    (listener ∈ builder.listeners →
      (RemoveListener builder listener).1 = S_OK ∧
      (∀ m, m ∈ (RemoveListener builder listener).2.listeners ↔ m ≠ listener ∧ m ∈ builder.listeners) ∧
      (RemoveListener builder listener).2.listeners.card + 1 = builder.listeners.card ∧
      (RemoveListener builder listener).2.imageLoadTracker = builder.imageLoadTracker ∧
      (RemoveListener builder listener).2.calls = builder.calls) := by
  refine ⟨?_, ?_, ?_, ?_⟩
  · intro h
    simp [AddListener, h]
  · intro h
    have e : AddListener builder listener =
        (S_OK, { builder with listeners := insert listener builder.listeners }) := by
      simp [AddListener, h]
    rw [e]
    refine ⟨rfl, ?_, Finset.card_insert_of_not_mem h, rfl, rfl⟩
    intro m
    exact Finset.mem_insert
  · intro h
    simp [RemoveListener, h]
  · intro h
    have e : RemoveListener builder listener =
        (S_OK, { builder with listeners := builder.listeners.erase listener }) := by
      simp [RemoveListener, h]
    rw [e]
    refine ⟨rfl, ?_, Finset.card_erase_add_one h, rfl, rfl⟩
    intro m
    exact Finset.mem_erase

theorem count_map_AllImagesLoaded (l : Nat) (ls : List Nat) :
    List.count (ListenerCall.AllImagesLoaded l) (ls.map ListenerCall.AllImagesLoaded) = ls.count l := by
  induction ls with
  | nil => rfl
  | cons a ls ih =>
    simp only [List.map_cons, List.count_cons, ih]
    congr 1
    by_cases h : a = l
    · simp [h]
    · have h2 : ¬ ListenerCall.AllImagesLoaded a = ListenerCall.AllImagesLoaded l := by
        intro hh
        exact h (ListenerCall.AllImagesLoaded.inj hh)
      simp [h, h2]

theorem count_error_map_AllImagesLoaded (l : Nat) (ls : List Nat) :
    List.count (ListenerCall.ImagesLoadingHadError l) (ls.map ListenerCall.AllImagesLoaded) = 0 := by
  rw [List.count_eq_zero]
  intro h
  rcases List.mem_map.mp h with ⟨a, _, ha⟩
  cases ha

theorem FireAllImagesLoaded_count (builder : XamlBuilderObject) (l : Nat) :
    (FireAllImagesLoaded builder).calls.count (ListenerCall.AllImagesLoaded l) =
      builder.calls.count (ListenerCall.AllImagesLoaded l) + (if l ∈ builder.listeners then 1 else 0) ∧
    (FireAllImagesLoaded builder).calls.count (ListenerCall.ImagesLoadingHadError l) =
      builder.calls.count (ListenerCall.ImagesLoadingHadError l) := by
  unfold FireAllImagesLoaded
  simp only [List.count_append, count_map_AllImagesLoaded, count_error_map_AllImagesLoaded,
    Nat.add_zero, and_true]
  congr 1
  by_cases h : l ∈ builder.listeners
  · simp only [h, if_true]
    exact List.count_eq_one_of_mem (Finset.sort_nodup _ _) ((Finset.mem_sort _).mpr h)
  · simp only [h, if_false]
    rw [List.count_eq_zero]
    intro hm
    exact h ((Finset.mem_sort _).mp hm)

end XamlBuilder

namespace XamlBuilder
open AdaptiveNamespace

/-- A call of `BuildXamlTreeFromAdaptiveCard` on a card that does not fail ends
with the block that notifies the listeners. -/
theorem BuildXamlTreeFromAdaptiveCard_success (card : AdaptiveCard) (xaml : XamlState)
    (ctx : AdaptiveRenderContext) (xamlBuilder : Option XamlBuilderObject)
    (style : ContainerStyle) (pass : RenderPass)
    (h : FAILED (BuildXamlTreeFromAdaptiveCard (some card) xaml ctx xamlBuilder style pass).hr = false) :
    (BuildXamlTreeFromAdaptiveCard (some card) xaml ctx xamlBuilder style pass).hr = S_OK ∧
    (BuildXamlTreeFromAdaptiveCard (some card) xaml ctx xamlBuilder style pass).xamlBuilder =
      BuildXamlTreeFromAdaptiveCard.notifyListeners pass.isInShowCard
        (xamlBuilder.map (fun builder =>
          { builder with imageLoadTracker := builder.imageLoadTracker.track pass.imagesTracked })) := by
  unfold BuildXamlTreeFromAdaptiveCard at h ⊢
  simp only [] at h ⊢
  by_cases h1 : FAILED (BuildPanelChildren card.body (CreateRootCardElement xaml).2.2
      (HandleSelectAction none card.selectAction ctx (CreateRootCardElement xaml).2.1
        (SupportsInteractivity ctx.hostConfig) true (CreateRootCardElement xaml).1).1
      (HandleSelectAction none card.selectAction ctx (CreateRootCardElement xaml).2.1
        (SupportsInteractivity ctx.hostConfig) true (CreateRootCardElement xaml).1).2.1
      (MakeAdaptiveRenderArgs
        (if ctx.hostConfig.allowCustomStyle = true then
          if card.style ≠ ContainerStyle.None then card.style else style
        else style) pass.isInShowCard)).hr = true
  · rw [if_pos h1] at h
    simp only [] at h
    rw [h1] at h
    exact absurd h (by decide)
  · rw [if_neg h1] at h ⊢
    by_cases h2 : FAILED (if (!(MakeAdaptiveRenderArgs
        (if ctx.hostConfig.allowCustomStyle = true then
          if card.style ≠ ContainerStyle.None then card.style else style
        else style) pass.isInShowCard).isInShowCard) = true then
          pass.setStyleFromResourceDictionary "Adaptive.Card"
        else pass.setStyleFromResourceDictionary "Adaptive.ShowCard.Card") = true
    · rw [if_pos h2] at h
      simp only [] at h
      rw [h2] at h
      exact absurd h (by decide)
    · rw [if_neg h2]
      exact ⟨rfl, rfl⟩

/-- C17. A call of `BuildXamlTreeFromAdaptiveCard` on a card, with a builder,
that succeeds and is not in a show card.  With a listener registered and no
image tracked, the builder is left as `FireAllImagesLoaded` leaves it: the log
of listener calls gains one `AllImagesLoaded` call for every registered
listener, none for any other, and no `ImagesLoadingHadError` call.  With no
listener registered, no call is logged and the outstanding images of the
tracker are abandoned. -/
theorem BuildXamlTreeFromAdaptiveCard_listeners (card : AdaptiveCard) (xaml : XamlState)
    (renderContext : AdaptiveRenderContext) (builder : XamlBuilderObject)
    (defaultContainerStyle : ContainerStyle) (pass : RenderPass)
    (hsuccess : FAILED (BuildXamlTreeFromAdaptiveCard (some card) xaml renderContext (some builder)
      defaultContainerStyle pass).hr = false)
    (htop : pass.isInShowCard = false) :
    (builder.listeners.Nonempty →
      (builder.imageLoadTracker.track pass.imagesTracked).GetTotalImagesTracked = 0 →
      (BuildXamlTreeFromAdaptiveCard (some card) xaml renderContext (some builder)
        defaultContainerStyle pass).xamlBuilder =
        some (FireAllImagesLoaded
          { builder with imageLoadTracker := builder.imageLoadTracker.track pass.imagesTracked }) ∧
      (∀ l, (FireAllImagesLoaded
          { builder with imageLoadTracker := builder.imageLoadTracker.track pass.imagesTracked
          }).calls.count (ListenerCall.AllImagesLoaded l) =
        builder.calls.count (ListenerCall.AllImagesLoaded l) +
          (if l ∈ builder.listeners then 1 else 0)) ∧
      (∀ l, (FireAllImagesLoaded
          { builder with imageLoadTracker := builder.imageLoadTracker.track pass.imagesTracked
          }).calls.count (ListenerCall.ImagesLoadingHadError l) =
        builder.calls.count (ListenerCall.ImagesLoadingHadError l))) ∧
    (builder.listeners = ∅ →
      (BuildXamlTreeFromAdaptiveCard (some card) xaml renderContext (some builder)
        defaultContainerStyle pass).xamlBuilder =
        some { listeners := ∅,
               imageLoadTracker :=
                 (builder.imageLoadTracker.track pass.imagesTracked).AbandonOutstandingImages,
               calls := builder.calls }) := by
  have hs := BuildXamlTreeFromAdaptiveCard_success card xaml renderContext (some builder)
    defaultContainerStyle pass hsuccess
  rw [hs.2, htop]
  constructor
  · intro hne hzero
    have hcard : ¬ builder.listeners.card = 0 := by
      rw [Finset.card_eq_zero]
      exact Finset.nonempty_iff_ne_empty.mp hne
    refine ⟨?_, ?_, ?_⟩
    · simp [BuildXamlTreeFromAdaptiveCard.notifyListeners, hcard, hzero]
    · intro l
      exact (FireAllImagesLoaded_count _ l).1
    · intro l
      exact (FireAllImagesLoaded_count _ l).2
  · intro hempty
    simp [BuildXamlTreeFromAdaptiveCard.notifyListeners, hempty]

/-- Witness of C17: a card with two text blocks, the listeners at 3 and 7 and
no image tracked; the listener at 3 gets one `AllImagesLoaded` call. -/
theorem BuildXamlTreeFromAdaptiveCard_listeners_witness :
    FAILED (BuildXamlTreeFromAdaptiveCard (some sampleCard) emptyPanel sampleContext
      (some sampleBuilder) ContainerStyle.Default samplePass).hr = false ∧
    (BuildXamlTreeFromAdaptiveCard (some sampleCard) emptyPanel sampleContext (some sampleBuilder)
      ContainerStyle.Default samplePass).xamlBuilder.map
        (fun b => b.calls.count (ListenerCall.AllImagesLoaded 3)) = some 1 := by
  have h := (BuildXamlTreeFromAdaptiveCard_listeners sampleCard emptyPanel sampleContext
    sampleBuilder ContainerStyle.Default samplePass (by decide) rfl).1 (by decide) rfl
  refine ⟨by decide, ?_⟩
  rw [h.1]
  exact congrArg some (h.2.1 3)

end XamlBuilder

namespace XamlBuilder
open AdaptiveNamespace

/-- C19, the code at the failing input.  Below an ancestor with a fallback, an
element whose renderer declines and whose fallback `Drop` is resolved by
`RenderFallback` with `S_OK`, followed by a text block that renders on its
own: the lambda returns `E_PERFORM_FALLBACK` for the element,
`BuildPanelChildren` returns `E_PERFORM_FALLBACK`, and the panel has no child,
so the text block was not rendered. -/
theorem BuildPanelChildren_decline_surfaced :
    nestedArgs.ancestorHasFallback = true ∧
    (decliningRenderer sampleDeclinedDrop nestedArgs).hr = E_PERFORM_FALLBACK ∧
    (RenderFallback sampleDeclinedDrop decliningContext nestedArgs).hr = S_OK ∧
    (BuildPanelChildren.renderElement 0 true
      { xaml := emptyPanel, renderContext := decliningContext, renderArgs := nestedArgs,
        iElement := 0 } sampleDeclinedDrop).1 = E_PERFORM_FALLBACK ∧
    (BuildPanelChildren [sampleText] 0 emptyPanel decliningContext nestedArgs).hr = S_OK ∧
    (BuildPanelChildren [sampleDeclinedDrop, sampleText] 0 emptyPanel decliningContext
      nestedArgs).hr = E_PERFORM_FALLBACK ∧
    FAILED (BuildPanelChildren [sampleDeclinedDrop, sampleText] 0 emptyPanel decliningContext
      nestedArgs).hr = true ∧
    (BuildPanelChildren [sampleDeclinedDrop, sampleText] 0 emptyPanel decliningContext
      nestedArgs).xaml.get_Children 0 = [] ∧
    (BuildPanelChildren [sampleDeclinedDrop, sampleText] 0 emptyPanel decliningContext
      nestedArgs).renderContext.warnings = [AdaptiveWarning.fallbackDrop "Input.Rating"] := by
  decide

/-- C20, the code at the failing input.  At top level, an element without
renderer whose fallback content has no renderer and no fallback:
`RenderFallback` returns `E_PERFORM_FALLBACK`, the lambda returns at once, and
`BuildPanelChildren` returns with `ancestorHasFallback` true in the render
arguments, which held false on entry. -/
theorem BuildPanelChildren_ancestorHasFallback_not_restored :
    topLevelArgs.ancestorHasFallback = false ∧
    (RenderFallback sampleFallbackToUnknown sampleContext
      (topLevelArgs.put_AncestorHasFallback true)).hr = E_PERFORM_FALLBACK ∧
    (BuildPanelChildren.renderElement 0 false
      { xaml := emptyPanel, renderContext := sampleContext, renderArgs := topLevelArgs,
        iElement := 0 } sampleFallbackToUnknown).2.renderArgs.ancestorHasFallback = true ∧
    (BuildPanelChildren [sampleFallbackToUnknown] 0 emptyPanel sampleContext
      topLevelArgs).renderArgs.ancestorHasFallback = true := by
  decide

end XamlBuilder

namespace XamlBuilder
open AdaptiveNamespace

theorem panelGrows_refl (pp : Nat) (x : XamlState) : panelGrows pp x x :=
  ⟨le_refl _, ⟨[], by simp⟩, fun _ _ => rfl⟩

theorem panelGrows_trans {pp : Nat} {x y z : XamlState} (h1 : panelGrows pp x y)
    (h2 : panelGrows pp y z) : panelGrows pp x z := by
  rcases h1 with ⟨l1, ⟨a1, c1⟩, t1⟩
  rcases h2 with ⟨l2, ⟨a2, c2⟩, t2⟩
  refine ⟨le_trans l1 l2, ⟨a1 ++ a2, ?_⟩, ?_⟩
  · rw [c2, c1, List.append_assoc]
  · intro p hp
    rw [t2 p (by omega), t1 p hp]

theorem panelGrows_append (x : XamlState) (e : UIElement) (pp : Nat)
    (hpp : pp < x.elements.length) : panelGrows pp x (AppendXamlElementToPanel x e pp).1 := by
  refine ⟨?_, ⟨[x.elements.length], get_Children_append_panel x e pp hpp⟩, ?_⟩
  · rw [AppendXamlElementToPanel_length]; omega
  · intro p hp
    exact AppendXamlElementToPanel_get_Tag_old x e pp p (by omega)

theorem panelGrows_of_sameShape {pp : Nat} {x y : XamlState}
    (hlen : y.elements.length = x.elements.length)
    (hchildren : y.get_Children pp = x.get_Children pp)
    (htag : ∀ p, y.get_Tag p = x.get_Tag p) : panelGrows pp x y :=
  ⟨by omega, ⟨[], by simp [hchildren]⟩, fun p _ => htag p⟩

/-- The lambda of `BuildPanelChildren` grows the store: the parent panel keeps
its children and gets at most a separator and a control more. -/
theorem renderElement_panelGrows (pp : Nat) (anc : Bool) (s : PanelBuild) (el : CardElement)
    (hpp : pp < s.xaml.elements.length) :
    panelGrows pp s.xaml (BuildPanelChildren.renderElement pp anc s el).2.xaml := by
  rcases renderElement_xaml_cases pp anc s el with h | ⟨control, h, _⟩
  · rw [h.1]; exact panelGrows_refl pp _
  · rw [h]
    obtain ⟨e, he, _⟩ := AddRenderedControl_some control el pp
      (AddSeparatorIfNeeded s.iElement el s.renderContext.hostConfig s.xaml pp).2.2 none
      (AddSeparatorIfNeeded s.iElement el s.renderContext.hostConfig s.xaml pp).2.1
    rw [he]
    rcases AddSeparatorIfNeeded_cases s.iElement el s.renderContext.hostConfig s.xaml pp with
      ⟨h1, _⟩ | ⟨_, _, h1⟩
    · rw [h1]
      exact panelGrows_append _ _ _ hpp
    · rw [h1]
      have g1 := panelGrows_append s.xaml
        (CreateSeparator (GetSeparationConfigForElement el s.renderContext.hostConfig).spacing
          (GetSeparationConfigForElement el s.renderContext.hostConfig).separatorThickness
          (GetSeparationConfigForElement el s.renderContext.hostConfig).separatorColor) pp hpp
      exact panelGrows_trans g1 (panelGrows_append _ _ _ (by have := g1.1; omega))

theorem iterate_panelGrows (pp : Nat) (anc flag : Bool) (els : List CardElement) :
    ∀ (s : PanelBuild), pp < s.xaml.elements.length →
      panelGrows pp s.xaml (IterateOverVectorWithFailure els flag
        (BuildPanelChildren.renderElement pp anc) s).2.xaml := by
  induction els with
  | nil => intro s _; exact panelGrows_refl pp _
  | cons el els ih =>
    intro s hpp
    rw [iterate_cons]
    have h1 := renderElement_panelGrows pp anc s el hpp
    split
    · exact h1
    · exact panelGrows_trans h1 (ih _ (by have := h1.1; omega))

/-- The lambda returns the `hr` it holds once the fallback step has not
failed: `AddRenderedControl` on a control does not fail. -/
theorem attach_fst (pp : Nat) (anc : Bool) (s : PanelBuild) (el : CardElement)
    (hr : HRESULT) (newControl : Option UIElement) :
    (BuildPanelChildren.attach pp anc s el hr newControl).1 = hr := by
  have hok : FAILED S_OK = false := by decide
  cases newControl with
  | none => rfl
  | some control =>
    unfold BuildPanelChildren.attach
    simp [AddRenderedControl, hok]

theorem attach_renderArgs (pp : Nat) (anc : Bool) (s : PanelBuild) (el : CardElement)
    (hr : HRESULT) (newControl : Option UIElement) :
    (BuildPanelChildren.attach pp anc s el hr newControl).2.renderArgs =
      s.renderArgs.put_AncestorHasFallback anc := by
  have hok : FAILED S_OK = false := by decide
  cases newControl with
  | none => rfl
  | some control =>
    unfold BuildPanelChildren.attach
    simp [AddRenderedControl, hok]

/-- A call of the lambda that does not fail leaves `ancestorHasFallback` at
the value read on entry to `BuildPanelChildren`. -/
theorem renderElement_renderArgs (pp : Nat) (anc : Bool) (s : PanelBuild) (el : CardElement)
    (h : FAILED (BuildPanelChildren.renderElement pp anc s el).1 = false) :
    (BuildPanelChildren.renderElement pp anc s el).2.renderArgs =
      s.renderArgs.put_AncestorHasFallback anc := by
  unfold BuildPanelChildren.renderElement at h ⊢
  simp only [] at h ⊢
  by_cases h1 : FAILED (s.renderContext.meetsRequirements el).1 = true
  · rw [if_pos h1] at h
    exact absurd h1 (by simpa using h)
  · rw [if_neg h1] at h ⊢
    by_cases h2 : FAILED (s.renderContext.elementRenderers el.get_ElementTypeString).1 = true
    · rw [if_pos h2] at h
      exact absurd h2 (by simpa using h)
    · rw [if_neg h2] at h ⊢
      generalize (if (s.renderContext.meetsRequirements el).2 = true then S_OK
        else E_PERFORM_FALLBACK) = hr0 at h ⊢
      split at h
      · rename_i h3
        exact absurd h3 (by simpa using h)
      · rename_i h3
        rw [if_neg h3, attach_renderArgs]
        rfl

theorem iterate_renderArgs (pp : Nat) (anc flag : Bool) (els : List CardElement) :
    ∀ (s : PanelBuild), s.renderArgs.ancestorHasFallback = anc →
      FAILED (IterateOverVectorWithFailure els flag
        (BuildPanelChildren.renderElement pp anc) s).1 = false →
      (IterateOverVectorWithFailure els flag
        (BuildPanelChildren.renderElement pp anc) s).2.renderArgs = s.renderArgs := by
  induction els with
  | nil => intro s _ _; rfl
  | cons el els ih =>
    intro s hs h
    rw [iterate_cons] at h ⊢
    by_cases h1 : FAILED (BuildPanelChildren.renderElement pp anc s el).1 = true
    · rw [if_pos h1] at h
      exact absurd h1 (by simpa using h)
    · rw [if_neg h1] at h ⊢
      have e1 := renderElement_renderArgs pp anc s el (by simpa using h1)
      have e2 : s.renderArgs.put_AncestorHasFallback anc = s.renderArgs := by
        rw [← hs]; rfl
      rw [ih _ (by rw [e1, e2]; exact hs) h, e1, e2]

theorem BuildPanelChildren_renderArgs (els : List CardElement) (pp : Nat) (x : XamlState)
    (ctx : AdaptiveRenderContext) (args : AdaptiveRenderArgs) :
    (BuildPanelChildren els pp x ctx args).renderArgs =
      (IterateOverVectorWithFailure els args.ancestorHasFallback
        (BuildPanelChildren.renderElement pp args.ancestorHasFallback)
        { xaml := x, renderContext := ctx, renderArgs := args, iElement := 0 }).2.renderArgs := by
  unfold BuildPanelChildren
  simp only []
  split <;> rfl

/-- The lambda on an element for which the requirement check, the renderer
lookup or the renderer itself fails with a code other than
`E_PERFORM_FALLBACK`: the lambda returns that code. -/
theorem renderElement_failure (pp : Nat) (anc : Bool) (s : PanelBuild) (el : CardElement)
    (code : HRESULT) (hcode : FAILED code = true)
    (hsource :
      (s.renderContext.meetsRequirements el).1 = code ∨
      (FAILED (s.renderContext.meetsRequirements el).1 = false ∧
        (s.renderContext.elementRenderers el.get_ElementTypeString).1 = code) ∨
      (FAILED (s.renderContext.meetsRequirements el).1 = false ∧
        FAILED (s.renderContext.elementRenderers el.get_ElementTypeString).1 = false ∧
        (s.renderContext.meetsRequirements el).2 = true ∧
        code ≠ E_PERFORM_FALLBACK ∧
        ∃ renderer, (s.renderContext.elementRenderers el.get_ElementTypeString).2 = some renderer ∧
          (renderer el (s.renderArgs.put_AncestorHasFallback
            (decide (el.get_FallbackType ≠ FallbackType.None) || anc))).hr = code)) :
    (BuildPanelChildren.renderElement pp anc s el).1 = code := by
  have hok : FAILED S_OK = false := by decide
  have hsucc : SUCCEEDED S_OK = true := by decide
  unfold BuildPanelChildren.renderElement
  simp only []
  rcases hsource with h | ⟨h1, h⟩ | ⟨h1, h2, h3, h4, renderer, h5, h6⟩
  · rw [if_pos (by rw [h]; exact hcode)]
    exact h
  · rw [if_neg (by simp [h1]), if_pos (by rw [h]; exact hcode)]
    exact h
  · rw [if_neg (by simp [h1]), if_neg (by simp [h2])]
    simp only [h3, if_true, h5, BuildPanelChildren.render, hsucc, BuildPanelChildren.fallback,
      Option.isNone_some, Bool.false_or, h6, h4, decide_False, Bool.false_eq_true, if_false, hok,
      attach_fst]

end XamlBuilder

namespace XamlBuilder
open AdaptiveNamespace

theorem nameOf_put_Visibility (x : XamlState) (s p : Nat) (v : Visibility) :
    nameOf (x.put_Visibility s v) p = nameOf x p := by
  unfold XamlState.put_Visibility
  cases h : x.elements[s]? with
  | none => rfl
  | some e =>
    simp only [nameOf, List.getElem?_set]
    by_cases hp : s = p
    · subst hp
      have hlt : s < x.elements.length := (List.getElem?_eq_some_iff.mp h).1
      simp [hlt, h]
    · simp [hp]

theorem nameOf_set_ExpectedVisibility (x : XamlState) (s p : Nat) (b : Bool) :
    nameOf (x.set_ExpectedVisibility s b) p = nameOf x p := by
  rcases XamlState.set_ExpectedVisibility_cases x s b with ⟨_, h⟩ | ⟨e, t, he, ht, hlt, h⟩
  · rw [h]
  · rw [h]
    simp only [nameOf, List.getElem?_set]
    by_cases hp : s = p
    · subst hp
      simp [hlt, he]
    · simp [hp]

theorem FindName_congr (x y : XamlState) (hlen : y.elements.length = x.elements.length)
    (hname : ∀ p, nameOf y p = nameOf x p) (name : String) : FindName y name = FindName x name := by
  unfold FindName
  rw [hlen]
  have : (fun (p : Nat) =>
        decide ((y.elements[p]?).map (fun (e : UIElement) => e.name) = some name)) =
      (fun (p : Nat) =>
        decide ((x.elements[p]?).map (fun (e : UIElement) => e.name) = some name)) := by
    funext p
    have := hname p
    unfold nameOf at this
    rw [this]
  rw [this]

theorem sameTargets_refl (x : XamlState) : sameTargets x x := ⟨rfl, fun _ => rfl, fun _ => rfl⟩

theorem sameTargets_trans {x y z : XamlState} (h1 : sameTargets x y) (h2 : sameTargets y z) :
    sameTargets x z :=
  ⟨h2.1.trans h1.1, fun p => (h2.2.1 p).trans (h1.2.1 p), fun p => (h2.2.2 p).trans (h1.2.2 p)⟩

theorem sameTargets_of_elements_eq {x y : XamlState} (h : y.elements = x.elements) :
    sameTargets x y := by
  unfold sameTargets nameOf XamlState.get_Tag
  rw [h]
  exact ⟨rfl, fun _ => rfl, fun _ => rfl⟩

theorem FindName_sameTargets {x y : XamlState} (h : sameTargets x y) (name : String) :
    FindName y name = FindName x name :=
  FindName_congr x y h.1 h.2.1 name

theorem targetPanel_sameTargets {x y : XamlState} (h : sameTargets x y) (name : String) :
    targetPanel y name = targetPanel x name := by
  unfold targetPanel
  rw [FindName_sameTargets h]
  cases FindName x name with
  | none => rfl
  | some p => exact h.2.2 p

theorem toggle_writes_sameTargets (x : XamlState) (p : Nat) (v : Visibility) (b : Bool) :
    sameTargets x ((x.put_Visibility p v).set_ExpectedVisibility p b) := by
  refine ⟨?_, ?_, ?_⟩
  · rw [XamlState.length_set_ExpectedVisibility, XamlState.length_put_Visibility]
  · intro q
    rw [nameOf_set_ExpectedVisibility, nameOf_put_Visibility]
  · intro q
    rw [XamlState.get_Tag_set_ExpectedVisibility]
    by_cases hq : q = p
    · subst hq
      rw [if_pos rfl, XamlState.get_Tag_put_Visibility]
      cases x.get_Tag q <;> rfl
    · rw [if_neg hq, XamlState.get_Tag_put_Visibility]

theorem visit_nameOf (x : XamlState) (f : Bool) (c p : Nat) :
    nameOf (SetSeparatorVisibility.visit (x, f) c).1 p = nameOf x p := by
  rcases visit_fst_cases x f c with h | ⟨s, v, _, h⟩
  · rw [h]
  · rw [h, nameOf_put_Visibility]

theorem scan_nameOf (cs : List Nat) : ∀ (x : XamlState) (f : Bool) (p : Nat),
    nameOf (IterateOverVector cs SetSeparatorVisibility.visit (x, f)).1 p = nameOf x p := by
  induction cs with
  | nil => intro x f p; rfl
  | cons c cs ih =>
    intro x f p
    rw [scan_cons]
    have := ih (SetSeparatorVisibility.visit (x, f) c).1 (SetSeparatorVisibility.visit (x, f) c).2 p
    rw [this, visit_nameOf]

theorem SetSeparatorVisibility_sameTargets (x : XamlState) (panel : Nat) :
    sameTargets x (SetSeparatorVisibility x panel).2 :=
  ⟨SetSeparatorVisibility_length x panel, fun p => scan_nameOf _ x false p,
    fun p => by rw [SetSeparatorVisibility_get_Tag]⟩

theorem SetSeparatorVisibility_columnDefinitions (x : XamlState) (panel : Nat) :
    (SetSeparatorVisibility x panel).2.columnDefinitions = x.columnDefinitions :=
  scan_columnDefinitions _ x false

/-- In a store with well-formed tags, `SetSeparatorVisibility` leaves the
literal visibility of every node that carries a tag. -/
theorem SetSeparatorVisibility_get_Visibility_tagged (x : XamlState) (panel p : Nat)
    (t : ElementTagContent) (h : WellFormed x) (ht : x.get_Tag p = some t) :
    (SetSeparatorVisibility x panel).2.get_Visibility p = x.get_Visibility p := by
  apply scan_get_Visibility_of_not_mem
  intro hmem
  rw [List.mem_filterMap] at hmem
  rcases hmem with ⟨c, _, hc⟩
  have := (h.1 c p hc).2
  rw [ht] at this
  simp at this

theorem recompute_sameTargets (panels : List Nat) : ∀ (x : XamlState),
    sameTargets x (panels.foldl (fun x parentPanel => (SetSeparatorVisibility x parentPanel).2) x) := by
  induction panels with
  | nil => intro x; exact sameTargets_refl x
  | cons q panels ih =>
    intro x
    rw [List.foldl_cons]
    exact sameTargets_trans (SetSeparatorVisibility_sameTargets x q) (ih _)

/-- The body of the target loop on a target that resolves to a node with a
tag: the two writes, the parent panel collected, and the column width. -/
theorem toggleTarget_resolved (s : ToggleState) (target : AdaptiveToggleVisibilityTarget)
    (p : Nat) (t : ElementTagContent)
    (hf : FindName s.xaml target.elementId = some p) (ht : s.xaml.get_Tag p = some t) :
    (HandleToggleVisibilityClick.toggleTarget s target).2.xaml.elements =
      ((s.xaml.put_Visibility p (visibilityToSet target.isVisible t.expectedVisibility)
        ).set_ExpectedVisibility p
          (decide (visibilityToSet target.isVisible t.expectedVisibility = Visibility.Visible))
        ).elements ∧
    (HandleToggleVisibilityClick.toggleTarget s target).2.parentPanels =
      (if t.parentPanel ∈ s.parentPanels then s.parentPanels
        else s.parentPanels ++ [t.parentPanel]) ∧
    (t.cardElement.properties.columnWidth = none →
      (HandleToggleVisibilityClick.toggleTarget s target).1 = S_OK ∧
      (HandleToggleVisibilityClick.toggleTarget s target).2.xaml.columnDefinitions =
        s.xaml.columnDefinitions) ∧
    (∀ w c, t.cardElement.properties.columnWidth = some w → t.columnDefinition = some c →
      (HandleToggleVisibilityClick.toggleTarget s target).1 = S_OK ∧
      (HandleToggleVisibilityClick.toggleTarget s target).2.xaml.columnDefinitions =
        s.xaml.columnDefinitions.set c
          { width :=
              if visibilityToSet target.isVisible t.expectedVisibility = Visibility.Visible then w
              else { value := 0, gridUnitType := GridUnitType.Pixel } }) := by
  have hok : FAILED S_OK = false := by decide
  have hv : (match target.isVisible with
      | IsVisible.IsVisibleTrue => Visibility.Visible
      | IsVisible.IsVisibleFalse => Visibility.Collapsed
      | IsVisible.IsVisibleToggle =>
        if t.expectedVisibility = true then Visibility.Collapsed else Visibility.Visible) =
      visibilityToSet target.isVisible t.expectedVisibility := rfl
  have hcols : ∀ (x : XamlState) (q : Nat) (v : Visibility) (b : Bool),
      ((x.put_Visibility q v).set_ExpectedVisibility q b).columnDefinitions =
        x.columnDefinitions := by
    intro x q v b
    have e1 : ((x.put_Visibility q v).set_ExpectedVisibility q b).columnDefinitions =
        (x.put_Visibility q v).columnDefinitions := by
      rcases XamlState.set_ExpectedVisibility_cases (x.put_Visibility q v) q b with
        ⟨_, h⟩ | ⟨e, t, _, _, _, h⟩ <;> rw [h]
    rw [e1]
    unfold XamlState.put_Visibility
    cases x.elements[q]? <;> rfl
  cases hc : t.cardElement.properties.columnWidth with
  | none =>
    have e : HandleToggleVisibilityClick.toggleTarget s target =
        (S_OK,
          { xaml := (s.xaml.put_Visibility p (visibilityToSet target.isVisible t.expectedVisibility)
              ).set_ExpectedVisibility p
                (decide (visibilityToSet target.isVisible t.expectedVisibility = Visibility.Visible)),
            parentPanels := if t.parentPanel ∈ s.parentPanels then s.parentPanels
              else s.parentPanels ++ [t.parentPanel] }) := by
      simp only [HandleToggleVisibilityClick.toggleTarget, hf, ht, hc, hv]
    rw [e]
    refine ⟨rfl, rfl, fun _ => ⟨rfl, hcols _ _ _ _⟩, ?_⟩
    intro w c hw
    simp at hw
  | some w =>
    cases hcd : t.columnDefinition with
    | none =>
      have e : HandleToggleVisibilityClick.toggleTarget s target =
          (E_POINTER,
            { xaml := (s.xaml.put_Visibility p
                (visibilityToSet target.isVisible t.expectedVisibility)).set_ExpectedVisibility p
                  (decide (visibilityToSet target.isVisible t.expectedVisibility =
                    Visibility.Visible)),
              parentPanels := if t.parentPanel ∈ s.parentPanels then s.parentPanels
                else s.parentPanels ++ [t.parentPanel] }) := by
        have hfail : FAILED E_POINTER = true := by decide
        simp only [HandleToggleVisibilityClick.toggleTarget, hf, ht, hc, hv, hcd,
          HandleColumnWidth, hfail, if_true]
      rw [e]
      refine ⟨rfl, rfl, ?_, ?_⟩
      · intro h; simp at h
      · intro w2 c _ h; simp at h
    | some c =>
      have e : HandleToggleVisibilityClick.toggleTarget s target =
          (S_OK,
            { xaml := ((s.xaml.put_Visibility p
                (visibilityToSet target.isVisible t.expectedVisibility)).set_ExpectedVisibility p
                  (decide (visibilityToSet target.isVisible t.expectedVisibility =
                    Visibility.Visible))).put_Width c
                (if decide (visibilityToSet target.isVisible t.expectedVisibility =
                    Visibility.Visible) = true then w
                  else { value := 0, gridUnitType := GridUnitType.Pixel }),
              parentPanels := if t.parentPanel ∈ s.parentPanels then s.parentPanels
                else s.parentPanels ++ [t.parentPanel] }) := by
        simp only [HandleToggleVisibilityClick.toggleTarget, hf, ht, hc, hv, hcd,
          HandleColumnWidth, hok, Bool.false_eq_true, if_false]
      rw [e]
      refine ⟨rfl, rfl, ?_, ?_⟩
      · intro h; simp at h
      · intro w2 c2 hw hc2
        have hw2 : w = w2 := by simpa using hw
        have hc3 : c = c2 := by simpa using hc2
        subst hw2 hc3
        refine ⟨rfl, ?_⟩
        simp only [XamlState.put_Width, hcols, decide_eq_true_eq]

end XamlBuilder

namespace XamlBuilder
open AdaptiveNamespace

theorem get_Visibility_of_elements_eq {x y : XamlState} (h : y.elements = x.elements) (p : Nat) :
    y.get_Visibility p = x.get_Visibility p := by
  unfold XamlState.get_Visibility
  rw [h]

theorem get_Tag_of_elements_eq {x y : XamlState} (h : y.elements = x.elements) (p : Nat) :
    y.get_Tag p = x.get_Tag p := by
  unfold XamlState.get_Tag
  rw [h]

/-- The two writes of the target loop, read back at the node written. -/
theorem toggle_writes_read (x : XamlState) (p : Nat) (t : ElementTagContent) (v : Visibility)
    (b : Bool) (ht : x.get_Tag p = some t) :
    ((x.put_Visibility p v).set_ExpectedVisibility p b).get_Visibility p = some v ∧
    ((x.put_Visibility p v).set_ExpectedVisibility p b).get_Tag p =
      some { t with expectedVisibility := b } := by
  have hlt : p < x.elements.length := get_Tag_lt x p t ht
  refine ⟨?_, ?_⟩
  · rw [XamlState.get_Visibility_set_ExpectedVisibility,
      XamlState.get_Visibility_put_Visibility_self x p v hlt]
  · rw [XamlState.get_Tag_set_ExpectedVisibility, if_pos rfl, XamlState.get_Tag_put_Visibility, ht]
    rfl

end XamlBuilder

namespace XamlBuilder
open AdaptiveNamespace

theorem toggleTarget_unresolved (s : ToggleState) (target : AdaptiveToggleVisibilityTarget)
    (hf : FindName s.xaml target.elementId = none) :
    HandleToggleVisibilityClick.toggleTarget s target = (S_OK, s) := by
  simp only [HandleToggleVisibilityClick.toggleTarget, hf]

theorem toggleTarget_untagged (s : ToggleState) (target : AdaptiveToggleVisibilityTarget) (p : Nat)
    (hf : FindName s.xaml target.elementId = some p) (ht : s.xaml.get_Tag p = none) :
    HandleToggleVisibilityClick.toggleTarget s target = (E_POINTER, s) := by
  simp only [HandleToggleVisibilityClick.toggleTarget, hf, ht]

theorem toggleTarget_sameTargets (s : ToggleState) (target : AdaptiveToggleVisibilityTarget) :
    sameTargets s.xaml (HandleToggleVisibilityClick.toggleTarget s target).2.xaml := by
  cases hf : FindName s.xaml target.elementId with
  | none => rw [toggleTarget_unresolved s target hf]; exact sameTargets_refl _
  | some p =>
    cases ht : s.xaml.get_Tag p with
    | none => rw [toggleTarget_untagged s target p hf ht]; exact sameTargets_refl _
    | some t =>
      exact sameTargets_trans (toggle_writes_sameTargets _ _ _ _)
        (sameTargets_of_elements_eq (toggleTarget_resolved s target p t hf ht).1)

theorem targetLoop_cons (target : AdaptiveToggleVisibilityTarget)
    (rest : List AdaptiveToggleVisibilityTarget) (s : ToggleState) :
    HandleToggleVisibilityClick.targetLoop (target :: rest) s =
      (if FAILED (HandleToggleVisibilityClick.toggleTarget s target).1 then
        HandleToggleVisibilityClick.toggleTarget s target
      else HandleToggleVisibilityClick.targetLoop rest
        (HandleToggleVisibilityClick.toggleTarget s target).2) := by
  rw [HandleToggleVisibilityClick.targetLoop]

/-- The set `parentPanels` after one target that does not fail: the panels it
held, and the parent panel of the node the target resolves to. -/
theorem toggleTarget_parentPanels (s : ToggleState) (target : AdaptiveToggleVisibilityTarget)
    (hnd : s.parentPanels.Nodup)
    (hok : FAILED (HandleToggleVisibilityClick.toggleTarget s target).1 = false) :
    (HandleToggleVisibilityClick.toggleTarget s target).2.parentPanels.Nodup ∧
    ∀ pp, pp ∈ (HandleToggleVisibilityClick.toggleTarget s target).2.parentPanels ↔
      pp ∈ s.parentPanels ∨ targetPanel s.xaml target.elementId = some pp := by
  have hfail : FAILED E_POINTER = true := by decide
  cases hf : FindName s.xaml target.elementId with
  | none =>
    rw [toggleTarget_unresolved s target hf]
    refine ⟨hnd, fun pp => ?_⟩
    simp [targetPanel, hf]
  | some p =>
    cases ht : s.xaml.get_Tag p with
    | none =>
      rw [toggleTarget_untagged s target p hf ht] at hok
      rw [hfail] at hok
      exact absurd hok (by decide)
    | some t =>
      have h := (toggleTarget_resolved s target p t hf ht).2.1
      rw [h]
      have htp : targetPanel s.xaml target.elementId = some t.parentPanel := by
        simp [targetPanel, hf, ht]
      by_cases hm : t.parentPanel ∈ s.parentPanels
      · rw [if_pos hm]
        refine ⟨hnd, fun pp => ?_⟩
        rw [htp]
        constructor
        · intro h1; exact Or.inl h1
        · intro h1
          rcases h1 with h1 | h1
          · exact h1
          · have : t.parentPanel = pp := by simpa using h1
            rw [← this]; exact hm
      · rw [if_neg hm]
        refine ⟨?_, fun pp => ?_⟩
        · rw [List.nodup_append]
          refine ⟨hnd, List.nodup_singleton _, ?_⟩
          intro a ha hb
          have : a = t.parentPanel := by simpa using hb
          rw [this] at ha
          exact hm ha
        · rw [htp, List.mem_append]
          constructor
          · intro h1
            rcases h1 with h1 | h1
            · exact Or.inl h1
            · right
              have : pp = t.parentPanel := by simpa using h1
              rw [this]
          · intro h1
            rcases h1 with h1 | h1
            · exact Or.inl h1
            · right
              have : t.parentPanel = pp := by simpa using h1
              simp [this]

theorem targetLoop_parentPanels (targets : List AdaptiveToggleVisibilityTarget) :
    ∀ (s : ToggleState), s.parentPanels.Nodup →
      FAILED (HandleToggleVisibilityClick.targetLoop targets s).1 = false →
      (HandleToggleVisibilityClick.targetLoop targets s).2.parentPanels.Nodup ∧
      ∀ pp, pp ∈ (HandleToggleVisibilityClick.targetLoop targets s).2.parentPanels ↔
        pp ∈ s.parentPanels ∨
          ∃ target, target ∈ targets ∧ targetPanel s.xaml target.elementId = some pp := by
  induction targets with
  | nil =>
    intro s hnd _
    refine ⟨hnd, fun pp => ?_⟩
    simp [HandleToggleVisibilityClick.targetLoop]
  | cons target rest ih =>
    intro s hnd hok
    rw [targetLoop_cons] at hok ⊢
    by_cases h1 : FAILED (HandleToggleVisibilityClick.toggleTarget s target).1 = true
    · rw [if_pos h1] at hok
      rw [h1] at hok
      exact absurd hok (by decide)
    · rw [if_neg h1] at hok ⊢
      have h2 := toggleTarget_parentPanels s target hnd (by simpa using h1)
      have h3 := ih _ h2.1 hok
      have hst := toggleTarget_sameTargets s target
      refine ⟨h3.1, fun pp => ?_⟩
      rw [h3.2 pp, h2.2 pp]
      constructor
      · intro h
        rcases h with (h | h) | ⟨tg, hmem, h⟩
        · exact Or.inl h
        · exact Or.inr ⟨target, List.mem_cons_self _ _, h⟩
        · rw [targetPanel_sameTargets hst] at h
          exact Or.inr ⟨tg, List.mem_cons_of_mem _ hmem, h⟩
      · intro h
        rcases h with h | ⟨tg, hmem, h⟩
        · exact Or.inl (Or.inl h)
        · rcases List.mem_cons.mp hmem with heq | hmem2
          · rw [heq] at h
            exact Or.inl (Or.inr h)
          · right
            refine ⟨tg, hmem2, ?_⟩
            rw [targetPanel_sameTargets hst]
            exact h

theorem targetLoop_unresolved (targets : List AdaptiveToggleVisibilityTarget) :
    ∀ (s : ToggleState), (∀ target, target ∈ targets → FindName s.xaml target.elementId = none) →
      HandleToggleVisibilityClick.targetLoop targets s = (S_OK, s) := by
  have hok : FAILED S_OK = false := by decide
  induction targets with
  | nil => intro s _; rfl
  | cons target rest ih =>
    intro s h
    rw [targetLoop_cons, toggleTarget_unresolved s target (h target (List.mem_cons_self _ _))]
    simp only [hok, Bool.false_eq_true, if_false]
    exact ih s (fun tg hmem => h tg (List.mem_cons_of_mem _ hmem))

/-- C15. A call of `HandleToggleVisibilityClick` that does not fail, so that
every target has been processed: the result is `S_OK` and the store is the
one the target loop left, with `SetSeparatorVisibility` run on it once for
each member of `parentPanels`, in turn; `parentPanels` lists no panel twice,
and a panel is in it exactly when it is the parent panel named by the tag of
the node that one of the targets resolves to.  When no target resolves,
`parentPanels` is empty and the store is as it was. -/
theorem HandleToggleVisibilityClick_recompute_once (xaml : XamlState)
    (targets : List AdaptiveToggleVisibilityTarget)
    (hprocessed : FAILED (HandleToggleVisibilityClick xaml targets).1 = false) :
    HandleToggleVisibilityClick xaml targets =
      (S_OK,
        (HandleToggleVisibilityClick.targetLoop targets
            { xaml := xaml, parentPanels := [] }).2.parentPanels.foldl
          (fun x parentPanel => (SetSeparatorVisibility x parentPanel).2)
          (HandleToggleVisibilityClick.targetLoop targets
            { xaml := xaml, parentPanels := [] }).2.xaml) ∧
    (HandleToggleVisibilityClick.targetLoop targets
      { xaml := xaml, parentPanels := [] }).2.parentPanels.Nodup ∧
    (∀ parentPanel,
      parentPanel ∈ (HandleToggleVisibilityClick.targetLoop targets
          { xaml := xaml, parentPanels := [] }).2.parentPanels ↔
        ∃ target, target ∈ targets ∧ targetPanel xaml target.elementId = some parentPanel) ∧
    ((∀ target, target ∈ targets → FindName xaml target.elementId = none) →
      (HandleToggleVisibilityClick.targetLoop targets
        { xaml := xaml, parentPanels := [] }).2.parentPanels = [] ∧
      HandleToggleVisibilityClick xaml targets = (S_OK, xaml)) := by
  have hok : FAILED S_OK = false := by decide
  have hloop : FAILED (HandleToggleVisibilityClick.targetLoop targets
      { xaml := xaml, parentPanels := [] }).1 = false := by
    by_cases h : FAILED (HandleToggleVisibilityClick.targetLoop targets
        { xaml := xaml, parentPanels := [] }).1 = true
    · unfold HandleToggleVisibilityClick at hprocessed
      simp only [] at hprocessed
      rw [if_pos h] at hprocessed
      simp only [] at hprocessed
      rw [h] at hprocessed
      exact absurd hprocessed (by decide)
    · simpa using h
  have hcall : HandleToggleVisibilityClick xaml targets =
      (S_OK,
        (HandleToggleVisibilityClick.targetLoop targets
            { xaml := xaml, parentPanels := [] }).2.parentPanels.foldl
          (fun x parentPanel => (SetSeparatorVisibility x parentPanel).2)
          (HandleToggleVisibilityClick.targetLoop targets
            { xaml := xaml, parentPanels := [] }).2.xaml) := by
    unfold HandleToggleVisibilityClick
    simp only [hloop, Bool.false_eq_true, if_false]
  have hpanels := targetLoop_parentPanels targets { xaml := xaml, parentPanels := [] }
    List.nodup_nil hloop
  refine ⟨hcall, hpanels.1, fun pp => ?_, ?_⟩
  · rw [hpanels.2 pp]
    simp
  · intro hnone
    have e := targetLoop_unresolved targets { xaml := xaml, parentPanels := [] } hnone
    rw [hcall, e]
    exact ⟨rfl, rfl⟩

/-- Witness of C15: on the panel built from two text blocks, the second named
"second", the targets "second", "photo" (which names no node) and "second"
again: the call does not fail and `parentPanels` holds the panel at 0 once. -/
theorem HandleToggleVisibilityClick_recompute_once_witness :
    targetPanel (BuildPanelChildren [sampleText, sampleSeparatedText] 0 emptyPanel sampleContext
      topLevelArgs).xaml "second" = some 0 ∧
    FindName (BuildPanelChildren [sampleText, sampleSeparatedText] 0 emptyPanel sampleContext
      topLevelArgs).xaml "photo" = none ∧
    (HandleToggleVisibilityClick.targetLoop [toggleSecond, togglePhoto, toggleSecond]
      { xaml := (BuildPanelChildren [sampleText, sampleSeparatedText] 0 emptyPanel sampleContext
          topLevelArgs).xaml,
        parentPanels := [] }).2.parentPanels = [0] ∧
    HandleToggleVisibilityClick
        (BuildPanelChildren [sampleText, sampleSeparatedText] 0 emptyPanel sampleContext
          topLevelArgs).xaml [toggleSecond, togglePhoto, toggleSecond] =
      (S_OK,
        (HandleToggleVisibilityClick.targetLoop [toggleSecond, togglePhoto, toggleSecond]
            { xaml := (BuildPanelChildren [sampleText, sampleSeparatedText] 0 emptyPanel
                sampleContext topLevelArgs).xaml,
              parentPanels := [] }).2.parentPanels.foldl
          (fun x parentPanel => (SetSeparatorVisibility x parentPanel).2)
          (HandleToggleVisibilityClick.targetLoop [toggleSecond, togglePhoto, toggleSecond]
            { xaml := (BuildPanelChildren [sampleText, sampleSeparatedText] 0 emptyPanel
                sampleContext topLevelArgs).xaml,
              parentPanels := [] }).2.xaml) :=
  ⟨by decide, by decide, by decide,
   (HandleToggleVisibilityClick_recompute_once
      (BuildPanelChildren [sampleText, sampleSeparatedText] 0 emptyPanel sampleContext
        topLevelArgs).xaml [toggleSecond, togglePhoto, toggleSecond] (by decide)).1⟩

end XamlBuilder

namespace XamlBuilder
open AdaptiveNamespace

theorem PanelOk_emptyPanel : PanelOk emptyPanel 0 := by
  refine ⟨by decide, by decide, ?_⟩
  intro c hc
  have : emptyPanel.get_Children 0 = [] := rfl
  rw [this] at hc
  simp at hc

/-- A call of `HandleToggleVisibilityClick` with one target that resolves to a
node with a tag, in a store with well-formed tags: the call does not fail when
a column has its column definition; the node has the new visibility as its
literal visibility and, in its tag, as its expected visibility; the id
resolves to the node as before. -/
theorem HandleToggleVisibilityClick_single (x : XamlState)
    (target : AdaptiveToggleVisibilityTarget) (p : Nat) (t : ElementTagContent)
    (hwf : WellFormed x) (hf : FindName x target.elementId = some p) (ht : x.get_Tag p = some t)
    (hcolumn : ∀ w, t.cardElement.properties.columnWidth = some w →
      ∃ c, t.columnDefinition = some c) :
    (HandleToggleVisibilityClick x [target]).1 = S_OK ∧
    WellFormed (HandleToggleVisibilityClick x [target]).2 ∧
    FindName (HandleToggleVisibilityClick x [target]).2 target.elementId = some p ∧
    (HandleToggleVisibilityClick x [target]).2.get_Tag p =
      some { t with
        expectedVisibility :=
          decide (visibilityToSet target.isVisible t.expectedVisibility = Visibility.Visible) } ∧
    (HandleToggleVisibilityClick x [target]).2.get_Visibility p =
      some (visibilityToSet target.isVisible t.expectedVisibility) ∧
    (t.cardElement.properties.columnWidth = none →
      (HandleToggleVisibilityClick x [target]).2.columnDefinitions = x.columnDefinitions) ∧
    (∀ w c, t.cardElement.properties.columnWidth = some w → t.columnDefinition = some c →
      (HandleToggleVisibilityClick x [target]).2.columnDefinitions =
        x.columnDefinitions.set c
          { width :=
              if visibilityToSet target.isVisible t.expectedVisibility = Visibility.Visible then w
              else { value := 0, gridUnitType := GridUnitType.Pixel } }) := by
  have hok : FAILED S_OK = false := by decide
  have hres := toggleTarget_resolved { xaml := x, parentPanels := [] } target p t hf ht
  have hr1 : (HandleToggleVisibilityClick.toggleTarget { xaml := x, parentPanels := [] } target).1 =
      S_OK := by
    cases hc : t.cardElement.properties.columnWidth with
    | none => exact (hres.2.2.1 hc).1
    | some w =>
      obtain ⟨c, hcd⟩ := hcolumn w hc
      exact (hres.2.2.2 w c hc hcd).1
  have hpanels : (HandleToggleVisibilityClick.toggleTarget { xaml := x, parentPanels := [] }
      target).2.parentPanels = [t.parentPanel] := by
    rw [hres.2.1]
    simp
  have hcall : HandleToggleVisibilityClick x [target] =
      (S_OK, (SetSeparatorVisibility (HandleToggleVisibilityClick.toggleTarget
        { xaml := x, parentPanels := [] } target).2.xaml t.parentPanel).2) := by
    unfold HandleToggleVisibilityClick
    rw [targetLoop_cons, hr1]
    simp only [hok, Bool.false_eq_true, if_false, HandleToggleVisibilityClick.targetLoop, hpanels,
      List.foldl_cons, List.foldl_nil]
  have hwf1 := (toggleTarget_preserves { xaml := x, parentPanels := [] } target hwf).1
  have hread := toggle_writes_read x p t
    (visibilityToSet target.isVisible t.expectedVisibility)
    (decide (visibilityToSet target.isVisible t.expectedVisibility = Visibility.Visible)) ht
  have htag1 : (HandleToggleVisibilityClick.toggleTarget { xaml := x, parentPanels := [] }
      target).2.xaml.get_Tag p =
      some { t with
        expectedVisibility :=
          decide (visibilityToSet target.isVisible t.expectedVisibility = Visibility.Visible) } := by
    rw [get_Tag_of_elements_eq hres.1]
    exact hread.2
  have hvis1 : (HandleToggleVisibilityClick.toggleTarget { xaml := x, parentPanels := [] }
      target).2.xaml.get_Visibility p =
      some (visibilityToSet target.isVisible t.expectedVisibility) := by
    rw [get_Visibility_of_elements_eq hres.1]
    exact hread.1
  refine ⟨?_, ?_, ?_, ?_, ?_, ?_, ?_⟩
  · rw [hcall]
  · exact (HandleToggleVisibilityClick_preserves x [target] hwf).1
  · rw [hcall]
    simp only []
    rw [FindName_sameTargets (SetSeparatorVisibility_sameTargets _ _),
      FindName_sameTargets (toggleTarget_sameTargets { xaml := x, parentPanels := [] } target)]
    exact hf
  · rw [hcall]
    simp only []
    rw [SetSeparatorVisibility_get_Tag]
    exact htag1
  · rw [hcall]
    simp only []
    rw [SetSeparatorVisibility_get_Visibility_tagged _ _ p _ hwf1 htag1]
    exact hvis1
  · intro hc
    rw [hcall]
    simp only []
    rw [SetSeparatorVisibility_columnDefinitions]
    exact (hres.2.2.1 hc).2
  · intro w c hc hcd
    rw [hcall]
    simp only []
    rw [SetSeparatorVisibility_columnDefinitions]
    exact (hres.2.2.2 w c hc hcd).2

/-- C13, the code at a node whose literal visibility differs from its expected
visibility.  The image "photo" of `loadingPhotoPanel` (at 3) is literally
`Collapsed` while it loads, with expected visibility true.  Two calls of
`HandleToggleVisibilityClick` with the single target ("photo", `Toggle`) both
return `S_OK` and leave the image literally `Visible`. -/
theorem HandleToggleVisibilityClick_toggle_twice_loading_image :
    FindName loadingPhotoPanel "photo" = some 3 ∧
    loadingPhotoPanel.get_Visibility 3 = some Visibility.Collapsed ∧
    (HandleToggleVisibilityClick loadingPhotoPanel [togglePhoto]).1 = S_OK ∧
    (HandleToggleVisibilityClick (HandleToggleVisibilityClick loadingPhotoPanel [togglePhoto]).2
      [togglePhoto]).1 = S_OK ∧
    (HandleToggleVisibilityClick (HandleToggleVisibilityClick loadingPhotoPanel [togglePhoto]).2
      [togglePhoto]).2.get_Visibility 3 = some Visibility.Visible := by
  decide

/-- C13, amended.  In a store with well-formed tags, for an id that resolves
to a node with a tag (a column having its column definition), two calls of
`HandleToggleVisibilityClick` with the single target (id, `Toggle`) both
return `S_OK`; after them the tag of the node is the one it had, and the node
is literally `Visible` when the expected visibility held by its tag was true
and `Collapsed` when it was false.  So the original literal visibility is
back when the node was literally `Visible` or its expected visibility was
false.  For a column, the width of its column definition is the width of the
column when the expected visibility was true and zero when it was false. -/
theorem HandleToggleVisibilityClick_toggle_twice (xaml : XamlState) (id : String) (p : Nat)
    (t : ElementTagContent) (hwf : WellFormed xaml) (hf : FindName xaml id = some p)
    (ht : xaml.get_Tag p = some t)
    (hcolumn : ∀ w, t.cardElement.properties.columnWidth = some w →
      ∃ c, t.columnDefinition = some c) :
    (HandleToggleVisibilityClick xaml
      [{ elementId := id, isVisible := IsVisible.IsVisibleToggle }]).1 = S_OK ∧
    (HandleToggleVisibilityClick
      (HandleToggleVisibilityClick xaml
        [{ elementId := id, isVisible := IsVisible.IsVisibleToggle }]).2
      [{ elementId := id, isVisible := IsVisible.IsVisibleToggle }]).1 = S_OK ∧
    (HandleToggleVisibilityClick
      (HandleToggleVisibilityClick xaml
        [{ elementId := id, isVisible := IsVisible.IsVisibleToggle }]).2
      [{ elementId := id, isVisible := IsVisible.IsVisibleToggle }]).2.get_Tag p = some t ∧
    (HandleToggleVisibilityClick
      (HandleToggleVisibilityClick xaml
        [{ elementId := id, isVisible := IsVisible.IsVisibleToggle }]).2
      [{ elementId := id, isVisible := IsVisible.IsVisibleToggle }]).2.get_Visibility p =
        some (if t.expectedVisibility then Visibility.Visible else Visibility.Collapsed) ∧
    ((xaml.get_Visibility p = some Visibility.Visible ∨ t.expectedVisibility = false) →
      (HandleToggleVisibilityClick
        (HandleToggleVisibilityClick xaml
          [{ elementId := id, isVisible := IsVisible.IsVisibleToggle }]).2
        [{ elementId := id, isVisible := IsVisible.IsVisibleToggle }]).2.get_Visibility p =
          xaml.get_Visibility p) ∧
    (∀ w c, t.cardElement.properties.columnWidth = some w → t.columnDefinition = some c →
      (HandleToggleVisibilityClick
        (HandleToggleVisibilityClick xaml
          [{ elementId := id, isVisible := IsVisible.IsVisibleToggle }]).2
        [{ elementId := id, isVisible := IsVisible.IsVisibleToggle }]).2.columnDefinitions =
          xaml.columnDefinitions.set c
            { width := if t.expectedVisibility then w
                else { value := 0, gridUnitType := GridUnitType.Pixel } }) := by
  have h1 := HandleToggleVisibilityClick_single xaml
    { elementId := id, isVisible := IsVisible.IsVisibleToggle } p t hwf hf ht hcolumn
  have h2 := HandleToggleVisibilityClick_single
    (HandleToggleVisibilityClick xaml
      [{ elementId := id, isVisible := IsVisible.IsVisibleToggle }]).2
    { elementId := id, isVisible := IsVisible.IsVisibleToggle } p _ h1.2.1 h1.2.2.1 h1.2.2.2.1
    hcolumn
  have hvis : (HandleToggleVisibilityClick
      (HandleToggleVisibilityClick xaml
        [{ elementId := id, isVisible := IsVisible.IsVisibleToggle }]).2
      [{ elementId := id, isVisible := IsVisible.IsVisibleToggle }]).2.get_Visibility p =
        some (if t.expectedVisibility then Visibility.Visible else Visibility.Collapsed) := by
    rw [h2.2.2.2.2.1]
    cases t.expectedVisibility <;> rfl
  refine ⟨h1.1, h2.1, ?_, hvis, ?_, ?_⟩
  · rw [h2.2.2.2.1]
    obtain ⟨ce, pp, sep, cd, ev⟩ := t
    cases ev <;> rfl
  · intro h
    rw [hvis]
    rcases h with h | h
    · cases hev : t.expectedVisibility with
      | true => simp [h]
      | false =>
        have := hwf.2.2 p t ht hev
        rw [h] at this
        simp at this
    · rw [h, hwf.2.2 p t ht h]
      rfl
  · intro w c hc hcd
    rw [h2.2.2.2.2.2.2 w c hc hcd, h1.2.2.2.2.2.2 w c hc hcd, List.set_set]
    cases t.expectedVisibility <;> rfl

/-- Witness of C13, amended: on the panel built from two text blocks, the
second named "second" (at 3) and shown, two toggles of "second" leave it
literally `Visible`, as it was. -/
theorem HandleToggleVisibilityClick_toggle_twice_witness :
    FindName (BuildPanelChildren [sampleText, sampleSeparatedText] 0 emptyPanel sampleContext
      topLevelArgs).xaml "second" = some 3 ∧
    (BuildPanelChildren [sampleText, sampleSeparatedText] 0 emptyPanel sampleContext
      topLevelArgs).xaml.get_Visibility 3 = some Visibility.Visible ∧
    (HandleToggleVisibilityClick
      (HandleToggleVisibilityClick
        (BuildPanelChildren [sampleText, sampleSeparatedText] 0 emptyPanel sampleContext
          topLevelArgs).xaml
        [{ elementId := "second", isVisible := IsVisible.IsVisibleToggle }]).2
      [{ elementId := "second", isVisible := IsVisible.IsVisibleToggle }]).2.get_Visibility 3 =
        some Visibility.Visible :=
  ⟨by decide, by decide,
   (HandleToggleVisibilityClick_toggle_twice
      (BuildPanelChildren [sampleText, sampleSeparatedText] 0 emptyPanel sampleContext
        topLevelArgs).xaml "second" 3
      { cardElement := sampleSeparatedText, parentPanel := 0, separator := some 2,
        columnDefinition := none, expectedVisibility := true }
      (BuildPanelChildren_preserves [sampleText, sampleSeparatedText] 0 emptyPanel sampleContext
        topLevelArgs WellFormed_emptyPanel PanelOk_emptyPanel).1
      (by decide) rfl (fun w hw => by cases hw)).2.2.2.1⟩

end XamlBuilder

namespace XamlBuilder
open AdaptiveNamespace

/-- C23. `HandleSelectAction` with a select action and without support for
interactivity leaves the store as it is, appends the one warning
`InteractivityNotSupported` to the sink and yields the input node.  Without a
select action it leaves store and render context as they are and yields the
input node.  With a select action and support for interactivity it yields what
`WrapInTouchTarget` yields for the input node, and appends no warning; so the
node is wrapped in these calls only. -/
theorem HandleSelectAction_spec (adaptiveCardElement : Option CardElement)
    (renderContext : AdaptiveRenderContext) (uiElement : Nat) (supportsInteractivity : Bool)
    (fullWidthTouchTarget : Bool) (xaml : XamlState) :
    (∀ action, supportsInteractivity = false →
      (HandleSelectAction adaptiveCardElement (some action) renderContext uiElement
        supportsInteractivity fullWidthTouchTarget xaml).1 = xaml ∧
      (HandleSelectAction adaptiveCardElement (some action) renderContext uiElement
        supportsInteractivity fullWidthTouchTarget xaml).2.1.warnings =
        renderContext.warnings ++
          [AdaptiveWarning.warning WarningStatusCode.InteractivityNotSupported
            "SelectAction present, but Interactivity is not supported"] ∧
      (HandleSelectAction adaptiveCardElement (some action) renderContext uiElement
        supportsInteractivity fullWidthTouchTarget xaml).2.2 = uiElement) ∧
    HandleSelectAction adaptiveCardElement none renderContext uiElement supportsInteractivity
      fullWidthTouchTarget xaml = (xaml, renderContext, uiElement) ∧
    (∀ action, supportsInteractivity = true →
      HandleSelectAction adaptiveCardElement (some action) renderContext uiElement
        supportsInteractivity fullWidthTouchTarget xaml =
        ((WrapInTouchTarget adaptiveCardElement uiElement action fullWidthTouchTarget xaml).1,
          renderContext,
          (WrapInTouchTarget adaptiveCardElement uiElement action fullWidthTouchTarget xaml).2)) ∧
    (∀ selectAction,
      (HandleSelectAction adaptiveCardElement selectAction renderContext uiElement
        supportsInteractivity fullWidthTouchTarget xaml).1 ≠ xaml →
      selectAction ≠ none ∧ supportsInteractivity = true) := by
  refine ⟨?_, rfl, ?_, ?_⟩
  · intro action h
    subst h
    exact ⟨rfl, rfl, rfl⟩
  · intro action h
    subst h
    rfl
  · intro selectAction h
    cases selectAction with
    | none => exact absurd rfl h
    | some action =>
      cases supportsInteractivity with
      | false => exact absurd rfl h
      | true => exact ⟨by simp, rfl⟩

end XamlBuilder

namespace XamlBuilder
open AdaptiveNamespace

/-- Two stores with the same objects, read through the getters, are the same
store. -/
theorem XamlState_eq_of_getters (x y : XamlState)
    (hlen : y.elements.length = x.elements.length)
    (hvis : ∀ p, y.get_Visibility p = x.get_Visibility p)
    (hname : ∀ p, nameOf y p = nameOf x p)
    (htag : ∀ p, y.get_Tag p = x.get_Tag p)
    (hch : ∀ p, y.get_Children p = x.get_Children p)
    (hcol : y.columnDefinitions = x.columnDefinitions) : y = x := by
  obtain ⟨xs, xc⟩ := x
  obtain ⟨ys, yc⟩ := y
  simp only [] at hcol
  subst hcol
  have hel : ys = xs := by
    apply List.ext_getElem?
    intro p
    have h1 := hvis p
    have h2 := hname p
    have h3 := htag p
    have h4 := hch p
    simp only [XamlState.get_Visibility, nameOf, XamlState.get_Tag, XamlState.get_Children] at h1 h2 h3 h4
    cases hy : ys[p]? with
    | none =>
      cases hx : xs[p]? with
      | none => rfl
      | some ex => rw [hy, hx] at h1; simp at h1
    | some ey =>
      cases hx : xs[p]? with
      | none => rw [hy, hx] at h1; simp at h1
      | some ex =>
        rw [hy, hx] at h1 h2 h3 h4
        simp only [Option.map_some', Option.some.injEq, Option.some_bind] at h1 h2 h3 h4
        obtain ⟨v1, n1, t1, c1⟩ := ey
        obtain ⟨v2, n2, t2, c2⟩ := ex
        simp only [] at h1 h2 h3 h4
        subst h1 h2 h3 h4
        rfl
  rw [hel]

theorem separatorsUntagged_mem (x : XamlState) (cs : List Nat) (c s : Nat)
    (h : separatorsUntagged x cs = true) (hc : c ∈ cs) (hs : separatorOf x c = some s) :
    s < x.elements.length ∧ x.get_Tag s = none := by
  unfold separatorsUntagged at h
  rw [List.all_eq_true] at h
  have := h c hc
  rw [hs] at this
  simpa using this

theorem isVisibleElement_congr (x y : XamlState) (p : Nat)
    (htag : ∀ p, y.get_Tag p = x.get_Tag p)
    (hvis : ∀ p, x.get_Tag p ≠ none → y.get_Visibility p = x.get_Visibility p) :
    isVisibleElement y p = isVisibleElement x p := by
  unfold isVisibleElement
  rw [htag]
  cases ht : x.get_Tag p with
  | none => rfl
  | some t => rw [hvis p (by rw [ht]; simp)]

/-- The scan run on a store `y` that has the tags of `x` and the visibility of
its tagged nodes writes what the scan of `x` writes: where the scan of `x`
writes, the two results agree, and elsewhere `y` keeps what it has. -/
theorem scan_again (cs : List Nat) : ∀ (x y : XamlState) (f : Bool),
    y.elements.length = x.elements.length →
    (∀ p, y.get_Tag p = x.get_Tag p) →
    (∀ p, x.get_Tag p ≠ none → y.get_Visibility p = x.get_Visibility p) →
    separatorsUntagged x cs = true →
    ∀ q, (IterateOverVector cs SetSeparatorVisibility.visit (y, f)).1.get_Visibility q =
      if q ∈ cs.filterMap (separatorOf x) then
        (IterateOverVector cs SetSeparatorVisibility.visit (x, f)).1.get_Visibility q
      else y.get_Visibility q := by
  induction cs with
  | nil => intro x y f _ _ _ _ q; simp [IterateOverVector]
  | cons c cs ih =>
    intro x y f hlen htag hvis hsep q
    rcases (separatorsUntagged_cons x c cs).mp hsep with ⟨hc, hcs⟩
    have hx := visit_preserves_hyps x f c cs hsep
    have hsepy : separatorOf y = separatorOf x := separatorOf_congr x y htag
    have hf : (SetSeparatorVisibility.visit (y, f) c).2 = (SetSeparatorVisibility.visit (x, f) c).2 := by
      rw [visit_snd, visit_snd, isVisibleElement_congr x y c htag hvis]
    have hlen1 : (SetSeparatorVisibility.visit (y, f) c).1.elements.length =
        (SetSeparatorVisibility.visit (x, f) c).1.elements.length := by
      rw [visit_length, visit_length, hlen]
    have htag1 : ∀ p, (SetSeparatorVisibility.visit (y, f) c).1.get_Tag p =
        (SetSeparatorVisibility.visit (x, f) c).1.get_Tag p := by
      intro p
      rw [visit_get_Tag, visit_get_Tag, htag]
    have hwrite : ∀ s, separatorOf x c = some s →
        ∃ v, (SetSeparatorVisibility.visit (x, f) c).1 = x.put_Visibility s v ∧
          (SetSeparatorVisibility.visit (y, f) c).1 = y.put_Visibility s v := by
      intro s hs
      unfold separatorOf at hs
      cases ht : x.get_Tag c with
      | none => simp [ht] at hs
      | some t =>
        simp [ht] at hs
        exact ⟨_, visit_fst_of_separator_some x f c s t ht hs,
          visit_fst_of_separator_some y f c s t (by rw [htag, ht]) hs⟩
    have hvis1 : ∀ p, (SetSeparatorVisibility.visit (x, f) c).1.get_Tag p ≠ none →
        (SetSeparatorVisibility.visit (y, f) c).1.get_Visibility p =
          (SetSeparatorVisibility.visit (x, f) c).1.get_Visibility p := by
      intro p hp
      rw [visit_get_Tag] at hp
      have hne : separatorOf x c ≠ some p := by
        intro hs
        exact hp (hc p hs).2
      rw [visit_get_Visibility_of_ne x f c p hne,
        visit_get_Visibility_of_ne y f c p (by rw [hsepy]; exact hne)]
      exact hvis p hp
    have hstep := ih (SetSeparatorVisibility.visit (x, f) c).1 (SetSeparatorVisibility.visit (y, f) c).1
      (SetSeparatorVisibility.visit (x, f) c).2 hlen1 htag1 hvis1 hx.1 q
    rw [hx.2.1] at hstep
    have hy : IterateOverVector (c :: cs) SetSeparatorVisibility.visit (y, f) =
        IterateOverVector cs SetSeparatorVisibility.visit
          ((SetSeparatorVisibility.visit (y, f) c).1, (SetSeparatorVisibility.visit (x, f) c).2) := by
      rw [scan_cons, ← hf]
    rw [hy, hstep, scan_cons]
    by_cases hq : q ∈ cs.filterMap (separatorOf x)
    · have : q ∈ (c :: cs).filterMap (separatorOf x) := by
        rw [List.filterMap_cons]
        cases separatorOf x c with
        | none => exact hq
        | some s => exact List.mem_cons_of_mem _ hq
      rw [if_pos hq, if_pos this]
    · rw [if_neg hq]
      by_cases hs : separatorOf x c = some q
      · have : q ∈ (c :: cs).filterMap (separatorOf x) := by
          simp [List.filterMap_cons, hs]
        rw [if_pos this]
        have hnot : q ∉ cs.filterMap (separatorOf (SetSeparatorVisibility.visit (x, f) c).1) := by
          rw [hx.2.1]; exact hq
        rw [scan_get_Visibility_of_not_mem cs _ _ q hnot]
        obtain ⟨v, e1, e2⟩ := hwrite q hs
        rw [e1, e2, XamlState.get_Visibility_put_Visibility_self x q v (hc q hs).1,
          XamlState.get_Visibility_put_Visibility_self y q v (by rw [hlen]; exact (hc q hs).1)]
      · have : q ∉ (c :: cs).filterMap (separatorOf x) := by
          intro hmem
          rw [List.filterMap_cons] at hmem
          cases hsc : separatorOf x c with
          | none => rw [hsc] at hmem; exact hq hmem
          | some s =>
            rw [hsc] at hmem
            rcases List.mem_cons.mp hmem with h | h
            · exact hs (by rw [hsc, h])
            · exact hq h
        rw [if_neg this]
        exact visit_get_Visibility_of_ne y f c q (by rw [hsepy]; exact hs)

/-- `SetSeparatorVisibility` leaves the literal visibility of every object
that is not the separator of a child of the panel. -/
theorem SetSeparatorVisibility_get_Visibility_of_not_mem (x : XamlState) (panel p : Nat)
    (hp : p ∉ (x.get_Children panel).filterMap (separatorOf x)) :
    (SetSeparatorVisibility x panel).2.get_Visibility p = x.get_Visibility p :=
  scan_get_Visibility_of_not_mem _ x false p hp

end XamlBuilder

namespace XamlBuilder
open AdaptiveNamespace

/-- C25. `SetSeparatorVisibility` on a panel whose children hold, in their
tags, separators that are objects of the store without tag: a second run right
after the first yields what the first yielded, result code and store; the run
keeps the tag of every object, the literal visibility of every object with a
tag, the child list of every object, so the order of the children, and every
name; and it leaves the literal visibility of every object that is not the
separator held by the tag of a child of the panel. -/
theorem SetSeparatorVisibility_idempotent (xaml : XamlState) (parentPanel : Nat)
    (hsep : separatorsUntagged xaml (xaml.get_Children parentPanel) = true) :
    SetSeparatorVisibility (SetSeparatorVisibility xaml parentPanel).2 parentPanel =
      SetSeparatorVisibility xaml parentPanel ∧
    (∀ p, (SetSeparatorVisibility xaml parentPanel).2.get_Tag p = xaml.get_Tag p) ∧
    (∀ p t, xaml.get_Tag p = some t →
      (SetSeparatorVisibility xaml parentPanel).2.get_Visibility p = xaml.get_Visibility p) ∧
    (∀ p, (SetSeparatorVisibility xaml parentPanel).2.get_Children p = xaml.get_Children p) ∧
    (∀ p, nameOf (SetSeparatorVisibility xaml parentPanel).2 p = nameOf xaml p) ∧
    (∀ p, p ∉ (xaml.get_Children parentPanel).filterMap (separatorOf xaml) →
      (SetSeparatorVisibility xaml parentPanel).2.get_Visibility p = xaml.get_Visibility p) := by
  have htagged : ∀ p t, xaml.get_Tag p = some t →
      (SetSeparatorVisibility xaml parentPanel).2.get_Visibility p = xaml.get_Visibility p := by
    intro p t ht
    apply SetSeparatorVisibility_get_Visibility_of_not_mem
    intro hmem
    rw [List.mem_filterMap] at hmem
    rcases hmem with ⟨c, hc, hs⟩
    have := (separatorsUntagged_mem xaml _ c p hsep hc hs).2
    rw [ht] at this
    simp at this
  refine ⟨?_, SetSeparatorVisibility_get_Tag xaml parentPanel, htagged,
    SetSeparatorVisibility_get_Children xaml parentPanel,
    (SetSeparatorVisibility_sameTargets xaml parentPanel).2.1,
    SetSeparatorVisibility_get_Visibility_of_not_mem xaml parentPanel⟩
  have hstore : (SetSeparatorVisibility (SetSeparatorVisibility xaml parentPanel).2 parentPanel).2 =
      (SetSeparatorVisibility xaml parentPanel).2 := by
    apply XamlState_eq_of_getters
    · exact SetSeparatorVisibility_length _ _
    · intro q
      have h := scan_again (xaml.get_Children parentPanel) xaml
        (SetSeparatorVisibility xaml parentPanel).2 false
        (SetSeparatorVisibility_length xaml parentPanel)
        (SetSeparatorVisibility_get_Tag xaml parentPanel)
        (fun p hp => by
          cases ht : xaml.get_Tag p with
          | none => exact absurd ht hp
          | some t => exact htagged p t ht)
        hsep q
      have e : (SetSeparatorVisibility (SetSeparatorVisibility xaml parentPanel).2 parentPanel).2 =
          (IterateOverVector (xaml.get_Children parentPanel) SetSeparatorVisibility.visit
            ((SetSeparatorVisibility xaml parentPanel).2, false)).1 := by
        have e0 : ∀ y : XamlState, (SetSeparatorVisibility y parentPanel).2 =
            (IterateOverVector (y.get_Children parentPanel) SetSeparatorVisibility.visit
              (y, false)).1 := fun _ => rfl
        rw [e0 (SetSeparatorVisibility xaml parentPanel).2, SetSeparatorVisibility_get_Children]
      rw [e, h]
      split <;> rfl
    · exact (SetSeparatorVisibility_sameTargets _ _).2.1
    · exact SetSeparatorVisibility_get_Tag _ _
    · exact SetSeparatorVisibility_get_Children _ _
    · exact SetSeparatorVisibility_columnDefinitions _ _
  exact Prod.ext rfl hstore

/-- Witness of C25: on the panel with a shown text block, a separator and a
hidden image, the separator (at 2) is `Collapsed` after one run and after two,
and the image (at 3) keeps its literal visibility. -/
theorem SetSeparatorVisibility_idempotent_witness :
    separatorsUntagged hiddenImagePanel (hiddenImagePanel.get_Children 0) = true ∧
    (SetSeparatorVisibility hiddenImagePanel 0).2.get_Visibility 2 = some Visibility.Collapsed ∧
    (SetSeparatorVisibility (SetSeparatorVisibility hiddenImagePanel 0).2 0).2.get_Visibility 2 =
      some Visibility.Collapsed ∧
    (SetSeparatorVisibility hiddenImagePanel 0).2.get_Visibility 3 =
      hiddenImagePanel.get_Visibility 3 :=
  ⟨by decide, by decide,
   (congrArg (fun r => r.2.get_Visibility 2)
      (SetSeparatorVisibility_idempotent hiddenImagePanel 0 (by decide)).1).trans (by decide),
   (SetSeparatorVisibility_idempotent hiddenImagePanel 0 (by decide)).2.2.1 3
      { cardElement := sampleImage, parentPanel := 0, separator := some 2,
        columnDefinition := none, expectedVisibility := false } rfl⟩

end XamlBuilder

namespace XamlBuilder
open AdaptiveNamespace

theorem toggleTarget_visibleAsExpected_self (s : ToggleState)
    (target : AdaptiveToggleVisibilityTarget) (p : Nat) (t : ElementTagContent)
    (hf : FindName s.xaml target.elementId = some p) (ht : s.xaml.get_Tag p = some t) :
    visibleAsExpected (HandleToggleVisibilityClick.toggleTarget s target).2.xaml p := by
  have h := toggleTarget_resolved s target p t hf ht
  have hr := toggle_writes_read s.xaml p t
    (visibilityToSet target.isVisible t.expectedVisibility)
    (decide (visibilityToSet target.isVisible t.expectedVisibility = Visibility.Visible)) ht
  refine ⟨{ t with
      expectedVisibility :=
        decide (visibilityToSet target.isVisible t.expectedVisibility = Visibility.Visible) },
    ?_, ?_⟩
  · rw [get_Tag_of_elements_eq h.1]
    exact hr.2
  · rw [get_Visibility_of_elements_eq h.1, hr.1]
    simp

theorem toggleTarget_visibleAsExpected (s : ToggleState) (target : AdaptiveToggleVisibilityTarget)
    (q : Nat) (hq : visibleAsExpected s.xaml q) :
    visibleAsExpected (HandleToggleVisibilityClick.toggleTarget s target).2.xaml q := by
  cases hf : FindName s.xaml target.elementId with
  | none => rw [toggleTarget_unresolved s target hf]; exact hq
  | some p =>
    cases ht : s.xaml.get_Tag p with
    | none => rw [toggleTarget_untagged s target p hf ht]; exact hq
    | some t =>
      by_cases hqp : q = p
      · rw [hqp]
        exact toggleTarget_visibleAsExpected_self s target p t hf ht
      · have h := toggleTarget_resolved s target p t hf ht
        obtain ⟨tq, htq, hiff⟩ := hq
        refine ⟨tq, ?_, ?_⟩
        · rw [get_Tag_of_elements_eq h.1, XamlState.get_Tag_set_ExpectedVisibility, if_neg hqp,
            XamlState.get_Tag_put_Visibility]
          exact htq
        · rw [get_Visibility_of_elements_eq h.1, XamlState.get_Visibility_set_ExpectedVisibility,
            XamlState.get_Visibility_put_Visibility_ne _ _ _ _ hqp]
          exact hiff

theorem targetLoop_visibleAsExpected (targets : List AdaptiveToggleVisibilityTarget) :
    ∀ (s : ToggleState) (q : Nat), visibleAsExpected s.xaml q →
      visibleAsExpected (HandleToggleVisibilityClick.targetLoop targets s).2.xaml q := by
  induction targets with
  | nil => intro s q hq; exact hq
  | cons target rest ih =>
    intro s q hq
    rw [targetLoop_cons]
    have h1 := toggleTarget_visibleAsExpected s target q hq
    split
    · exact h1
    · exact ih _ q h1

/-- After a target loop that does not fail, every node that a target resolves
to is literally `Visible` exactly when its expected visibility is true. -/
theorem targetLoop_resolved_visibleAsExpected (targets : List AdaptiveToggleVisibilityTarget) :
    ∀ (s : ToggleState), FAILED (HandleToggleVisibilityClick.targetLoop targets s).1 = false →
      ∀ target, target ∈ targets → ∀ p, FindName s.xaml target.elementId = some p →
        visibleAsExpected (HandleToggleVisibilityClick.targetLoop targets s).2.xaml p := by
  have hfail : FAILED E_POINTER = true := by decide
  induction targets with
  | nil => intro s _ target hmem; simp at hmem
  | cons first rest ih =>
    intro s hok target hmem p hp
    rw [targetLoop_cons] at hok ⊢
    by_cases h1 : FAILED (HandleToggleVisibilityClick.toggleTarget s first).1 = true
    · rw [if_pos h1] at hok
      rw [h1] at hok
      exact absurd hok (by decide)
    · rw [if_neg h1] at hok ⊢
      rcases List.mem_cons.mp hmem with heq | hrest
      · subst heq
        cases ht : s.xaml.get_Tag p with
        | none =>
          rw [toggleTarget_untagged s target p hp ht, hfail] at h1
          exact absurd rfl h1
        | some t =>
          exact targetLoop_visibleAsExpected rest _ p
            (toggleTarget_visibleAsExpected_self s target p t hp ht)
      · apply ih _ hok target hrest p
        rw [FindName_sameTargets (toggleTarget_sameTargets s first)]
        exact hp

theorem recompute_visibleAsExpected (panels : List Nat) : ∀ (x : XamlState) (p : Nat),
    WellFormed x → visibleAsExpected x p →
    visibleAsExpected
      (panels.foldl (fun x parentPanel => (SetSeparatorVisibility x parentPanel).2) x) p := by
  induction panels with
  | nil => intro x p _ h; exact h
  | cons q panels ih =>
    intro x p hwf h
    rw [List.foldl_cons]
    apply ih _ p (SetSeparatorVisibility_WellFormed x q hwf)
    obtain ⟨t, ht, hiff⟩ := h
    refine ⟨t, ?_, ?_⟩
    · rw [SetSeparatorVisibility_get_Tag]; exact ht
    · rw [SetSeparatorVisibility_get_Visibility_tagged x q p t hwf ht]; exact hiff

/-- The node that `AddRenderedControl` attaches: its address, tag and literal
visibility, and the tags and visibilities of the objects there were. -/
theorem AddRenderedControl_node (control : UIElement) (el : CardElement) (pp : Nat)
    (sep cd : Option Nat) (x : XamlState) :
    (AddRenderedControl (some control) el pp sep cd x).2.get_Tag x.elements.length =
      some { cardElement := el, parentPanel := pp, separator := sep, columnDefinition := cd,
             expectedVisibility := el.get_IsVisible } ∧
    (AddRenderedControl (some control) el pp sep cd x).2.get_Visibility x.elements.length =
      some (if el.get_IsVisible then control.visibility else Visibility.Collapsed) ∧
    (∀ p, p ≠ x.elements.length →
      (AddRenderedControl (some control) el pp sep cd x).2.get_Tag p = x.get_Tag p ∧
      (AddRenderedControl (some control) el pp sep cd x).2.get_Visibility p = x.get_Visibility p) := by
  obtain ⟨e, he, htag, hfalse, htrue⟩ := AddRenderedControl_some control el pp sep cd x
  rw [he]
  refine ⟨?_, ?_, ?_⟩
  · rw [AppendXamlElementToPanel_get_Tag_new, htag]
  · rw [AppendXamlElementToPanel_get_Visibility_new]
    cases hv : el.get_IsVisible with
    | false => rw [hfalse hv]; rfl
    | true => rw [htrue hv]; rfl
  · intro p hp
    exact ⟨AppendXamlElementToPanel_get_Tag_old x e pp p hp,
      AppendXamlElementToPanel_get_Visibility_old x e pp p hp⟩

end XamlBuilder

namespace XamlBuilder
open AdaptiveNamespace

/-- C26. The node that `AddRenderedControl` attaches has, in its tag, the
declared `isVisible` of its element as expected visibility; it is literally
`Collapsed` when `isVisible` is false and has the literal visibility of the
control the renderer made otherwise; and if every tagged node with expected
visibility false was literally `Collapsed`, that holds with the new node.  In
a store with well-formed tags, after `HandleToggleVisibilityClick` every
tagged node with expected visibility false is literally `Collapsed`, and, when
the call does not fail, every node that a target resolves to is literally
`Visible` exactly when its expected visibility is true. -/
theorem expectedVisibility_invariant (control : UIElement) (element : CardElement)
    (parentPanel : Nat) (separator columnDefinition : Option Nat) (xaml : XamlState)
    (targets : List AdaptiveToggleVisibilityTarget) :
    ((AddRenderedControl (some control) element parentPanel separator columnDefinition
        xaml).2.get_Tag xaml.elements.length =
        some { cardElement := element, parentPanel := parentPanel, separator := separator,
               columnDefinition := columnDefinition, expectedVisibility := element.get_IsVisible } ∧
      (AddRenderedControl (some control) element parentPanel separator columnDefinition
        xaml).2.get_Visibility xaml.elements.length =
        some (if element.get_IsVisible then control.visibility else Visibility.Collapsed) ∧
      (expectedHidden xaml →
        expectedHidden (AddRenderedControl (some control) element parentPanel separator
          columnDefinition xaml).2)) ∧
    (WellFormed xaml →
      expectedHidden (HandleToggleVisibilityClick xaml targets).2 ∧
      (FAILED (HandleToggleVisibilityClick xaml targets).1 = false →
        ∀ target, target ∈ targets → ∀ p, FindName xaml target.elementId = some p →
          visibleAsExpected (HandleToggleVisibilityClick xaml targets).2 p)) := by
  have hnode := AddRenderedControl_node control element parentPanel separator columnDefinition xaml
  refine ⟨⟨hnode.1, hnode.2.1, ?_⟩, ?_⟩
  · intro hold p t ht hev
    by_cases hp : p = xaml.elements.length
    · subst hp
      rw [hnode.1] at ht
      have ht2 := Option.some.inj ht
      rw [← ht2] at hev
      simp only [] at hev
      rw [hnode.2.1, hev]
      rfl
    · rw [(hnode.2.2 p hp).1] at ht
      rw [(hnode.2.2 p hp).2]
      exact hold p t ht hev
  · intro hwf
    refine ⟨(HandleToggleVisibilityClick_preserves xaml targets hwf).1.2.2, ?_⟩
    intro hok target hmem p hp
    have hloop : FAILED (HandleToggleVisibilityClick.targetLoop targets
        { xaml := xaml, parentPanels := [] }).1 = false := by
      by_cases h : FAILED (HandleToggleVisibilityClick.targetLoop targets
          { xaml := xaml, parentPanels := [] }).1 = true
      · unfold HandleToggleVisibilityClick at hok
        simp only [] at hok
        rw [if_pos h] at hok
        simp only [] at hok
        rw [h] at hok
        exact absurd hok (by decide)
      · simpa using h
    have hcall : (HandleToggleVisibilityClick xaml targets).2 =
        (HandleToggleVisibilityClick.targetLoop targets
            { xaml := xaml, parentPanels := [] }).2.parentPanels.foldl
          (fun x parentPanel => (SetSeparatorVisibility x parentPanel).2)
          (HandleToggleVisibilityClick.targetLoop targets
            { xaml := xaml, parentPanels := [] }).2.xaml := by
      unfold HandleToggleVisibilityClick
      simp only [hloop, Bool.false_eq_true, if_false]
    rw [hcall]
    exact recompute_visibleAsExpected _ _ p
      (targetLoop_preserves targets { xaml := xaml, parentPanels := [] } hwf).1
      (targetLoop_resolved_visibleAsExpected targets { xaml := xaml, parentPanels := [] } hloop
        target hmem p hp)

/-- Witness of C26: the image "photo" (at 3) of `loadingPhotoPanel` is
literally `Collapsed` with expected visibility true while it loads; after a
toggle it is literally `Visible` exactly when its expected visibility is
true. -/
theorem expectedVisibility_invariant_witness :
    FindName loadingPhotoPanel "photo" = some 3 ∧
    loadingPhotoPanel.get_Visibility 3 = some Visibility.Collapsed ∧
    visibleAsExpected (HandleToggleVisibilityClick loadingPhotoPanel [togglePhoto]).2 3 ∧
    expectedHidden (HandleToggleVisibilityClick loadingPhotoPanel [togglePhoto]).2 :=
  ⟨by decide, by decide,
   ((expectedVisibility_invariant
      { visibility := Visibility.Visible, name := "", tag := none, children := [] } sampleText 0
      none none loadingPhotoPanel [togglePhoto]).2
      (BuildPanelChildren_preserves [sampleText, samplePhoto] 0 emptyPanel loadingContext
        topLevelArgs WellFormed_emptyPanel PanelOk_emptyPanel).1).2 (by decide) togglePhoto
      (List.mem_singleton.mpr rfl) 3 (by decide),
   ((expectedVisibility_invariant
      { visibility := Visibility.Visible, name := "", tag := none, children := [] } sampleText 0
      none none loadingPhotoPanel [togglePhoto]).2
      (BuildPanelChildren_preserves [sampleText, samplePhoto] 0 emptyPanel loadingContext
        topLevelArgs WellFormed_emptyPanel PanelOk_emptyPanel).1).1⟩

end XamlBuilder

namespace XamlBuilder
open AdaptiveNamespace

theorem flatMap_congr_mem {α β : Type} (l : List α) (f g : α → List β)
    (h : ∀ a, a ∈ l → f a = g a) : l.flatMap f = l.flatMap g := by
  induction l with
  | nil => rfl
  | cons a l ih =>
    rw [List.flatMap_cons, List.flatMap_cons, h a (List.mem_cons_self _ _),
      ih (fun b hb => h b (List.mem_cons_of_mem _ hb))]

theorem panelNodes_append (x : XamlState) (e : UIElement) (pp : Nat) (h : PanelOk x pp) :
    panelNodes (AppendXamlElementToPanel x e pp).1 pp =
      panelNodes x pp ++ (if e.tag.isSome then [x.elements.length] else []) := by
  unfold panelNodes
  rw [get_Children_append_panel x e pp h.1, List.filter_append]
  congr 1
  · apply List.filter_congr
    intro c hc
    have := h.2.2 c hc
    rw [AppendXamlElementToPanel_get_Tag_old _ _ _ _ (by omega)]
  · simp only [List.filter_cons, List.filter_nil, AppendXamlElementToPanel_get_Tag_new]

theorem panelNodes_lt (x : XamlState) (pp n : Nat) (h : PanelOk x pp) (hn : n ∈ panelNodes x pp) :
    n < x.elements.length := by
  unfold panelNodes at hn
  exact h.2.2 n (List.mem_filter.mp hn).1

theorem panelElements_eq_panelNodes (x : XamlState) (pp : Nat) :
    panelElements x pp =
      (panelNodes x pp).filterMap (fun n => (x.get_Tag n).map (fun t => t.cardElement)) := by
  unfold panelElements panelNodes
  induction x.get_Children pp with
  | nil => rfl
  | cons c cs ih =>
    rw [List.filterMap_cons, List.filter_cons]
    cases ht : x.get_Tag c with
    | none => simpa [ht] using ih
    | some t => simp [ht, ih]

theorem panelNodes_length (x : XamlState) (pp : Nat) :
    (panelNodes x pp).length = (panelElements x pp).length := by
  unfold panelElements panelNodes
  induction x.get_Children pp with
  | nil => rfl
  | cons c cs ih =>
    rw [List.filterMap_cons, List.filter_cons]
    cases ht : x.get_Tag c with
    | none => simpa [ht] using ih
    | some t => simp [ht, ih]

theorem SeparatorLayout_congr (hc : AdaptiveHostConfig) (x y : XamlState) (pp : Nat)
    (pending : Option Nat) (hlen : y.elements.length = x.elements.length)
    (hk : y.get_Children pp = x.get_Children pp) (ht : ∀ p, y.get_Tag p = x.get_Tag p)
    (h : SeparatorLayout hc x pp pending) : SeparatorLayout hc y pp pending := by
  have hsep : separatorOf y = separatorOf x := separatorOf_congr x y ht
  have hn : panelNodes y pp = panelNodes x pp := by
    unfold panelNodes
    rw [hk]
    simp only [ht]
  unfold SeparatorLayout
  rw [hk, hn, hsep, hlen]
  simp only [ht]
  exact h

/-- The layout after a separator has been attached. -/
theorem SeparatorLayout_append_separator (hc : AdaptiveHostConfig) (x : XamlState) (e : UIElement)
    (pp : Nat) (hp : PanelOk x pp) (he : e.tag = none) (h : SeparatorLayout hc x pp none) :
    SeparatorLayout hc (AppendXamlElementToPanel x e pp).1 pp (some x.elements.length) := by
  rcases h with ⟨h1, h2, h3, _⟩
  have hnodes : panelNodes (AppendXamlElementToPanel x e pp).1 pp = panelNodes x pp := by
    rw [panelNodes_append x e pp hp, he]
    simp
  have hsep : ∀ n, n ∈ panelNodes x pp →
      separatorOf (AppendXamlElementToPanel x e pp).1 n = separatorOf x n := by
    intro n hn
    have := panelNodes_lt x pp n hp hn
    exact separatorOf_append_old x e pp n (by omega)
  refine ⟨?_, ?_, ?_, ?_⟩
  · rw [get_Children_append_panel x e pp hp.1, hnodes]
    rw [flatMap_congr_mem (panelNodes x pp) _
      (fun n => (separatorOf x n).toList ++ [n]) (fun n hn => by rw [hsep n hn])]
    rw [h1]
    simp
  · intro i n t hi ht
    rw [hnodes] at hi
    have hn : n ∈ panelNodes x pp := List.getElem?_mem hi
    have := panelNodes_lt x pp n hp hn
    rw [AppendXamlElementToPanel_get_Tag_old _ _ _ _ (by omega)] at ht
    exact h2 i n t hi ht
  · intro n s hn hs
    rw [hnodes] at hn
    rw [hsep n hn] at hs
    have := h3 n s hn hs
    rw [AppendXamlElementToPanel_length, AppendXamlElementToPanel_get_Tag_old _ _ _ _ (by omega)]
    exact ⟨by omega, this.2⟩
  · intro s hs
    have : x.elements.length = s := by simpa using hs
    subst this
    rw [AppendXamlElementToPanel_length, AppendXamlElementToPanel_get_Tag_new]
    exact ⟨by omega, he⟩

/-- The layout after a node has been attached whose tag holds the pending
separator. -/
theorem SeparatorLayout_append_node (hc : AdaptiveHostConfig) (x : XamlState) (e : UIElement)
    (pp : Nat) (pending : Option Nat) (t : ElementTagContent) (hp : PanelOk x pp)
    (he : e.tag = some t) (hsepar : t.separator = pending)
    (hneeds : t.separator.isSome =
      (decide (0 < (panelNodes x pp).length) &&
        (GetSeparationConfigForElement t.cardElement hc).needsSeparator))
    (h : SeparatorLayout hc x pp pending) :
    SeparatorLayout hc (AppendXamlElementToPanel x e pp).1 pp none := by
  rcases h with ⟨h1, h2, h3, h4⟩
  have hnodes : panelNodes (AppendXamlElementToPanel x e pp).1 pp =
      panelNodes x pp ++ [x.elements.length] := by
    rw [panelNodes_append x e pp hp, he]
    simp
  have hsep : ∀ n, n ∈ panelNodes x pp →
      separatorOf (AppendXamlElementToPanel x e pp).1 n = separatorOf x n := by
    intro n hn
    have := panelNodes_lt x pp n hp hn
    exact separatorOf_append_old x e pp n (by omega)
  have hnew : separatorOf (AppendXamlElementToPanel x e pp).1 x.elements.length = pending := by
    rw [separatorOf_append_new, he]
    exact hsepar
  refine ⟨?_, ?_, ?_, ?_⟩
  · rw [get_Children_append_panel x e pp hp.1, hnodes, List.flatMap_append,
      List.flatMap_singleton, hnew]
    rw [flatMap_congr_mem (panelNodes x pp) _
      (fun n => (separatorOf x n).toList ++ [n]) (fun n hn => by rw [hsep n hn])]
    rw [h1]
    simp
  · intro i n t2 hi ht
    rw [hnodes] at hi
    by_cases hlt : i < (panelNodes x pp).length
    · rw [List.getElem?_append_left hlt] at hi
      have hn : n ∈ panelNodes x pp := List.getElem?_mem hi
      have := panelNodes_lt x pp n hp hn
      rw [AppendXamlElementToPanel_get_Tag_old _ _ _ _ (by omega)] at ht
      exact h2 i n t2 hi ht
    · rw [List.getElem?_append_right (by omega)] at hi
      have hi0 : i = (panelNodes x pp).length := by
        by_contra hne
        have : i - (panelNodes x pp).length ≠ 0 := by omega
        obtain ⟨k, hk⟩ := Nat.exists_eq_succ_of_ne_zero this
        rw [hk] at hi
        simp at hi
      subst hi0
      have hn : x.elements.length = n := by simpa using hi
      subst hn
      rw [AppendXamlElementToPanel_get_Tag_new, he] at ht
      have : t = t2 := by simpa using ht
      subst this
      exact hneeds
  · intro n s hn hs
    rw [hnodes, List.mem_append] at hn
    rw [AppendXamlElementToPanel_length]
    rcases hn with hn | hn
    · rw [hsep n hn] at hs
      have := h3 n s hn hs
      rw [AppendXamlElementToPanel_get_Tag_old _ _ _ _ (by omega)]
      exact ⟨by omega, this.2⟩
    · have hn2 : n = x.elements.length := by simpa using hn
      subst hn2
      rw [hnew] at hs
      have := h4 s hs
      rw [AppendXamlElementToPanel_get_Tag_old _ _ _ _ (by omega)]
      exact ⟨by omega, this.2⟩
  · intro s hs
    simp at hs

end XamlBuilder

namespace XamlBuilder
open AdaptiveNamespace

theorem SeparatorLayout_hostConfig (hc hc2 : AdaptiveHostConfig) (x : XamlState) (pp : Nat)
    (pending : Option Nat) (h : SeparatorLayout hc x pp pending) :
    SeparatorLayout hc2 x pp pending := h

/-- The layout after the lambda of `BuildPanelChildren` attached a control. -/
theorem attach_layout (control : UIElement) (el : CardElement) (hc : AdaptiveHostConfig)
    (c : Int) (x : XamlState) (pp : Nat) (hJ : SeparatorCount hc x pp c)
    (hL : SeparatorLayout hc x pp none) :
    SeparatorLayout hc
      (AddRenderedControl (some control) el pp (AddSeparatorIfNeeded c el hc x pp).2.2 none
        (AddSeparatorIfNeeded c el hc x pp).2.1).2 pp none := by
  rcases hJ with ⟨hp, hidx, _, _⟩
  have hcount : c = ((panelNodes x pp).length : Int) := by
    rw [panelNodes_length]; exact hidx
  rcases AddSeparatorIfNeeded_cases c el hc x pp with ⟨heq, hno⟩ | ⟨hpos, hneeds, heq⟩
  · rw [heq]
    rcases AddRenderedControl_some control el pp none none x with ⟨e, he, htag, _, _⟩
    simp only [he]
    refine SeparatorLayout_append_node hc x e pp none _ hp htag rfl ?_ hL
    simp only [Option.isSome_none]
    cases hn : (GetSeparationConfigForElement el hc).needsSeparator with
    | false => simp
    | true =>
      have : ¬ c > 0 := fun h0 => hno ⟨h0, hn⟩
      have h0 : ¬ 0 < (panelNodes x pp).length := by omega
      simp [h0]
  · rw [heq]
    simp only []
    have hA := SeparatorLayout_append_separator hc x
      (CreateSeparator (GetSeparationConfigForElement el hc).spacing
        (GetSeparationConfigForElement el hc).separatorThickness
        (GetSeparationConfigForElement el hc).separatorColor) pp hp rfl hL
    have hp1 := PanelOk_append x
      (CreateSeparator (GetSeparationConfigForElement el hc).spacing
        (GetSeparationConfigForElement el hc).separatorThickness
        (GetSeparationConfigForElement el hc).separatorColor) pp hp
    rcases AddRenderedControl_some control el pp (some x.elements.length) none
      (AppendXamlElementToPanel x
        (CreateSeparator (GetSeparationConfigForElement el hc).spacing
          (GetSeparationConfigForElement el hc).separatorThickness
          (GetSeparationConfigForElement el hc).separatorColor) pp).1 with ⟨e, he, htag, _, _⟩
    rw [he]
    refine SeparatorLayout_append_node hc _ e pp (some x.elements.length) _ hp1 htag rfl ?_ hA
    have hnodes : panelNodes (AppendXamlElementToPanel x
        (CreateSeparator (GetSeparationConfigForElement el hc).spacing
          (GetSeparationConfigForElement el hc).separatorThickness
          (GetSeparationConfigForElement el hc).separatorColor) pp).1 pp = panelNodes x pp := by
      rw [panelNodes_append x _ pp hp]
      simp [CreateSeparator]
    rw [hnodes]
    have h0 : 0 < (panelNodes x pp).length := by omega
    simp [h0, hneeds]

theorem renderElement_layout (pp : Nat) (anc : Bool) (s : PanelBuild) (el : CardElement)
    (hc : AdaptiveHostConfig) (hJ : SeparatorCount hc s.xaml pp s.iElement)
    (hL : SeparatorLayout hc s.xaml pp none) :
    SeparatorLayout hc (BuildPanelChildren.renderElement pp anc s el).2.xaml pp none := by
  rcases renderElement_xaml_cases pp anc s el with ⟨h1, _⟩ | ⟨control, h1, _⟩
  · rw [h1]; exact hL
  · rw [h1]
    exact SeparatorLayout_hostConfig _ hc _ _ _
      (attach_layout control el s.renderContext.hostConfig s.iElement s.xaml pp
        (SeparatorCount_hostConfig hc _ _ _ _ hJ) (SeparatorLayout_hostConfig hc _ _ _ _ hL))

theorem iterate_layout (pp : Nat) (anc flag : Bool) (hc : AdaptiveHostConfig)
    (els : List CardElement) :
    ∀ (s : PanelBuild), SeparatorCount hc s.xaml pp s.iElement →
      SeparatorLayout hc s.xaml pp none →
      SeparatorLayout hc
        (IterateOverVectorWithFailure els flag (BuildPanelChildren.renderElement pp anc) s).2.xaml
        pp none := by
  induction els with
  | nil => intro s _ hL; exact hL
  | cons el els ih =>
    intro s hJ hL
    rw [iterate_cons]
    have h1 := renderElement_layout pp anc s el hc hJ hL
    have h2 := (renderElement_count pp anc s el hc hJ).1
    split
    · exact h1
    · exact ih _ h2 h1

end XamlBuilder

namespace XamlBuilder
open AdaptiveNamespace

/-- C27. `BuildPanelChildren` on a panel without children.  The nodes of the
panel, its children with a tag, are in order those of a subsequence of the
elements, the elements that produced a node.  The children of the panel are,
node by node, the separator held by the tag of the node, if it holds one,
immediately followed by the node, and nothing else, so no separator stands for
an element without node.  The node at position `i` among the nodes holds a
separator exactly when `i` is not 0 and its element has `needsSeparator` true,
so the first node holds none whatever its element; a separator held is an
object without tag.  The separators of the panel number the nodes after the
first whose element has `needsSeparator` true. -/
theorem BuildPanelChildren_separator_layout (children : List CardElement) (parentPanel : Nat)
    (xaml : XamlState) (renderContext : AdaptiveRenderContext) (renderArgs : AdaptiveRenderArgs)
    (hpanel : parentPanel < xaml.elements.length) (hfresh : xaml.get_Children parentPanel = []) :
    (panelElements (BuildPanelChildren children parentPanel xaml renderContext renderArgs).xaml
      parentPanel).Sublist children ∧
    panelElements (BuildPanelChildren children parentPanel xaml renderContext renderArgs).xaml
        parentPanel =
      (panelNodes (BuildPanelChildren children parentPanel xaml renderContext renderArgs).xaml
        parentPanel).filterMap
        (fun n => ((BuildPanelChildren children parentPanel xaml renderContext
          renderArgs).xaml.get_Tag n).map (fun t => t.cardElement)) ∧
    (BuildPanelChildren children parentPanel xaml renderContext renderArgs).xaml.get_Children
        parentPanel =
      (panelNodes (BuildPanelChildren children parentPanel xaml renderContext renderArgs).xaml
        parentPanel).flatMap
        (fun n => (separatorOf (BuildPanelChildren children parentPanel xaml renderContext
          renderArgs).xaml n).toList ++ [n]) ∧
    (∀ i n t,
      (panelNodes (BuildPanelChildren children parentPanel xaml renderContext renderArgs).xaml
        parentPanel)[i]? = some n →
      (BuildPanelChildren children parentPanel xaml renderContext renderArgs).xaml.get_Tag n =
        some t →
      (t.separator.isSome = true ↔
        0 < i ∧
          (GetSeparationConfigForElement t.cardElement renderContext.hostConfig).needsSeparator =
            true)) ∧
    (∀ n s,
      n ∈ panelNodes (BuildPanelChildren children parentPanel xaml renderContext renderArgs).xaml
        parentPanel →
      separatorOf (BuildPanelChildren children parentPanel xaml renderContext renderArgs).xaml n =
        some s →
      (BuildPanelChildren children parentPanel xaml renderContext renderArgs).xaml.get_Tag s =
        none) ∧
    (panelSeparators (BuildPanelChildren children parentPanel xaml renderContext renderArgs).xaml
      parentPanel).length =
      ((panelElements (BuildPanelChildren children parentPanel xaml renderContext renderArgs).xaml
        parentPanel).tail.filter
        (fun e => (GetSeparationConfigForElement e renderContext.hostConfig).needsSeparator)).length := by
  have h0 : SeparatorCount renderContext.hostConfig xaml parentPanel 0 := by
    unfold SeparatorCount PanelOk panelElements panelSeparators
    rw [hfresh]
    refine ⟨⟨hpanel, List.nodup_nil, ?_⟩, rfl, rfl, ?_⟩
    · intro c hc; simp at hc
    · intro c hc; simp at hc
  have hL0 : SeparatorLayout renderContext.hostConfig xaml parentPanel none := by
    have hn : panelNodes xaml parentPanel = [] := by
      unfold panelNodes
      rw [hfresh]
      rfl
    unfold SeparatorLayout
    rw [hfresh, hn]
    refine ⟨rfl, ?_, ?_, ?_⟩
    · intro i n t hi; simp at hi
    · intro n s hmem; simp at hmem
    · intro s hs; simp at hs
  have hsub0 : (panelElements xaml parentPanel).Sublist [] := by
    unfold panelElements
    rw [hfresh]
    exact List.Sublist.refl _
  have h1 := iterate_count parentPanel renderArgs.ancestorHasFallback renderArgs.ancestorHasFallback
    renderContext.hostConfig children
    { xaml := xaml, renderContext := renderContext, renderArgs := renderArgs, iElement := 0 } []
    h0 hsub0
  have h2 := iterate_layout parentPanel renderArgs.ancestorHasFallback
    renderArgs.ancestorHasFallback renderContext.hostConfig children
    { xaml := xaml, renderContext := renderContext, renderArgs := renderArgs, iElement := 0 }
    h0 hL0
  have hL := SeparatorLayout_congr renderContext.hostConfig _
    (BuildPanelChildren children parentPanel xaml renderContext renderArgs).xaml parentPanel none
    (by rw [BuildPanelChildren_xaml]; exact SetSeparatorVisibility_length _ _)
    (by rw [BuildPanelChildren_xaml]; exact SetSeparatorVisibility_get_Children _ _ _)
    (by intro p; rw [BuildPanelChildren_xaml]; exact SetSeparatorVisibility_get_Tag _ _ _) h2
  have hE : panelElements (BuildPanelChildren children parentPanel xaml renderContext
      renderArgs).xaml parentPanel =
      panelElements (IterateOverVectorWithFailure children renderArgs.ancestorHasFallback
        (BuildPanelChildren.renderElement parentPanel renderArgs.ancestorHasFallback)
        { xaml := xaml, renderContext := renderContext, renderArgs := renderArgs,
          iElement := 0 }).2.xaml parentPanel := by
    rw [BuildPanelChildren_xaml]
    exact panelElements_congr _ _ parentPanel (SetSeparatorVisibility_get_Children _ _ _)
      (SetSeparatorVisibility_get_Tag _ _)
  have hS : panelSeparators (BuildPanelChildren children parentPanel xaml renderContext
      renderArgs).xaml parentPanel =
      panelSeparators (IterateOverVectorWithFailure children renderArgs.ancestorHasFallback
        (BuildPanelChildren.renderElement parentPanel renderArgs.ancestorHasFallback)
        { xaml := xaml, renderContext := renderContext, renderArgs := renderArgs,
          iElement := 0 }).2.xaml parentPanel := by
    rw [BuildPanelChildren_xaml]
    exact panelSeparators_congr _ _ parentPanel (SetSeparatorVisibility_get_Children _ _ _)
      (SetSeparatorVisibility_get_Tag _ _)
  rcases hL with ⟨hL1, hL2, hL3, _⟩
  refine ⟨?_, panelElements_eq_panelNodes _ _, ?_, ?_, ?_, ?_⟩
  · rw [hE]
    simpa using h1.2
  · rw [hL1]
    simp
  · intro i n t hi ht
    rw [hL2 i n t hi ht]
    simp
  · intro n s hn hs
    exact (hL3 n s hn hs).2
  · rw [hS, hE]
    exact h1.1.2.2.1

/-- Witness of C27: an element that renders to nothing, a text block that
needs no separator and a text block that needs one.  The panel holds the node
of the first text block (at 1), then the separator (at 2) and the node (at 3)
of the second; the first node holds no separator and the second holds the
one before it. -/
theorem BuildPanelChildren_separator_layout_witness :
    (BuildPanelChildren [sampleEmpty, sampleSeparatedText, sampleSeparatedText] 0 emptyPanel
      sampleContext topLevelArgs).xaml.get_Children 0 = [1, 2, 3] ∧
    panelNodes (BuildPanelChildren [sampleEmpty, sampleSeparatedText, sampleSeparatedText] 0
      emptyPanel sampleContext topLevelArgs).xaml 0 = [1, 3] ∧
    (GetSeparationConfigForElement sampleSeparatedText sampleContext.hostConfig).needsSeparator =
      true ∧
    separatorOf (BuildPanelChildren [sampleEmpty, sampleSeparatedText, sampleSeparatedText] 0
      emptyPanel sampleContext topLevelArgs).xaml 1 = none ∧
    separatorOf (BuildPanelChildren [sampleEmpty, sampleSeparatedText, sampleSeparatedText] 0
      emptyPanel sampleContext topLevelArgs).xaml 3 = some 2 ∧
    (panelSeparators (BuildPanelChildren [sampleEmpty, sampleSeparatedText, sampleSeparatedText] 0
      emptyPanel sampleContext topLevelArgs).xaml 0).length =
      ((panelElements (BuildPanelChildren [sampleEmpty, sampleSeparatedText, sampleSeparatedText] 0
        emptyPanel sampleContext topLevelArgs).xaml 0).tail.filter
        (fun e => (GetSeparationConfigForElement e sampleContext.hostConfig).needsSeparator)).length :=
  ⟨by decide, by decide, by decide, by decide, by decide,
   (BuildPanelChildren_separator_layout [sampleEmpty, sampleSeparatedText, sampleSeparatedText] 0
      emptyPanel sampleContext topLevelArgs (by decide) (by decide)).2.2.2.2.2⟩

end XamlBuilder

namespace XamlBuilder
open AdaptiveNamespace

theorem agreeOn_append (P : AdaptiveRenderArgs → Prop) (a b : AdaptiveRenderContext)
    (ws : List AdaptiveWarning) (h : agreeOn P a b) :
    agreeOn P { a with warnings := a.warnings ++ ws } { b with warnings := b.warnings ++ ws } := by
  rcases h with ⟨h1, h2, h3, h4⟩
  refine ⟨h1, h2, ?_, h4⟩
  simp only [h3]

theorem agreeOn_refl (P : AdaptiveRenderArgs → Prop) (a : AdaptiveRenderContext) : agreeOn P a a := by
  refine ⟨rfl, rfl, rfl, fun t => ⟨rfl, ?_⟩⟩
  unfold rendererAgreeOn
  cases (a.elementRenderers t).2 with
  | none => trivial
  | some r => intro e args _; rfl

/-- What the renderers registered for a type yield, for render arguments in
`P`, in two contexts that agree on `P`. -/
theorem agreeOn_rendered (P : AdaptiveRenderArgs → Prop) (a b : AdaptiveRenderContext)
    (t : String) (e : CardElement) (args : AdaptiveRenderArgs) (fallback : RenderOutcome)
    (h : agreeOn P a b) (hP : P args) :
    (match (b.elementRenderers t).2 with
      | some renderer => renderer e args
      | none => fallback) =
    (match (a.elementRenderers t).2 with
      | some renderer => renderer e args
      | none => fallback) ∧
    ((b.elementRenderers t).2.isNone = (a.elementRenderers t).2.isNone) := by
  have h4 := (h.2.2.2 t).2
  unfold rendererAgreeOn at h4
  cases ha : (a.elementRenderers t).2 with
  | none =>
    cases hb : (b.elementRenderers t).2 with
    | none => exact ⟨rfl, rfl⟩
    | some r2 => rw [ha, hb] at h4; exact absurd h4 id
  | some r1 =>
    cases hb : (b.elementRenderers t).2 with
    | none => rw [ha, hb] at h4; exact absurd h4 id
    | some r2 =>
      rw [ha, hb] at h4
      exact ⟨(h4 e args hP).symm, rfl⟩

/-- The `Content` case of `RenderFallback`, by the result of the lookup and of
the render of the fallback element. -/
theorem RenderFallback_content_cases (props : ElementProperties) (c : CardElement)
    (ctx : AdaptiveRenderContext) (args : AdaptiveRenderArgs) (rendered : RenderOutcome)
    (hrendered : rendered =
      (match (ctx.elementRenderers c.get_ElementTypeString).2 with
        | some renderer => renderer c args
        | none => { hr := E_PERFORM_FALLBACK, result := none, warnings := [] })) :
    (FAILED (ctx.elementRenderers c.get_ElementTypeString).1 = true →
      RenderFallback (.mk props (.Content c)) ctx args =
        { hr := (ctx.elementRenderers c.get_ElementTypeString).1, result := none,
          renderContext :=
            WarnForFallbackContentElement ctx props.elementTypeString c.get_ElementTypeString,
          nestedCalls := 0 }) ∧
    (FAILED (ctx.elementRenderers c.get_ElementTypeString).1 = false →
      rendered.hr = E_PERFORM_FALLBACK →
      RenderFallback (.mk props (.Content c)) ctx args =
        (if FAILED (RenderFallback c
            ((WarnForFallbackContentElement ctx props.elementTypeString
              c.get_ElementTypeString).addWarnings rendered.warnings) args).hr then
          { hr := (RenderFallback c
              ((WarnForFallbackContentElement ctx props.elementTypeString
                c.get_ElementTypeString).addWarnings rendered.warnings) args).hr,
            result := none,
            renderContext := (RenderFallback c
              ((WarnForFallbackContentElement ctx props.elementTypeString
                c.get_ElementTypeString).addWarnings rendered.warnings) args).renderContext,
            nestedCalls := (RenderFallback c
              ((WarnForFallbackContentElement ctx props.elementTypeString
                c.get_ElementTypeString).addWarnings rendered.warnings) args).nestedCalls + 1 }
        else
          { hr := S_OK,
            result := (RenderFallback c
              ((WarnForFallbackContentElement ctx props.elementTypeString
                c.get_ElementTypeString).addWarnings rendered.warnings) args).result,
            renderContext := (RenderFallback c
              ((WarnForFallbackContentElement ctx props.elementTypeString
                c.get_ElementTypeString).addWarnings rendered.warnings) args).renderContext,
            nestedCalls := (RenderFallback c
              ((WarnForFallbackContentElement ctx props.elementTypeString
                c.get_ElementTypeString).addWarnings rendered.warnings) args).nestedCalls + 1 })) ∧
    (FAILED (ctx.elementRenderers c.get_ElementTypeString).1 = false →
      rendered.hr ≠ E_PERFORM_FALLBACK →
      RenderFallback (.mk props (.Content c)) ctx args =
        (if FAILED rendered.hr then
          { hr := rendered.hr, result := none,
            renderContext := (WarnForFallbackContentElement ctx props.elementTypeString
              c.get_ElementTypeString).addWarnings rendered.warnings,
            nestedCalls := 0 }
        else
          { hr := S_OK, result := rendered.result,
            renderContext := (WarnForFallbackContentElement ctx props.elementTypeString
              c.get_ElementTypeString).addWarnings rendered.warnings,
            nestedCalls := 0 })) := by
  subst hrendered
  refine ⟨?_, ?_, ?_⟩
  · intro h
    rw [RenderFallback]
    simp only [WarnForFallbackContentElement, h, if_true]
  · intro h1 h2
    rw [RenderFallback]
    simp only [WarnForFallbackContentElement, h1, Bool.false_eq_true, if_false, h2, if_true]
  · intro h1 h2
    rw [RenderFallback]
    simp only [WarnForFallbackContentElement, h1, Bool.false_eq_true, if_false, h2]

end XamlBuilder

namespace XamlBuilder
open AdaptiveNamespace

/-- `RenderFallback` hands the renderers the render arguments it is given: in
two contexts that agree on `P` and for render arguments in `P` it returns the
same code, control and number of nested calls, and leaves contexts that agree
on `P`. -/
theorem RenderFallback_agreeOn (P : AdaptiveRenderArgs → Prop) (el : CardElement) :
    ∀ (a b : AdaptiveRenderContext) (args : AdaptiveRenderArgs), agreeOn P a b → P args →
      (RenderFallback el b args).hr = (RenderFallback el a args).hr ∧
      (RenderFallback el b args).result = (RenderFallback el a args).result ∧
      (RenderFallback el b args).nestedCalls = (RenderFallback el a args).nestedCalls ∧
      agreeOn P (RenderFallback el a args).renderContext (RenderFallback el b args).renderContext := by
  refine CardElement.rec
    (motive_1 := fun el => ∀ (a b : AdaptiveRenderContext) (args : AdaptiveRenderArgs),
      agreeOn P a b → P args →
      (RenderFallback el b args).hr = (RenderFallback el a args).hr ∧
      (RenderFallback el b args).result = (RenderFallback el a args).result ∧
      (RenderFallback el b args).nestedCalls = (RenderFallback el a args).nestedCalls ∧
      agreeOn P (RenderFallback el a args).renderContext (RenderFallback el b args).renderContext)
    (motive_2 := fun f => ∀ (props : ElementProperties) (a b : AdaptiveRenderContext)
      (args : AdaptiveRenderArgs), agreeOn P a b → P args →
      (RenderFallback (.mk props f) b args).hr = (RenderFallback (.mk props f) a args).hr ∧
      (RenderFallback (.mk props f) b args).result = (RenderFallback (.mk props f) a args).result ∧
      (RenderFallback (.mk props f) b args).nestedCalls =
        (RenderFallback (.mk props f) a args).nestedCalls ∧
      agreeOn P (RenderFallback (.mk props f) a args).renderContext
        (RenderFallback (.mk props f) b args).renderContext)
    ?_ ?_ ?_ ?_ el
  · intro props f ih a b args
    exact ih props a b args
  · intro props a b args hab _
    unfold RenderFallback
    simp only []
    split
    · exact ⟨rfl, rfl, rfl, agreeOn_append P a b _ hab⟩
    · exact ⟨rfl, rfl, rfl, hab⟩
  · intro props a b args hab _
    unfold RenderFallback
    exact ⟨rfl, rfl, rfl, agreeOn_append P a b _ hab⟩
  · intro c ih props a b args hab hP
    have hl := (hab.2.2.2 c.get_ElementTypeString).1
    have hr := (agreeOn_rendered P a b c.get_ElementTypeString c args
      { hr := E_PERFORM_FALLBACK, result := none, warnings := [] } hab hP).1
    have ha := RenderFallback_content_cases props c a args _ rfl
    have hb := RenderFallback_content_cases props c b args _ hr.symm
    have hw : agreeOn P
        (WarnForFallbackContentElement a props.elementTypeString c.get_ElementTypeString)
        (WarnForFallbackContentElement b props.elementTypeString c.get_ElementTypeString) :=
      agreeOn_append P a b _ hab
    by_cases h1 : FAILED (a.elementRenderers c.get_ElementTypeString).1 = true
    · rw [ha.1 h1, hb.1 (by rw [hl]; exact h1)]
      exact ⟨hl, rfl, rfl, hw⟩
    · have h1f : FAILED (a.elementRenderers c.get_ElementTypeString).1 = false := by
        simpa using h1
      have h1b : FAILED (b.elementRenderers c.get_ElementTypeString).1 = false := by
        rw [hl]; exact h1f
      generalize (match (a.elementRenderers c.get_ElementTypeString).2 with
        | some renderer => renderer c args
        | none => { hr := E_PERFORM_FALLBACK, result := none, warnings := [] }) = rendered
        at ha hb
      have hw2 : agreeOn P
          ((WarnForFallbackContentElement a props.elementTypeString
            c.get_ElementTypeString).addWarnings rendered.warnings)
          ((WarnForFallbackContentElement b props.elementTypeString
            c.get_ElementTypeString).addWarnings rendered.warnings) :=
        agreeOn_append P _ _ _ hw
      by_cases h2 : rendered.hr = E_PERFORM_FALLBACK
      · rw [ha.2.1 h1f h2, hb.2.1 h1b h2]
        have hin := ih _ _ args hw2 hP
        rw [hin.1]
        split
        · exact ⟨rfl, rfl, by rw [hin.2.2.1], hin.2.2.2⟩
        · exact ⟨rfl, hin.2.1, by rw [hin.2.2.1], hin.2.2.2⟩
      · rw [ha.2.2 h1f h2, hb.2.2 h1b h2]
        split
        · exact ⟨rfl, rfl, rfl, hw2⟩
        · exact ⟨rfl, rfl, rfl, hw2⟩

end XamlBuilder

namespace XamlBuilder
open AdaptiveNamespace

theorem render_agreeOn (P : AdaptiveRenderArgs → Prop) (a b : AdaptiveRenderContext) (t : String)
    (hr : HRESULT) (el : CardElement) (args : AdaptiveRenderArgs)
    (h : agreeOn P a b) (hP : P args) :
    BuildPanelChildren.render (b.elementRenderers t).2 hr el args =
      BuildPanelChildren.render (a.elementRenderers t).2 hr el args := by
  have h4 := (h.2.2.2 t).2
  unfold rendererAgreeOn at h4
  unfold BuildPanelChildren.render
  cases ha : (a.elementRenderers t).2 with
  | none =>
    cases hb : (b.elementRenderers t).2 with
    | none => rfl
    | some r2 => rw [ha, hb] at h4; exact absurd h4 id
  | some r1 =>
    cases hb : (b.elementRenderers t).2 with
    | none => rw [ha, hb] at h4; exact absurd h4 id
    | some r2 =>
      rw [ha, hb] at h4
      simp only [h4 el args hP]

theorem fallback_agreeOn (P : AdaptiveRenderArgs → Prop) (a b a2 b2 : AdaptiveRenderContext)
    (t : String) (rendered : RenderOutcome) (el : CardElement) (args : AdaptiveRenderArgs)
    (h : agreeOn P a b) (h2 : agreeOn P a2 b2) (hP : P args) :
    (BuildPanelChildren.fallback (b.elementRenderers t).2 rendered el b2 args).hr =
      (BuildPanelChildren.fallback (a.elementRenderers t).2 rendered el a2 args).hr ∧
    (BuildPanelChildren.fallback (b.elementRenderers t).2 rendered el b2 args).result =
      (BuildPanelChildren.fallback (a.elementRenderers t).2 rendered el a2 args).result ∧
    agreeOn P (BuildPanelChildren.fallback (a.elementRenderers t).2 rendered el a2 args).renderContext
      (BuildPanelChildren.fallback (b.elementRenderers t).2 rendered el b2 args).renderContext := by
  have hnone := (agreeOn_rendered P a b t el args rendered h hP).2
  unfold BuildPanelChildren.fallback
  rw [hnone]
  split
  · have := RenderFallback_agreeOn P el a2 b2 args h2 hP
    exact ⟨this.1, this.2.1, this.2.2.2⟩
  · exact ⟨rfl, rfl, h2⟩

theorem attach_agreeOn (pp : Nat) (anc : Bool) (s : PanelBuild) (b : AdaptiveRenderContext)
    (el : CardElement) (hr : HRESULT) (newControl : Option UIElement)
    (hhost : b.hostConfig = s.renderContext.hostConfig) :
    (BuildPanelChildren.attach pp anc { s with renderContext := b } el hr newControl).1 =
      (BuildPanelChildren.attach pp anc s el hr newControl).1 ∧
    (BuildPanelChildren.attach pp anc { s with renderContext := b } el hr newControl).2.xaml =
      (BuildPanelChildren.attach pp anc s el hr newControl).2.xaml ∧
    (BuildPanelChildren.attach pp anc { s with renderContext := b } el hr newControl).2.renderArgs =
      (BuildPanelChildren.attach pp anc s el hr newControl).2.renderArgs ∧
    (BuildPanelChildren.attach pp anc { s with renderContext := b } el hr newControl).2.iElement =
      (BuildPanelChildren.attach pp anc s el hr newControl).2.iElement ∧
    (BuildPanelChildren.attach pp anc { s with renderContext := b } el hr newControl).2.renderContext =
      b := by
  cases newControl with
  | none => exact ⟨rfl, rfl, rfl, rfl, rfl⟩
  | some control =>
    unfold BuildPanelChildren.attach
    simp only [hhost]
    split <;> exact ⟨rfl, rfl, rfl, rfl, rfl⟩

/-- The lambda of `BuildPanelChildren` hands the renderers of the element and
`RenderFallback` the render arguments of the state with `ancestorHasFallback`
put to the element's own `fallbackType != None` or the value read on entry: in
two contexts that agree on render arguments `P` that these are in, it returns
the same code and leaves the same store, render arguments and counter, and
contexts that agree on `P`. -/
theorem renderElement_agreeOn (P : AdaptiveRenderArgs → Prop) (pp : Nat) (anc : Bool)
    (s : PanelBuild) (el : CardElement) (b : AdaptiveRenderContext)
    (hab : agreeOn P s.renderContext b)
    (hP : P (s.renderArgs.put_AncestorHasFallback
      (decide (el.get_FallbackType ≠ FallbackType.None) || anc))) :
    (BuildPanelChildren.renderElement pp anc { s with renderContext := b } el).1 =
      (BuildPanelChildren.renderElement pp anc s el).1 ∧
    (BuildPanelChildren.renderElement pp anc { s with renderContext := b } el).2.xaml =
      (BuildPanelChildren.renderElement pp anc s el).2.xaml ∧
    (BuildPanelChildren.renderElement pp anc { s with renderContext := b } el).2.renderArgs =
      (BuildPanelChildren.renderElement pp anc s el).2.renderArgs ∧
    (BuildPanelChildren.renderElement pp anc { s with renderContext := b } el).2.iElement =
      (BuildPanelChildren.renderElement pp anc s el).2.iElement ∧
    agreeOn P (BuildPanelChildren.renderElement pp anc s el).2.renderContext
      (BuildPanelChildren.renderElement pp anc { s with renderContext := b } el).2.renderContext := by
  have hm := hab.2.1
  have hl := (hab.2.2.2 el.get_ElementTypeString).1
  unfold BuildPanelChildren.renderElement
  simp only [hm, hl]
  by_cases h1 : FAILED (s.renderContext.meetsRequirements el).1 = true
  · rw [if_pos h1, if_pos h1]
    exact ⟨rfl, rfl, rfl, rfl, hab⟩
  · rw [if_neg h1, if_neg h1]
    by_cases h2 : FAILED (s.renderContext.elementRenderers el.get_ElementTypeString).1 = true
    · rw [if_pos h2, if_pos h2]
      exact ⟨rfl, rfl, rfl, rfl, hab⟩
    · rw [if_neg h2, if_neg h2]
      generalize (if (s.renderContext.meetsRequirements el).2 = true then S_OK
        else E_PERFORM_FALLBACK) = hr0
      rw [render_agreeOn P s.renderContext b el.get_ElementTypeString hr0 el _ hab hP]
      generalize BuildPanelChildren.render (s.renderContext.elementRenderers
        el.get_ElementTypeString).2 hr0 el (s.renderArgs.put_AncestorHasFallback
          (decide (el.get_FallbackType ≠ FallbackType.None) || anc)) = rendered
      have hf := fallback_agreeOn P s.renderContext b
        (s.renderContext.addWarnings rendered.warnings) (b.addWarnings rendered.warnings)
        el.get_ElementTypeString rendered el _ hab (agreeOn_append P _ _ _ hab) hP
      rw [hf.1]
      by_cases h3 : FAILED (BuildPanelChildren.fallback
          (s.renderContext.elementRenderers el.get_ElementTypeString).2 rendered el
          (s.renderContext.addWarnings rendered.warnings)
          (s.renderArgs.put_AncestorHasFallback
            (decide (el.get_FallbackType ≠ FallbackType.None) || anc))).hr = true
      · rw [if_pos h3, if_pos h3]
        exact ⟨rfl, rfl, rfl, rfl, hf.2.2⟩
      · rw [if_neg h3, if_neg h3, hf.2.1]
        have hat := attach_agreeOn pp anc
          { xaml := s.xaml,
            renderContext := (BuildPanelChildren.fallback
              (s.renderContext.elementRenderers el.get_ElementTypeString).2 rendered el
              (s.renderContext.addWarnings rendered.warnings)
              (s.renderArgs.put_AncestorHasFallback
                (decide (el.get_FallbackType ≠ FallbackType.None) || anc))).renderContext,
            renderArgs := s.renderArgs.put_AncestorHasFallback
              (decide (el.get_FallbackType ≠ FallbackType.None) || anc),
            iElement := s.iElement }
          (BuildPanelChildren.fallback
            (b.elementRenderers el.get_ElementTypeString).2 rendered el
            (b.addWarnings rendered.warnings)
            (s.renderArgs.put_AncestorHasFallback
              (decide (el.get_FallbackType ≠ FallbackType.None) || anc))).renderContext
          el rendered.hr
          (BuildPanelChildren.fallback
            (s.renderContext.elementRenderers el.get_ElementTypeString).2 rendered el
            (s.renderContext.addWarnings rendered.warnings)
            (s.renderArgs.put_AncestorHasFallback
              (decide (el.get_FallbackType ≠ FallbackType.None) || anc))).result
          hf.2.2.1
        refine ⟨hat.1, hat.2.1, hat.2.2.1, hat.2.2.2.1, ?_⟩
        rw [attach_renderContext, attach_renderContext]
        exact hf.2.2

end XamlBuilder

namespace XamlBuilder
open AdaptiveNamespace

theorem PanelBuild_eq_with (s s2 : PanelBuild) (hx : s2.xaml = s.xaml)
    (ha : s2.renderArgs = s.renderArgs) (hi : s2.iElement = s.iElement) :
    s2 = { s with renderContext := s2.renderContext } := by
  obtain ⟨x, c, a, i⟩ := s
  obtain ⟨x2, c2, a2, i2⟩ := s2
  simp only [] at hx ha hi
  subst hx ha hi
  rfl

/-- The lambda of `BuildPanelChildren` changes the render arguments in their
`ancestorHasFallback` value at most. -/
theorem renderElement_renderArgs_put (pp : Nat) (anc : Bool) (s : PanelBuild) (el : CardElement) :
    ∃ v, (BuildPanelChildren.renderElement pp anc s el).2.renderArgs =
      s.renderArgs.put_AncestorHasFallback v := by
  unfold BuildPanelChildren.renderElement
  simp only []
  by_cases h1 : FAILED (s.renderContext.meetsRequirements el).1 = true
  · rw [if_pos h1]
    exact ⟨_, rfl⟩
  · rw [if_neg h1]
    by_cases h2 : FAILED (s.renderContext.elementRenderers el.get_ElementTypeString).1 = true
    · rw [if_pos h2]
      exact ⟨_, rfl⟩
    · rw [if_neg h2]
      generalize (if (s.renderContext.meetsRequirements el).2 = true then S_OK
        else E_PERFORM_FALLBACK) = hr0
      split
      · exact ⟨_, rfl⟩
      · rw [attach_renderArgs]
        exact ⟨anc, rfl⟩

theorem iterate_agreeOn (P : AdaptiveRenderArgs → Prop) (pp : Nat) (anc flag : Bool)
    (hput : ∀ args v, P args → P (args.put_AncestorHasFallback v))
    (els : List CardElement) :
    ∀ (s s2 : PanelBuild), s2.xaml = s.xaml → s2.renderArgs = s.renderArgs →
      s2.iElement = s.iElement → agreeOn P s.renderContext s2.renderContext → P s.renderArgs →
      (IterateOverVectorWithFailure els flag (BuildPanelChildren.renderElement pp anc) s2).1 =
        (IterateOverVectorWithFailure els flag (BuildPanelChildren.renderElement pp anc) s).1 ∧
      (IterateOverVectorWithFailure els flag (BuildPanelChildren.renderElement pp anc) s2).2.xaml =
        (IterateOverVectorWithFailure els flag (BuildPanelChildren.renderElement pp anc) s).2.xaml ∧
      (IterateOverVectorWithFailure els flag (BuildPanelChildren.renderElement pp anc)
          s2).2.renderArgs =
        (IterateOverVectorWithFailure els flag (BuildPanelChildren.renderElement pp anc)
          s).2.renderArgs ∧
      agreeOn P
        (IterateOverVectorWithFailure els flag (BuildPanelChildren.renderElement pp anc)
          s).2.renderContext
        (IterateOverVectorWithFailure els flag (BuildPanelChildren.renderElement pp anc)
          s2).2.renderContext := by
  induction els with
  | nil =>
    intro s s2 hx ha _ hab _
    exact ⟨rfl, hx, ha, hab⟩
  | cons el els ih =>
    intro s s2 hx ha hi hab hP
    have hs2 := PanelBuild_eq_with s s2 hx ha hi
    have h1 := renderElement_agreeOn P pp anc s el s2.renderContext hab (hput _ _ hP)
    rw [← hs2] at h1
    rw [iterate_cons, iterate_cons, h1.1]
    by_cases hf : FAILED (BuildPanelChildren.renderElement pp anc s el).1 = true
    · rw [if_pos hf, if_pos hf]
      exact ⟨h1.1, h1.2.1, h1.2.2.1, h1.2.2.2.2⟩
    · rw [if_neg hf, if_neg hf]
      obtain ⟨v, hv⟩ := renderElement_renderArgs_put pp anc s el
      exact ih _ _ h1.2.1 h1.2.2.1 h1.2.2.2.1 h1.2.2.2.2 (by rw [hv]; exact hput _ _ hP)

/-- `BuildPanelChildren` hands every renderer render arguments that differ
from its own in `ancestorHasFallback` at most: in two contexts that agree on
render arguments `P`, with the render arguments in `P` and `P` blind to
`ancestorHasFallback`, it returns the same code, store and render arguments,
and leaves contexts that agree on `P`. -/
theorem BuildPanelChildren_agreeOn (P : AdaptiveRenderArgs → Prop)
    (hput : ∀ args v, P args → P (args.put_AncestorHasFallback v))
    (els : List CardElement) (pp : Nat) (x : XamlState) (a b : AdaptiveRenderContext)
    (args : AdaptiveRenderArgs) (hab : agreeOn P a b) (hP : P args) :
    (BuildPanelChildren els pp x b args).hr = (BuildPanelChildren els pp x a args).hr ∧
    (BuildPanelChildren els pp x b args).xaml = (BuildPanelChildren els pp x a args).xaml ∧
    (BuildPanelChildren els pp x b args).renderArgs =
      (BuildPanelChildren els pp x a args).renderArgs ∧
    agreeOn P (BuildPanelChildren els pp x a args).renderContext
      (BuildPanelChildren els pp x b args).renderContext := by
  have h := iterate_agreeOn P pp args.ancestorHasFallback args.ancestorHasFallback hput els
    { xaml := x, renderContext := a, renderArgs := args, iElement := 0 }
    { xaml := x, renderContext := b, renderArgs := args, iElement := 0 } rfl rfl rfl hab hP
  rw [BuildPanelChildren_hr, BuildPanelChildren_hr, BuildPanelChildren_xaml, BuildPanelChildren_xaml,
    BuildPanelChildren_renderArgs, BuildPanelChildren_renderArgs, BuildPanelChildren_renderContext,
    BuildPanelChildren_renderContext, h.1, h.2.1, h.2.2.1]
  exact ⟨rfl, rfl, rfl, h.2.2.2⟩

end XamlBuilder

namespace XamlBuilder
open AdaptiveNamespace

/-- C24, the code at the failing input.  Below an ancestor with a fallback, an
image whose requirements are not met and whose fallback content is a text
block, followed by a text block.  The renderer registered for the image, which
would fail with `E_INVALIDARG`, is not called; `RenderFallback` resolves the
fallback with `S_OK` and the control of the text block, which is attached (at
1) after the fell-back diagnostic; yet the lambda returns `E_PERFORM_FALLBACK`
for the image, `BuildPanelChildren` returns `E_PERFORM_FALLBACK`, and the text
block that follows is not rendered. -/
theorem BuildPanelChildren_unmet_requirements_surfaced :
    nestedArgs.ancestorHasFallback = true ∧
    unmetContext.meetsRequirements sampleImageToText = (S_OK, false) ∧
    (failingRenderer sampleImageToText nestedArgs).hr = E_INVALIDARG ∧
    (RenderFallback sampleImageToText unmetContext nestedArgs).hr = S_OK ∧
    (RenderFallback sampleImageToText unmetContext nestedArgs).result.isSome = true ∧
    (BuildPanelChildren.renderElement 0 true
      { xaml := emptyPanel, renderContext := unmetContext, renderArgs := nestedArgs,
        iElement := 0 } sampleImageToText).1 = E_PERFORM_FALLBACK ∧
    (BuildPanelChildren [sampleText] 0 emptyPanel unmetContext nestedArgs).hr = S_OK ∧
    (BuildPanelChildren [sampleImageToText, sampleText] 0 emptyPanel unmetContext
      nestedArgs).hr = E_PERFORM_FALLBACK ∧
    (BuildPanelChildren [sampleImageToText, sampleText] 0 emptyPanel unmetContext
      nestedArgs).xaml.get_Children 0 = [1] ∧
    (BuildPanelChildren [sampleImageToText, sampleText] 0 emptyPanel unmetContext
      nestedArgs).renderContext.warnings = [AdaptiveWarning.fallbackContent "Image" "TextBlock"] := by
  decide

end XamlBuilder

namespace XamlBuilder
open AdaptiveNamespace

/-- A context in which the renderer registered for one type is replaced by a
renderer that yields the same for render arguments in `P` agrees with the
context on `P`. -/
theorem agreeOn_override (P : AdaptiveRenderArgs → Prop) (a : AdaptiveRenderContext)
    (type : String) (code : HRESULT) (r1 r2 : ElementRenderer)
    (ha : a.elementRenderers type = (code, some r1))
    (h : ∀ e args, P args → r1 e args = r2 e args) :
    agreeOn P a
      { a with
        elementRenderers := fun t => if t = type then (code, some r2) else a.elementRenderers t } := by
  refine ⟨rfl, rfl, rfl, fun t => ?_⟩
  by_cases ht : t = type
  · subst ht
    simp only [if_true, ha]
    exact ⟨trivial, h⟩
  · simp only [ht, if_false]
    exact ⟨trivial, ((agreeOn_refl P a).2.2.2 t).2⟩

/-- The lambda of `BuildPanelChildren` overwrites the `ancestorHasFallback`
value that the render arguments hold before it uses them. -/
theorem renderElement_put_AncestorHasFallback (pp : Nat) (anc : Bool) (s : PanelBuild)
    (el : CardElement) (v : Bool) :
    BuildPanelChildren.renderElement pp anc
        { s with renderArgs := s.renderArgs.put_AncestorHasFallback v } el =
      BuildPanelChildren.renderElement pp anc s el := rfl

/-- C21. In the lambda of `BuildPanelChildren`, run on any element from any
state that the elements before it left, with `inherited` the
`ancestorHasFallback` value read on entry to `BuildPanelChildren`: the
renderers and `RenderFallback` are handed render arguments whose
`ancestorHasFallback` is the element's own `fallbackType != None` or
`inherited`.  So a context whose renderers differ from those of the state for
render arguments with another `ancestorHasFallback` value only yields the same
result code, store, render arguments, counter and warnings; the
`ancestorHasFallback` value that the render arguments of the state hold, which
is where earlier elements could leave a trace, has no part in the result; and
when no renderer is registered for the element, the warnings are those of
`RenderFallback` called with these render arguments.  `BuildPanelChildren` on
the element alone yields the same in the two contexts, with `inherited` the
value its render arguments hold. -/
theorem renderElement_ancestorHasFallback (parentPanel : Nat) (inherited : Bool) (s : PanelBuild)
    (element : CardElement) (other : AdaptiveRenderContext)
    (hother : agreeOn
      (fun args => args.ancestorHasFallback =
        (decide (element.get_FallbackType ≠ FallbackType.None) || inherited))
      s.renderContext other) :
    ((BuildPanelChildren.renderElement parentPanel inherited { s with renderContext := other }
        element).1 =
        (BuildPanelChildren.renderElement parentPanel inherited s element).1 ∧
      (BuildPanelChildren.renderElement parentPanel inherited { s with renderContext := other }
        element).2.xaml =
        (BuildPanelChildren.renderElement parentPanel inherited s element).2.xaml ∧
      (BuildPanelChildren.renderElement parentPanel inherited { s with renderContext := other }
        element).2.renderArgs =
        (BuildPanelChildren.renderElement parentPanel inherited s element).2.renderArgs ∧
      (BuildPanelChildren.renderElement parentPanel inherited { s with renderContext := other }
        element).2.iElement =
        (BuildPanelChildren.renderElement parentPanel inherited s element).2.iElement ∧
      (BuildPanelChildren.renderElement parentPanel inherited { s with renderContext := other }
        element).2.renderContext.warnings =
        (BuildPanelChildren.renderElement parentPanel inherited s element).2.renderContext.warnings) ∧
    (∀ left : Bool,
      BuildPanelChildren.renderElement parentPanel inherited
          { s with renderArgs := s.renderArgs.put_AncestorHasFallback left } element =
        BuildPanelChildren.renderElement parentPanel inherited s element) ∧
    (FAILED (s.renderContext.meetsRequirements element).1 = false →
      FAILED (s.renderContext.elementRenderers element.get_ElementTypeString).1 = false →
      (s.renderContext.elementRenderers element.get_ElementTypeString).2 = none →
      (BuildPanelChildren.renderElement parentPanel inherited s element).2.renderContext.warnings =
        (RenderFallback element s.renderContext
          { containerStyle := s.renderArgs.containerStyle,
            ancestorHasFallback :=
              decide (element.get_FallbackType ≠ FallbackType.None) || inherited,
            isInShowCard := s.renderArgs.isInShowCard }).renderContext.warnings) ∧
    (inherited = s.renderArgs.ancestorHasFallback →
      (BuildPanelChildren [element] parentPanel s.xaml other s.renderArgs).hr =
        (BuildPanelChildren [element] parentPanel s.xaml s.renderContext s.renderArgs).hr ∧
      (BuildPanelChildren [element] parentPanel s.xaml other s.renderArgs).xaml =
        (BuildPanelChildren [element] parentPanel s.xaml s.renderContext s.renderArgs).xaml ∧
      (BuildPanelChildren [element] parentPanel s.xaml other s.renderArgs).renderContext.warnings =
        (BuildPanelChildren [element] parentPanel s.xaml s.renderContext
          s.renderArgs).renderContext.warnings) := by
  have h := renderElement_agreeOn _ parentPanel inherited s element other hother rfl
  refine ⟨⟨h.1, h.2.1, h.2.2.1, h.2.2.2.1, h.2.2.2.2.2.2.1⟩, fun _ => rfl, ?_, ?_⟩
  · intro h1 h2 h3
    unfold BuildPanelChildren.renderElement
    simp only [h1, h2, h3, Bool.false_eq_true, if_false, BuildPanelChildren.render,
      BuildPanelChildren.fallback, Option.isNone_none, Bool.true_or, if_true,
      AdaptiveRenderContext.addWarnings, List.append_nil]
    split
    · rfl
    · rw [attach_renderContext]
      rfl
  · intro hinh
    have h0 := renderElement_agreeOn _ parentPanel inherited
      { xaml := s.xaml, renderContext := s.renderContext, renderArgs := s.renderArgs, iElement := 0 }
      element other hother rfl
    have hb : ∀ ctx : AdaptiveRenderContext,
        IterateOverVectorWithFailure [element] s.renderArgs.ancestorHasFallback
          (BuildPanelChildren.renderElement parentPanel s.renderArgs.ancestorHasFallback)
          { xaml := s.xaml, renderContext := ctx, renderArgs := s.renderArgs, iElement := 0 } =
        (if FAILED (BuildPanelChildren.renderElement parentPanel inherited
            { xaml := s.xaml, renderContext := ctx, renderArgs := s.renderArgs, iElement := 0 }
            element).1 then
          BuildPanelChildren.renderElement parentPanel inherited
            { xaml := s.xaml, renderContext := ctx, renderArgs := s.renderArgs, iElement := 0 }
            element
        else
          (S_OK, (BuildPanelChildren.renderElement parentPanel inherited
            { xaml := s.xaml, renderContext := ctx, renderArgs := s.renderArgs, iElement := 0 }
            element).2)) := by
      intro ctx
      rw [iterate_cons, hinh]
      rfl
    rw [BuildPanelChildren_hr, BuildPanelChildren_hr, BuildPanelChildren_xaml,
      BuildPanelChildren_xaml, BuildPanelChildren_renderContext, BuildPanelChildren_renderContext,
      hb other, hb s.renderContext, h0.1]
    split
    · exact ⟨h0.1, by rw [h0.2.1], h0.2.2.2.2.2.2.1⟩
    · exact ⟨rfl, by rw [h0.2.1], h0.2.2.2.2.2.2.1⟩

/-- Witness of C21: a text block without fallback, below an ancestor with a
fallback.  The renderer of `flagSensitiveContext` makes a control only for
render arguments that tell of an ancestor with a fallback; it is handed such
arguments, although the render arguments of the state hold false. -/
theorem renderElement_ancestorHasFallback_witness :
    topLevelArgs.ancestorHasFallback = false ∧
    (flagSensitiveRenderer sampleText topLevelArgs).hr = E_INVALIDARG ∧
    (BuildPanelChildren.renderElement 0 true
      { xaml := emptyPanel, renderContext := sampleContext, renderArgs := topLevelArgs,
        iElement := 0 } sampleText).1 = S_OK ∧
    (BuildPanelChildren.renderElement 0 true
      { xaml := emptyPanel, renderContext := flagSensitiveContext, renderArgs := topLevelArgs,
        iElement := 0 } sampleText).1 = S_OK :=
  ⟨rfl, by decide, by decide,
   ((renderElement_ancestorHasFallback 0 true
      { xaml := emptyPanel, renderContext := sampleContext, renderArgs := topLevelArgs,
        iElement := 0 } sampleText flagSensitiveContext
      (agreeOn_override _ sampleContext "TextBlock" S_OK plainRenderer flagSensitiveRenderer rfl
        (fun e args hargs => by
          have hflag : args.ancestorHasFallback = true := hargs
          simp only [flagSensitiveRenderer, hflag, if_true]))).1.1).trans (by decide)⟩

end XamlBuilder

namespace XamlBuilder
open AdaptiveNamespace

theorem HandleSelectAction_agreeOn (P : AdaptiveRenderArgs → Prop) (el : Option CardElement)
    (selectAction : Option AdaptiveActionElement) (a b : AdaptiveRenderContext) (uiElement : Nat)
    (supports full : Bool) (x : XamlState) (hab : agreeOn P a b) :
    (HandleSelectAction el selectAction b uiElement supports full x).1 =
      (HandleSelectAction el selectAction a uiElement supports full x).1 ∧
    (HandleSelectAction el selectAction b uiElement supports full x).2.2 =
      (HandleSelectAction el selectAction a uiElement supports full x).2.2 ∧
    agreeOn P (HandleSelectAction el selectAction a uiElement supports full x).2.1
      (HandleSelectAction el selectAction b uiElement supports full x).2.1 := by
  cases selectAction with
  | none => exact ⟨rfl, rfl, hab⟩
  | some action =>
    cases supports with
    | true => exact ⟨rfl, rfl, hab⟩
    | false => exact ⟨rfl, rfl, agreeOn_append P a b _ hab⟩

/-- The container style that `BuildXamlTreeFromAdaptiveCard` puts into the
render arguments of the body does not depend on the render context beyond its
host configuration, and the call with the card's style taken out and that
style as default yields the same. -/
theorem BuildXamlTreeFromAdaptiveCard_style_eq (card : AdaptiveCard) (xaml : XamlState)
    (ctx : AdaptiveRenderContext) (builder : Option XamlBuilderObject)
    (defaultContainerStyle : ContainerStyle) (pass : RenderPass) :
    BuildXamlTreeFromAdaptiveCard (some card) xaml ctx builder defaultContainerStyle pass =
      BuildXamlTreeFromAdaptiveCard (some { card with style := ContainerStyle.None }) xaml ctx
        builder
        (if ctx.hostConfig.allowCustomStyle = true ∧ card.style ≠ ContainerStyle.None then card.style
          else defaultContainerStyle) pass := by
  have hstyle : (if ctx.hostConfig.allowCustomStyle = true then
        if card.style ≠ ContainerStyle.None then card.style else defaultContainerStyle
      else defaultContainerStyle) =
      (if ctx.hostConfig.allowCustomStyle = true ∧ card.style ≠ ContainerStyle.None then card.style
        else defaultContainerStyle) := by
    by_cases h1 : ctx.hostConfig.allowCustomStyle = true
    · by_cases h2 : card.style = ContainerStyle.None
      · simp [h1, h2]
      · simp [h1, h2]
    · simp [h1]
  unfold BuildXamlTreeFromAdaptiveCard
  simp only [hstyle, ne_eq, not_true_eq_false, if_false, ite_self]

end XamlBuilder

namespace XamlBuilder
open AdaptiveNamespace

theorem BuildXamlTreeFromAdaptiveCard_agreeOn (card : AdaptiveCard) (xaml : XamlState)
    (a b : AdaptiveRenderContext) (builder : Option XamlBuilderObject)
    (defaultContainerStyle : ContainerStyle) (pass : RenderPass)
    (hab : agreeOn
      (fun args => args.containerStyle =
        (if a.hostConfig.allowCustomStyle = true then
          if card.style ≠ ContainerStyle.None then card.style else defaultContainerStyle
        else defaultContainerStyle)) a b) :
    (BuildXamlTreeFromAdaptiveCard (some card) xaml b builder defaultContainerStyle pass).hr =
      (BuildXamlTreeFromAdaptiveCard (some card) xaml a builder defaultContainerStyle pass).hr ∧
    (BuildXamlTreeFromAdaptiveCard (some card) xaml b builder defaultContainerStyle
        pass).xamlTreeRoot =
      (BuildXamlTreeFromAdaptiveCard (some card) xaml a builder defaultContainerStyle
        pass).xamlTreeRoot ∧
    (BuildXamlTreeFromAdaptiveCard (some card) xaml b builder defaultContainerStyle pass).xaml =
      (BuildXamlTreeFromAdaptiveCard (some card) xaml a builder defaultContainerStyle pass).xaml ∧
    (BuildXamlTreeFromAdaptiveCard (some card) xaml b builder defaultContainerStyle
        pass).xamlBuilder =
      (BuildXamlTreeFromAdaptiveCard (some card) xaml a builder defaultContainerStyle
        pass).xamlBuilder ∧
    (BuildXamlTreeFromAdaptiveCard (some card) xaml b builder defaultContainerStyle
        pass).renderContext.warnings =
      (BuildXamlTreeFromAdaptiveCard (some card) xaml a builder defaultContainerStyle
        pass).renderContext.warnings := by
  have hhost := hab.1
  unfold BuildXamlTreeFromAdaptiveCard
  simp only [hhost]
  generalize (if a.hostConfig.allowCustomStyle = true then
      if card.style ≠ ContainerStyle.None then card.style else defaultContainerStyle
    else defaultContainerStyle) = style at hab ⊢
  have hsel := HandleSelectAction_agreeOn _ none card.selectAction a b (CreateRootCardElement xaml).2.1
    (SupportsInteractivity a.hostConfig) true (CreateRootCardElement xaml).1 hab
  rw [hsel.1, hsel.2.1]
  have hbuilt := BuildPanelChildren_agreeOn _ (fun _ _ h => h) card.body
    (CreateRootCardElement xaml).2.2
    (HandleSelectAction none card.selectAction a (CreateRootCardElement xaml).2.1
      (SupportsInteractivity a.hostConfig) true (CreateRootCardElement xaml).1).1
    _ _ (MakeAdaptiveRenderArgs style pass.isInShowCard) hsel.2.2 rfl
  rw [hbuilt.1, hbuilt.2.1]
  have hw := hbuilt.2.2.2.2.2.1
  by_cases h1 : FAILED (BuildPanelChildren card.body (CreateRootCardElement xaml).2.2
      (HandleSelectAction none card.selectAction a (CreateRootCardElement xaml).2.1
        (SupportsInteractivity a.hostConfig) true (CreateRootCardElement xaml).1).1
      (HandleSelectAction none card.selectAction a (CreateRootCardElement xaml).2.1
        (SupportsInteractivity a.hostConfig) true (CreateRootCardElement xaml).1).2.1
      (MakeAdaptiveRenderArgs style pass.isInShowCard)).hr = true
  · rw [if_pos h1, if_pos h1]
    exact ⟨rfl, rfl, rfl, rfl, hw⟩
  · rw [if_neg h1, if_neg h1]
    have hacted : ∀ (c1 c2 : Prop) [Decidable c1] [Decidable c2] (X Y : XamlState)
        (ca cb : AdaptiveRenderContext), cb.warnings = ca.warnings →
        (if c1 then
            if c2 then (X, cb)
            else (Y, cb.AddWarning WarningStatusCode.InteractivityNotSupported
              "Actions collection was present in card, but interactivity is not supported")
          else (Y, cb)).1 =
          (if c1 then
            if c2 then (X, ca)
            else (Y, ca.AddWarning WarningStatusCode.InteractivityNotSupported
              "Actions collection was present in card, but interactivity is not supported")
          else (Y, ca)).1 ∧
        (if c1 then
            if c2 then (X, cb)
            else (Y, cb.AddWarning WarningStatusCode.InteractivityNotSupported
              "Actions collection was present in card, but interactivity is not supported")
          else (Y, cb)).2.warnings =
          (if c1 then
            if c2 then (X, ca)
            else (Y, ca.AddWarning WarningStatusCode.InteractivityNotSupported
              "Actions collection was present in card, but interactivity is not supported")
          else (Y, ca)).2.warnings := by
      intro c1 c2 _ _ X Y ca cb hcw
      by_cases hc1 : c1
      · by_cases hc2 : c2
        · simp only [hc1, hc2, if_true]
          exact ⟨trivial, hcw⟩
        · simp only [hc1, hc2, if_true, if_false, AdaptiveRenderContext.AddWarning, hcw]
          exact ⟨trivial, trivial⟩
      · simp only [hc1, if_false]
        exact ⟨trivial, hcw⟩
    by_cases h2 : FAILED (if (!(MakeAdaptiveRenderArgs style pass.isInShowCard).isInShowCard) = true
        then pass.setStyleFromResourceDictionary "Adaptive.Card"
        else pass.setStyleFromResourceDictionary "Adaptive.ShowCard.Card") = true
    · rw [if_pos h2, if_pos h2]
      exact ⟨rfl, rfl, (hacted _ _ _ _ _ _ hw).1, rfl, (hacted _ _ _ _ _ _ hw).2⟩
    · rw [if_neg h2, if_neg h2]
      exact ⟨rfl, rfl, (hacted _ _ _ _ _ _ hw).1, rfl, (hacted _ _ _ _ _ _ hw).2⟩

end XamlBuilder

namespace XamlBuilder
open AdaptiveNamespace

/-- C22. `BuildXamlTreeFromAdaptiveCard` on a card hands the renderers render
arguments whose container style is the card's style when the host
configuration allows custom style and the card's style is not `None`, and the
default container style of the caller in every other case: a context whose
renderers differ from those of the render context for render arguments with
another container style only yields the same result code, root, store, builder
and warnings; and the call yields what it yields for the card with its style
taken out and that container style as the default. -/
theorem BuildXamlTreeFromAdaptiveCard_containerStyle (card : AdaptiveCard) (xaml : XamlState)
    (renderContext other : AdaptiveRenderContext) (xamlBuilder : Option XamlBuilderObject)
    (defaultContainerStyle : ContainerStyle) (pass : RenderPass)
    (hother : agreeOn
      (fun args => args.containerStyle =
        (if renderContext.hostConfig.allowCustomStyle = true ∧ card.style ≠ ContainerStyle.None
          then card.style else defaultContainerStyle)) renderContext other) :
    ((BuildXamlTreeFromAdaptiveCard (some card) xaml other xamlBuilder defaultContainerStyle
        pass).hr =
      (BuildXamlTreeFromAdaptiveCard (some card) xaml renderContext xamlBuilder
        defaultContainerStyle pass).hr ∧
    (BuildXamlTreeFromAdaptiveCard (some card) xaml other xamlBuilder defaultContainerStyle
        pass).xamlTreeRoot =
      (BuildXamlTreeFromAdaptiveCard (some card) xaml renderContext xamlBuilder
        defaultContainerStyle pass).xamlTreeRoot ∧
    (BuildXamlTreeFromAdaptiveCard (some card) xaml other xamlBuilder defaultContainerStyle
        pass).xaml =
      (BuildXamlTreeFromAdaptiveCard (some card) xaml renderContext xamlBuilder
        defaultContainerStyle pass).xaml ∧
    (BuildXamlTreeFromAdaptiveCard (some card) xaml other xamlBuilder defaultContainerStyle
        pass).xamlBuilder =
      (BuildXamlTreeFromAdaptiveCard (some card) xaml renderContext xamlBuilder
        defaultContainerStyle pass).xamlBuilder ∧
    (BuildXamlTreeFromAdaptiveCard (some card) xaml other xamlBuilder defaultContainerStyle
        pass).renderContext.warnings =
      (BuildXamlTreeFromAdaptiveCard (some card) xaml renderContext xamlBuilder
        defaultContainerStyle pass).renderContext.warnings) ∧
    BuildXamlTreeFromAdaptiveCard (some card) xaml renderContext xamlBuilder defaultContainerStyle
        pass =
      BuildXamlTreeFromAdaptiveCard (some { card with style := ContainerStyle.None }) xaml
        renderContext xamlBuilder
        (if renderContext.hostConfig.allowCustomStyle = true ∧ card.style ≠ ContainerStyle.None
          then card.style else defaultContainerStyle) pass := by
  have hstyle : (if renderContext.hostConfig.allowCustomStyle = true then
        if card.style ≠ ContainerStyle.None then card.style else defaultContainerStyle
      else defaultContainerStyle) =
      (if renderContext.hostConfig.allowCustomStyle = true ∧ card.style ≠ ContainerStyle.None
        then card.style else defaultContainerStyle) := by
    by_cases h1 : renderContext.hostConfig.allowCustomStyle = true
    · by_cases h2 : card.style = ContainerStyle.None
      · simp [h1, h2]
      · simp [h1, h2]
    · simp [h1]
  rw [← hstyle] at hother
  exact ⟨BuildXamlTreeFromAdaptiveCard_agreeOn card xaml renderContext other xamlBuilder
      defaultContainerStyle pass hother,
    BuildXamlTreeFromAdaptiveCard_style_eq card xaml renderContext xamlBuilder
      defaultContainerStyle pass⟩

/-- Witness of C22: the sample card has the style `Emphasis` and the host
configuration allows custom style.  The text-block renderer of
`styleSensitiveContext` makes a control for the container style `Emphasis`
only; the card is built with it, although the default style is `Default`, with
which the same card without a style of its own is not built. -/
theorem BuildXamlTreeFromAdaptiveCard_containerStyle_witness :
    sampleContext.hostConfig.allowCustomStyle = true ∧
    sampleCard.style = ContainerStyle.Emphasis ∧
    (BuildXamlTreeFromAdaptiveCard (some sampleCard) emptyPanel styleSensitiveContext none
      ContainerStyle.Default samplePass).hr = S_OK ∧
    (BuildXamlTreeFromAdaptiveCard (some { sampleCard with style := ContainerStyle.None })
      emptyPanel styleSensitiveContext none ContainerStyle.Default samplePass).hr = E_INVALIDARG :=
  ⟨rfl, rfl,
   ((BuildXamlTreeFromAdaptiveCard_containerStyle sampleCard emptyPanel sampleContext
      styleSensitiveContext none ContainerStyle.Default samplePass
      (agreeOn_override _ sampleContext "TextBlock" S_OK plainRenderer styleSensitiveRenderer rfl
        (fun e args hargs => by
          have hs : args.containerStyle = ContainerStyle.Emphasis := hargs
          simp only [styleSensitiveRenderer, hs, if_true]))).1.1).trans (by decide),
   by decide⟩

end XamlBuilder

namespace XamlBuilder
open AdaptiveNamespace

/-- The code and the control of `RenderFallback` do not depend on the warnings
in the sink: they are the same in two contexts with the same renderer
registration. -/
theorem RenderFallback_registration (el : CardElement) :
    ∀ (a b : AdaptiveRenderContext) (args : AdaptiveRenderArgs),
      b.elementRenderers = a.elementRenderers →
      (RenderFallback el b args).hr = (RenderFallback el a args).hr ∧
      (RenderFallback el b args).result = (RenderFallback el a args).result := by
  refine CardElement.rec
    (motive_1 := fun el => ∀ (a b : AdaptiveRenderContext) (args : AdaptiveRenderArgs),
      b.elementRenderers = a.elementRenderers →
      (RenderFallback el b args).hr = (RenderFallback el a args).hr ∧
      (RenderFallback el b args).result = (RenderFallback el a args).result)
    (motive_2 := fun f => ∀ (props : ElementProperties) (a b : AdaptiveRenderContext)
      (args : AdaptiveRenderArgs), b.elementRenderers = a.elementRenderers →
      (RenderFallback (.mk props f) b args).hr = (RenderFallback (.mk props f) a args).hr ∧
      (RenderFallback (.mk props f) b args).result = (RenderFallback (.mk props f) a args).result)
    ?_ ?_ ?_ ?_ el
  · intro props f ih a b args
    exact ih props a b args
  · intro props a b args _
    unfold RenderFallback
    simp only []
    split
    · exact ⟨rfl, rfl⟩
    · exact ⟨rfl, rfl⟩
  · intro props a b args _
    unfold RenderFallback
    exact ⟨rfl, rfl⟩
  · intro c ih props a b args hab
    have ha := RenderFallback_content_cases props c a args _ rfl
    have hb := RenderFallback_content_cases props c b args _ rfl
    rw [hab] at hb
    by_cases h1 : FAILED (a.elementRenderers c.get_ElementTypeString).1 = true
    · rw [ha.1 h1, hb.1 h1]
      exact ⟨rfl, rfl⟩
    · have h1f : FAILED (a.elementRenderers c.get_ElementTypeString).1 = false := by
        simpa using h1
      generalize (match (a.elementRenderers c.get_ElementTypeString).2 with
        | some renderer => renderer c args
        | none => { hr := E_PERFORM_FALLBACK, result := none, warnings := [] }) = rendered
        at ha hb
      have hin := ih
        ((WarnForFallbackContentElement a props.elementTypeString
          c.get_ElementTypeString).addWarnings rendered.warnings)
        ((WarnForFallbackContentElement b props.elementTypeString
          c.get_ElementTypeString).addWarnings rendered.warnings) args hab
      by_cases h2 : rendered.hr = E_PERFORM_FALLBACK
      · rw [ha.2.1 h1f h2, hb.2.1 h1f h2, hin.1, hin.2]
        split
        · exact ⟨rfl, rfl⟩
        · exact ⟨rfl, rfl⟩
      · rw [ha.2.2 h1f h2, hb.2.2 h1f h2]
        split
        · exact ⟨rfl, rfl⟩
        · exact ⟨rfl, rfl⟩

/-- The lambda on an element for which `RenderFallback` is called, because no
renderer is registered, the requirements are unmet or the renderer returned
`E_PERFORM_FALLBACK`, and fails: the lambda returns the code of
`RenderFallback`, through `RETURN_IF_FAILED` (XamlBuilder.cpp:748). -/
theorem renderElement_failure_in_fallback (pp : Nat) (anc : Bool) (s : PanelBuild)
    (el : CardElement) (code : HRESULT) (hcode : FAILED code = true)
    (h1 : FAILED (s.renderContext.meetsRequirements el).1 = false)
    (h2 : FAILED (s.renderContext.elementRenderers el.get_ElementTypeString).1 = false)
    (hcalled :
      (s.renderContext.elementRenderers el.get_ElementTypeString).2 = none ∨
      (s.renderContext.meetsRequirements el).2 = false ∨
      ∃ renderer, (s.renderContext.elementRenderers el.get_ElementTypeString).2 = some renderer ∧
        (renderer el (s.renderArgs.put_AncestorHasFallback
          (decide (el.get_FallbackType ≠ FallbackType.None) || anc))).hr = E_PERFORM_FALLBACK)
    (hfallback : (RenderFallback el s.renderContext (s.renderArgs.put_AncestorHasFallback
      (decide (el.get_FallbackType ≠ FallbackType.None) || anc))).hr = code) :
    (BuildPanelChildren.renderElement pp anc s el).1 = code := by
  have hnot : FAILED E_PERFORM_FALLBACK = true := by decide
  have hsucc : SUCCEEDED E_PERFORM_FALLBACK = false := by decide
  have key : ∀ rendered : RenderOutcome,
      ((s.renderContext.elementRenderers el.get_ElementTypeString).2.isNone ||
        decide (rendered.hr = E_PERFORM_FALLBACK)) = true →
      (BuildPanelChildren.fallback (s.renderContext.elementRenderers el.get_ElementTypeString).2
        rendered el (s.renderContext.addWarnings rendered.warnings)
        (s.renderArgs.put_AncestorHasFallback
          (decide (el.get_FallbackType ≠ FallbackType.None) || anc))).hr = code := by
    intro rendered hc
    unfold BuildPanelChildren.fallback
    rw [if_pos hc]
    exact (RenderFallback_registration el s.renderContext
      (s.renderContext.addWarnings rendered.warnings) _ rfl).1.trans hfallback
  have hcond : ((s.renderContext.elementRenderers el.get_ElementTypeString).2.isNone ||
      decide ((BuildPanelChildren.render (s.renderContext.elementRenderers el.get_ElementTypeString).2
        (if (s.renderContext.meetsRequirements el).2 = true then S_OK else E_PERFORM_FALLBACK) el
        (s.renderArgs.put_AncestorHasFallback
          (decide (el.get_FallbackType ≠ FallbackType.None) || anc))).hr = E_PERFORM_FALLBACK)) =
      true := by
    rcases hcalled with h | h | ⟨renderer, h, hd⟩
    · rw [h]; rfl
    · rw [h]
      cases hl : (s.renderContext.elementRenderers el.get_ElementTypeString).2 with
      | none => rfl
      | some renderer =>
        simp [BuildPanelChildren.render, hsucc]
    · rw [h]
      by_cases hm : (s.renderContext.meetsRequirements el).2 = true
      · have hs : SUCCEEDED S_OK = true := by decide
        simp only [BuildPanelChildren.render, hm, if_true, hs, hd, decide_True, Bool.or_true]
      · simp [BuildPanelChildren.render, hm, hsucc]
  unfold BuildPanelChildren.renderElement
  simp only []
  rw [if_neg (by simp [h1]), if_neg (by simp [h2])]
  have hk := key _ hcond
  rw [if_pos (by rw [hk]; exact hcode)]
  exact hk

end XamlBuilder

namespace XamlBuilder
open AdaptiveNamespace

/-- C18. `BuildPanelChildren` on a sequence in which the elements before
`element` are processed without failure and `element` meets with a failure
`code`, whatever `ancestorHasFallback` the render arguments hold on entry.
The failure is that of the requirement check, of the renderer lookup, of the
renderer of the element (a code other than `E_PERFORM_FALLBACK`), or of
`RenderFallback`, called for the element because it has no renderer, its
requirements are unmet or its renderer returned `E_PERFORM_FALLBACK`; the
last is how a failed lookup or a failing renderer of the fallback content, at
any depth of the fallback chain, reaches the lambda (XamlBuilder.cpp:630,
636-647, 748).  The call returns that code; it yields what it yields on the
sequence cut after `element`, so the remaining elements are not processed; and
the parent panel keeps, in order and with their tags, the children that the
elements before `element` gave it. -/
theorem BuildPanelChildren_failure_aborts (before after : List CardElement)
    (element : CardElement) (parentPanel : Nat) (xaml : XamlState)
    (renderContext : AdaptiveRenderContext) (renderArgs : AdaptiveRenderArgs) (code : HRESULT)
    (hpanel : parentPanel < xaml.elements.length)
    (hbefore : FAILED (BuildPanelChildren before parentPanel xaml renderContext renderArgs).hr = false)
    (hcode : FAILED code = true)
    (hsource :
      (renderContext.meetsRequirements element).1 = code ∨
      (FAILED (renderContext.meetsRequirements element).1 = false ∧
        (renderContext.elementRenderers element.get_ElementTypeString).1 = code) ∨
      (FAILED (renderContext.meetsRequirements element).1 = false ∧
        FAILED (renderContext.elementRenderers element.get_ElementTypeString).1 = false ∧
        (renderContext.meetsRequirements element).2 = true ∧
        code ≠ E_PERFORM_FALLBACK ∧
        ∃ renderer, (renderContext.elementRenderers element.get_ElementTypeString).2 = some renderer ∧
          (renderer element (renderArgs.put_AncestorHasFallback
            (decide (element.get_FallbackType ≠ FallbackType.None) ||
              renderArgs.ancestorHasFallback))).hr = code) ∨
      (FAILED (renderContext.meetsRequirements element).1 = false ∧
        FAILED (renderContext.elementRenderers element.get_ElementTypeString).1 = false ∧
        ((renderContext.elementRenderers element.get_ElementTypeString).2 = none ∨
          (renderContext.meetsRequirements element).2 = false ∨
          ∃ renderer, (renderContext.elementRenderers element.get_ElementTypeString).2 =
              some renderer ∧
            (renderer element (renderArgs.put_AncestorHasFallback
              (decide (element.get_FallbackType ≠ FallbackType.None) ||
                renderArgs.ancestorHasFallback))).hr = E_PERFORM_FALLBACK) ∧
        (RenderFallback element renderContext (renderArgs.put_AncestorHasFallback
          (decide (element.get_FallbackType ≠ FallbackType.None) ||
            renderArgs.ancestorHasFallback))).hr = code)) :
    (BuildPanelChildren (before ++ element :: after) parentPanel xaml renderContext renderArgs).hr =
      code ∧
    BuildPanelChildren (before ++ element :: after) parentPanel xaml renderContext renderArgs =
      BuildPanelChildren (before ++ [element]) parentPanel xaml renderContext renderArgs ∧
    panelGrows parentPanel (BuildPanelChildren before parentPanel xaml renderContext renderArgs).xaml
      (BuildPanelChildren (before ++ element :: after) parentPanel xaml renderContext
        renderArgs).xaml := by
  rw [BuildPanelChildren_hr] at hbefore
  have hreg := iterate_sameRegistration parentPanel renderArgs.ancestorHasFallback
    renderArgs.ancestorHasFallback before
    { xaml := xaml, renderContext := renderContext, renderArgs := renderArgs, iElement := 0 }
  have hargs := iterate_renderArgs parentPanel renderArgs.ancestorHasFallback
    renderArgs.ancestorHasFallback before
    { xaml := xaml, renderContext := renderContext, renderArgs := renderArgs, iElement := 0 }
    rfl hbefore
  have hgrow := iterate_panelGrows parentPanel renderArgs.ancestorHasFallback
    renderArgs.ancestorHasFallback before
    { xaml := xaml, renderContext := renderContext, renderArgs := renderArgs, iElement := 0 } hpanel
  have hiter : ∀ rest : List CardElement,
      IterateOverVectorWithFailure (before ++ element :: rest) renderArgs.ancestorHasFallback
        (BuildPanelChildren.renderElement parentPanel renderArgs.ancestorHasFallback)
        { xaml := xaml, renderContext := renderContext, renderArgs := renderArgs, iElement := 0 } =
      BuildPanelChildren.renderElement parentPanel renderArgs.ancestorHasFallback
        (IterateOverVectorWithFailure before renderArgs.ancestorHasFallback
          (BuildPanelChildren.renderElement parentPanel renderArgs.ancestorHasFallback)
          { xaml := xaml, renderContext := renderContext, renderArgs := renderArgs,
            iElement := 0 }).2 element ∧
      (BuildPanelChildren.renderElement parentPanel renderArgs.ancestorHasFallback
        (IterateOverVectorWithFailure before renderArgs.ancestorHasFallback
          (BuildPanelChildren.renderElement parentPanel renderArgs.ancestorHasFallback)
          { xaml := xaml, renderContext := renderContext, renderArgs := renderArgs,
            iElement := 0 }).2 element).1 = code := by
    intro rest
    rw [iterate_append, hbefore]
    simp only [Bool.false_eq_true, if_false]
    generalize (IterateOverVectorWithFailure before renderArgs.ancestorHasFallback
      (BuildPanelChildren.renderElement parentPanel renderArgs.ancestorHasFallback)
      { xaml := xaml, renderContext := renderContext, renderArgs := renderArgs, iElement := 0 }).2 = s
      at hreg hargs ⊢
    simp only [] at hreg hargs
    have hel : (BuildPanelChildren.renderElement parentPanel renderArgs.ancestorHasFallback s
        element).1 = code := by
      rcases hsource with h | h | h | ⟨h1, h2, h3, h4⟩
      · exact renderElement_failure parentPanel renderArgs.ancestorHasFallback s element code hcode
          (by rw [hreg.2.1, hreg.2.2, hargs]; exact Or.inl h)
      · exact renderElement_failure parentPanel renderArgs.ancestorHasFallback s element code hcode
          (by rw [hreg.2.1, hreg.2.2, hargs]; exact Or.inr (Or.inl h))
      · exact renderElement_failure parentPanel renderArgs.ancestorHasFallback s element code hcode
          (by rw [hreg.2.1, hreg.2.2, hargs]; exact Or.inr (Or.inr h))
      · exact renderElement_failure_in_fallback parentPanel renderArgs.ancestorHasFallback s element
          code hcode (by rw [hreg.2.2]; exact h1) (by rw [hreg.2.1]; exact h2)
          (by rw [hreg.2.1, hreg.2.2, hargs]; exact h3)
          ((RenderFallback_registration element renderContext s.renderContext _ hreg.2.1).1.trans
            (by rw [hargs]; exact h4))
    refine ⟨?_, hel⟩
    rw [iterate_cons, if_pos (by rw [hel]; exact hcode)]
  have hcut : BuildPanelChildren (before ++ element :: after) parentPanel xaml renderContext
      renderArgs = BuildPanelChildren (before ++ [element]) parentPanel xaml renderContext
      renderArgs := by
    unfold BuildPanelChildren
    simp only []
    rw [(hiter after).1, (hiter []).1]
  refine ⟨?_, hcut, ?_⟩
  · rw [BuildPanelChildren_hr, (hiter after).1]
    exact (hiter after).2
  · rw [BuildPanelChildren_xaml, BuildPanelChildren_xaml, (hiter after).1]
    have hlen : parentPanel < (IterateOverVectorWithFailure before renderArgs.ancestorHasFallback
        (BuildPanelChildren.renderElement parentPanel renderArgs.ancestorHasFallback)
        { xaml := xaml, renderContext := renderContext, renderArgs := renderArgs,
          iElement := 0 }).2.xaml.elements.length := by
      have := hgrow.1
      simp only [] at this
      omega
    have g := renderElement_panelGrows parentPanel renderArgs.ancestorHasFallback _ element hlen
    refine ⟨?_, ?_, ?_⟩
    · rw [SetSeparatorVisibility_length, SetSeparatorVisibility_length]
      exact g.1
    · rw [SetSeparatorVisibility_get_Children, SetSeparatorVisibility_get_Children]
      exact g.2.1
    · intro p hp
      rw [SetSeparatorVisibility_length] at hp
      rw [SetSeparatorVisibility_get_Tag, SetSeparatorVisibility_get_Tag]
      exact g.2.2 p hp

/-- Witness of C18: at top level, a text block, then an image whose renderer
fails with `E_INVALIDARG`, then a second text block; and, below an ancestor
with a fallback, the same with, in place of the image, an element of a type
without renderer whose fallback content is that image, so that the failure
comes through `RenderFallback`.  Either call returns `E_INVALIDARG` and the
panel holds the node of the first text block alone. -/
theorem BuildPanelChildren_failure_aborts_witness :
    (BuildPanelChildren ([sampleText] ++ sampleImage :: [sampleSeparatedText]) 0 emptyPanel
      sampleContext topLevelArgs).hr = E_INVALIDARG ∧
    BuildPanelChildren ([sampleText] ++ sampleImage :: [sampleSeparatedText]) 0 emptyPanel
      sampleContext topLevelArgs =
      BuildPanelChildren ([sampleText] ++ [sampleImage]) 0 emptyPanel sampleContext topLevelArgs ∧
    (BuildPanelChildren [sampleText] 0 emptyPanel sampleContext topLevelArgs).xaml.get_Children 0 =
      [1] ∧
    (BuildPanelChildren ([sampleText] ++ sampleImage :: [sampleSeparatedText]) 0 emptyPanel
      sampleContext topLevelArgs).xaml.get_Children 0 = [1] ∧
    (BuildPanelChildren ([sampleText] ++ sampleFallbackToImage :: [sampleSeparatedText]) 0 emptyPanel
      sampleContext nestedArgs).hr = E_INVALIDARG ∧
    BuildPanelChildren ([sampleText] ++ sampleFallbackToImage :: [sampleSeparatedText]) 0 emptyPanel
      sampleContext nestedArgs =
      BuildPanelChildren ([sampleText] ++ [sampleFallbackToImage]) 0 emptyPanel sampleContext
        nestedArgs ∧
    (BuildPanelChildren ([sampleText] ++ sampleFallbackToImage :: [sampleSeparatedText]) 0 emptyPanel
      sampleContext nestedArgs).xaml.get_Children 0 = [1] :=
  ⟨(BuildPanelChildren_failure_aborts [sampleText] [sampleSeparatedText] sampleImage 0 emptyPanel
      sampleContext topLevelArgs E_INVALIDARG (by decide) (by decide) (by decide)
      (Or.inr (Or.inr (Or.inl ⟨by decide, by decide, by decide, by decide, failingRenderer,
        rfl, by decide⟩)))).1,
   (BuildPanelChildren_failure_aborts [sampleText] [sampleSeparatedText] sampleImage 0 emptyPanel
      sampleContext topLevelArgs E_INVALIDARG (by decide) (by decide) (by decide)
      (Or.inr (Or.inr (Or.inl ⟨by decide, by decide, by decide, by decide, failingRenderer,
        rfl, by decide⟩)))).2.1,
   by decide, by decide,
   (BuildPanelChildren_failure_aborts [sampleText] [sampleSeparatedText] sampleFallbackToImage 0
      emptyPanel sampleContext nestedArgs E_INVALIDARG (by decide) (by decide) (by decide)
      (Or.inr (Or.inr (Or.inr ⟨by decide, by decide, Or.inl rfl, by decide⟩)))).1,
   (BuildPanelChildren_failure_aborts [sampleText] [sampleSeparatedText] sampleFallbackToImage 0
      emptyPanel sampleContext nestedArgs E_INVALIDARG (by decide) (by decide) (by decide)
      (Or.inr (Or.inr (Or.inr ⟨by decide, by decide, Or.inl rfl, by decide⟩)))).2.1,
   by decide⟩

end XamlBuilder

namespace XamlBuilder
open AdaptiveNamespace

theorem fallback_registration (r : Option ElementRenderer) (rendered : RenderOutcome)
    (el : CardElement) (a b : AdaptiveRenderContext) (args : AdaptiveRenderArgs)
    (h : b.elementRenderers = a.elementRenderers) :
    (BuildPanelChildren.fallback r rendered el b args).hr =
      (BuildPanelChildren.fallback r rendered el a args).hr ∧
    (BuildPanelChildren.fallback r rendered el b args).result =
      (BuildPanelChildren.fallback r rendered el a args).result := by
  unfold BuildPanelChildren.fallback
  split
  · exact RenderFallback_registration el a b args h
  · exact ⟨rfl, rfl⟩

/-- The lambda of `BuildPanelChildren` returns the code of
`BuildPanelChildren.elementOutcome`, and attaches a node exactly when that has
a control, whatever the store, the counter and the warnings in the sink. -/
theorem renderElement_elementOutcome (pp : Nat) (anc : Bool) (s : PanelBuild) (el : CardElement)
    (ctx : AdaptiveRenderContext) (args : AdaptiveRenderArgs)
    (hreg : sameRegistration ctx s.renderContext)
    (hargs : ∀ b, s.renderArgs.put_AncestorHasFallback b = args.put_AncestorHasFallback b) :
    (BuildPanelChildren.renderElement pp anc s el).1 =
      (BuildPanelChildren.elementOutcome anc ctx args el).1 ∧
    (((BuildPanelChildren.elementOutcome anc ctx args el).2 = none ∧
        (BuildPanelChildren.renderElement pp anc s el).2.xaml = s.xaml ∧
        (BuildPanelChildren.renderElement pp anc s el).2.iElement = s.iElement) ∨
      (∃ control, (BuildPanelChildren.elementOutcome anc ctx args el).2 = some control ∧
        (BuildPanelChildren.renderElement pp anc s el).2.xaml =
          (AddRenderedControl (some control) el pp
            (AddSeparatorIfNeeded s.iElement el s.renderContext.hostConfig s.xaml pp).2.2 none
            (AddSeparatorIfNeeded s.iElement el s.renderContext.hostConfig s.xaml pp).2.1).2 ∧
        (BuildPanelChildren.renderElement pp anc s el).2.iElement =
          (AddSeparatorIfNeeded s.iElement el s.renderContext.hostConfig s.xaml pp).1)) := by
  unfold BuildPanelChildren.renderElement BuildPanelChildren.elementOutcome
  simp only [hreg.2.1, hreg.2.2, hargs]
  by_cases h1 : FAILED (ctx.meetsRequirements el).1 = true
  · rw [if_pos h1, if_pos h1]
    exact ⟨rfl, Or.inl ⟨rfl, rfl, rfl⟩⟩
  · rw [if_neg h1, if_neg h1]
    by_cases h2 : FAILED (ctx.elementRenderers el.get_ElementTypeString).1 = true
    · rw [if_pos h2, if_pos h2]
      exact ⟨rfl, Or.inl ⟨rfl, rfl, rfl⟩⟩
    · rw [if_neg h2, if_neg h2]
      generalize (if (ctx.meetsRequirements el).2 = true then S_OK
        else E_PERFORM_FALLBACK) = hr0
      generalize BuildPanelChildren.render (ctx.elementRenderers el.get_ElementTypeString).2 hr0 el
        (args.put_AncestorHasFallback (decide (el.get_FallbackType ≠ FallbackType.None) || anc)) =
        rendered
      have hf := fallback_registration (ctx.elementRenderers el.get_ElementTypeString).2 rendered el
        (ctx.addWarnings rendered.warnings) (s.renderContext.addWarnings rendered.warnings)
        (args.put_AncestorHasFallback (decide (el.get_FallbackType ≠ FallbackType.None) || anc))
        hreg.2.1
      rw [hf.1, hf.2]
      by_cases h3 : FAILED (BuildPanelChildren.fallback
          (ctx.elementRenderers el.get_ElementTypeString).2 rendered el
          (ctx.addWarnings rendered.warnings)
          (args.put_AncestorHasFallback
            (decide (el.get_FallbackType ≠ FallbackType.None) || anc))).hr = true
      · rw [if_pos h3, if_pos h3]
        exact ⟨rfl, Or.inl ⟨rfl, rfl, rfl⟩⟩
      · rw [if_neg h3, if_neg h3]
        refine ⟨attach_fst _ _ _ _ _ _, ?_⟩
        cases hres : (BuildPanelChildren.fallback
          (ctx.elementRenderers el.get_ElementTypeString).2 rendered el
          (ctx.addWarnings rendered.warnings)
          (args.put_AncestorHasFallback
            (decide (el.get_FallbackType ≠ FallbackType.None) || anc))).result with
        | none => exact Or.inl ⟨rfl, rfl, rfl⟩
        | some control =>
          right
          refine ⟨control, rfl, ?_⟩
          unfold BuildPanelChildren.attach
          simp only []
          split <;> exact ⟨rfl, rfl⟩

end XamlBuilder

namespace XamlBuilder
open AdaptiveNamespace

theorem nodeElements_nil (anc : Bool) (ctx : AdaptiveRenderContext) (args : AdaptiveRenderArgs) :
    BuildPanelChildren.nodeElements anc ctx args [] = [] := rfl

theorem nodeElements_cons_failed (anc : Bool) (ctx : AdaptiveRenderContext)
    (args : AdaptiveRenderArgs) (el : CardElement) (els : List CardElement)
    (h : FAILED (BuildPanelChildren.elementOutcome anc ctx args el).1 = true) :
    BuildPanelChildren.nodeElements anc ctx args (el :: els) =
      (if (BuildPanelChildren.elementOutcome anc ctx args el).2.isSome then [el] else []) := by
  unfold BuildPanelChildren.nodeElements BuildPanelChildren.visited
  rw [if_pos h]
  cases hs : (BuildPanelChildren.elementOutcome anc ctx args el).2.isSome <;>
    simp [List.filter, hs]

theorem nodeElements_cons_ok (anc : Bool) (ctx : AdaptiveRenderContext)
    (args : AdaptiveRenderArgs) (el : CardElement) (els : List CardElement)
    (h : ¬ FAILED (BuildPanelChildren.elementOutcome anc ctx args el).1 = true) :
    BuildPanelChildren.nodeElements anc ctx args (el :: els) =
      (if (BuildPanelChildren.elementOutcome anc ctx args el).2.isSome then [el] else []) ++
        BuildPanelChildren.nodeElements anc ctx args els := by
  unfold BuildPanelChildren.nodeElements
  rw [BuildPanelChildren.visited, if_neg h, List.filter_cons]
  cases hs : (BuildPanelChildren.elementOutcome anc ctx args el).2.isSome <;> simp

/-- The elements that produce a node are a subsequence of the elements. -/
theorem nodeElements_sublist (anc : Bool) (ctx : AdaptiveRenderContext)
    (args : AdaptiveRenderArgs) (els : List CardElement) :
    (BuildPanelChildren.nodeElements anc ctx args els).Sublist els := by
  induction els with
  | nil => exact List.Sublist.refl _
  | cons el els ih =>
    by_cases h : FAILED (BuildPanelChildren.elementOutcome anc ctx args el).1 = true
    · rw [nodeElements_cons_failed anc ctx args el els h]
      split
      · exact List.Sublist.cons₂ el (List.nil_sublist _)
      · exact List.nil_sublist _
    · rw [nodeElements_cons_ok anc ctx args el els h]
      split
      · exact List.Sublist.cons₂ el ih
      · exact List.Sublist.cons el ih

/-- When the lambda fails for no element and has a control for each, every
element produces a node. -/
theorem nodeElements_all (anc : Bool) (ctx : AdaptiveRenderContext)
    (args : AdaptiveRenderArgs) (els : List CardElement)
    (h : ∀ e ∈ els, FAILED (BuildPanelChildren.elementOutcome anc ctx args e).1 = false ∧
      (BuildPanelChildren.elementOutcome anc ctx args e).2.isSome = true) :
    BuildPanelChildren.nodeElements anc ctx args els = els := by
  induction els with
  | nil => rfl
  | cons el els ih =>
    have h1 := h el (List.mem_cons_self _ _)
    rw [nodeElements_cons_ok anc ctx args el els (by simp [h1.1]), h1.2,
      ih (fun e he => h e (List.mem_cons_of_mem _ he))]
    rfl

/-- The nodes that the iteration of `BuildPanelChildren` attaches are those of
the elements that produce a node, in order. -/
theorem iterate_nodeElements (pp : Nat) (anc flag : Bool) (hc : AdaptiveHostConfig)
    (ctx : AdaptiveRenderContext) (args : AdaptiveRenderArgs) (els : List CardElement) :
    ∀ (s : PanelBuild), SeparatorCount hc s.xaml pp s.iElement →
      sameRegistration ctx s.renderContext →
      (∀ b, s.renderArgs.put_AncestorHasFallback b = args.put_AncestorHasFallback b) →
      panelElements
        (IterateOverVectorWithFailure els flag (BuildPanelChildren.renderElement pp anc) s).2.xaml
        pp = panelElements s.xaml pp ++ BuildPanelChildren.nodeElements anc ctx args els := by
  induction els with
  | nil =>
    intro s _ _ _
    simp only [IterateOverVectorWithFailure, nodeElements_nil, List.append_nil]
  | cons el els ih =>
    intro s hJ hreg hargs
    rw [iterate_cons]
    have hA := renderElement_elementOutcome pp anc s el ctx args hreg hargs
    have hcnt := renderElement_count pp anc s el hc hJ
    have hpe : panelElements (BuildPanelChildren.renderElement pp anc s el).2.xaml pp =
        panelElements s.xaml pp ++
          (if (BuildPanelChildren.elementOutcome anc ctx args el).2.isSome then [el] else []) := by
      rcases hA.2 with ⟨hn, hx, _⟩ | ⟨control, hsome, hx, _⟩
      · rw [hx, hn]
        simp
      · rw [hx, hsome]
        have := (attach_count control el s.renderContext.hostConfig s.iElement s.xaml pp
          (SeparatorCount_hostConfig hc _ _ _ _ hJ)).2
        rw [this]
        simp
    by_cases hfail : FAILED (BuildPanelChildren.renderElement pp anc s el).1 = true
    · rw [if_pos hfail, hpe, nodeElements_cons_failed anc ctx args el els (by rw [← hA.1]; exact hfail)]
    · rw [if_neg hfail]
      have hargs2 : ∀ b, (BuildPanelChildren.renderElement pp anc s el).2.renderArgs.put_AncestorHasFallback
          b = args.put_AncestorHasFallback b := by
        intro b
        rw [renderElement_renderArgs pp anc s el (by simpa using hfail), ← hargs b]
        rfl
      rw [ih _ hcnt.1 (sameRegistration_trans hreg (renderElement_sameRegistration pp anc s el)) hargs2,
        hpe, nodeElements_cons_ok anc ctx args el els (by rw [← hA.1]; exact hfail),
        List.append_assoc]

end XamlBuilder

namespace XamlBuilder
open AdaptiveNamespace

/-- C5, counterexample.  The first element renders to nothing, the second, at
index 1, needs a separator and renders to a control: the call succeeds, one
node is attached and no separator is, while one element at an index above 0
needs a separator. -/
theorem BuildPanelChildren_unrendered_first_no_separator :
    (BuildPanelChildren [sampleEmpty, sampleSeparatedText] 0 emptyPanel sampleContext topLevelArgs).hr
      = S_OK ∧
    (panelElements
      (BuildPanelChildren [sampleEmpty, sampleSeparatedText] 0 emptyPanel sampleContext
        topLevelArgs).xaml 0).length = 1 ∧
    (panelSeparators
      (BuildPanelChildren [sampleEmpty, sampleSeparatedText] 0 emptyPanel sampleContext
        topLevelArgs).xaml 0).length = 0 ∧
    (([sampleEmpty, sampleSeparatedText].tail).filter
      (fun e => (GetSeparationConfigForElement e sampleContext.hostConfig).needsSeparator)).length
      = 1 := by
  decide

/-- C5, amended.  `BuildPanelChildren` on a panel without children, for every
element sequence.  The elements that produce a node are those the lambda is
run on (all up to and including the first for which it fails) and has a
control for, `BuildPanelChildren.nodeElements`; they are a subsequence of the
elements.  The nodes attached to the panel are theirs, in order, and the
separators attached number those of them, other than the first, whose element
has `needsSeparator` true.  So when the lambda fails for no element and has a
control for each, the nodes are those of all the elements and the separators
number the elements at an index above 0 with `needsSeparator` true.  The first
child of the panel, if any, is a tagged node whose tag holds no separator, so
neither the element at index 0 nor the first element that produces a node has
a preceding separator. -/
theorem BuildPanelChildren_separator_count (children : List CardElement) (parentPanel : Nat)
    (xaml : XamlState) (renderContext : AdaptiveRenderContext) (renderArgs : AdaptiveRenderArgs)
    (hpanel : parentPanel < xaml.elements.length) (hfresh : xaml.get_Children parentPanel = []) :
    panelElements (BuildPanelChildren children parentPanel xaml renderContext renderArgs).xaml
      parentPanel =
      BuildPanelChildren.nodeElements renderArgs.ancestorHasFallback renderContext renderArgs
        children ∧
    (BuildPanelChildren.nodeElements renderArgs.ancestorHasFallback renderContext renderArgs
      children).Sublist children ∧
    (panelSeparators (BuildPanelChildren children parentPanel xaml renderContext renderArgs).xaml
      parentPanel).length =
      ((BuildPanelChildren.nodeElements renderArgs.ancestorHasFallback renderContext renderArgs
        children).tail.filter
        (fun e => (GetSeparationConfigForElement e renderContext.hostConfig).needsSeparator)).length ∧
    ((∀ e ∈ children,
        FAILED (BuildPanelChildren.elementOutcome renderArgs.ancestorHasFallback renderContext
          renderArgs e).1 = false ∧
        (BuildPanelChildren.elementOutcome renderArgs.ancestorHasFallback renderContext
          renderArgs e).2.isSome = true) →
      panelElements (BuildPanelChildren children parentPanel xaml renderContext renderArgs).xaml
        parentPanel = children ∧
      (panelSeparators (BuildPanelChildren children parentPanel xaml renderContext renderArgs).xaml
        parentPanel).length =
        (children.tail.filter
          (fun e =>
            (GetSeparationConfigForElement e renderContext.hostConfig).needsSeparator)).length) ∧
    (∀ c, ((BuildPanelChildren children parentPanel xaml renderContext renderArgs).xaml.get_Children
        parentPanel)[0]? = some c →
      ∃ t, (BuildPanelChildren children parentPanel xaml renderContext renderArgs).xaml.get_Tag c =
        some t ∧ t.separator = none) := by
  have h0 : SeparatorCount renderContext.hostConfig xaml parentPanel 0 := by
    unfold SeparatorCount PanelOk panelElements panelSeparators
    rw [hfresh]
    refine ⟨⟨hpanel, List.nodup_nil, ?_⟩, rfl, rfl, ?_⟩
    · intro c hc; simp at hc
    · intro c hc; simp at hc
  have hsub0 : (panelElements xaml parentPanel).Sublist [] := by
    unfold panelElements
    rw [hfresh]
    exact List.Sublist.refl _
  have hnil : panelElements xaml parentPanel = [] := by
    unfold panelElements
    rw [hfresh]
    rfl
  have h1 := iterate_count parentPanel renderArgs.ancestorHasFallback renderArgs.ancestorHasFallback
    renderContext.hostConfig children
    { xaml := xaml, renderContext := renderContext, renderArgs := renderArgs, iElement := 0 } []
    h0 hsub0
  have h2 := iterate_nodeElements parentPanel renderArgs.ancestorHasFallback
    renderArgs.ancestorHasFallback renderContext.hostConfig renderContext renderArgs children
    { xaml := xaml, renderContext := renderContext, renderArgs := renderArgs, iElement := 0 }
    h0 (sameRegistration_refl _) (fun _ => rfl)
  rw [BuildPanelChildren_xaml]
  generalize (IterateOverVectorWithFailure children renderArgs.ancestorHasFallback
    (BuildPanelChildren.renderElement parentPanel renderArgs.ancestorHasFallback)
    { xaml := xaml, renderContext := renderContext, renderArgs := renderArgs, iElement := 0 }).2 = s
    at h1 h2 ⊢
  simp only [hnil, List.nil_append] at h2
  rw [panelElements_congr s.xaml _ parentPanel (SetSeparatorVisibility_get_Children _ _ _)
      (SetSeparatorVisibility_get_Tag _ _),
    panelSeparators_congr s.xaml _ parentPanel (SetSeparatorVisibility_get_Children _ _ _)
      (SetSeparatorVisibility_get_Tag _ _),
    SetSeparatorVisibility_get_Children]
  simp only [SetSeparatorVisibility_get_Tag]
  rcases h1 with ⟨⟨_, _, hcount, hfirst⟩, _⟩
  rw [h2] at hcount
  refine ⟨h2, nodeElements_sublist _ _ _ _, hcount, ?_, hfirst⟩
  intro hall
  have hn := nodeElements_all _ _ _ _ hall
  rw [hn] at h2 hcount
  exact ⟨h2, hcount⟩

/-- Witness of C5 (amended), at top level on the empty panel.  In the first
sequence the first element renders to nothing and the fourth is dropped; the
nodes are those of the second, third and fifth element, and two separators
are attached, for the third and the fifth.  In the second sequence every
element produces a node, and two separators are attached, as many as there
are elements at an index above 0 with `needsSeparator` true. -/
theorem BuildPanelChildren_separator_count_witness :
    emptyPanel.get_Children 0 = [] ∧
    panelElements
      (BuildPanelChildren
        [sampleEmpty, sampleText, sampleSeparatedText, sampleDropped, sampleSeparatedText] 0
        emptyPanel sampleContext topLevelArgs).xaml 0 =
      [sampleText, sampleSeparatedText, sampleSeparatedText] ∧
    (panelSeparators
      (BuildPanelChildren
        [sampleEmpty, sampleText, sampleSeparatedText, sampleDropped, sampleSeparatedText] 0
        emptyPanel sampleContext topLevelArgs).xaml 0).length = 2 ∧
    panelElements
      (BuildPanelChildren [sampleText, sampleSeparatedText, sampleSeparatedText] 0 emptyPanel
        sampleContext topLevelArgs).xaml 0 =
      [sampleText, sampleSeparatedText, sampleSeparatedText] ∧
    (panelSeparators
      (BuildPanelChildren [sampleText, sampleSeparatedText, sampleSeparatedText] 0 emptyPanel
        sampleContext topLevelArgs).xaml 0).length = 2 :=
  ⟨rfl,
    (BuildPanelChildren_separator_count
      [sampleEmpty, sampleText, sampleSeparatedText, sampleDropped, sampleSeparatedText] 0
      emptyPanel sampleContext topLevelArgs (by decide) rfl).1.trans rfl,
    (BuildPanelChildren_separator_count
      [sampleEmpty, sampleText, sampleSeparatedText, sampleDropped, sampleSeparatedText] 0
      emptyPanel sampleContext topLevelArgs (by decide) rfl).2.2.1.trans (by decide),
    ((BuildPanelChildren_separator_count [sampleText, sampleSeparatedText, sampleSeparatedText] 0
      emptyPanel sampleContext topLevelArgs (by decide) rfl).2.2.2.1 (by decide)).1,
    ((BuildPanelChildren_separator_count [sampleText, sampleSeparatedText, sampleSeparatedText] 0
      emptyPanel sampleContext topLevelArgs (by decide) rfl).2.2.2.1 (by decide)).2.trans
      (by decide)⟩

end XamlBuilder
